import Mathlib

/-!
# VulkanTeapot: a shallow embedding of the JNI sources

The development follows the four files under `app/src/main/jni`:

* `VulkanDevice.h` / `VulkanDevice.cpp`: the `VulkanDevice` class,
* `VulkanMain.cpp`: the global device pointer and the entry points used by the shell,
* `AndroidMain.cpp`: the command and input callbacks.

Conventions of the embedding:

* `uint32_t`, `size_t`, `VkFlags` and Vulkan handles are natural numbers; `int32_t` is `Int`.
* `float` is IEEE-754 binary32 (`F32` below), every operation rounded to nearest, ties to even.
* A member function becomes a function of the object (`self`) and of the outside
  world (`Sys`: the Android log, the trace of graphics-API calls, the contents of mapped
  device memory) that returns the new object and world.
* What the Vulkan implementation and the Android runtime answer is read from a
  `Driver`, indexed by the position of the call in the trace.
* `assert` failing ends the process: functions that assert return `Except Fault`.
* The `glm` library is not part of the sources; its operations are a parameter (`Glm`).
-/

namespace VulkanTeapot

/-! ## Constants of the platform headers (Vulkan, Android NDK) -/

def VK_SUCCESS : Int := 0
def VK_TIMEOUT : Int := 2
def VK_INCOMPLETE : Int := 5

def VK_FORMAT_UNDEFINED : Nat := 0
def VK_FORMAT_B8G8R8A8_UNORM : Nat := 44
def VK_FORMAT_D16_UNORM : Nat := 124
def VK_FORMAT_D16_UNORM_S8_UINT : Nat := 128
def VK_FORMAT_D24_UNORM_S8_UINT : Nat := 129
def VK_FORMAT_D32_SFLOAT_S8_UINT : Nat := 130
def VK_FORMAT_R32G32B32_SFLOAT : Nat := 106

def VK_PRESENT_MODE_IMMEDIATE_KHR : Nat := 0
def VK_PRESENT_MODE_MAILBOX_KHR : Nat := 1
def VK_PRESENT_MODE_FIFO_KHR : Nat := 2

def VK_QUEUE_GRAPHICS_BIT : Nat := 1
def VK_SURFACE_TRANSFORM_IDENTITY_BIT_KHR : Nat := 1
def VK_FORMAT_FEATURE_DEPTH_STENCIL_ATTACHMENT_BIT : Nat := 512
def VK_MEMORY_PROPERTY_HOST_VISIBLE_BIT : Nat := 2
def VK_MEMORY_PROPERTY_HOST_COHERENT_BIT : Nat := 4
def VK_IMAGE_USAGE_TRANSFER_SRC_BIT : Nat := 1
def VK_IMAGE_USAGE_COLOR_ATTACHMENT_BIT : Nat := 16
def VK_IMAGE_ASPECT_COLOR_BIT : Nat := 1
def VK_IMAGE_ASPECT_DEPTH_BIT : Nat := 2
def VK_IMAGE_ASPECT_STENCIL_BIT : Nat := 4
def VK_IMAGE_TILING_OPTIMAL : Nat := 0
def VK_IMAGE_TILING_LINEAR : Nat := 1
def VK_IMAGE_LAYOUT_UNDEFINED : Nat := 0
def VK_IMAGE_LAYOUT_COLOR_ATTACHMENT_OPTIMAL : Nat := 2
def VK_IMAGE_LAYOUT_DEPTH_STENCIL_ATTACHMENT_OPTIMAL : Nat := 3
def VK_IMAGE_LAYOUT_SHADER_READ_ONLY_OPTIMAL : Nat := 5
def VK_IMAGE_LAYOUT_TRANSFER_SRC_OPTIMAL : Nat := 6
def VK_IMAGE_LAYOUT_TRANSFER_DST_OPTIMAL : Nat := 7
def VK_IMAGE_LAYOUT_PREINITIALIZED : Nat := 8
def VK_IMAGE_LAYOUT_PRESENT_SRC_KHR : Nat := 1000001002
def VK_ACCESS_SHADER_READ_BIT : Nat := 32
def VK_ACCESS_COLOR_ATTACHMENT_WRITE_BIT : Nat := 256
def VK_ACCESS_DEPTH_STENCIL_ATTACHMENT_WRITE_BIT : Nat := 1024
def VK_ACCESS_TRANSFER_READ_BIT : Nat := 2048
def VK_ACCESS_TRANSFER_WRITE_BIT : Nat := 4096
def VK_ACCESS_HOST_WRITE_BIT : Nat := 16384
def VK_ACCESS_MEMORY_READ_BIT : Nat := 32768
def VK_INDEX_TYPE_UINT16 : Nat := 0
def VK_NULL_HANDLE : Nat := 0
def UINT32_MAX : Nat := 4294967295

/-- The header's `NUM_DESCRIPTOR_SETS`. -/
def NUM_DESCRIPTOR_SETS : Nat := 1
/-- The header's `FENCE_TIMEOUT`, in nanoseconds. -/
def FENCE_TIMEOUT : Nat := 100000000

def APP_CMD_INIT_WINDOW : Int := 1
def APP_CMD_TERM_WINDOW : Int := 2
def AINPUT_EVENT_TYPE_KEY : Int := 1
def AINPUT_EVENT_TYPE_MOTION : Int := 2
def AMOTION_EVENT_ACTION_DOWN : Int := 0
def AMOTION_EVENT_ACTION_UP : Int := 1
def AMOTION_EVENT_ACTION_MOVE : Int := 2

/-! ## IEEE-754 binary32 -/

/-- A binary32 datum: not-a-number, an infinity, or the finite value
`(-1)^neg * m * 2^e`. The operations below return finite results in canonical form:
`2^23 ≤ m < 2^24` with `-149 ≤ e ≤ 104`, or `m < 2^23` with `e = -149` (subnormal),
or `m = 0` with `e = 0`. -/
inductive F32 where
  | nan
  | inf (neg : Bool)
  | fin (neg : Bool) (m : Nat) (e : Int)
deriving DecidableEq, Repr

namespace F32

/-- Number of binary digits of `n`, counted with `fuel` halvings at most. -/
def bitsAux : Nat → Nat → Nat → Nat
  | 0, _, acc => acc
  | fuel + 1, n, acc => if n = 0 then acc else bitsAux fuel (n / 2) (acc + 1)

/-- Number of binary digits of `n` (`0` for `0`). -/
def bits (n : Nat) : Nat := bitsAux n n 0

/-- For positive `n`, `d`: the integer `l` with `2^l ≤ n / d < 2^(l+1)`. -/
def floorLog2Ratio (n d : Nat) : Int :=
  let l : Int := (bits n : Int) - (bits d : Int)
  if 0 ≤ l then (if d * 2 ^ l.toNat ≤ n then l else l - 1)
  else (if d ≤ n * 2 ^ (-l).toNat then l else l - 1)

/-- The integer nearest to `n / d`, the even one of the two when `n / d` is halfway. -/
def roundHalfEven (n d : Nat) : Nat :=
  let q := n / d
  let r := n % d
  if 2 * r < d then q
  else if d < 2 * r then q + 1
  else if q % 2 = 0 then q else q + 1

/-- Rounding of the exact value `(-1)^neg * (n / d) * 2^e` (with `d > 0`) to binary32:
24 significant bits, least exponent `-149`, overflow to infinity. -/
def roundRatio (neg : Bool) (n d : Nat) (e : Int) : F32 :=
  if n = 0 then fin neg 0 0
  else
    let q : Int := max (floorLog2Ratio n d + e - 23) (-149)
    let m := if 0 ≤ e - q then roundHalfEven (n * 2 ^ (e - q).toNat) d
             else roundHalfEven n (d * 2 ^ (q - e).toNat)
    if m = 0 then fin neg 0 0
    else if m = 2 ^ 24 then (if 104 < q + 1 then inf neg else fin neg (2 ^ 23) (q + 1))
    else if 104 < q then inf neg else fin neg m q

/-- A non-negative decimal literal `n / d`, such as `0.1f` for `lit 1 10`. -/
def lit (n d : Nat) : F32 := roundRatio false n d 0

/-- Conversion `(float)n` of an unsigned integer. -/
def ofNat (n : Nat) : F32 := roundRatio false n 1 0

def neg : F32 → F32
  | nan => nan
  | inf s => inf (!s)
  | fin s m e => fin (!s) m e

def mul : F32 → F32 → F32
  | nan, _ => nan
  | _, nan => nan
  | inf s, inf t => inf (xor s t)
  | inf s, fin t m _ => if m = 0 then nan else inf (xor s t)
  | fin s m _, inf t => if m = 0 then nan else inf (xor s t)
  | fin s m e, fin t m' e' => roundRatio (xor s t) (m * m') 1 (e + e')

def div : F32 → F32 → F32
  | nan, _ => nan
  | _, nan => nan
  | inf _, inf _ => nan
  | inf s, fin t _ _ => inf (xor s t)
  | fin s _ _, inf t => fin (xor s t) 0 0
  | fin s m e, fin t m' e' =>
    if m' = 0 then (if m = 0 then nan else inf (xor s t))
    else roundRatio (xor s t) m m' (e - e')

/-- The signed integer `(-1)^neg * m * 2^k`. -/
def signedShift (neg : Bool) (m k : Nat) : Int :=
  if neg then -((m * 2 ^ k : Nat) : Int) else ((m * 2 ^ k : Nat) : Int)

def add : F32 → F32 → F32
  | nan, _ => nan
  | _, nan => nan
  | inf s, inf t => if s = t then inf s else nan
  | inf s, fin _ _ _ => inf s
  | fin _ _ _, inf t => inf t
  | fin s m e, fin t m' e' =>
    let e0 := min e e'
    let sum := signedShift s m (e - e0).toNat + signedShift t m' (e' - e0).toNat
    if sum = 0 then fin (s && t) 0 0
    else roundRatio (decide (sum < 0)) sum.natAbs 1 e0

def sub (a b : F32) : F32 := add a (neg b)

/-- The real (rational) value of a finite datum. -/
def toRat : F32 → Option ℚ
  | nan => none
  | inf _ => none
  | fin s m e => some ((if s then -1 else 1) * (m : ℚ) * (2 : ℚ) ^ e)

end F32

/-! ## The part of `glm` the sources use -/

structure vec3 where
  x : F32
  y : F32
  z : F32
deriving DecidableEq, Repr

structure vec4 where
  x : F32
  y : F32
  z : F32
  w : F32
deriving DecidableEq, Repr

/-- A `glm::mat4`: four columns, 16 floats, 64 bytes. -/
structure mat4 where
  c0 : vec4
  c1 : vec4
  c2 : vec4
  c3 : vec4
deriving DecidableEq, Repr

/-- The 16 floats of a matrix in memory order (column after column). -/
def mat4.toList (m : mat4) : List F32 :=
  [m.c0.x, m.c0.y, m.c0.z, m.c0.w, m.c1.x, m.c1.y, m.c1.z, m.c1.w,
   m.c2.x, m.c2.y, m.c2.z, m.c2.w, m.c3.x, m.c3.y, m.c3.z, m.c3.w]

/-- The constructor `glm::mat4(s)`: `s` on the diagonal, zero elsewhere. -/
def mat4.diag (s : F32) : mat4 :=
  let z := F32.ofNat 0
  ⟨⟨s, z, z, z⟩, ⟨z, s, z, z⟩, ⟨z, z, s, z⟩, ⟨z, z, z, s⟩⟩

/-- The operations of `glm` called by the sources (library code, not under `jni/`). -/
structure Glm where
  radians : F32 → F32
  perspective : F32 → F32 → F32 → F32 → mat4
  lookAt : vec3 → vec3 → vec3 → mat4
  rotate : mat4 → F32 → vec3 → mat4
  mul : mat4 → mat4 → mat4

/-! ## Records of the Vulkan headers that the sources read -/

structure VkMemoryType where
  propertyFlags : Nat
  heapIndex : Nat
deriving DecidableEq, Repr

/-- The fixed array `memoryTypes[VK_MAX_MEMORY_TYPES]` has 32 entries. -/
structure VkPhysicalDeviceMemoryProperties where
  memoryTypeCount : Nat
  memoryTypes : Fin 32 → VkMemoryType

structure VkMemoryRequirements where
  size : Nat
  alignment : Nat
  memoryTypeBits : Nat
deriving DecidableEq, Repr

structure VkExtent2D where
  width : Nat
  height : Nat
deriving DecidableEq, Repr

structure VkSurfaceCapabilitiesKHR where
  minImageCount : Nat
  maxImageCount : Nat
  currentExtent : VkExtent2D
  supportedTransforms : Nat
  currentTransform : Nat
deriving DecidableEq, Repr

structure VkFormatProperties where
  linearTilingFeatures : Nat
  optimalTilingFeatures : Nat
  bufferFeatures : Nat
deriving DecidableEq, Repr

structure VkDescriptorBufferInfo where
  buffer : Nat
  offset : Nat
  range : Nat
deriving DecidableEq, Repr

structure VkVertexInputBindingDescription where
  binding : Nat
  stride : Nat
  inputRate : Nat
deriving DecidableEq, Repr

structure VkVertexInputAttributeDescription where
  location : Nat
  binding : Nat
  format : Nat
  offset : Nat
deriving DecidableEq, Repr

/-- A pointer that is null or points to one of two data members of the device object. -/
inductive MemberPtr where
  | null
  | swap_chain
  | current_buffer
deriving DecidableEq, Repr

structure VkPresentInfoKHR where
  waitSemaphoreCount : Nat
  swapchainCount : Nat
  pSwapchains : MemberPtr
  pImageIndices : MemberPtr
deriving DecidableEq, Repr

/-! ## `VulkanDevice.h` -/

structure layer_properties where
  properties : Nat
  extensions : List Nat
deriving DecidableEq, Repr

structure swap_chain_buffer where
  image : Nat
  view : Nat
deriving DecidableEq, Repr

structure DepthTarget where
  format : Nat
  image : Nat
  mem : Nat
  view : Nat
deriving DecidableEq, Repr

structure BufferData where
  buf : Nat
  mem : Nat
  buffer_info : VkDescriptorBufferInfo
deriving DecidableEq, Repr

/-- The data members of `class VulkanDevice`. Pointers and handles are numbers
(`0` is the null pointer); `cmdBuffer` and `framebuffers` are the arrays allocated for them. -/
structure VulkanDevice where
  instance_ : Nat
  gpuDevice_ : Nat
  device_ : Nat
  surface_ : Nat
  queue_ : Nat
  descLayout : Nat
  pipelineLayout : Nat
  width : Nat
  height : Nat
  initialized : Bool
  androidAppCtx : Nat
  instance_layer_properties : List layer_properties
  instance_layer_names : List String
  instance_extension_names : List String
  device_extension_names : List String
  device_layer_names : List String
  gpus : List Nat
  gpu_props : Nat
  queue_props : List Nat
  queue_count : Nat
  memory_properties : VkPhysicalDeviceMemoryProperties
  fpCreateAndroidSurfaceKHR : Nat
  graphics_queue_family_index : Nat
  format : Nat
  cmd_pool : Nat
  cmdBuffer : List Nat
  swapchainImageCount : Nat
  swap_chain : Nat
  buffers : List swap_chain_buffer
  current_buffer : Nat
  depth : DepthTarget
  Projection : mat4
  View : mat4
  Model : mat4
  Clip : mat4
  MVP : mat4
  uniform_data : BufferData
  desc_layout : List Nat
  render_pass : Nat
  vertexShader : Nat
  fragmentShader : Nat
  framebuffers : List Nat
  vertex_buffer : BufferData
  vi_binding : VkVertexInputBindingDescription
  vi_attribs : List VkVertexInputAttributeDescription
  indexBuf : Nat
  drawElementNum : Nat
  drawInstanceNum : Nat
  desc_pool : Nat
  desc_set : List Nat
  pipelineCache : Nat
  pipeline : Nat
  drawFence : Nat
  presentCompleteSemaphore : Nat
  present : VkPresentInfoKHR

/-! ## The outside world -/

/-- How a run ends without returning: a failed `assert` (or `CALL_VK`), the use of a
deleted object, or a wait loop that was not seen to end within the fuel given. -/
inductive Fault where
  | assertFailed
  | undefinedBehaviour
  | outOfFuel
deriving DecidableEq, Repr

inductive LogArg where
  | int (v : Int)
  | float (v : F32)
deriving DecidableEq, Repr

/-- One `__android_log_print` line: tag, format string and arguments. -/
structure LogEntry where
  tag : String
  fmt : String
  args : List LogArg
deriving DecidableEq, Repr

/-- The entry points of the graphics API and of the asset manager that the sources call. -/
inductive ApiFn where
  | vkEnumerateInstanceLayerProperties | vkEnumerateInstanceExtensionProperties
  | vkCreateInstance | vkEnumeratePhysicalDevices
  | vkGetPhysicalDeviceQueueFamilyProperties | vkGetPhysicalDeviceMemoryProperties
  | vkGetPhysicalDeviceProperties | vkGetInstanceProcAddr | vkCreateAndroidSurfaceKHR
  | vkGetPhysicalDeviceSurfaceSupportKHR | vkGetPhysicalDeviceSurfaceFormatsKHR
  | vkCreateDevice | vkGetPhysicalDeviceSurfaceCapabilitiesKHR
  | vkGetPhysicalDeviceSurfacePresentModesKHR | vkCreateSwapchainKHR
  | vkGetSwapchainImagesKHR | vkCreateCommandPool | vkAllocateCommandBuffers
  | vkBeginCommandBuffer | vkGetDeviceQueue | vkCmdPipelineBarrier | vkCreateImageView
  | vkGetPhysicalDeviceFormatProperties | vkCreateImage | vkGetImageMemoryRequirements
  | vkAllocateMemory | vkBindImageMemory | vkCreateBuffer | vkGetBufferMemoryRequirements
  | vkMapMemory | vkUnmapMemory | vkBindBufferMemory | vkCreateDescriptorSetLayout
  | vkCreatePipelineLayout | vkCreateRenderPass | AAssetManager_open | AAsset_getLength
  | AAsset_read | vkCreateShaderModule | vkCreateFramebuffer | vkCreateDescriptorPool
  | vkAllocateDescriptorSets | vkUpdateDescriptorSets | vkCreatePipelineCache
  | vkCreateGraphicsPipelines | vkCreateSemaphore | vkAcquireNextImageKHR
  | vkCmdBeginRenderPass | vkCmdBindPipeline | vkCmdBindDescriptorSets
  | vkCmdBindVertexBuffers | vkCmdBindIndexBuffer | vkCmdDrawIndexed | vkCmdEndRenderPass
  | vkEndCommandBuffer | vkCreateFence | vkQueueSubmit | vkWaitForFences
  | vkQueuePresentKHR | vkResetFences | vkDestroyPipelineLayout | vkDestroyDevice
  | vkDestroyInstance | InitVulkan
deriving DecidableEq, Repr

/-- One entry of the trace: an API call with the numeric arguments that identify it
(handles, indices, counts, sizes, formats), the float-valued members of the structures
given to the API call that follows, or a write of 32-bit (16-bit) words at the start of the
mapping of the memory object `mem`. -/
inductive Event where
  | api (fn : ApiFn) (args : List Nat)
  | floats (values : List F32)
  | memcpy (mem : Nat) (words : Nat)
  | memcpy16 (mem : Nat) (halfwords : Nat)
deriving DecidableEq, Repr

/-- The world outside the object: the Android log, the calls made so far, and what each
device-memory object holds, read as 32-bit floats (`memory`) or as 16-bit indices
(`memory16`). -/
structure Sys where
  log : List LogEntry
  calls : List Event
  memory : Nat → List F32
  memory16 : Nat → List Nat

/-- What the Vulkan implementation and the Android runtime answer. Every answer is indexed
by the position in the trace of the call that asks: its result code, the handle, count or
index written to its out-parameter, the list written to its out-array, the records some
queries fill in, a yes/no answer, and (for `new`) the indeterminate initial contents of the
storage of the object. -/
structure Driver where
  result : Nat → Int
  handle : Nat → Nat
  count : Nat → Nat
  list : Nat → List Nat
  memoryProperties : Nat → VkPhysicalDeviceMemoryProperties
  memoryRequirements : Nat → VkMemoryRequirements
  surfaceCapabilities : Nat → VkSurfaceCapabilitiesKHR
  formatProperties : Nat → VkFormatProperties
  flag : Nat → Bool
  storage : Nat → VulkanDevice

/-- Record an API call; the position it gets is the index of its answers in the `Driver`. -/
def Sys.call (sys : Sys) (fn : ApiFn) (args : List Nat) : Nat × Sys :=
  (sys.calls.length, { sys with calls := sys.calls ++ [Event.api fn args] })

/-- Record `__android_log_print(prio, tag, fmt, args...)`. -/
def Sys.print (sys : Sys) (tag fmt : String) (args : List LogArg) : Sys :=
  { sys with log := sys.log ++ [⟨tag, fmt, args⟩] }

/-- A write through the pointer that `vkMapMemory` returned for `mem` at offset 0: the
words replace the start of what the memory object holds. -/
def Sys.memcpy (sys : Sys) (mem : Nat) (words : List F32) : Sys :=
  { sys with
    calls := sys.calls ++ [Event.memcpy mem words.length]
    memory := fun h => if h = mem then words ++ (sys.memory h).drop words.length
                       else sys.memory h }

/-- The same for 16-bit data. -/
def Sys.memcpy16 (sys : Sys) (mem : Nat) (halfwords : List Nat) : Sys :=
  { sys with
    calls := sys.calls ++ [Event.memcpy16 mem halfwords.length]
    memory16 := fun h => if h = mem then halfwords ++ (sys.memory16 h).drop halfwords.length
                         else sys.memory16 h }

/-- Record the float-valued members of the structures given to the next API call. -/
def Sys.floats (sys : Sys) (values : List F32) : Sys :=
  { sys with calls := sys.calls ++ [Event.floats values] }

/-- The macro `assert(c)`. -/
def assert (c : Bool) : Except Fault Unit :=
  if c then Except.ok () else Except.error Fault.assertFailed

/-- The tag `kTAG` of `LOGI`, `LOGW`, `LOGE`. -/
def kTAG : String := "Vulkan-Tutorial04"

/-! ## `VulkanDevice.cpp`: memory-type selection -/

/-- The loop `for (uint32_t i = 0; i < 32; i++)` of `memory_type_from_properties` and of
`MapMemoryTypeToIndex`, from index `i` with the shifted `typeBits`; `some i` is the early
`return true` with `*typeIndex = i`, `none` is leaving the loop. `fuel` bounds the number
of iterations; the callers give 32. -/
def memoryTypeLoop (memoryTypes : Fin 32 → VkMemoryType) (requirements_mask : Nat) :
    Nat → Nat → Nat → Option Nat
  | 0, _, _ => none
  | fuel + 1, i, typeBits =>
    if h : i < 32 then
      if (typeBits &&& 1) = 1 then
        if ((memoryTypes ⟨i, h⟩).propertyFlags &&& requirements_mask) = requirements_mask then
          some i
        else memoryTypeLoop memoryTypes requirements_mask fuel (i + 1) (typeBits >>> 1)
      else memoryTypeLoop memoryTypes requirements_mask fuel (i + 1) (typeBits >>> 1)
    else none

/-- `VulkanDevice::memory_type_from_properties`: the returned `bool` and the value of
`*typeIndex` afterwards (`typeIndex` is its value before). -/
def VulkanDevice.memory_type_from_properties (self : VulkanDevice)
    (typeBits requirements_mask typeIndex : Nat) : Bool × Nat :=
  match memoryTypeLoop self.memory_properties.memoryTypes requirements_mask 32 0 typeBits with
  | some i => (true, i)
  | none => (false, typeIndex)

/-- `VulkanDevice::MapMemoryTypeToIndex`: as above, on the table that
`vkGetPhysicalDeviceMemoryProperties(gpuDevice_, ...)` fills in. -/
def VulkanDevice.MapMemoryTypeToIndex (drv : Driver) (self : VulkanDevice) (sys : Sys)
    (typeBits requirements_mask typeIndex : Nat) : (Bool × Nat) × Sys :=
  let (n, sys) := sys.call ApiFn.vkGetPhysicalDeviceMemoryProperties [self.gpuDevice_]
  let memoryProperties := drv.memoryProperties n
  match memoryTypeLoop memoryProperties.memoryTypes requirements_mask 32 0 typeBits with
  | some i => ((true, i), sys)
  | none => ((false, typeIndex), sys)

/-- Memory type `i` qualifies: it is allowed by `typeBits` and its flags contain every bit of the mask. -/
def Qualifies (memoryTypes : Fin 32 → VkMemoryType) (typeBits mask : Nat) (i : Fin 32) : Prop :=
  typeBits.testBit i.val = true ∧ (memoryTypes i).propertyFlags &&& mask = mask

/-! ## `VulkanDevice.cpp`: readiness, rotation, upload of the transform -/

/-- `VulkanDevice::isReady`. -/
def VulkanDevice.isReady (self : VulkanDevice) : Bool := self.initialized

/-- `VulkanDevice::setReady`. -/
def VulkanDevice.setReady (self : VulkanDevice) : VulkanDevice :=
  { self with initialized := true }

/-- `VulkanDevice::updateMVP`. The product `Clip * Projection * View * Model` associates
to the left; `sizeof(MVP)` is 64 bytes, the 16 floats of the matrix. -/
def VulkanDevice.updateMVP (glm : Glm) (drv : Driver) (self : VulkanDevice) (sys : Sys) :
    Except Fault (VulkanDevice × Sys) := do
  let self := { self with
    MVP := glm.mul (glm.mul (glm.mul self.Clip self.Projection) self.View) self.Model }
  let (n, sys) := sys.call ApiFn.vkMapMemory [self.device_, self.uniform_data.mem, 0, 64]
  let res := drv.result n
  assert (res == VK_SUCCESS)
  let sys := sys.memcpy self.uniform_data.mem self.MVP.toList
  let (_, sys) := sys.call ApiFn.vkUnmapMemory [self.device_, self.uniform_data.mem]
  pure (self, sys)

/-- `VulkanDevice::rotateModel`. -/
def VulkanDevice.rotateModel (glm : Glm) (drv : Driver) (x y z : F32)
    (self : VulkanDevice) (sys : Sys) : Except Fault (VulkanDevice × Sys) :=
  let _ := x
  let _ := z
  let sys := sys.print kTAG "rotate y = %f" [LogArg.float y]
  let self := { self with
    Model := glm.rotate (mat4.diag (F32.ofNat 1)) (glm.radians y)
      ⟨F32.ofNat 0, F32.ofNat 0, F32.ofNat 1⟩ }
  self.updateMVP glm drv sys

/-! ## `VulkanDevice.cpp`: the initialization steps -/

/-- The effect of `std::vector::resize(n)` on a vector of numbers (new entries are zero). -/
def resize (v : List Nat) (n : Nat) : List Nat :=
  (v ++ List.replicate n 0).take n

/-- An out-array of capacity `buf.length` after the API has written `written` into it. -/
def fill (buf written : List Nat) : List Nat :=
  written.take buf.length ++ buf.drop written.length

/-- The free function `init_global_extension_properties`; the `do ... while` loop runs
while the second query answers `VK_INCOMPLETE`. -/
def init_global_extension_properties (drv : Driver) :
    Nat → layer_properties → Sys → Except Fault (Int × layer_properties × Sys)
  | 0, _, _ => Except.error Fault.outOfFuel
  | fuel + 1, layer_props, sys =>
    let (n, sys) := sys.call ApiFn.vkEnumerateInstanceExtensionProperties
      [layer_props.properties, 0]
    let res := drv.result n
    let instance_extension_count := drv.count n
    if res ≠ 0 then Except.ok (res, layer_props, sys)
    else if instance_extension_count = 0 then Except.ok (VK_SUCCESS, layer_props, sys)
    else
      let layer_props := { layer_props with
        extensions := resize layer_props.extensions instance_extension_count }
      let (n, sys) := sys.call ApiFn.vkEnumerateInstanceExtensionProperties
        [layer_props.properties, instance_extension_count]
      let res := drv.result n
      let layer_props := { layer_props with
        extensions := fill layer_props.extensions (drv.list n) }
      if res = VK_INCOMPLETE then init_global_extension_properties drv fuel layer_props sys
      else Except.ok (res, layer_props, sys)

/-- The first loop of `init_global_layer_properties`: `Sum.inr (res, count, vk_props)`
when the loop is left normally, `Sum.inl res` for an early `return res`. -/
def enumerateLayers (drv : Driver) :
    Nat → Sys → Except Fault ((Int ⊕ (Int × Nat × List Nat)) × Sys)
  | 0, _ => Except.error Fault.outOfFuel
  | fuel + 1, sys =>
    let (n, sys) := sys.call ApiFn.vkEnumerateInstanceLayerProperties [0]
    let res := drv.result n
    let instance_layer_count := drv.count n
    if res ≠ 0 then Except.ok (Sum.inl res, sys)
    else if instance_layer_count = 0 then Except.ok (Sum.inl VK_SUCCESS, sys)
    else
      let (n, sys) := sys.call ApiFn.vkEnumerateInstanceLayerProperties [instance_layer_count]
      let res := drv.result n
      if res = VK_INCOMPLETE then enumerateLayers drv fuel sys
      else Except.ok (Sum.inr (res, drv.count n, drv.list n), sys)

/-- The second loop of `init_global_layer_properties`, over the layers still to visit:
the extension list of each layer is gathered and the layer is pushed back. An error code
returns at once. -/
def gatherLayerExtensions (drv : Driver) (fuel : Nat) :
    List Nat → Int → VulkanDevice → Sys → Except Fault (Int × VulkanDevice × Sys)
  | [], res, self, sys => Except.ok (res, self, sys)
  | p :: rest, _, self, sys => do
    let layer_props : layer_properties := ⟨p, []⟩
    let (res, layer_props, sys) ← init_global_extension_properties drv fuel layer_props sys
    if res ≠ 0 then pure (res, self, sys)
    else
      let self := { self with
        instance_layer_properties := self.instance_layer_properties ++ [layer_props] }
      gatherLayerExtensions drv fuel rest res self sys

/-- `VulkanDevice::init_global_layer_properties`. -/
def VulkanDevice.init_global_layer_properties (drv : Driver) (fuel : Nat)
    (self : VulkanDevice) (sys : Sys) : Except Fault (Int × VulkanDevice × Sys) := do
  let (r, sys) ← enumerateLayers drv fuel sys
  match r with
  | Sum.inl res => pure (res, self, sys)
  | Sum.inr (res, instance_layer_count, vk_props) =>
    gatherLayerExtensions drv fuel
      ((List.range instance_layer_count).map (fun i => vk_props.getD i 0)) res self sys

/-- `VulkanDevice::init_instance_extension_names` (the `__ANDROID__` branch). -/
def VulkanDevice.init_instance_extension_names (self : VulkanDevice) : VulkanDevice :=
  { self with
    instance_extension_names :=
      self.instance_extension_names ++ ["VK_KHR_surface"] ++ ["VK_KHR_android_surface"] }

/-- `VulkanDevice::init_device_extension_names`. -/
def VulkanDevice.init_device_extension_names (self : VulkanDevice) : VulkanDevice :=
  { self with device_extension_names := self.device_extension_names ++ ["VK_KHR_swapchain"] }

/-- `VulkanDevice::init_instance`. -/
def VulkanDevice.init_instance (drv : Driver) (app_short_name : String)
    (self : VulkanDevice) (sys : Sys) : Except Fault (Int × VulkanDevice × Sys) := do
  let _ := app_short_name
  let layerNameSize := self.instance_layer_names.length
  let extensionNameSize := self.instance_extension_names.length
  let (n, sys) := sys.call ApiFn.vkCreateInstance [layerNameSize, extensionNameSize]
  let res := drv.result n
  let self := { self with instance_ := drv.handle n }
  assert (res == VK_SUCCESS)
  pure (res, self, sys)

/-- `VulkanDevice::init_enumerate_device`. -/
def VulkanDevice.init_enumerate_device (drv : Driver) (gpu_count : Nat)
    (self : VulkanDevice) (sys : Sys) : Except Fault (Int × VulkanDevice × Sys) := do
  let req_count := gpu_count
  let (n, sys) := sys.call ApiFn.vkEnumeratePhysicalDevices [self.instance_, 0]
  let gpu_count := drv.count n
  assert (gpu_count != 0)
  let self := { self with gpus := resize self.gpus gpu_count }
  let (n, sys) := sys.call ApiFn.vkEnumeratePhysicalDevices [self.instance_, gpu_count]
  let res := drv.result n
  let gpu_count := drv.count n
  let self := { self with gpus := fill self.gpus (drv.list n) }
  assert (res == 0 && decide (req_count ≤ gpu_count))
  let gpu0 := self.gpus.getD 0 0
  let (n, sys) := sys.call ApiFn.vkGetPhysicalDeviceQueueFamilyProperties [gpu0, 0]
  let self := { self with queue_count := drv.count n }
  assert (decide (1 ≤ self.queue_count))
  let self := { self with queue_props := resize self.queue_props self.queue_count }
  let (n, sys) := sys.call ApiFn.vkGetPhysicalDeviceQueueFamilyProperties
    [gpu0, self.queue_count]
  let self := { self with
    queue_count := drv.count n
    queue_props := fill self.queue_props (drv.list n) }
  assert (decide (1 ≤ self.queue_count))
  let (n, sys) := sys.call ApiFn.vkGetPhysicalDeviceMemoryProperties [gpu0]
  let self := { self with memory_properties := drv.memoryProperties n }
  let (n, sys) := sys.call ApiFn.vkGetPhysicalDeviceProperties [gpu0]
  let self := { self with gpu_props := drv.handle n }
  pure (res, self, sys)

/-- The loop of `init_swapchain_extension` that asks, for each queue family index, whether
it can present to the surface; the answers in index order. -/
def querySurfaceSupport (drv : Driver) (gpu surface : Nat) : List Nat → Sys → List Nat × Sys
  | [], sys => ([], sys)
  | i :: rest, sys =>
    let (n, sys) := sys.call ApiFn.vkGetPhysicalDeviceSurfaceSupportKHR [gpu, i, surface]
    let (answers, sys) := querySurfaceSupport drv gpu surface rest sys
    (drv.count n :: answers, sys)

/-- The search loop of `init_swapchain_extension` over the indices still to visit:
the first index with the graphics bit whose `supportsPresent` is `VK_TRUE`, else
`UINT32_MAX`. -/
def findGraphicsPresentQueue (queue_props supportsPresent : List Nat) : List Nat → Nat
  | [] => UINT32_MAX
  | i :: rest =>
    if (queue_props.getD i 0 &&& VK_QUEUE_GRAPHICS_BIT) ≠ 0 then
      if supportsPresent.getD i 0 = 1 then i
      else findGraphicsPresentQueue queue_props supportsPresent rest
    else findGraphicsPresentQueue queue_props supportsPresent rest

/-- `VulkanDevice::init_swapchain_extension` (the `__ANDROID__` branch). Entries of a
`malloc`ed array that the API does not write are read as `0`. -/
def VulkanDevice.init_swapchain_extension (drv : Driver)
    (self : VulkanDevice) (sys : Sys) : Except Fault (Bool × VulkanDevice × Sys) := do
  let (n, sys) := sys.call ApiFn.vkGetInstanceProcAddr [self.instance_]
  let self := { self with fpCreateAndroidSurfaceKHR := drv.handle n }
  if self.fpCreateAndroidSurfaceKHR = 0 then
    let sys := sys.print kTAG "vkGetDeviceProcAddr failed to find vkCreateAndroidSurfaceKHR" []
    pure (false, self, sys)
  else
    let (n, sys) := sys.call ApiFn.vkCreateAndroidSurfaceKHR [self.instance_]
    let res := drv.result n
    let self := { self with surface_ := drv.handle n }
    assert (res == VK_SUCCESS)
    let gpu0 := self.gpus.getD 0 0
    let (supportsPresent, sys) :=
      querySurfaceSupport drv gpu0 self.surface_ (List.range self.queue_count) sys
    let graphicsQueueNodeIndex :=
      findGraphicsPresentQueue self.queue_props supportsPresent (List.range self.queue_count)
    if graphicsQueueNodeIndex = UINT32_MAX then
      let sys := sys.print kTAG
        "Could not find a queue that supports both graphics and present" []
      pure (false, self, sys)
    else
      let self := { self with graphics_queue_family_index := graphicsQueueNodeIndex }
      let (n, sys) := sys.call ApiFn.vkGetPhysicalDeviceSurfaceFormatsKHR
        [gpu0, self.surface_, 0]
      let res := drv.result n
      let formatCount := drv.count n
      assert (res == VK_SUCCESS)
      let surfFormats := List.replicate formatCount 0
      let (n, sys) := sys.call ApiFn.vkGetPhysicalDeviceSurfaceFormatsKHR
        [gpu0, self.surface_, formatCount]
      let res := drv.result n
      let formatCount := drv.count n
      let surfFormats := fill surfFormats (drv.list n)
      assert (res == VK_SUCCESS)
      if formatCount = 1 ∧ surfFormats.getD 0 0 = VK_FORMAT_UNDEFINED then
        pure (true, { self with format := VK_FORMAT_B8G8R8A8_UNORM }, sys)
      else
        assert (decide (1 ≤ formatCount))
        pure (true, { self with format := surfFormats.getD 0 0 }, sys)

/-- `VulkanDevice::init_device`. -/
def VulkanDevice.init_device (drv : Driver)
    (self : VulkanDevice) (sys : Sys) : Except Fault (Int × VulkanDevice × Sys) := do
  let (n, sys) := sys.call ApiFn.vkCreateDevice
    [self.gpus.getD 0 0, self.graphics_queue_family_index,
     self.device_layer_names.length, self.device_extension_names.length]
  let res := drv.result n
  let self := { self with device_ := drv.handle n }
  assert (res == VK_SUCCESS)
  pure (res, self, sys)

/-- `VulkanDevice::init_command_pool`. -/
def VulkanDevice.init_command_pool (drv : Driver)
    (self : VulkanDevice) (sys : Sys) : Except Fault (VulkanDevice × Sys) := do
  let (n, sys) := sys.call ApiFn.vkCreateCommandPool
    [self.device_, self.graphics_queue_family_index]
  let res := drv.result n
  let self := { self with cmd_pool := drv.handle n }
  assert (res == VK_SUCCESS)
  pure (self, sys)

/-- `VulkanDevice::init_command_buffer`. -/
def VulkanDevice.init_command_buffer (drv : Driver)
    (self : VulkanDevice) (sys : Sys) : Except Fault (VulkanDevice × Sys) := do
  let self := { self with cmdBuffer := List.replicate self.swapchainImageCount 0 }
  let (n, sys) := sys.call ApiFn.vkAllocateCommandBuffers
    [self.device_, self.cmd_pool, self.swapchainImageCount]
  let res := drv.result n
  let self := { self with cmdBuffer := fill self.cmdBuffer (drv.list n) }
  assert (res == VK_SUCCESS)
  pure (self, sys)

/-- The loop of `execute_begin_command_buffer` over the indices still to visit. -/
def beginCommandBuffers (drv : Driver) (cmdBuffer : List Nat) :
    List Nat → Sys → Except Fault Sys
  | [], sys => Except.ok sys
  | i :: rest, sys => do
    let (n, sys) := sys.call ApiFn.vkBeginCommandBuffer [cmdBuffer.getD i 0]
    let res := drv.result n
    assert (res == VK_SUCCESS)
    beginCommandBuffers drv cmdBuffer rest sys

/-- `VulkanDevice::execute_begin_command_buffer`. -/
def VulkanDevice.execute_begin_command_buffer (drv : Driver)
    (self : VulkanDevice) (sys : Sys) : Except Fault (VulkanDevice × Sys) := do
  let sys ← beginCommandBuffers drv self.cmdBuffer (List.range self.swapchainImageCount) sys
  pure (self, sys)

/-- `VulkanDevice::init_device_queue`. -/
def VulkanDevice.init_device_queue (drv : Driver)
    (self : VulkanDevice) (sys : Sys) : VulkanDevice × Sys :=
  let (n, sys) := sys.call ApiFn.vkGetDeviceQueue
    [self.device_, self.graphics_queue_family_index, 0]
  ({ self with queue_ := drv.handle n }, sys)

/-- The present-mode loop of `init_swap_chain` over the modes still to visit, `mode`
being the current `swapchainPresentMode`. -/
def selectPresentMode : List Nat → Nat → Nat
  | [], mode => mode
  | m :: rest, mode =>
    if m = VK_PRESENT_MODE_MAILBOX_KHR then VK_PRESENT_MODE_MAILBOX_KHR
    else if mode ≠ VK_PRESENT_MODE_MAILBOX_KHR ∧ m = VK_PRESENT_MODE_IMMEDIATE_KHR then
      selectPresentMode rest VK_PRESENT_MODE_IMMEDIATE_KHR
    else selectPresentMode rest mode

/-- `VulkanDevice::init_swap_chain`. The array `presentModes` comes from `malloc`, which is
taken to return a non-null pointer (`assert(presentModes)` passes); entries that the API
does not write are read as `0`. -/
def VulkanDevice.init_swap_chain (drv : Driver) (usageFlags : Nat)
    (self : VulkanDevice) (sys : Sys) : Except Fault (VulkanDevice × Sys) := do
  let gpu0 := self.gpus.getD 0 0
  let (n, sys) := sys.call ApiFn.vkGetPhysicalDeviceSurfaceCapabilitiesKHR
    [gpu0, self.surface_]
  let res := drv.result n
  let surfCapabilities := drv.surfaceCapabilities n
  assert (res == VK_SUCCESS)
  let (n, sys) := sys.call ApiFn.vkGetPhysicalDeviceSurfacePresentModesKHR
    [gpu0, self.surface_, 0]
  let res := drv.result n
  let presentModeCount := drv.count n
  assert (res == VK_SUCCESS)
  let presentModes := List.replicate presentModeCount 0
  let (n, sys) := sys.call ApiFn.vkGetPhysicalDeviceSurfacePresentModesKHR
    [gpu0, self.surface_, presentModeCount]
  let res := drv.result n
  let presentModeCount := drv.count n
  let presentModes := fill presentModes (drv.list n)
  assert (res == VK_SUCCESS)
  let swapChainExtent := surfCapabilities.currentExtent
  let self := { self with width := swapChainExtent.width, height := swapChainExtent.height }
  let swapchainPresentMode :=
    selectPresentMode ((List.range presentModeCount).map (fun i => presentModes.getD i 0))
      VK_PRESENT_MODE_FIFO_KHR
  let sys := sys.print kTAG "swapChainPresentMode = %d" [LogArg.int swapchainPresentMode]
  let desiredNumberOfSwapChainImages :=
    if 0 < surfCapabilities.maxImageCount ∧
        surfCapabilities.maxImageCount < (surfCapabilities.minImageCount + 1) % 2 ^ 32 then
      surfCapabilities.maxImageCount
    else (surfCapabilities.minImageCount + 1) % 2 ^ 32
  let preTransform :=
    if (surfCapabilities.supportedTransforms &&& VK_SURFACE_TRANSFORM_IDENTITY_BIT_KHR) ≠ 0
    then VK_SURFACE_TRANSFORM_IDENTITY_BIT_KHR
    else surfCapabilities.currentTransform
  let sys := sys.print kTAG "desiredNumberOfSwapChainImages = %u"
    [LogArg.int desiredNumberOfSwapChainImages]
  let (n, sys) := sys.call ApiFn.vkCreateSwapchainKHR
    [self.device_, self.surface_, desiredNumberOfSwapChainImages, self.format,
     swapChainExtent.width, swapChainExtent.height, preTransform, swapchainPresentMode,
     usageFlags]
  let res := drv.result n
  let self := { self with swap_chain := drv.handle n }
  assert (res == VK_SUCCESS)
  let (n, sys) := sys.call ApiFn.vkGetSwapchainImagesKHR [self.device_, self.swap_chain, 0]
  let res := drv.result n
  let self := { self with swapchainImageCount := drv.count n }
  assert (res == VK_SUCCESS)
  pure (self, sys)

/-- The access masks that `set_image_layout` derives from the two layouts, in the order
of its `if` statements (a later assignment overwrites an earlier one). -/
def imageBarrierMasks (old_image_layout new_image_layout : Nat) : Nat × Nat :=
  let srcAccessMask := 0
  let dstAccessMask := 0
  let srcAccessMask :=
    if old_image_layout = VK_IMAGE_LAYOUT_COLOR_ATTACHMENT_OPTIMAL then
      VK_ACCESS_COLOR_ATTACHMENT_WRITE_BIT else srcAccessMask
  let dstAccessMask :=
    if new_image_layout = VK_IMAGE_LAYOUT_TRANSFER_DST_OPTIMAL then
      VK_ACCESS_TRANSFER_WRITE_BIT else dstAccessMask
  let dstAccessMask :=
    if new_image_layout = VK_IMAGE_LAYOUT_TRANSFER_SRC_OPTIMAL then
      VK_ACCESS_TRANSFER_READ_BIT else dstAccessMask
  let srcAccessMask :=
    if old_image_layout = VK_IMAGE_LAYOUT_TRANSFER_DST_OPTIMAL then
      VK_ACCESS_TRANSFER_WRITE_BIT else srcAccessMask
  let srcAccessMask :=
    if old_image_layout = VK_IMAGE_LAYOUT_PREINITIALIZED then
      VK_ACCESS_HOST_WRITE_BIT else srcAccessMask
  let srcAccessMask :=
    if new_image_layout = VK_IMAGE_LAYOUT_SHADER_READ_ONLY_OPTIMAL then
      VK_ACCESS_HOST_WRITE_BIT ||| VK_ACCESS_TRANSFER_WRITE_BIT else srcAccessMask
  let dstAccessMask :=
    if new_image_layout = VK_IMAGE_LAYOUT_SHADER_READ_ONLY_OPTIMAL then
      VK_ACCESS_SHADER_READ_BIT else dstAccessMask
  let dstAccessMask :=
    if new_image_layout = VK_IMAGE_LAYOUT_COLOR_ATTACHMENT_OPTIMAL then
      VK_ACCESS_COLOR_ATTACHMENT_WRITE_BIT else dstAccessMask
  let dstAccessMask :=
    if new_image_layout = VK_IMAGE_LAYOUT_DEPTH_STENCIL_ATTACHMENT_OPTIMAL then
      VK_ACCESS_DEPTH_STENCIL_ATTACHMENT_WRITE_BIT else dstAccessMask
  (srcAccessMask, dstAccessMask)

/-- `VulkanDevice::set_image_layout`: one image barrier recorded into `cmdBuffer[cmdIndex]`. -/
def VulkanDevice.set_image_layout (self : VulkanDevice) (sys : Sys)
    (cmdIndex image aspectMask old_image_layout new_image_layout : Nat) : Except Fault Sys := do
  assert (self.queue_ != VK_NULL_HANDLE)
  let masks := imageBarrierMasks old_image_layout new_image_layout
  let (_, sys) := sys.call ApiFn.vkCmdPipelineBarrier
    [self.cmdBuffer.getD cmdIndex 0, image, aspectMask, old_image_layout, new_image_layout,
     masks.1, masks.2]
  pure sys

/-- The loop of `initSwapChainImages` over the image indices still to visit. -/
def swapChainImageViews (drv : Driver) (swapchainImages : List Nat) :
    List Nat → VulkanDevice → Sys → Except Fault (VulkanDevice × Sys)
  | [], self, sys => Except.ok (self, sys)
  | i :: rest, self, sys => do
    let sys := sys.print kTAG "swapChainImageIndex = %u" [LogArg.int i]
    let image := swapchainImages.getD i 0
    let sys := sys.print kTAG "swapChainImage-1" []
    let sys ← self.set_image_layout sys i image VK_IMAGE_ASPECT_COLOR_BIT
      VK_IMAGE_LAYOUT_UNDEFINED VK_IMAGE_LAYOUT_COLOR_ATTACHMENT_OPTIMAL
    let sys := sys.print kTAG "swapChainImage-2" []
    let (n, sys) := sys.call ApiFn.vkCreateImageView
      [self.device_, image, self.format, VK_IMAGE_ASPECT_COLOR_BIT]
    let res := drv.result n
    let sc_buffer : swap_chain_buffer := ⟨image, drv.handle n⟩
    let sys := sys.print kTAG "swapChainImage-2" []
    let self := { self with buffers := self.buffers ++ [sc_buffer] }
    assert (res == VK_SUCCESS)
    swapChainImageViews drv swapchainImages rest self sys

/-- `VulkanDevice::initSwapChainImages`. -/
def VulkanDevice.initSwapChainImages (drv : Driver)
    (self : VulkanDevice) (sys : Sys) : Except Fault (VulkanDevice × Sys) := do
  let swapchainImages := List.replicate self.swapchainImageCount 0
  let (n, sys) := sys.call ApiFn.vkGetSwapchainImagesKHR
    [self.device_, self.swap_chain, self.swapchainImageCount]
  let res := drv.result n
  let self := { self with swapchainImageCount := drv.count n }
  let swapchainImages := fill swapchainImages (drv.list n)
  assert (res == VK_SUCCESS)
  let sys := sys.print kTAG "swapchainImageCount = %u" [LogArg.int self.swapchainImageCount]
  let (self, sys) ←
    swapChainImageViews drv swapchainImages (List.range self.swapchainImageCount) self sys
  pure ({ self with current_buffer := 0 }, sys)

/-- The loop of `init_depth_buffer` that records the layout transition of the depth image
into every command buffer, over the indices still to visit. -/
def depthImageLayouts (self : VulkanDevice) (aspectMask : Nat) :
    List Nat → Sys → Except Fault Sys
  | [], sys => Except.ok sys
  | i :: rest, sys => do
    let sys ← self.set_image_layout sys i self.depth.image aspectMask
      VK_IMAGE_LAYOUT_UNDEFINED VK_IMAGE_LAYOUT_DEPTH_STENCIL_ATTACHMENT_OPTIMAL
    depthImageLayouts self aspectMask rest sys

/-- `VulkanDevice::init_depth_buffer` (the `__ANDROID__` branch). -/
def VulkanDevice.init_depth_buffer (drv : Driver)
    (self : VulkanDevice) (sys : Sys) : Except Fault (Bool × VulkanDevice × Sys) := do
  let self :=
    if self.depth.format = VK_FORMAT_UNDEFINED then
      { self with depth := { self.depth with format := VK_FORMAT_D16_UNORM } }
    else self
  let depth_format := VK_FORMAT_D24_UNORM_S8_UINT
  let (n, sys) := sys.call ApiFn.vkGetPhysicalDeviceFormatProperties
    [self.gpus.getD 0 0, depth_format]
  let props := drv.formatProperties n
  if (props.linearTilingFeatures &&& VK_FORMAT_FEATURE_DEPTH_STENCIL_ATTACHMENT_BIT) = 0 ∧
      (props.optimalTilingFeatures &&& VK_FORMAT_FEATURE_DEPTH_STENCIL_ATTACHMENT_BIT) = 0 then
    let sys := sys.print kTAG "depth_format %d Unsupported." [LogArg.int depth_format]
    pure (false, self, sys)
  else
    let tiling :=
      if (props.linearTilingFeatures &&& VK_FORMAT_FEATURE_DEPTH_STENCIL_ATTACHMENT_BIT) ≠ 0
      then VK_IMAGE_TILING_LINEAR else VK_IMAGE_TILING_OPTIMAL
    let aspectMask := VK_IMAGE_ASPECT_DEPTH_BIT
    let aspectMask :=
      if depth_format = VK_FORMAT_D16_UNORM_S8_UINT ∨
          depth_format = VK_FORMAT_D24_UNORM_S8_UINT ∨
          depth_format = VK_FORMAT_D32_SFLOAT_S8_UINT then
        aspectMask ||| VK_IMAGE_ASPECT_STENCIL_BIT
      else aspectMask
    let (n, sys) := sys.call ApiFn.vkCreateImage
      [self.device_, depth_format, self.width, self.height, 1, tiling]
    let res := drv.result n
    let self := { self with depth := { self.depth with image := drv.handle n } }
    assert (res == VK_SUCCESS)
    let (n, sys) := sys.call ApiFn.vkGetImageMemoryRequirements
      [self.device_, self.depth.image]
    let mem_reqs := drv.memoryRequirements n
    let (pass, memoryTypeIndex) :=
      self.memory_type_from_properties mem_reqs.memoryTypeBits 0 0
    assert pass
    let (n, sys) := sys.call ApiFn.vkAllocateMemory
      [self.device_, mem_reqs.size, memoryTypeIndex]
    let res := drv.result n
    let self := { self with depth := { self.depth with mem := drv.handle n } }
    assert (res == VK_SUCCESS)
    let (n, sys) := sys.call ApiFn.vkBindImageMemory
      [self.device_, self.depth.image, self.depth.mem, 0]
    let res := drv.result n
    assert (res == VK_SUCCESS)
    let sys ← depthImageLayouts self aspectMask (List.range self.swapchainImageCount) sys
    let (n, sys) := sys.call ApiFn.vkCreateImageView
      [self.device_, self.depth.image, depth_format, aspectMask]
    let res := drv.result n
    let self := { self with depth := { self.depth with view := drv.handle n } }
    assert (res == VK_SUCCESS)
    pure (true, self, sys)

/-- The matrix `Clip` of `init_uniform_buffer`: the 16 constructor arguments fill the
columns one after the other. -/
def clipMatrix : mat4 :=
  let o := F32.ofNat 0
  let l := F32.ofNat 1
  let h := F32.lit 1 2
  ⟨⟨l, o, o, o⟩, ⟨o, F32.neg l, o, o⟩, ⟨o, o, h, o⟩, ⟨o, o, h, l⟩⟩

/-- `VulkanDevice::init_uniform_buffer`. -/
def VulkanDevice.init_uniform_buffer (glm : Glm) (drv : Driver)
    (self : VulkanDevice) (sys : Sys) : Except Fault (VulkanDevice × Sys) := do
  let fov := glm.radians (F32.ofNat 45)
  let fov :=
    if self.height < self.width then
      F32.mul fov (F32.div (F32.ofNat self.height) (F32.ofNat self.width))
    else fov
  let self := { self with
    Projection := glm.perspective fov
      (F32.div (F32.ofNat self.width) (F32.ofNat self.height)) (F32.lit 1 10) (F32.ofNat 300) }
  let self := { self with
    View := glm.lookAt ⟨F32.ofNat 30, F32.neg (F32.ofNat 200), F32.ofNat 20⟩
      ⟨F32.ofNat 0, F32.ofNat 0, F32.ofNat 0⟩ ⟨F32.ofNat 0, F32.ofNat 0, F32.ofNat 1⟩ }
  let self := { self with Model := mat4.diag (F32.ofNat 1) }
  let self := { self with Clip := clipMatrix }
  let self := { self with
    MVP := glm.mul (glm.mul (glm.mul self.Clip self.Projection) self.View) self.Model }
  let (n, sys) := sys.call ApiFn.vkCreateBuffer [self.device_, 64]
  let res := drv.result n
  let self := { self with uniform_data := { self.uniform_data with buf := drv.handle n } }
  assert (res == VK_SUCCESS)
  let (n, sys) := sys.call ApiFn.vkGetBufferMemoryRequirements
    [self.device_, self.uniform_data.buf]
  let mem_reqs := drv.memoryRequirements n
  let (pass, memoryTypeIndex) :=
    self.memory_type_from_properties mem_reqs.memoryTypeBits
      VK_MEMORY_PROPERTY_HOST_VISIBLE_BIT 0
  assert pass
  let (n, sys) := sys.call ApiFn.vkAllocateMemory
    [self.device_, mem_reqs.size, memoryTypeIndex]
  let res := drv.result n
  let self := { self with uniform_data := { self.uniform_data with mem := drv.handle n } }
  assert (res == VK_SUCCESS)
  let (n, sys) := sys.call ApiFn.vkMapMemory
    [self.device_, self.uniform_data.mem, 0, mem_reqs.size]
  let res := drv.result n
  assert (res == VK_SUCCESS)
  let sys := sys.memcpy self.uniform_data.mem self.MVP.toList
  let (_, sys) := sys.call ApiFn.vkUnmapMemory [self.device_, self.uniform_data.mem]
  let (n, sys) := sys.call ApiFn.vkBindBufferMemory
    [self.device_, self.uniform_data.buf, self.uniform_data.mem, 0]
  let res := drv.result n
  assert (res == VK_SUCCESS)
  let self := { self with
    uniform_data := { self.uniform_data with buffer_info := ⟨self.uniform_data.buf, 0, 64⟩ } }
  pure (self, sys)

/-- `VulkanDevice::init_descriptor_and_pipeline_layouts`. -/
def VulkanDevice.init_descriptor_and_pipeline_layouts (drv : Driver) (use_texture : Bool)
    (self : VulkanDevice) (sys : Sys) : Except Fault (VulkanDevice × Sys) := do
  let bindingCount := if use_texture then 2 else 1
  let self := { self with desc_layout := resize self.desc_layout NUM_DESCRIPTOR_SETS }
  let (n, sys) := sys.call ApiFn.vkCreateDescriptorSetLayout [self.device_, bindingCount]
  let res := drv.result n
  let self := { self with desc_layout := fill self.desc_layout [drv.handle n] }
  assert (res == VK_SUCCESS)
  let (n, sys) := sys.call ApiFn.vkCreatePipelineLayout
    ([self.device_, NUM_DESCRIPTOR_SETS] ++ self.desc_layout)
  let res := drv.result n
  let self := { self with pipelineLayout := drv.handle n }
  assert (res == VK_SUCCESS)
  pure (self, sys)

/-- `VulkanDevice::init_renderpass`. With `include_depth` the second attachment takes its
format from the member `depth.format`. -/
def VulkanDevice.init_renderpass (drv : Driver) (include_depth clear : Bool)
    (self : VulkanDevice) (sys : Sys) : Except Fault (VulkanDevice × Sys) := do
  let attachmentCount := if include_depth then 2 else 1
  let loadOp := if clear then 1 else 2
  let attachments :=
    if include_depth then [self.format, self.depth.format] else [self.format]
  let (n, sys) := sys.call ApiFn.vkCreateRenderPass
    ([self.device_, attachmentCount, loadOp] ++ attachments)
  let res := drv.result n
  let self := { self with render_pass := drv.handle n }
  assert (res == VK_SUCCESS)
  pure (self, sys)

/-- `VulkanDevice::loadShaderFromFile`; the new module handle is returned with the result
code (`*shaderOut`). The file is named by its position in `shaderFiles`. -/
def VulkanDevice.loadShaderFromFile (drv : Driver) (filePath : Nat)
    (self : VulkanDevice) (sys : Sys) : Except Fault ((Int × Nat) × Sys) := do
  assert (self.androidAppCtx != 0)
  let (n, sys) := sys.call ApiFn.AAssetManager_open [self.androidAppCtx, filePath]
  let file := drv.handle n
  let (n, sys) := sys.call ApiFn.AAsset_getLength [file]
  let fileLength := drv.count n
  let (_, sys) := sys.call ApiFn.AAsset_read [file, fileLength]
  let (n, sys) := sys.call ApiFn.vkCreateShaderModule [self.device_, fileLength]
  let result := drv.result n
  assert (result == VK_SUCCESS)
  pure ((result, drv.handle n), sys)

/-- The asset paths given to `loadShaderFromFile`. -/
def shaderFiles : List String := ["shaders/shape.vert.spv", "shaders/shape.frag.spv"]

/-- `VulkanDevice::init_shaders`. -/
def VulkanDevice.init_shaders (drv : Driver)
    (self : VulkanDevice) (sys : Sys) : Except Fault (VulkanDevice × Sys) := do
  let ((_, shader), sys) ← self.loadShaderFromFile drv 0 sys
  let self := { self with vertexShader := shader }
  let ((_, shader), sys) ← self.loadShaderFromFile drv 1 sys
  let self := { self with fragmentShader := shader }
  pure (self, sys)

/-- The loop of `init_framebuffers` over the image indices still to visit. -/
def createFramebuffers (drv : Driver) (include_depth : Bool) :
    List Nat → VulkanDevice → Sys → Except Fault (VulkanDevice × Sys)
  | [], self, sys => Except.ok (self, sys)
  | i :: rest, self, sys => do
    let attachmentCount := if include_depth then 2 else 1
    let (n, sys) := sys.call ApiFn.vkCreateFramebuffer
      [self.device_, self.render_pass, attachmentCount,
       (self.buffers.getD i ⟨0, 0⟩).view, self.depth.view, self.width, self.height, 1]
    let res := drv.result n
    let self := { self with framebuffers := self.framebuffers.set i (drv.handle n) }
    assert (res == VK_SUCCESS)
    createFramebuffers drv include_depth rest self sys

/-- `VulkanDevice::init_framebuffers`. -/
def VulkanDevice.init_framebuffers (drv : Driver) (include_depth : Bool)
    (self : VulkanDevice) (sys : Sys) : Except Fault (VulkanDevice × Sys) :=
  let self := { self with framebuffers := List.replicate self.swapchainImageCount 0 }
  createFramebuffers drv include_depth (List.range self.swapchainImageCount) self sys

/-- The mesh of `teapot.inl` (not under `jni/`): positions and normals, three floats per
vertex, and 16-bit indices. -/
structure Mesh where
  teapotPositions : List F32
  teapotNormals : List F32
  teapotIndices : List Nat

/-- The copy loop of `initVertexBufferWithNormal` over the vertex indices still to visit:
three position floats, then three normal floats. Reads past the end of an array are read
as zero. -/
def interleave (vertexData normalData : List F32) : List Nat → List F32
  | [] => []
  | i :: rest =>
    [vertexData.getD (3 * i) (F32.ofNat 0), vertexData.getD (3 * i + 1) (F32.ofNat 0),
     vertexData.getD (3 * i + 2) (F32.ofNat 0), normalData.getD (3 * i) (F32.ofNat 0),
     normalData.getD (3 * i + 1) (F32.ofNat 0), normalData.getD (3 * i + 2) (F32.ofNat 0)]
    ++ interleave vertexData normalData rest

/-- `VulkanDevice::initVertexBufferWithNormal`; the sizes are in bytes. -/
def VulkanDevice.initVertexBufferWithNormal (drv : Driver)
    (vertexData : List F32) (vertexDataSize : Nat) (normalData : List F32)
    (normalDataSize : Nat) (self : VulkanDevice) (sys : Sys) :
    Except Fault (VulkanDevice × Sys) := do
  let dataSize := (vertexDataSize + normalDataSize) % 2 ^ 32
  let (n, sys) := sys.call ApiFn.vkCreateBuffer [self.device_, dataSize]
  let res := drv.result n
  let self := { self with vertex_buffer := { self.vertex_buffer with buf := drv.handle n } }
  assert (res == VK_SUCCESS)
  let (n, sys) := sys.call ApiFn.vkGetBufferMemoryRequirements
    [self.device_, self.vertex_buffer.buf]
  let mem_reqs := drv.memoryRequirements n
  let (pass, memoryTypeIndex) :=
    self.memory_type_from_properties mem_reqs.memoryTypeBits
      (VK_MEMORY_PROPERTY_HOST_VISIBLE_BIT ||| VK_MEMORY_PROPERTY_HOST_COHERENT_BIT) 0
  assert pass
  let (n, sys) := sys.call ApiFn.vkAllocateMemory
    [self.device_, mem_reqs.size, memoryTypeIndex]
  let res := drv.result n
  let self := { self with vertex_buffer := { self.vertex_buffer with mem := drv.handle n } }
  assert (res == VK_SUCCESS)
  let self := { self with
    vertex_buffer := { self.vertex_buffer with
      buffer_info := { self.vertex_buffer.buffer_info with range := mem_reqs.size, offset := 0 } } }
  let (n, sys) := sys.call ApiFn.vkMapMemory
    [self.device_, self.vertex_buffer.mem, 0, mem_reqs.size]
  let res := drv.result n
  assert (res == VK_SUCCESS)
  let elementNum := vertexDataSize / (4 * 3)
  let sys := sys.memcpy self.vertex_buffer.mem
    (interleave vertexData normalData (List.range elementNum))
  let (_, sys) := sys.call ApiFn.vkUnmapMemory [self.device_, self.vertex_buffer.mem]
  let (n, sys) := sys.call ApiFn.vkBindBufferMemory
    [self.device_, self.vertex_buffer.buf, self.vertex_buffer.mem, 0]
  let res := drv.result n
  assert (res == VK_SUCCESS)
  let self := { self with
    vi_binding := ⟨0, 4 * 6, 0⟩
    vi_attribs := [⟨0, 0, VK_FORMAT_R32G32B32_SFLOAT, 0⟩, ⟨1, 0, VK_FORMAT_R32G32B32_SFLOAT, 12⟩] }
  pure (self, sys)

/-- `VulkanDevice::initIndexForVertex`; `indexDataSize` is in bytes. `CALL_VK` ends the
process when the call does not answer `VK_SUCCESS`. -/
def VulkanDevice.initIndexForVertex (drv : Driver) (indexData : List Nat)
    (indexDataSize : Nat) (self : VulkanDevice) (sys : Sys) :
    Except Fault (VulkanDevice × Sys) := do
  let (n, sys) := sys.call ApiFn.vkCreateBuffer [self.device_, indexDataSize]
  let self := { self with indexBuf := drv.handle n }
  assert (drv.result n == VK_SUCCESS)
  let (n, sys) := sys.call ApiFn.vkGetBufferMemoryRequirements [self.device_, self.indexBuf]
  let memReq := drv.memoryRequirements n
  let (pass, memoryTypeIndex) :=
    self.memory_type_from_properties memReq.memoryTypeBits
      (VK_MEMORY_PROPERTY_HOST_VISIBLE_BIT ||| VK_MEMORY_PROPERTY_HOST_COHERENT_BIT) 0
  assert pass
  let (n, sys) := sys.call ApiFn.vkAllocateMemory [self.device_, memReq.size, memoryTypeIndex]
  let deviceMemory := drv.handle n
  assert (drv.result n == VK_SUCCESS)
  let (n, sys) := sys.call ApiFn.vkMapMemory [self.device_, deviceMemory, 0, indexDataSize]
  assert (drv.result n == VK_SUCCESS)
  let sys := sys.memcpy16 deviceMemory (indexData.take (indexDataSize / 2))
  let (_, sys) := sys.call ApiFn.vkUnmapMemory [self.device_, deviceMemory]
  let (n, sys) := sys.call ApiFn.vkBindBufferMemory [self.device_, self.indexBuf, deviceMemory, 0]
  assert (drv.result n == VK_SUCCESS)
  let self := { self with drawElementNum := indexDataSize / 2 }
  let self := { self with drawInstanceNum := self.drawElementNum / 3 }
  let sys := sys.print kTAG "drawElementNum=%zu" [LogArg.int self.drawElementNum]
  pure (self, sys)

/-- `VulkanDevice::init_descriptor_pool`. -/
def VulkanDevice.init_descriptor_pool (drv : Driver) (use_texture : Bool)
    (self : VulkanDevice) (sys : Sys) : Except Fault (VulkanDevice × Sys) := do
  let poolSizeCount := if use_texture then 2 else 1
  let (n, sys) := sys.call ApiFn.vkCreateDescriptorPool [self.device_, 1, poolSizeCount]
  let res := drv.result n
  let self := { self with desc_pool := drv.handle n }
  assert (res == VK_SUCCESS)
  pure (self, sys)

/-- `VulkanDevice::init_descriptor_set`. -/
def VulkanDevice.init_descriptor_set (drv : Driver) (use_texture : Bool)
    (self : VulkanDevice) (sys : Sys) : Except Fault (VulkanDevice × Sys) := do
  let self := { self with desc_set := resize self.desc_set NUM_DESCRIPTOR_SETS }
  let (n, sys) := sys.call ApiFn.vkAllocateDescriptorSets
    ([self.device_, self.desc_pool, NUM_DESCRIPTOR_SETS] ++ self.desc_layout)
  let res := drv.result n
  let self := { self with desc_set := fill self.desc_set [drv.handle n] }
  assert (res == VK_SUCCESS)
  let (_, sys) := sys.call ApiFn.vkUpdateDescriptorSets
    [self.device_, if use_texture then 2 else 1, self.desc_set.getD 0 0,
     self.uniform_data.buffer_info.buffer, self.uniform_data.buffer_info.offset,
     self.uniform_data.buffer_info.range]
  pure (self, sys)

/-- `VulkanDevice::init_pipeline_cache`. -/
def VulkanDevice.init_pipeline_cache (drv : Driver)
    (self : VulkanDevice) (sys : Sys) : Except Fault (VulkanDevice × Sys) := do
  let (n, sys) := sys.call ApiFn.vkCreatePipelineCache [self.device_]
  let res := drv.result n
  let self := { self with pipelineCache := drv.handle n }
  assert (res == VK_SUCCESS)
  pure (self, sys)

/-- `VulkanDevice::init_pipeline` (the `__ANDROID__` branch: a fixed viewport and scissor).
The floats recorded are the viewport `x, y, width, height, minDepth, maxDepth`. -/
def VulkanDevice.init_pipeline (drv : Driver) (include_depth include_vi : Bool)
    (self : VulkanDevice) (sys : Sys) : Except Fault (VulkanDevice × Sys) := do
  let sys := sys.floats
    [F32.ofNat 0, F32.ofNat 0, F32.ofNat self.width, F32.ofNat self.height,
     F32.ofNat 0, F32.ofNat 1]
  let (n, sys) := sys.call ApiFn.vkCreateGraphicsPipelines
    [self.device_, self.pipelineCache, self.pipelineLayout, self.render_pass,
     self.vertexShader, self.fragmentShader, if include_depth then 1 else 0,
     if include_vi then 1 else 0, self.vi_binding.stride, 0, 0, self.width, self.height]
  let res := drv.result n
  let self := { self with pipeline := drv.handle n }
  assert (res == VK_SUCCESS)
  pure (self, sys)

/-- The value a member pointer of `present` points to. -/
def VulkanDevice.deref (self : VulkanDevice) : MemberPtr → Nat
  | MemberPtr.null => 0
  | MemberPtr.swap_chain => self.swap_chain
  | MemberPtr.current_buffer => self.current_buffer

/-- The recording loop of `preDraw` over the image indices still to visit. The result of
`vkEndCommandBuffer` is stored in `res` and not looked at. -/
def recordCommandBuffers (self : VulkanDevice) : List Nat → Sys → Sys
  | [], sys => sys
  | i :: rest, sys =>
    let cmd := self.cmdBuffer.getD i 0
    let sys := sys.floats
      [F32.lit 2 10, F32.lit 2 10, F32.lit 2 10, F32.lit 2 10, F32.ofNat 1]
    let (_, sys) := sys.call ApiFn.vkCmdBeginRenderPass
      [cmd, self.render_pass, self.framebuffers.getD i 0, 0, 0, self.width, self.height, 2]
    let (_, sys) := sys.call ApiFn.vkCmdBindPipeline [cmd, self.pipeline]
    let (_, sys) := sys.call ApiFn.vkCmdBindDescriptorSets
      ([cmd, self.pipelineLayout, 0, NUM_DESCRIPTOR_SETS] ++ self.desc_set)
    let (_, sys) := sys.call ApiFn.vkCmdBindVertexBuffers [cmd, 0, 1, self.vertex_buffer.buf, 0]
    let (_, sys) := sys.call ApiFn.vkCmdBindIndexBuffer
      [cmd, self.indexBuf, 0, VK_INDEX_TYPE_UINT16]
    let (_, sys) := sys.call ApiFn.vkCmdDrawIndexed
      [cmd, self.drawElementNum % 2 ^ 32, self.drawInstanceNum % 2 ^ 32, 0, 0, 0]
    let (_, sys) := sys.call ApiFn.vkCmdEndRenderPass [cmd]
    let (_, sys) := sys.call ApiFn.vkCmdPipelineBarrier
      [cmd, (self.buffers.getD i ⟨0, 0⟩).image, VK_IMAGE_ASPECT_COLOR_BIT,
       VK_IMAGE_LAYOUT_COLOR_ATTACHMENT_OPTIMAL, VK_IMAGE_LAYOUT_PRESENT_SRC_KHR,
       VK_ACCESS_COLOR_ATTACHMENT_WRITE_BIT, VK_ACCESS_MEMORY_READ_BIT]
    let (_, sys) := sys.call ApiFn.vkEndCommandBuffer [cmd]
    recordCommandBuffers self rest sys

/-- The loop `do { res = vkWaitForFences(...); LOGI("draw %d", res); } while (res ==
VK_TIMEOUT)` of `preDraw`; the value is the `res` the loop ends with. -/
def waitForDrawFence (drv : Driver) (self : VulkanDevice) : Nat → Sys → Except Fault (Int × Sys)
  | 0, _ => Except.error Fault.outOfFuel
  | fuel + 1, sys =>
    let (n, sys) := sys.call ApiFn.vkWaitForFences [self.device_, self.drawFence, 1, FENCE_TIMEOUT]
    let res := drv.result n
    let sys := sys.print kTAG "draw %d" [LogArg.int res]
    if res = VK_TIMEOUT then waitForDrawFence drv self fuel sys
    else Except.ok (res, sys)

/-- `VulkanDevice::preDraw`. -/
def VulkanDevice.preDraw (drv : Driver) (fuel : Nat)
    (self : VulkanDevice) (sys : Sys) : Except Fault (VulkanDevice × Sys) := do
  let (n, sys) := sys.call ApiFn.vkCreateSemaphore [self.device_]
  let res := drv.result n
  let self := { self with presentCompleteSemaphore := drv.handle n }
  assert (res == VK_SUCCESS)
  let (n, sys) := sys.call ApiFn.vkAcquireNextImageKHR
    [self.device_, self.swap_chain, self.presentCompleteSemaphore]
  let res := drv.result n
  let self := { self with current_buffer := drv.count n }
  assert (res == VK_SUCCESS)
  let sys := recordCommandBuffers self (List.range self.swapchainImageCount) sys
  let (n, sys) := sys.call ApiFn.vkCreateFence [self.device_]
  let self := { self with drawFence := drv.handle n }
  let (n, sys) := sys.call ApiFn.vkQueueSubmit
    [self.queue_, 1, self.presentCompleteSemaphore, 1,
     self.cmdBuffer.getD self.current_buffer 0, self.drawFence]
  let res := drv.result n
  assert (res == VK_SUCCESS)
  let self := { self with
    present := ⟨0, 1, MemberPtr.swap_chain, MemberPtr.current_buffer⟩ }
  let (res, sys) ← waitForDrawFence drv self fuel sys
  assert (res == VK_SUCCESS)
  let (n, sys) := sys.call ApiFn.vkQueuePresentKHR
    [self.queue_, self.present.swapchainCount, self.deref self.present.pSwapchains,
     self.deref self.present.pImageIndices]
  let res := drv.result n
  assert (res == VK_SUCCESS)
  let sys := sys.print kTAG "preDraw" []
  pure (self, sys)

/-- `VulkanDevice::draw`. The three `CALL_VK` calls end the process unless they answer
`VK_SUCCESS`; the fence is waited for once, and the result of that wait is returned. -/
def VulkanDevice.draw (drv : Driver)
    (self : VulkanDevice) (sys : Sys) : Except Fault (Int × VulkanDevice × Sys) := do
  let (n, sys) := sys.call ApiFn.vkAcquireNextImageKHR
    [self.device_, self.swap_chain, self.presentCompleteSemaphore]
  let self := { self with current_buffer := drv.count n }
  assert (drv.result n == VK_SUCCESS)
  let (n, sys) := sys.call ApiFn.vkResetFences [self.device_, 1, self.drawFence]
  assert (drv.result n == VK_SUCCESS)
  let (n, sys) := sys.call ApiFn.vkQueueSubmit
    [self.queue_, 1, self.presentCompleteSemaphore, 1,
     self.cmdBuffer.getD self.current_buffer 0, self.drawFence]
  assert (drv.result n == VK_SUCCESS)
  let (n, sys) := sys.call ApiFn.vkWaitForFences [self.device_, self.drawFence, 1, FENCE_TIMEOUT]
  let res := drv.result n
  let self := { self with present := { self.present with pImageIndices := MemberPtr.current_buffer } }
  let (_, sys) := sys.call ApiFn.vkQueuePresentKHR
    [self.queue_, self.present.swapchainCount, self.deref self.present.pSwapchains,
     self.deref self.present.pImageIndices]
  pure (res, self, sys)

/-- The calls in the body of `VulkanDevice::init`, in the order of the source. -/
inductive InitStep where
  | init_global_layer_properties | init_instance_extension_names
  | init_device_extension_names | init_instance | init_enumerate_device
  | init_swapchain_extension | init_device | init_swap_chain | init_command_pool
  | init_command_buffer | execute_begin_command_buffer | init_device_queue
  | initSwapChainImages | init_depth_buffer | init_uniform_buffer
  | init_descriptor_and_pipeline_layouts | init_renderpass | init_shaders
  | init_framebuffers | initVertexBufferWithNormal | initIndexForVertex
  | init_descriptor_pool | init_descriptor_set | init_pipeline_cache | init_pipeline
  | preDraw
deriving DecidableEq, Repr

/-- One call of the body of `init`, with the arguments the source gives it
(`depthPresent` is `true`); a returned value is dropped, as in the source. -/
def InitStep.run (glm : Glm) (drv : Driver) (mesh : Mesh) (fuel : Nat) :
    InitStep → VulkanDevice → Sys → Except Fault (VulkanDevice × Sys)
  | InitStep.init_global_layer_properties, self, sys => do
    let (_, self, sys) ← self.init_global_layer_properties drv fuel sys
    pure (self, sys)
  | InitStep.init_instance_extension_names, self, sys =>
    pure (self.init_instance_extension_names, sys)
  | InitStep.init_device_extension_names, self, sys =>
    pure (self.init_device_extension_names, sys)
  | InitStep.init_instance, self, sys => do
    let (_, self, sys) ← self.init_instance drv "VulkanTeapot" sys
    pure (self, sys)
  | InitStep.init_enumerate_device, self, sys => do
    let (_, self, sys) ← self.init_enumerate_device drv 1 sys
    pure (self, sys)
  | InitStep.init_swapchain_extension, self, sys => do
    let (_, self, sys) ← self.init_swapchain_extension drv sys
    pure (self, sys)
  | InitStep.init_device, self, sys => do
    let (_, self, sys) ← self.init_device drv sys
    pure (self, sys)
  | InitStep.init_swap_chain, self, sys =>
    self.init_swap_chain drv
      (VK_IMAGE_USAGE_COLOR_ATTACHMENT_BIT ||| VK_IMAGE_USAGE_TRANSFER_SRC_BIT) sys
  | InitStep.init_command_pool, self, sys => self.init_command_pool drv sys
  | InitStep.init_command_buffer, self, sys => self.init_command_buffer drv sys
  | InitStep.execute_begin_command_buffer, self, sys =>
    self.execute_begin_command_buffer drv sys
  | InitStep.init_device_queue, self, sys => pure (self.init_device_queue drv sys)
  | InitStep.initSwapChainImages, self, sys => self.initSwapChainImages drv sys
  | InitStep.init_depth_buffer, self, sys => do
    let (_, self, sys) ← self.init_depth_buffer drv sys
    pure (self, sys)
  | InitStep.init_uniform_buffer, self, sys => self.init_uniform_buffer glm drv sys
  | InitStep.init_descriptor_and_pipeline_layouts, self, sys =>
    self.init_descriptor_and_pipeline_layouts drv true sys
  | InitStep.init_renderpass, self, sys => self.init_renderpass drv true true sys
  | InitStep.init_shaders, self, sys => self.init_shaders drv sys
  | InitStep.init_framebuffers, self, sys => self.init_framebuffers drv true sys
  | InitStep.initVertexBufferWithNormal, self, sys =>
    self.initVertexBufferWithNormal drv mesh.teapotPositions (4 * mesh.teapotPositions.length)
      mesh.teapotNormals (4 * mesh.teapotNormals.length) sys
  | InitStep.initIndexForVertex, self, sys =>
    self.initIndexForVertex drv mesh.teapotIndices (2 * mesh.teapotIndices.length) sys
  | InitStep.init_descriptor_pool, self, sys => self.init_descriptor_pool drv false sys
  | InitStep.init_descriptor_set, self, sys => self.init_descriptor_set drv false sys
  | InitStep.init_pipeline_cache, self, sys => self.init_pipeline_cache drv sys
  | InitStep.init_pipeline, self, sys => self.init_pipeline drv true true sys
  | InitStep.preDraw, self, sys => self.preDraw drv fuel sys

/-- The body of `VulkanDevice::init` before its last statement. -/
def initSequence : List InitStep :=
  [InitStep.init_global_layer_properties, InitStep.init_instance_extension_names,
   InitStep.init_device_extension_names, InitStep.init_instance,
   InitStep.init_enumerate_device, InitStep.init_swapchain_extension, InitStep.init_device,
   InitStep.init_swap_chain, InitStep.init_command_pool, InitStep.init_command_buffer,
   InitStep.execute_begin_command_buffer, InitStep.init_device_queue,
   InitStep.initSwapChainImages, InitStep.init_depth_buffer, InitStep.init_uniform_buffer,
   InitStep.init_descriptor_and_pipeline_layouts, InitStep.init_renderpass,
   InitStep.init_shaders, InitStep.init_framebuffers, InitStep.initVertexBufferWithNormal,
   InitStep.initIndexForVertex, InitStep.init_descriptor_pool, InitStep.init_descriptor_set,
   InitStep.init_pipeline_cache, InitStep.init_pipeline, InitStep.preDraw]

/-- The order of the initialization sequence as the specification lists it: instance,
physical device enumeration, logical device, swapchain, depth buffer, uniform buffer,
descriptor/pipeline layout, render pass, shader modules, framebuffers, vertex then index
buffer, descriptor pool then set, pipeline cache, pipeline, and the initial recording with
one submission and present. -/
def specifiedOrder : List InitStep :=
  [InitStep.init_instance, InitStep.init_enumerate_device, InitStep.init_device,
   InitStep.init_swap_chain, InitStep.init_depth_buffer, InitStep.init_uniform_buffer,
   InitStep.init_descriptor_and_pipeline_layouts, InitStep.init_renderpass,
   InitStep.init_shaders, InitStep.init_framebuffers, InitStep.initVertexBufferWithNormal,
   InitStep.initIndexForVertex, InitStep.init_descriptor_pool, InitStep.init_descriptor_set,
   InitStep.init_pipeline_cache, InitStep.init_pipeline, InitStep.preDraw]

/-- Run the calls of `steps` one after the other. `trace` is a ghost record: every call
that is entered is appended to it, together with what `isReady()` answers at that moment. -/
def runSteps (glm : Glm) (drv : Driver) (mesh : Mesh) (fuel : Nat) :
    List InitStep → VulkanDevice → Sys → List (InitStep × Bool) →
      Except Fault (VulkanDevice × Sys × List (InitStep × Bool))
  | [], self, sys, trace => Except.ok (self, sys, trace)
  | step :: rest, self, sys, trace => do
    let trace := trace ++ [(step, self.isReady)]
    let (self, sys) ← step.run glm drv mesh fuel self sys
    runSteps glm drv mesh fuel rest self sys trace

/-- `VulkanDevice::init`, with the ghost trace of the calls it made. -/
def VulkanDevice.init (glm : Glm) (drv : Driver) (mesh : Mesh) (fuel : Nat)
    (self : VulkanDevice) (sys : Sys) :
    Except Fault (VulkanDevice × Sys × List (InitStep × Bool)) := do
  let (self, sys, trace) ← runSteps glm drv mesh fuel initSequence self sys []
  let self := { self with initialized := true }
  pure (self, sys, trace)

/-- The constructor `VulkanDevice::VulkanDevice(app)` on the storage `new` obtained:
the two members of the initializer list are set, the vectors start empty, every other
member keeps the indeterminate contents of the storage; then the body calls `init`. -/
def VulkanDevice.construct (glm : Glm) (drv : Driver) (mesh : Mesh) (fuel : Nat)
    (storage : VulkanDevice) (app : Nat) (sys : Sys) :
    Except Fault (VulkanDevice × Sys × List (InitStep × Bool)) :=
  let self := { storage with
    initialized := false
    androidAppCtx := app
    instance_layer_properties := []
    instance_layer_names := []
    instance_extension_names := []
    device_extension_names := []
    device_layer_names := []
    gpus := []
    queue_props := []
    buffers := []
    desc_layout := []
    desc_set := [] }
  self.init glm drv mesh fuel sys

/-- The destructor `VulkanDevice::~VulkanDevice`. -/
def VulkanDevice.destruct (self : VulkanDevice) (sys : Sys) : VulkanDevice × Sys :=
  let (_, sys) := sys.call ApiFn.vkDestroyPipelineLayout [self.device_, self.pipelineLayout]
  let (_, sys) := sys.call ApiFn.vkDestroyDevice [self.device_]
  let (_, sys) := sys.call ApiFn.vkDestroyInstance [self.instance_]
  ({ self with initialized := false }, sys)

/-! ## `VulkanMain.cpp` -/

/-- The global `VulkanDevice *device`: null, pointing to a live object, or still holding
the address of an object that `delete` has destroyed. -/
inductive DevicePtr where
  | null
  | object (d : VulkanDevice)
  | dangling

/-- The globals of `VulkanMain.cpp` (`device`, `androidAppCtx`) and of `AndroidMain.cpp`
(`xpos`, `ypos`), and the outside world. -/
structure World where
  device : DevicePtr
  androidAppCtx : Nat
  xpos : F32
  ypos : F32
  sys : Sys

/-- `InitVulkan(android_app* app)`. The loader `InitVulkan()` of the Vulkan wrapper answers
through the driver. -/
def InitVulkan (glm : Glm) (drv : Driver) (mesh : Mesh) (fuel : Nat) (app : Nat)
    (w : World) : Except Fault (Bool × World) := do
  let w := { w with androidAppCtx := app }
  let (n, sys) := w.sys.call ApiFn.InitVulkan []
  let w := { w with sys := sys }
  if !drv.flag n then
    let w := { w with
      sys := w.sys.print kTAG "Vulkan is unavailable, install vulkan and re-start" [] }
    pure (false, w)
  else
    let (d, sys, _) ←
      VulkanDevice.construct glm drv mesh fuel (drv.storage w.sys.calls.length) app w.sys
    pure (true, { w with device := DevicePtr.object d, sys := sys })

/-- `IsVulkanReady()`. -/
def IsVulkanReady (w : World) : Except Fault Bool :=
  match w.device with
  | DevicePtr.null => Except.ok false
  | DevicePtr.object d => Except.ok d.isReady
  | DevicePtr.dangling => Except.error Fault.undefinedBehaviour

/-- `DeleteVulkan()`: `delete device;` destroys the object and leaves the pointer as it is. -/
def DeleteVulkan (w : World) : Except Fault World :=
  match w.device with
  | DevicePtr.null => Except.ok w
  | DevicePtr.object d =>
    let (_, sys) := d.destruct w.sys
    Except.ok { w with device := DevicePtr.dangling, sys := sys }
  | DevicePtr.dangling => Except.error Fault.undefinedBehaviour

/-- `VulkanDrawFrame()`: the call of `device->draw()` is commented out. -/
def VulkanDrawFrame (w : World) : Bool × World := (true, w)

/-- `VulkanOnDrag(float x, float y)`. -/
def VulkanOnDrag (glm : Glm) (drv : Driver) (x y : F32) (w : World) : Except Fault World :=
  let _ := y
  match w.device with
  | DevicePtr.null => Except.ok w
  | DevicePtr.object d => do
    let yrot := F32.mul (F32.div (F32.ofNat 360) (F32.ofNat d.width)) x
    let (d, sys) ← d.rotateModel glm drv (F32.ofNat 0) yrot (F32.ofNat 0) w.sys
    pure { w with device := DevicePtr.object d, sys := sys }
  | DevicePtr.dangling => Except.error Fault.undefinedBehaviour

/-! ## `AndroidMain.cpp` -/

/-- What the NDK accessors report about an `AInputEvent`: its type, action, flags, meta
state, key code, and the coordinates of pointer 0. -/
structure AInputEvent where
  type : Int
  action : Int
  flags : Int
  metaState : Int
  keyCode : Int
  x : F32
  y : F32

/-- The tag `LOG_TAG`. -/
def LOG_TAG : String := "VulkanTeapot"

/-- `handle_cmd(app, cmd)`. -/
def handle_cmd (glm : Glm) (drv : Driver) (mesh : Mesh) (fuel : Nat) (app : Nat) (cmd : Int)
    (w : World) : Except Fault World :=
  if cmd = APP_CMD_INIT_WINDOW then do
    let (_, w) ← InitVulkan glm drv mesh fuel app w
    pure w
  else if cmd = APP_CMD_TERM_WINDOW then
    DeleteVulkan w
  else
    Except.ok { w with
      sys := w.sys.print "Vulkan Tutorials" "event not handled: %d" [LogArg.int cmd] }

/-- `handle_input(app, event)`: the returned `int32_t` and the new globals. -/
def handle_input (glm : Glm) (drv : Driver) (event : AInputEvent) (w : World) :
    Except Fault (Int × World) :=
  if event.type = AINPUT_EVENT_TYPE_MOTION then do
    let w := { w with
      sys := w.sys.print LOG_TAG "Motion event: action=%d flag=%d metaState=0x%x"
        [LogArg.int event.action, LogArg.int event.flags, LogArg.int event.metaState] }
    let eventAction := event.action
    if eventAction = AMOTION_EVENT_ACTION_DOWN then
      let w := { w with xpos := event.x }
      let w := { w with ypos := event.y }
      let w := { w with
        sys := w.sys.print LOG_TAG "pos = (%f, %f)" [LogArg.float w.xpos, LogArg.float w.ypos] }
      pure (1, w)
    else if eventAction = AMOTION_EVENT_ACTION_UP then
      let x := event.x
      let y := event.y
      let w := { w with
        sys := w.sys.print LOG_TAG "up = (%f, %f)" [LogArg.float x, LogArg.float y] }
      pure (1, w)
    else if eventAction = AMOTION_EVENT_ACTION_MOVE then
      let x := event.x
      let y := event.y
      let w := { w with
        sys := w.sys.print LOG_TAG "move = (%f, %f) [%f]"
          [LogArg.float x, LogArg.float y, LogArg.float (F32.sub x w.xpos)] }
      let w ← VulkanOnDrag glm drv (F32.sub x w.xpos) (F32.sub y w.ypos) w
      pure (1, w)
    else pure (1, w)
  else if event.type = AINPUT_EVENT_TYPE_KEY then
    let w := { w with
      sys := w.sys.print LOG_TAG "Key event: action=%d keyCode=%d metaState=0x%x"
        [LogArg.int event.action, LogArg.int event.keyCode, LogArg.int event.metaState] }
    Except.ok (0, w)
  else Except.ok (0, w)

/-- The globals after the two log lines that `handle_input` prints for a `move` event,
`dx` being the horizontal amount it prints. -/
def moveLogged (event : AInputEvent) (dx : F32) (w : World) : World :=
  { w with
    sys := Sys.print
      (Sys.print w.sys LOG_TAG "Motion event: action=%d flag=%d metaState=0x%x"
        [LogArg.int event.action, LogArg.int event.flags, LogArg.int event.metaState])
      LOG_TAG "move = (%f, %f) [%f]"
      [LogArg.float event.x, LogArg.float event.y, LogArg.float dx] }

/-- The input callback applied to the events the glue delivers, one after the other. -/
def handle_inputs (glm : Glm) (drv : Driver) : List AInputEvent → World → Except Fault World
  | [], w => Except.ok w
  | event :: rest, w => do
    let (_, w) ← handle_input glm drv event w
    handle_inputs glm drv rest w

/-! ## Concrete data for the examples -/

/-- An object whose members are all zero. -/
def blankDevice : VulkanDevice where
  instance_ := 0
  gpuDevice_ := 0
  device_ := 0
  surface_ := 0
  queue_ := 0
  descLayout := 0
  pipelineLayout := 0
  width := 0
  height := 0
  initialized := false
  androidAppCtx := 0
  instance_layer_properties := []
  instance_layer_names := []
  instance_extension_names := []
  device_extension_names := []
  device_layer_names := []
  gpus := []
  gpu_props := 0
  queue_props := []
  queue_count := 0
  memory_properties := ⟨0, fun _ => ⟨0, 0⟩⟩
  fpCreateAndroidSurfaceKHR := 0
  graphics_queue_family_index := 0
  format := 0
  cmd_pool := 0
  cmdBuffer := []
  swapchainImageCount := 0
  swap_chain := 0
  buffers := []
  current_buffer := 0
  depth := ⟨0, 0, 0, 0⟩
  Projection := mat4.diag (F32.ofNat 0)
  View := mat4.diag (F32.ofNat 0)
  Model := mat4.diag (F32.ofNat 0)
  Clip := mat4.diag (F32.ofNat 0)
  MVP := mat4.diag (F32.ofNat 0)
  uniform_data := ⟨0, 0, ⟨0, 0, 0⟩⟩
  desc_layout := []
  render_pass := 0
  vertexShader := 0
  fragmentShader := 0
  framebuffers := []
  vertex_buffer := ⟨0, 0, ⟨0, 0, 0⟩⟩
  vi_binding := ⟨0, 0, 0⟩
  vi_attribs := []
  indexBuf := 0
  drawElementNum := 0
  drawInstanceNum := 0
  desc_pool := 0
  desc_set := []
  pipelineCache := 0
  pipeline := 0
  drawFence := 0
  presentCompleteSemaphore := 0
  present := ⟨0, 0, MemberPtr.null, MemberPtr.null⟩

/-- A device whose memory types 0 and 1 are both host-visible (flag value 2). -/
def twoHostVisibleTypes : VulkanDevice :=
  { blankDevice with
    memory_properties := ⟨2, fun i => if i.val < 2 then ⟨2, 0⟩ else ⟨0, 0⟩⟩ }

/-- A world with nothing logged, no call made and empty memory objects. -/
def emptySys : Sys := ⟨[], [], fun _ => [], fun _ => []⟩

/-- A stand-in for the library: matrices are combined entry by entry and `rotate` stores
the angle in the first column. It only serves to run the code on concrete inputs. -/
def sampleGlm : Glm where
  radians := fun d => F32.mul d (F32.lit 1 64)
  perspective := fun fov aspect _ _ => mat4.diag (F32.mul fov aspect)
  lookAt := fun eye _ _ => mat4.diag eye.x
  rotate := fun m angle _ => { m with c0 := ⟨angle, angle, m.c0.z, m.c0.w⟩ }
  mul := fun a b =>
    ⟨⟨F32.mul a.c0.x b.c0.x, F32.mul a.c0.y b.c0.y, F32.mul a.c0.z b.c0.z, F32.mul a.c0.w b.c0.w⟩,
     ⟨F32.mul a.c1.x b.c1.x, F32.mul a.c1.y b.c1.y, F32.mul a.c1.z b.c1.z, F32.mul a.c1.w b.c1.w⟩,
     ⟨F32.mul a.c2.x b.c2.x, F32.mul a.c2.y b.c2.y, F32.mul a.c2.z b.c2.z, F32.mul a.c2.w b.c2.w⟩,
     ⟨F32.mul a.c3.x b.c3.x, F32.mul a.c3.y b.c3.y, F32.mul a.c3.z b.c3.z, F32.mul a.c3.w b.c3.w⟩⟩

/-- A driver for which every call succeeds at once: one GPU, one queue family with the
graphics bit that can present, a surface of 800 x 600 with one swapchain image, host-visible
memory of every type. Counts are 1 during setup; from position 70 of the trace on, where
only image acquisition asks for a number, the answer is index 0. -/
def sampleDriver : Driver where
  result := fun _ => VK_SUCCESS
  handle := fun n => n + 1
  count := fun n => if n < 70 then 1 else 0
  list := fun n => [2 * n + 1]
  memoryProperties := fun _ => ⟨1, fun _ => ⟨6, 0⟩⟩
  memoryRequirements := fun _ => ⟨64, 4, 1⟩
  surfaceCapabilities := fun _ => ⟨0, 0, ⟨800, 600⟩, 1, 1⟩
  formatProperties := fun _ => ⟨0, 512, 0⟩
  flag := fun _ => true
  storage := fun _ => blankDevice

/-- A mesh of one triangle. -/
def sampleMesh : Mesh where
  teapotPositions := (List.range 9).map F32.ofNat
  teapotNormals := (List.range 9).map (fun _ => F32.ofNat 1)
  teapotIndices := [0, 1, 2]

/-- A live device of width 800 whose matrices are the identity. -/
def sampleDevice : VulkanDevice :=
  { blankDevice with
    width := 800
    height := 600
    initialized := true
    Projection := mat4.diag (F32.ofNat 1)
    View := mat4.diag (F32.ofNat 1)
    Model := mat4.diag (F32.ofNat 1)
    Clip := mat4.diag (F32.ofNat 1)
    MVP := mat4.diag (F32.ofNat 1)
    uniform_data := ⟨5, 6, ⟨5, 0, 64⟩⟩ }

/-- Globals with the device pointer at `sampleDevice`. -/
def sampleWorld : World := ⟨DevicePtr.object sampleDevice, 1, F32.ofNat 0, F32.ofNat 0, emptySys⟩

/-- Globals before any window was created. -/
def startWorld : World := ⟨DevicePtr.null, 0, F32.ofNat 0, F32.ofNat 0, emptySys⟩

/-- A motion event with the given action at `(x, y)`. -/
def motionEvent (action : Int) (x y : Nat) : AInputEvent :=
  ⟨AINPUT_EVENT_TYPE_MOTION, action, 0, 0, 0, F32.ofNat x, F32.ofNat y⟩

/-! ## `AndroidMain.cpp`: the main loop -/

/-- What one `ALooper_pollAll` of the main loop delivers: nothing to process (a negative
result or a null source), or a source whose `process` hands a command to `onAppCmd`, or
input events to `onInputEvent`. -/
inductive Polled where
  | nothing
  | cmd (c : Int)
  | input (events : List AInputEvent)

/-- What the main loop does, as a ghost record: a poll with the timeout it was given, and a
call of `VulkanDrawFrame`. -/
inductive LoopEvent where
  | poll (timeoutMillis : Int)
  | drawFrame
deriving DecidableEq, Repr

/-- The statement `if (source != NULL) source->process(app, source);` for what was polled:
the glue calls `onAppCmd` with the command, or `onInputEvent` with each input event. -/
def Polled.process (glm : Glm) (drv : Driver) (mesh : Mesh) (fuel : Nat) (app : Nat) :
    Polled → World → Except Fault World
  | Polled.nothing, w => Except.ok w
  | Polled.cmd c, w => handle_cmd glm drv mesh fuel app c w
  | Polled.input events, w => handle_inputs glm drv events w

/-- One pass through the body of the `do ... while` loop of `android_main`. -/
def mainLoopIteration (glm : Glm) (drv : Driver) (mesh : Mesh) (fuel : Nat) (app : Nat)
    (p : Polled) (w : World) (loop : List LoopEvent) : Except Fault (World × List LoopEvent) := do
  let ready ← IsVulkanReady w
  let loop := loop ++ [LoopEvent.poll (if ready then 1 else 0)]
  let w ← p.process glm drv mesh fuel app w
  let ready ← IsVulkanReady w
  if ready then
    let (_, w) := VulkanDrawFrame w
    pure (w, loop ++ [LoopEvent.drawFrame])
  else pure (w, loop)

/-- The main loop of `android_main`: the body runs once for every entry of the list, which
holds what was polled in each pass made until `destroyRequested` is set. -/
def android_main (glm : Glm) (drv : Driver) (mesh : Mesh) (fuel : Nat) (app : Nat) :
    List Polled → World → List LoopEvent → Except Fault (World × List LoopEvent)
  | [], w, loop => Except.ok (w, loop)
  | p :: rest, w, loop => do
    let (w, loop) ← mainLoopIteration glm drv mesh fuel app p w loop
    android_main glm drv mesh fuel app rest w loop

/-! ## Projections of the trace -/

/-- Whether an entry point begins, ends or records into a command buffer. -/
def ApiFn.recordsCommands : ApiFn → Bool
  | ApiFn.vkBeginCommandBuffer => true
  | ApiFn.vkCmdPipelineBarrier => true
  | ApiFn.vkCmdBeginRenderPass => true
  | ApiFn.vkCmdBindPipeline => true
  | ApiFn.vkCmdBindDescriptorSets => true
  | ApiFn.vkCmdBindVertexBuffers => true
  | ApiFn.vkCmdBindIndexBuffer => true
  | ApiFn.vkCmdDrawIndexed => true
  | ApiFn.vkCmdEndRenderPass => true
  | ApiFn.vkEndCommandBuffer => true
  | _ => false

/-- Whether an entry of the trace is a call that begins, ends or records into a command
buffer. -/
def Event.isCommand : Event → Bool
  | Event.api fn _ => fn.recordsCommands
  | _ => false

/-- Whether an entry of the trace is such a call on the command buffer `cmd` (the first
argument of the call). -/
def Event.isCommandOf (cmd : Nat) : Event → Bool
  | Event.api fn (c :: _) => fn.recordsCommands && c == cmd
  | _ => false

/-- The calls of a trace that begin, end or record into the command buffer `cmd`,
in order. -/
def recorded (cmd : Nat) (calls : List Event) : List Event :=
  calls.filter (Event.isCommandOf cmd)

/-- The entry point of an API call of the trace. -/
def Event.fn? : Event → Option ApiFn
  | Event.api fn _ => some fn
  | _ => none

/-- The entry points called, in the order of the calls. -/
def apiNames (calls : List Event) : List ApiFn := calls.filterMap Event.fn?

/-- What one pass of the recording loop of `preDraw` adds to the trace, for the image
index `i`: the clear values, then the nine calls on `cmdBuffer[i]`. -/
def recordedEvents (self : VulkanDevice) (i : Nat) : List Event :=
  [Event.floats [F32.lit 2 10, F32.lit 2 10, F32.lit 2 10, F32.lit 2 10, F32.ofNat 1],
   Event.api ApiFn.vkCmdBeginRenderPass
     [self.cmdBuffer.getD i 0, self.render_pass, self.framebuffers.getD i 0, 0, 0,
      self.width, self.height, 2],
   Event.api ApiFn.vkCmdBindPipeline [self.cmdBuffer.getD i 0, self.pipeline],
   Event.api ApiFn.vkCmdBindDescriptorSets
     ([self.cmdBuffer.getD i 0, self.pipelineLayout, 0, NUM_DESCRIPTOR_SETS] ++ self.desc_set),
   Event.api ApiFn.vkCmdBindVertexBuffers
     [self.cmdBuffer.getD i 0, 0, 1, self.vertex_buffer.buf, 0],
   Event.api ApiFn.vkCmdBindIndexBuffer
     [self.cmdBuffer.getD i 0, self.indexBuf, 0, VK_INDEX_TYPE_UINT16],
   Event.api ApiFn.vkCmdDrawIndexed
     [self.cmdBuffer.getD i 0, self.drawElementNum % 2 ^ 32, self.drawInstanceNum % 2 ^ 32,
      0, 0, 0],
   Event.api ApiFn.vkCmdEndRenderPass [self.cmdBuffer.getD i 0],
   Event.api ApiFn.vkCmdPipelineBarrier
     [self.cmdBuffer.getD i 0, (self.buffers.getD i ⟨0, 0⟩).image, VK_IMAGE_ASPECT_COLOR_BIT,
      VK_IMAGE_LAYOUT_COLOR_ATTACHMENT_OPTIMAL, VK_IMAGE_LAYOUT_PRESENT_SRC_KHR,
      VK_ACCESS_COLOR_ATTACHMENT_WRITE_BIT, VK_ACCESS_MEMORY_READ_BIT],
   Event.api ApiFn.vkEndCommandBuffer [self.cmdBuffer.getD i 0]]

/-- The call `vkWaitForFences(device_, 1, &drawFence, VK_TRUE, FENCE_TIMEOUT)` as the trace
holds it. -/
def fenceWait (self : VulkanDevice) : Event :=
  Event.api ApiFn.vkWaitForFences [self.device_, self.drawFence, 1, FENCE_TIMEOUT]

/-- The lines `draw %d` that `k` passes of the wait loop of `preDraw` log when the first
of its calls has the position `p` in the trace. -/
def fenceWaitLog (drv : Driver) (p : Nat) : Nat → List LogEntry
  | 0 => []
  | k + 1 => ⟨kTAG, "draw %d", [LogArg.int (drv.result p)]⟩ :: fenceWaitLog drv (p + 1) k

/-- The sample driver, except that the call at position 3 of the trace answers
`VK_ERROR_DEVICE_LOST`. -/
def lostFenceDriver : Driver :=
  { sampleDriver with result := fun n => if n = 3 then -4 else VK_SUCCESS }

/-- The sample driver, except that the call at position 3 of the trace answers
`VK_TIMEOUT`. -/
def timeoutFenceDriver : Driver :=
  { sampleDriver with result := fun n => if n = 3 then VK_TIMEOUT else VK_SUCCESS }

/-- The sample driver on a GPU that supports the depth format `VK_FORMAT_D24_UNORM_S8_UINT`
for neither tiling. -/
def noDepthFormatDriver : Driver :=
  { sampleDriver with formatProperties := fun _ => ⟨0, 0, 0⟩ }

/-- The sample driver, except that the first call of the trace, the first
`vkEnumerateInstanceLayerProperties`, answers `VK_ERROR_INITIALIZATION_FAILED`. -/
def layerQueryFailsDriver : Driver :=
  { sampleDriver with result := fun n => if n = 0 then -3 else VK_SUCCESS }

/-- The sample driver, except that `vkGetInstanceProcAddr` (position 11 of the trace of
`init`) finds no `vkCreateAndroidSurfaceKHR`. -/
def noSurfaceEntryPointDriver : Driver :=
  { sampleDriver with handle := fun n => if n = 11 then 0 else n + 1 }

/-- The object at the start of the body of the constructor, for the examples. -/
def freshDevice : VulkanDevice := { blankDevice with androidAppCtx := 1 }

/-- The entry points that the statements about sizes, image counts and command buffers
speak of: the surface-capabilities query, swapchain creation and the image query, the
creation of images, image views, framebuffers and of the pipeline, and every call that
begins, ends or records into a command buffer. -/
def ApiFn.tracked : ApiFn → Bool
  | ApiFn.vkGetPhysicalDeviceSurfaceCapabilitiesKHR => true
  | ApiFn.vkCreateSwapchainKHR => true
  | ApiFn.vkGetSwapchainImagesKHR => true
  | ApiFn.vkCreateImage => true
  | ApiFn.vkCreateImageView => true
  | ApiFn.vkCreateFramebuffer => true
  | ApiFn.vkCreateGraphicsPipelines => true
  | fn => fn.recordsCommands

/-- Whether an entry of the trace is a call of a tracked entry point, or the float members
given to one. -/
def Event.tracked : Event → Bool
  | Event.api fn _ => fn.tracked
  | Event.floats _ => true
  | _ => false

/-- The handle `handle` was returned by a call `fn(args)` of the trace: the driver's
answer at the position of such a call. -/
def Created (drv : Driver) (calls : List Event) (fn : ApiFn) (args : List Nat)
    (handle : Nat) : Prop :=
  ∃ q, calls[q]? = some (Event.api fn args) ∧ handle = drv.handle q

/-- What one pass of the loop of `initSwapChainImages` adds to the trace for the image
index `i`: the layout transition of the image recorded into `cmdBuffer[i]`, and the creation
of its view. -/
def imageViewEvents (self : VulkanDevice) (swapchainImages : List Nat) (i : Nat) : List Event :=
  [Event.api ApiFn.vkCmdPipelineBarrier
     [self.cmdBuffer.getD i 0, swapchainImages.getD i 0, VK_IMAGE_ASPECT_COLOR_BIT,
      VK_IMAGE_LAYOUT_UNDEFINED, VK_IMAGE_LAYOUT_COLOR_ATTACHMENT_OPTIMAL,
      (imageBarrierMasks VK_IMAGE_LAYOUT_UNDEFINED VK_IMAGE_LAYOUT_COLOR_ATTACHMENT_OPTIMAL).1,
      (imageBarrierMasks VK_IMAGE_LAYOUT_UNDEFINED VK_IMAGE_LAYOUT_COLOR_ATTACHMENT_OPTIMAL).2],
   Event.api ApiFn.vkCreateImageView
     [self.device_, swapchainImages.getD i 0, self.format, VK_IMAGE_ASPECT_COLOR_BIT]]

/-- What one pass of the loop of `init_depth_buffer` adds to the trace for the image index
`i`: the layout transition of the depth image recorded into `cmdBuffer[i]`. -/
def depthLayoutEvent (self : VulkanDevice) (aspectMask : Nat) (i : Nat) : Event :=
  Event.api ApiFn.vkCmdPipelineBarrier
    [self.cmdBuffer.getD i 0, self.depth.image, aspectMask, VK_IMAGE_LAYOUT_UNDEFINED,
     VK_IMAGE_LAYOUT_DEPTH_STENCIL_ATTACHMENT_OPTIMAL,
     (imageBarrierMasks VK_IMAGE_LAYOUT_UNDEFINED
       VK_IMAGE_LAYOUT_DEPTH_STENCIL_ATTACHMENT_OPTIMAL).1,
     (imageBarrierMasks VK_IMAGE_LAYOUT_UNDEFINED
       VK_IMAGE_LAYOUT_DEPTH_STENCIL_ATTACHMENT_OPTIMAL).2]

/-- The arguments of the `vkCreateFramebuffer` call of `init_framebuffers` for the image
index `i`: the colour attachment is the view of `buffers[i]`, the second attachment the
depth view. -/
def framebufferArgs (self : VulkanDevice) (include_depth : Bool) (i : Nat) : List Nat :=
  [self.device_, self.render_pass, if include_depth then 2 else 1,
   (self.buffers.getD i ⟨0, 0⟩).view, self.depth.view, self.width, self.height, 1]

/-- The members that a call of the body of `init` may write: the object `self` with those
members taken from `self'`. -/
def InitStep.frame : InitStep → VulkanDevice → VulkanDevice → VulkanDevice
  | InitStep.init_global_layer_properties, self, self' =>
    { self with instance_layer_properties := self'.instance_layer_properties }
  | InitStep.init_instance_extension_names, self, self' =>
    { self with instance_extension_names := self'.instance_extension_names }
  | InitStep.init_device_extension_names, self, self' =>
    { self with device_extension_names := self'.device_extension_names }
  | InitStep.init_instance, self, self' => { self with instance_ := self'.instance_ }
  | InitStep.init_enumerate_device, self, self' =>
    { self with gpus := self'.gpus, queue_count := self'.queue_count,
                queue_props := self'.queue_props,
                memory_properties := self'.memory_properties, gpu_props := self'.gpu_props }
  | InitStep.init_swapchain_extension, self, self' =>
    { self with fpCreateAndroidSurfaceKHR := self'.fpCreateAndroidSurfaceKHR,
                surface_ := self'.surface_,
                graphics_queue_family_index := self'.graphics_queue_family_index,
                format := self'.format }
  | InitStep.init_device, self, self' => { self with device_ := self'.device_ }
  | InitStep.init_swap_chain, self, self' =>
    { self with width := self'.width, height := self'.height, swap_chain := self'.swap_chain,
                swapchainImageCount := self'.swapchainImageCount }
  | InitStep.init_command_pool, self, self' => { self with cmd_pool := self'.cmd_pool }
  | InitStep.init_command_buffer, self, self' => { self with cmdBuffer := self'.cmdBuffer }
  | InitStep.execute_begin_command_buffer, self, _ => self
  | InitStep.init_device_queue, self, self' => { self with queue_ := self'.queue_ }
  | InitStep.initSwapChainImages, self, self' =>
    { self with swapchainImageCount := self'.swapchainImageCount, buffers := self'.buffers,
                current_buffer := self'.current_buffer }
  | InitStep.init_depth_buffer, self, self' => { self with depth := self'.depth }
  | InitStep.init_uniform_buffer, self, self' =>
    { self with Projection := self'.Projection, View := self'.View, Model := self'.Model,
                Clip := self'.Clip, MVP := self'.MVP, uniform_data := self'.uniform_data }
  | InitStep.init_descriptor_and_pipeline_layouts, self, self' =>
    { self with desc_layout := self'.desc_layout, pipelineLayout := self'.pipelineLayout }
  | InitStep.init_renderpass, self, self' => { self with render_pass := self'.render_pass }
  | InitStep.init_shaders, self, self' =>
    { self with vertexShader := self'.vertexShader, fragmentShader := self'.fragmentShader }
  | InitStep.init_framebuffers, self, self' => { self with framebuffers := self'.framebuffers }
  | InitStep.initVertexBufferWithNormal, self, self' =>
    { self with vertex_buffer := self'.vertex_buffer, vi_binding := self'.vi_binding,
                vi_attribs := self'.vi_attribs }
  | InitStep.initIndexForVertex, self, self' =>
    { self with indexBuf := self'.indexBuf, drawElementNum := self'.drawElementNum,
                drawInstanceNum := self'.drawInstanceNum }
  | InitStep.init_descriptor_pool, self, self' => { self with desc_pool := self'.desc_pool }
  | InitStep.init_descriptor_set, self, self' => { self with desc_set := self'.desc_set }
  | InitStep.init_pipeline_cache, self, self' =>
    { self with pipelineCache := self'.pipelineCache }
  | InitStep.init_pipeline, self, self' => { self with pipeline := self'.pipeline }
  | InitStep.preDraw, self, self' =>
    { self with presentCompleteSemaphore := self'.presentCompleteSemaphore,
                current_buffer := self'.current_buffer, drawFence := self'.drawFence,
                present := self'.present }

/-- The calls of the body of `init` that call no tracked entry point. -/
def InitStep.plain : InitStep → Bool
  | InitStep.init_swap_chain => false
  | InitStep.execute_begin_command_buffer => false
  | InitStep.initSwapChainImages => false
  | InitStep.init_depth_buffer => false
  | InitStep.init_framebuffers => false
  | InitStep.init_pipeline => false
  | InitStep.preDraw => false
  | _ => true

/-- The tracked calls of a whole `init`, written with the members of the object that it
leaves: the three tracked calls of `init_swap_chain`, the begin of the `count` command
buffers, the image query and one layout transition and view per image, the calls for the
depth buffer, one framebuffer per image, the viewport and the pipeline, and the recording
of one command buffer per image. -/
def setupTrace (d : VulkanDevice) (count : Nat) (images : List Nat)
    (swapchainArgs : List Nat) (depthEvents : List Event) (pipelineArgs : List Nat) :
    List Event :=
  [Event.api ApiFn.vkGetPhysicalDeviceSurfaceCapabilitiesKHR [d.gpus.getD 0 0, d.surface_],
   Event.api ApiFn.vkCreateSwapchainKHR swapchainArgs,
   Event.api ApiFn.vkGetSwapchainImagesKHR [d.device_, d.swap_chain, 0]] ++
  (List.range count).map
    (fun i => Event.api ApiFn.vkBeginCommandBuffer [d.cmdBuffer.getD i 0]) ++
  [Event.api ApiFn.vkGetSwapchainImagesKHR [d.device_, d.swap_chain, count]] ++
  (List.range d.swapchainImageCount).flatMap (imageViewEvents d images) ++
  depthEvents ++
  (List.range d.swapchainImageCount).map
    (fun i => Event.api ApiFn.vkCreateFramebuffer (framebufferArgs d true i)) ++
  [Event.floats [F32.ofNat 0, F32.ofNat 0, F32.ofNat d.width, F32.ofNat d.height,
     F32.ofNat 0, F32.ofNat 1],
   Event.api ApiFn.vkCreateGraphicsPipelines pipelineArgs] ++
  (List.range d.swapchainImageCount).flatMap (recordedEvents d)

/-- The extent that a call is given, for the calls that take one: `imageExtent` of
`vkCreateSwapchainKHR`, the width and height of the `extent` of `vkCreateImage`, `width`
and `height` of `vkCreateFramebuffer`, `renderArea.extent` of `vkCmdBeginRenderPass` and
the extent of the scissor of `vkCreateGraphicsPipelines`. -/
def Event.extent? : Event → Option (Nat × Nat)
  | Event.api ApiFn.vkCreateSwapchainKHR args => some (args.getD 4 0, args.getD 5 0)
  | Event.api ApiFn.vkCreateImage args => some (args.getD 2 0, args.getD 3 0)
  | Event.api ApiFn.vkCreateFramebuffer args => some (args.getD 5 0, args.getD 6 0)
  | Event.api ApiFn.vkCmdBeginRenderPass args => some (args.getD 5 0, args.getD 6 0)
  | Event.api ApiFn.vkCreateGraphicsPipelines args => some (args.getD 11 0, args.getD 12 0)
  | _ => none

/-- The viewport `x, y, width, height, minDepth, maxDepth` of `init_pipeline`. -/
def viewportOf (self : VulkanDevice) : List F32 :=
  [F32.ofNat 0, F32.ofNat 0, F32.ofNat self.width, F32.ofNat self.height, F32.ofNat 0,
   F32.ofNat 1]

/-- The clear values of `preDraw`: the colour `0.2, 0.2, 0.2, 0.2` and the depth `1.0`. -/
def clearValues : List F32 :=
  [F32.lit 2 10, F32.lit 2 10, F32.lit 2 10, F32.lit 2 10, F32.ofNat 1]

/-- The sample driver on a surface that reports the extent `0xFFFFFFFF x 0xFFFFFFFF`, the
value by which a surface says that its size follows the swapchain. -/
def undefinedExtentDriver : Driver :=
  { sampleDriver with
    surfaceCapabilities := fun _ => ⟨0, 0, ⟨4294967295, 4294967295⟩, 1, 1⟩ }

/-- The sample driver with a swapchain of two images: both image queries (positions 21
and 27 of the trace of `init`) answer 2, and every array the driver fills gets two
distinct entries. -/
def twoImageDriver : Driver :=
  { sampleDriver with
    count := fun n => if n = 21 ∨ n = 27 then 2 else if n < 70 then 1 else 0
    list := fun n => [2 * n + 1, 2 * n + 2] }

/-- Whether a run ended in undefined behaviour. -/
def endsUndefined {α : Type} : Except Fault α → Bool
  | Except.error Fault.undefinedBehaviour => true
  | _ => false

/-- The present modes that the loop of `init_swap_chain` visits when the call starts at
the position `p` of the trace: `presentModes[0 .. presentModeCount)`, the array having the
size the first query answered (position `p + 1`) and the contents and count that the second
query answered (position `p + 2`). -/
def presentModesSeen (drv : Driver) (p : Nat) : List Nat :=
  (List.range (drv.count (p + 2))).map
    (fun i => (fill (List.replicate (drv.count (p + 1)) 0) (drv.list (p + 2))).getD i 0)

/-- The number `desiredNumberOfSwapChainImages` of `init_swap_chain` for the capabilities
`caps`: `minImageCount + 1` in `uint32_t`, capped by a positive `maxImageCount`. -/
def desiredImageCount (caps : VkSurfaceCapabilitiesKHR) : Nat :=
  if 0 < caps.maxImageCount ∧ caps.maxImageCount < (caps.minImageCount + 1) % 2 ^ 32 then
    caps.maxImageCount
  else (caps.minImageCount + 1) % 2 ^ 32

/-- The sample driver on a surface with the present modes FIFO, IMMEDIATE and MAILBOX, in
this order, and `minImageCount = 2`, `maxImageCount = 2`. -/
def mailboxDriver : Driver :=
  { sampleDriver with
    count := fun _ => 3
    list := fun _ => [VK_PRESENT_MODE_FIFO_KHR, VK_PRESENT_MODE_IMMEDIATE_KHR,
      VK_PRESENT_MODE_MAILBOX_KHR]
    surfaceCapabilities := fun _ => ⟨2, 2, ⟨800, 600⟩, 1, 1⟩ }

/-- Queue family `i` has the graphics bit and can present: the test of the search loop of
`init_swapchain_extension`, `supportsPresent[i]` being `VK_TRUE`. -/
def GraphicsAndPresent (queue_props supportsPresent : List Nat) (i : Nat) : Prop :=
  (queue_props.getD i 0 &&& VK_QUEUE_GRAPHICS_BIT) ≠ 0 ∧ supportsPresent.getD i 0 = 1

/-- What `vkGetPhysicalDeviceSurfaceSupportKHR` answers for the queue families
`0 .. queue_count - 1` when `init_swapchain_extension` is entered at the position `p` of
the trace: the queries are its calls number 2, 3, ... -/
def presentSupport (drv : Driver) (p queue_count : Nat) : List Nat :=
  (List.range queue_count).map (fun k => drv.count (p + 2 + k))

/-- The array `surfFormats` of `init_swapchain_extension` entered at the position `p` with
`queue_count` queue families: the size that the first format query answered, the contents
that the second one wrote. -/
def surfaceFormats (drv : Driver) (p queue_count : Nat) : List Nat :=
  fill (List.replicate (drv.count (p + 2 + queue_count)) 0) (drv.list (p + 3 + queue_count))

/-- An object with two queue families, of which only the second has the graphics bit. -/
def twoQueueDevice : VulkanDevice :=
  { freshDevice with queue_count := 2, queue_props := [0, VK_QUEUE_GRAPHICS_BIT] }

/-- Storage whose member `depth.format` holds `VK_FORMAT_D32_SFLOAT_S8_UINT` when the
constructor is entered. -/
def customDepthDevice : VulkanDevice :=
  { blankDevice with
    depth := { blankDevice.depth with format := VK_FORMAT_D32_SFLOAT_S8_UINT } }

/-- The sample driver, except that the surface lists the single format
`VK_FORMAT_UNDEFINED`: the second format query of the constructor is call number 15. -/
def undefinedFormatDriver : Driver :=
  { sampleDriver with list := fun n => if n = 15 then [VK_FORMAT_UNDEFINED] else [2 * n + 1] }

/-- A device with one memory type, host-visible and host-coherent, one swapchain image and
the command buffer 7 for it. -/
def oneImageDevice : VulkanDevice :=
  { blankDevice with
    memory_properties := ⟨1, fun _ => ⟨6, 0⟩⟩
    swapchainImageCount := 1
    cmdBuffer := [7] }

/-- The device `oneImageDevice` once a buffer of three indices was set up: the index buffer
has the handle 1, and there are three elements, one triangle. -/
def indexedDevice : VulkanDevice :=
  { oneImageDevice with indexBuf := 1, drawElementNum := 3, drawInstanceNum := 1 }

/-! # Theorems -/

/-! ## Memory-type selection (C1) -/

theorem and_one_eq_one_iff_testBit (t k : Nat) :
    ((t >>> k) &&& 1 = 1) ↔ t.testBit k = true := by
  rw [Nat.testBit, Nat.and_comm]
  simp [bne_iff_ne]

theorem memoryTypeLoop_spec (memoryTypes : Fin 32 → VkMemoryType) (mask typeBits : Nat) :
    ∀ (fuel i : Nat), i + fuel = 32 →
      match memoryTypeLoop memoryTypes mask fuel i (typeBits >>> i) with
      | some k => ∃ h : k < 32, i ≤ k ∧ Qualifies memoryTypes typeBits mask ⟨k, h⟩ ∧
          ∀ j : Fin 32, i ≤ j.val → j.val < k → ¬ Qualifies memoryTypes typeBits mask j
      | none => ∀ j : Fin 32, i ≤ j.val → ¬ Qualifies memoryTypes typeBits mask j := by
  intro fuel
  induction fuel with
  | zero =>
    intro i hi
    simp only [memoryTypeLoop]
    intro j hj
    have := j.isLt
    omega
  | succ fuel ih =>
    intro i hi
    have hlt : i < 32 := by omega
    have hnext := ih (i + 1) (by omega)
    have hshift : (typeBits >>> i) >>> 1 = typeBits >>> (i + 1) := by
      rw [← Nat.shiftRight_add]
    simp only [memoryTypeLoop, hlt, dite_true, hshift]
    have hstep : ∀ j : Fin 32, i ≤ j.val → ¬ Qualifies memoryTypes typeBits mask ⟨i, hlt⟩ →
        (i + 1 ≤ j.val → ¬ Qualifies memoryTypes typeBits mask j) →
        ¬ Qualifies memoryTypes typeBits mask j := by
      intro j hj hi' hrest
      by_cases hji : j.val = i
      · have : j = ⟨i, hlt⟩ := Fin.ext hji
        rw [this]; exact hi'
      · exact hrest (by omega)
    by_cases hbit : (typeBits >>> i) &&& 1 = 1
    · by_cases hflag : (memoryTypes ⟨i, hlt⟩).propertyFlags &&& mask = mask
      · simp only [hbit, hflag, if_true]
        refine ⟨hlt, le_refl _, ⟨(and_one_eq_one_iff_testBit _ _).1 hbit, hflag⟩, ?_⟩
        intro j h1 h2
        omega
      · simp only [hbit, hflag, if_true, if_false]
        have hnq : ¬ Qualifies memoryTypes typeBits mask ⟨i, hlt⟩ := fun h => hflag h.2
        revert hnext
        cases memoryTypeLoop memoryTypes mask fuel (i + 1) (typeBits >>> (i + 1)) with
        | none =>
          intro hnext j hj
          exact hstep j hj hnq (hnext j)
        | some k =>
          rintro ⟨hk, hik, hq, hmin⟩
          refine ⟨hk, by omega, hq, ?_⟩
          intro j h1 h2
          exact hstep j h1 hnq (fun h => hmin j h h2)
    · simp only [hbit, if_false]
      have hnq : ¬ Qualifies memoryTypes typeBits mask ⟨i, hlt⟩ :=
        fun h => hbit ((and_one_eq_one_iff_testBit _ _).2 h.1)
      revert hnext
      cases memoryTypeLoop memoryTypes mask fuel (i + 1) (typeBits >>> (i + 1)) with
      | none =>
        intro hnext j hj
        exact hstep j hj hnq (hnext j)
      | some k =>
        rintro ⟨hk, hik, hq, hmin⟩
        refine ⟨hk, by omega, hq, ?_⟩
        intro j h1 h2
        exact hstep j h1 hnq (fun h => hmin j h h2)

theorem memoryTypeLoop_32 (memoryTypes : Fin 32 → VkMemoryType) (mask typeBits : Nat) :
    (∃ i : Fin 32, memoryTypeLoop memoryTypes mask 32 0 typeBits = some i.val ∧
        Qualifies memoryTypes typeBits mask i ∧
        ∀ j : Fin 32, j < i → ¬ Qualifies memoryTypes typeBits mask j) ∨
    (memoryTypeLoop memoryTypes mask 32 0 typeBits = none ∧
        ∀ i : Fin 32, ¬ Qualifies memoryTypes typeBits mask i) := by
  have h := memoryTypeLoop_spec memoryTypes mask typeBits 32 0 rfl
  rw [Nat.shiftRight_zero] at h
  revert h
  cases memoryTypeLoop memoryTypes mask 32 0 typeBits with
  | none =>
    intro h
    exact Or.inr ⟨rfl, fun i => h i (Nat.zero_le _)⟩
  | some k =>
    rintro ⟨hk, -, hq, hmin⟩
    exact Or.inl ⟨⟨k, hk⟩, rfl, hq, fun j hj => hmin j (Nat.zero_le _) hj⟩

/-- C1, as the code has it: for every table of 32 memory types, every `typeBits`, mask and
prior `*typeIndex`, `memory_type_from_properties` (and likewise `MapMemoryTypeToIndex`, on
the table the driver reports) either returns `true` with `*typeIndex` the lowest index
that is allowed by `typeBits` and whose flags are a superset of the mask, or returns
`false`, with `*typeIndex` as before, when no index is both allowed and a superset. -/
theorem memory_type_selection_lowest_allowed (drv : Driver) (self : VulkanDevice) (sys : Sys)
    (typeBits mask typeIndex : Nat) :
    ((∃ i : Fin 32,
        self.memory_type_from_properties typeBits mask typeIndex = (true, i.val) ∧
        Qualifies self.memory_properties.memoryTypes typeBits mask i ∧
        ∀ j : Fin 32, j < i → ¬ Qualifies self.memory_properties.memoryTypes typeBits mask j) ∨
      (self.memory_type_from_properties typeBits mask typeIndex = (false, typeIndex) ∧
        ∀ i : Fin 32, ¬ Qualifies self.memory_properties.memoryTypes typeBits mask i)) ∧
    ((∃ i : Fin 32,
        (self.MapMemoryTypeToIndex drv sys typeBits mask typeIndex).1 = (true, i.val) ∧
        Qualifies (drv.memoryProperties sys.calls.length).memoryTypes typeBits mask i ∧
        ∀ j : Fin 32, j < i →
          ¬ Qualifies (drv.memoryProperties sys.calls.length).memoryTypes typeBits mask j) ∨
      ((self.MapMemoryTypeToIndex drv sys typeBits mask typeIndex).1 = (false, typeIndex) ∧
        ∀ i : Fin 32,
          ¬ Qualifies (drv.memoryProperties sys.calls.length).memoryTypes typeBits mask i)) := by
  constructor
  · rcases memoryTypeLoop_32 self.memory_properties.memoryTypes mask typeBits with
      ⟨i, h, hq, hmin⟩ | ⟨h, hno⟩
    · exact Or.inl ⟨i, by simp [VulkanDevice.memory_type_from_properties, h], hq, hmin⟩
    · exact Or.inr ⟨by simp [VulkanDevice.memory_type_from_properties, h], hno⟩
  · rcases memoryTypeLoop_32 (drv.memoryProperties sys.calls.length).memoryTypes mask typeBits with
      ⟨i, h, hq, hmin⟩ | ⟨h, hno⟩
    · exact Or.inl ⟨i, by simp [VulkanDevice.MapMemoryTypeToIndex, Sys.call, h], hq, hmin⟩
    · exact Or.inr ⟨by simp [VulkanDevice.MapMemoryTypeToIndex, Sys.call, h], hno⟩

/-- C1 as stated fails. On a table whose types 0 and 1 both have flags 2, with mask 2:
the lowest index whose flags are a superset of the mask is 0, yet with `typeBits = 2` (only
type 1 allowed) the function returns `true` with index 1, and with `typeBits = 0` it returns
`false` and leaves `*typeIndex` (here 7) alone. `MapMemoryTypeToIndex` does the same on
the table the driver reports. -/
theorem memory_type_selection_ignores_typeBits_counterexample :
    (twoHostVisibleTypes.memory_properties.memoryTypes 0).propertyFlags &&& 2 = 2 ∧
    twoHostVisibleTypes.memory_type_from_properties 2 2 7 = (true, 1) ∧
    twoHostVisibleTypes.memory_type_from_properties 0 2 7 = (false, 7) ∧
    ((sampleDriver.memoryProperties 0).memoryTypes 0).propertyFlags &&& 2 = 2 ∧
    (blankDevice.MapMemoryTypeToIndex sampleDriver emptySys 2 2 7).1 = (true, 1) ∧
    (blankDevice.MapMemoryTypeToIndex sampleDriver emptySys 0 2 7).1 = (false, 7) := by
  decide


/-! ## The angle of a drag (C2) -/

theorem updateMVP_ok {glm : Glm} {drv : Driver} {self self' : VulkanDevice} {sys sys' : Sys}
    (h : self.updateMVP glm drv sys = Except.ok (self', sys')) :
    drv.result sys.calls.length = VK_SUCCESS ∧
    self' = { self with
      MVP := glm.mul (glm.mul (glm.mul self.Clip self.Projection) self.View) self.Model } ∧
    sys' = (((sys.call ApiFn.vkMapMemory [self.device_, self.uniform_data.mem, 0, 64]).2.memcpy
        self.uniform_data.mem
        (glm.mul (glm.mul (glm.mul self.Clip self.Projection) self.View) self.Model).toList).call
      ApiFn.vkUnmapMemory [self.device_, self.uniform_data.mem]).2 := by
  unfold VulkanDevice.updateMVP at h
  simp only [bind, Except.bind, pure, Except.pure, assert, Sys.call] at h
  split at h
  · cases h
  · rename_i heq
    split at heq
    · rename_i hc
      cases h
      refine ⟨?_, rfl, rfl⟩
      simpa using hc
    · cases heq

/-! ## Accuracy of binary32 rounding -/

theorem F32.bitsAux_zero (fuel acc : Nat) : F32.bitsAux fuel 0 acc = acc := by
  cases fuel <;> simp [F32.bitsAux]

theorem F32.bitsAux_spec : ∀ (fuel n acc : Nat), n ≤ fuel → 0 < n →
    acc < F32.bitsAux fuel n acc ∧
    2 ^ (F32.bitsAux fuel n acc - acc - 1) ≤ n ∧
    n < 2 ^ (F32.bitsAux fuel n acc - acc) := by
  intro fuel
  induction fuel with
  | zero => intro n acc h1 h2; omega
  | succ fuel ih =>
    intro n acc hle hpos
    have hne : n ≠ 0 := by omega
    simp only [F32.bitsAux, hne, if_false]
    by_cases h2 : n / 2 = 0
    · have hn1 : n = 1 := by omega
      rw [h2, F32.bitsAux_zero]
      subst hn1
      simp
    · have hpos2 : 0 < n / 2 := Nat.pos_of_ne_zero h2
      have hle2 : n / 2 ≤ fuel := by omega
      obtain ⟨h3, h4, h5⟩ := ih (n / 2) (acc + 1) hle2 hpos2
      set b := F32.bitsAux fuel (n / 2) (acc + 1) with hb
      refine ⟨by omega, ?_, ?_⟩
      · have e1 : b - acc - 1 = (b - (acc + 1) - 1) + 1 := by omega
        rw [e1, pow_succ]
        omega
      · have e1 : b - acc = (b - (acc + 1)) + 1 := by omega
        rw [e1, pow_succ]
        omega

theorem F32.bits_spec (n : Nat) (h : 0 < n) :
    0 < F32.bits n ∧ 2 ^ (F32.bits n - 1) ≤ n ∧ n < 2 ^ F32.bits n := by
  have := F32.bitsAux_spec n n 0 (le_refl _) h
  simpa [F32.bits] using this

theorem F32.floorLog2Ratio_spec (n d : Nat) (hn : 0 < n) (hd : 0 < d) :
    (2 : ℚ) ^ (F32.floorLog2Ratio n d) ≤ (n : ℚ) / d ∧
    (n : ℚ) / d < (2 : ℚ) ^ (F32.floorLog2Ratio n d + 1) := by
  obtain ⟨ha0, ha1, ha2⟩ := F32.bits_spec n hn
  obtain ⟨hb0, hb1, hb2⟩ := F32.bits_spec d hd
  have hdq : (0 : ℚ) < d := by exact_mod_cast hd
  have hnq : (0 : ℚ) < n := by exact_mod_cast hn
  have h2 : (0 : ℚ) < 2 := by norm_num
  -- the rational forms of the bit-length bounds
  have ha1q : (2 : ℚ) ^ ((F32.bits n : Int) - 1) ≤ n := by
    have : ((2 ^ (F32.bits n - 1) : Nat) : ℚ) ≤ n := by exact_mod_cast ha1
    have e : ((F32.bits n : Int) - 1) = ((F32.bits n - 1 : Nat) : Int) := by omega
    rw [e, zpow_natCast]
    simpa using this
  have ha2q : (n : ℚ) < (2 : ℚ) ^ (F32.bits n : Int) := by
    have : (n : ℚ) < ((2 ^ F32.bits n : Nat) : ℚ) := by exact_mod_cast ha2
    rw [zpow_natCast]
    simpa using this
  have hb1q : (2 : ℚ) ^ ((F32.bits d : Int) - 1) ≤ d := by
    have : ((2 ^ (F32.bits d - 1) : Nat) : ℚ) ≤ d := by exact_mod_cast hb1
    have e : ((F32.bits d : Int) - 1) = ((F32.bits d - 1 : Nat) : Int) := by omega
    rw [e, zpow_natCast]
    simpa using this
  have hb2q : (d : ℚ) < (2 : ℚ) ^ (F32.bits d : Int) := by
    have : (d : ℚ) < ((2 ^ F32.bits d : Nat) : ℚ) := by exact_mod_cast hb2
    rw [zpow_natCast]
    simpa using this
  set a : Int := (F32.bits n : Int) with ha
  set b : Int := (F32.bits d : Int) with hb
  -- n / d lies strictly between 2^(a-b-1) and 2^(a-b+1)
  have hlow : (2 : ℚ) ^ (a - b - 1) < (n : ℚ) / d := by
    rw [lt_div_iff hdq]
    calc (2 : ℚ) ^ (a - b - 1) * d < (2 : ℚ) ^ (a - b - 1) * (2 : ℚ) ^ b :=
          mul_lt_mul_of_pos_left hb2q (zpow_pos h2 _)
      _ = (2 : ℚ) ^ (a - 1) := by rw [← zpow_add₀ (by norm_num : (2 : ℚ) ≠ 0)]; congr 1; ring
      _ ≤ n := ha1q
  have hhigh : (n : ℚ) / d < (2 : ℚ) ^ (a - b + 1) := by
    rw [div_lt_iff hdq]
    calc (n : ℚ) < (2 : ℚ) ^ a := ha2q
      _ = (2 : ℚ) ^ (a - b + 1) * (2 : ℚ) ^ (b - 1) := by
          rw [← zpow_add₀ (by norm_num : (2 : ℚ) ≠ 0)]; congr 1; ring
      _ ≤ (2 : ℚ) ^ (a - b + 1) * d := mul_le_mul_of_nonneg_left hb1q (zpow_pos h2 _).le
  unfold F32.floorLog2Ratio
  simp only
  rw [← ha, ← hb]
  by_cases hl : 0 ≤ a - b
  · simp only [hl, if_true]
    have hpow : ((2 ^ (a - b).toNat : Nat) : ℚ) = (2 : ℚ) ^ (a - b) := by
      have : ((a - b).toNat : Int) = a - b := Int.toNat_of_nonneg hl
      rw [← this, zpow_natCast]
      push_cast
      rw [this]
    by_cases ht : d * 2 ^ (a - b).toNat ≤ n
    · simp only [ht, if_true]
      refine ⟨?_, hhigh⟩
      rw [le_div_iff hdq]
      have : ((d * 2 ^ (a - b).toNat : Nat) : ℚ) ≤ n := by exact_mod_cast ht
      rw [Nat.cast_mul, hpow] at this
      linarith
    · simp only [ht, if_false]
      have e : a - b - 1 + 1 = a - b := by ring
      rw [e]
      refine ⟨hlow.le, ?_⟩
      rw [div_lt_iff hdq]
      have : (n : ℚ) < ((d * 2 ^ (a - b).toNat : Nat) : ℚ) := by exact_mod_cast (not_le.mp ht)
      rw [Nat.cast_mul, hpow] at this
      linarith
  · simp only [hl, if_false]
    have hneg : 0 ≤ -(a - b) := by omega
    have hpow : ((2 ^ (-(a - b)).toNat : Nat) : ℚ) = (2 : ℚ) ^ (-(a - b)) := by
      have : ((-(a - b)).toNat : Int) = -(a - b) := Int.toNat_of_nonneg hneg
      rw [← this, zpow_natCast]
      push_cast
      rw [this]
    have hinv : (2 : ℚ) ^ (a - b) * (2 : ℚ) ^ (-(a - b)) = 1 := by
      rw [← zpow_add₀ (by norm_num : (2 : ℚ) ≠ 0)]; simp
    have hp1 : (0 : ℚ) < (2 : ℚ) ^ (-(a - b)) := zpow_pos h2 _
    have hp2 : (0 : ℚ) < (2 : ℚ) ^ (a - b) := zpow_pos h2 _
    by_cases ht : d ≤ n * 2 ^ (-(a - b)).toNat
    · simp only [ht, if_true]
      refine ⟨?_, hhigh⟩
      rw [le_div_iff hdq]
      have : (d : ℚ) ≤ ((n * 2 ^ (-(a - b)).toNat : Nat) : ℚ) := by exact_mod_cast ht
      rw [Nat.cast_mul, hpow] at this
      calc (2 : ℚ) ^ (a - b) * d ≤ (2 : ℚ) ^ (a - b) * (n * (2 : ℚ) ^ (-(a - b))) :=
            mul_le_mul_of_nonneg_left this hp2.le
        _ = n * ((2 : ℚ) ^ (a - b) * (2 : ℚ) ^ (-(a - b))) := by ring
        _ = n := by rw [hinv, mul_one]
    · simp only [ht, if_false]
      have e : a - b - 1 + 1 = a - b := by ring
      rw [e]
      refine ⟨hlow.le, ?_⟩
      rw [div_lt_iff hdq]
      have : ((n * 2 ^ (-(a - b)).toNat : Nat) : ℚ) < d := by exact_mod_cast (not_le.mp ht)
      rw [Nat.cast_mul, hpow] at this
      calc (n : ℚ) = (2 : ℚ) ^ (a - b) * (n * (2 : ℚ) ^ (-(a - b))) := by
            rw [mul_comm (n : ℚ), ← mul_assoc, hinv, one_mul]
        _ < (2 : ℚ) ^ (a - b) * d := mul_lt_mul_of_pos_left this hp2

theorem F32.roundHalfEven_error (n d : Nat) (hd : 0 < d) :
    |((F32.roundHalfEven n d : Nat) : ℚ) - (n : ℚ) / d| ≤ 1 / 2 := by
  have hdq : (0 : ℚ) < d := by exact_mod_cast hd
  have hdiv : (n : ℚ) / d = (n / d : Nat) + ((n % d : Nat) : ℚ) / d := by
    have h := Nat.div_add_mod n d
    have hq : (n : ℚ) = (d : ℚ) * (n / d : Nat) + (n % d : Nat) := by exact_mod_cast h.symm
    rw [hq]
    field_simp
    ring
  have hr : n % d < d := Nat.mod_lt _ hd
  have hrq : ((n % d : Nat) : ℚ) < d := by exact_mod_cast hr
  have hr0 : (0 : ℚ) ≤ ((n % d : Nat) : ℚ) := by positivity
  unfold F32.roundHalfEven
  simp only
  rw [hdiv]
  by_cases h1 : 2 * (n % d) < d
  · simp only [h1, if_true]
    have h1q : (2 : ℚ) * ((n % d : Nat) : ℚ) < d := by exact_mod_cast h1
    rw [abs_le]
    constructor
    · have : ((n % d : Nat) : ℚ) / d ≤ 1 / 2 := by
        rw [div_le_iff hdq]; linarith
      linarith
    · have : 0 ≤ ((n % d : Nat) : ℚ) / d := by positivity
      linarith
  · simp only [h1, if_false]
    have h1q : (d : ℚ) ≤ (2 : ℚ) * ((n % d : Nat) : ℚ) := by exact_mod_cast (not_lt.mp h1)
    have hlow : (1 : ℚ) / 2 ≤ ((n % d : Nat) : ℚ) / d := by
      rw [le_div_iff hdq]; linarith
    have hhigh : ((n % d : Nat) : ℚ) / d < 1 := by
      rw [div_lt_iff hdq]; linarith
    by_cases h2 : d < 2 * (n % d)
    · simp only [h2, if_true]
      push_cast
      rw [abs_le]
      constructor <;> linarith
    · simp only [h2, if_false]
      have heq : 2 * (n % d) = d := by omega
      have heqq : ((n % d : Nat) : ℚ) / d = 1 / 2 := by
        rw [div_eq_iff hdq.ne']
        have : (2 : ℚ) * ((n % d : Nat) : ℚ) = d := by exact_mod_cast heq
        linarith
      by_cases h3 : n / d % 2 = 0
      · simp only [h3, if_true]
        rw [heqq, abs_le]
        constructor <;> linarith
      · simp only [h3, if_false]
        push_cast
        rw [heqq, abs_le]
        constructor <;> linarith

theorem F32.roundHalfEven_ge (n d k : Nat) (hd : 0 < d) (h : k * d ≤ n) :
    k ≤ F32.roundHalfEven n d := by
  have hq : k ≤ n / d := (Nat.le_div_iff_mul_le hd).2 h
  unfold F32.roundHalfEven
  simp only
  split
  · exact hq
  · split
    · omega
    · split <;> omega

theorem F32.roundHalfEven_le (n d k : Nat) (hd : 0 < d) (h : n < k * d) :
    F32.roundHalfEven n d ≤ k := by
  have hq : n / d < k := (Nat.div_lt_iff_lt_mul hd).2 h
  unfold F32.roundHalfEven
  simp only
  split
  · omega
  · split
    · omega
    · split <;> omega

theorem F32.roundRatio_finish (neg : Bool) (m0 : Nat) (q : Int)
    (h1 : 2 ^ 23 ≤ m0) (h2 : m0 ≤ 2 ^ 24) (hq : q ≤ 103) :
    ∃ m q', (if m0 = 0 then F32.fin neg 0 0
        else if m0 = 2 ^ 24 then
          (if 104 < q + 1 then F32.inf neg else F32.fin neg (2 ^ 23) (q + 1))
        else if 104 < q then F32.inf neg else F32.fin neg m0 q) = F32.fin neg m q' ∧
      2 ^ 23 ≤ m ∧ (m : ℚ) * (2 : ℚ) ^ q' = (m0 : ℚ) * (2 : ℚ) ^ q := by
  have hne : m0 ≠ 0 := by
    have : 0 < 2 ^ 23 := by norm_num
    omega
  have hq1 : ¬ (104 < q + 1) := by omega
  have hq2 : ¬ (104 < q) := by omega
  by_cases h24 : m0 = 2 ^ 24
  · refine ⟨2 ^ 23, q + 1, ?_, le_refl _, ?_⟩
    · subst h24
      simp [hq1]
    · rw [h24, zpow_add₀ (by norm_num : (2 : ℚ) ≠ 0)]
      norm_num
      ring
  · refine ⟨m0, q, ?_, h1, rfl⟩
    simp only [hne, h24, hq2, if_false]

theorem F32.zpow_two_lt_of_lt {a b : Int} (h : (2 : ℚ) ^ a < (2 : ℚ) ^ b) : a < b := by
  by_contra hcon
  have hle : b ≤ a := not_lt.mp hcon
  have : (2 : ℚ) ^ b ≤ (2 : ℚ) ^ a := zpow_le_zpow_right₀ (by norm_num) hle
  linarith

/-- Rounding a positive value in the normal range: the result is finite and normal, and the
error is at most `2^-24` times the value. -/
theorem F32.roundRatio_normal (neg : Bool) (n d : Nat) (e : Int) (hn : 0 < n) (hd : 0 < d)
    (hlo : (2 : ℚ) ^ (-126 : Int) ≤ (n : ℚ) / d * (2 : ℚ) ^ e)
    (hhi : (n : ℚ) / d * (2 : ℚ) ^ e < (2 : ℚ) ^ (127 : Int)) :
    ∃ m q, F32.roundRatio neg n d e = F32.fin neg m q ∧ 2 ^ 23 ≤ m ∧
      |(m : ℚ) * (2 : ℚ) ^ q - (n : ℚ) / d * (2 : ℚ) ^ e|
        ≤ (n : ℚ) / d * (2 : ℚ) ^ e / 2 ^ 24 := by
  have h20 : (2 : ℚ) ≠ 0 := by norm_num
  have h2 : (0 : ℚ) < 2 := by norm_num
  have hdq : (0 : ℚ) < d := by exact_mod_cast hd
  obtain ⟨hL1, hL2⟩ := F32.floorLog2Ratio_spec n d hn hd
  set L := F32.floorLog2Ratio n d with hLdef
  have he : (0 : ℚ) < (2 : ℚ) ^ e := zpow_pos h2 _
  have hx1 : (2 : ℚ) ^ (L + e) ≤ (n : ℚ) / d * (2 : ℚ) ^ e := by
    rw [zpow_add₀ h20]
    exact mul_le_mul_of_nonneg_right hL1 he.le
  have hx2 : (n : ℚ) / d * (2 : ℚ) ^ e < (2 : ℚ) ^ (L + e + 1) := by
    have : (2 : ℚ) ^ (L + e + 1) = (2 : ℚ) ^ (L + 1) * (2 : ℚ) ^ e := by
      rw [← zpow_add₀ h20]; congr 1; ring
    rw [this]
    exact mul_lt_mul_of_pos_right hL2 he
  have hLlo : -126 ≤ L + e := by
    have := F32.zpow_two_lt_of_lt (lt_of_le_of_lt hlo hx2)
    omega
  have hLhi : L + e ≤ 126 := by
    have := F32.zpow_two_lt_of_lt (lt_of_le_of_lt hx1 hhi)
    omega
  have hqdef : max (L + e - 23) (-149) = L + e - 23 := max_eq_left (by omega)
  set q : Int := L + e - 23 with hq
  have hqpos : (0 : ℚ) < (2 : ℚ) ^ q := zpow_pos h2 _
  -- the scaled value y = x / 2^q lies in [2^23, 2^24)
  have hy1 : (2 : ℚ) ^ (23 : Int) * (2 : ℚ) ^ q ≤ (n : ℚ) / d * (2 : ℚ) ^ e := by
    rw [← zpow_add₀ h20]
    have : (23 : Int) + q = L + e := by omega
    rw [this]; exact hx1
  have hy2 : (n : ℚ) / d * (2 : ℚ) ^ e < (2 : ℚ) ^ (24 : Int) * (2 : ℚ) ^ q := by
    rw [← zpow_add₀ h20]
    have : (24 : Int) + q = L + e + 1 := by omega
    rw [this]; exact hx2
  -- the rounded significand
  have hm0 : ∃ m0 : Nat, (if 0 ≤ e - q then F32.roundHalfEven (n * 2 ^ (e - q).toNat) d
        else F32.roundHalfEven n (d * 2 ^ (q - e).toNat)) = m0 ∧
      2 ^ 23 ≤ m0 ∧ m0 ≤ 2 ^ 24 ∧
      |(m0 : ℚ) * (2 : ℚ) ^ q - (n : ℚ) / d * (2 : ℚ) ^ e| ≤ (2 : ℚ) ^ q / 2 := by
    by_cases hs : 0 ≤ e - q
    · simp only [hs, if_true]
      have hk : (((e - q).toNat : Nat) : Int) = e - q := Int.toNat_of_nonneg hs
      set k := (e - q).toNat with hkdef
      have hpk : (2 : ℚ) ^ e = (2 : ℚ) ^ k * (2 : ℚ) ^ q := by
        rw [← zpow_natCast, hk, ← zpow_add₀ h20]; congr 1; ring
      have hyeq : ((n * 2 ^ k : Nat) : ℚ) / d * (2 : ℚ) ^ q = (n : ℚ) / d * (2 : ℚ) ^ e := by
        rw [hpk]; push_cast; ring
      have hge : 2 ^ 23 * d ≤ n * 2 ^ k := by
        have h := hy1
        rw [← hyeq] at h
        have h' : (2 : ℚ) ^ (23 : Int) ≤ ((n * 2 ^ k : Nat) : ℚ) / d :=
          le_of_mul_le_mul_right h hqpos
        rw [le_div_iff hdq] at h'
        have h'' : ((2 ^ 23 * d : Nat) : ℚ) ≤ ((n * 2 ^ k : Nat) : ℚ) := by
          push_cast at h' ⊢
          norm_num at h' ⊢
          linarith
        exact_mod_cast h''
      have hlt : n * 2 ^ k < 2 ^ 24 * d := by
        have h := hy2
        rw [← hyeq] at h
        have h' : ((n * 2 ^ k : Nat) : ℚ) / d < (2 : ℚ) ^ (24 : Int) :=
          lt_of_mul_lt_mul_right h hqpos.le
        rw [div_lt_iff hdq] at h'
        have h'' : ((n * 2 ^ k : Nat) : ℚ) < ((2 ^ 24 * d : Nat) : ℚ) := by
          push_cast at h' ⊢
          norm_num at h' ⊢
          linarith
        exact_mod_cast h''
      refine ⟨_, rfl, F32.roundHalfEven_ge _ _ _ hd hge, F32.roundHalfEven_le _ _ _ hd hlt, ?_⟩
      have herr := F32.roundHalfEven_error (n * 2 ^ k) d hd
      rw [← hyeq, ← sub_mul, abs_mul, abs_of_pos hqpos]
      calc |((F32.roundHalfEven (n * 2 ^ k) d : Nat) : ℚ) - ((n * 2 ^ k : Nat) : ℚ) / d|
              * (2 : ℚ) ^ q ≤ 1 / 2 * (2 : ℚ) ^ q := mul_le_mul_of_nonneg_right herr hqpos.le
        _ = (2 : ℚ) ^ q / 2 := by ring
    · simp only [hs, if_false]
      have hs' : 0 ≤ q - e := by omega
      have hk : (((q - e).toNat : Nat) : Int) = q - e := Int.toNat_of_nonneg hs'
      set k := (q - e).toNat with hkdef
      have hd2 : 0 < d * 2 ^ k := Nat.mul_pos hd (by positivity)
      have hd2q : (0 : ℚ) < ((d * 2 ^ k : Nat) : ℚ) := by exact_mod_cast hd2
      have hpk : (2 : ℚ) ^ q = (2 : ℚ) ^ k * (2 : ℚ) ^ e := by
        rw [← zpow_natCast, hk, ← zpow_add₀ h20]; congr 1; ring
      have hkpos : (0 : ℚ) < (2 : ℚ) ^ k := by positivity
      have hyeq : (n : ℚ) / ((d * 2 ^ k : Nat) : ℚ) * (2 : ℚ) ^ q = (n : ℚ) / d * (2 : ℚ) ^ e := by
        rw [hpk]; push_cast
        field_simp
        ring
      have hge : 2 ^ 23 * (d * 2 ^ k) ≤ n := by
        have h := hy1
        rw [← hyeq] at h
        have h' : (2 : ℚ) ^ (23 : Int) ≤ (n : ℚ) / ((d * 2 ^ k : Nat) : ℚ) :=
          le_of_mul_le_mul_right h hqpos
        rw [le_div_iff hd2q] at h'
        have h'' : ((2 ^ 23 * (d * 2 ^ k) : Nat) : ℚ) ≤ (n : ℚ) := by
          push_cast at h' ⊢
          norm_num at h' ⊢
          linarith
        exact_mod_cast h''
      have hlt : n < 2 ^ 24 * (d * 2 ^ k) := by
        have h := hy2
        rw [← hyeq] at h
        have h' : (n : ℚ) / ((d * 2 ^ k : Nat) : ℚ) < (2 : ℚ) ^ (24 : Int) :=
          lt_of_mul_lt_mul_right h hqpos.le
        rw [div_lt_iff hd2q] at h'
        have h'' : (n : ℚ) < ((2 ^ 24 * (d * 2 ^ k) : Nat) : ℚ) := by
          push_cast at h' ⊢
          norm_num at h' ⊢
          linarith
        exact_mod_cast h''
      refine ⟨_, rfl, F32.roundHalfEven_ge _ _ _ hd2 hge, F32.roundHalfEven_le _ _ _ hd2 hlt, ?_⟩
      have herr := F32.roundHalfEven_error n (d * 2 ^ k) hd2
      rw [← hyeq, ← sub_mul, abs_mul, abs_of_pos hqpos]
      calc |((F32.roundHalfEven n (d * 2 ^ k) : Nat) : ℚ) - (n : ℚ) / ((d * 2 ^ k : Nat) : ℚ)|
              * (2 : ℚ) ^ q ≤ 1 / 2 * (2 : ℚ) ^ q := mul_le_mul_of_nonneg_right herr hqpos.le
        _ = (2 : ℚ) ^ q / 2 := by ring
  obtain ⟨m0, hm0eq, hm1, hm2, hmerr⟩ := hm0
  obtain ⟨m, q', hres, hm, hval⟩ := F32.roundRatio_finish neg m0 q hm1 hm2 (by omega)
  refine ⟨m, q', ?_, hm, ?_⟩
  · unfold F32.roundRatio
    simp only [hn.ne', if_false]
    rw [← hLdef, hqdef, hm0eq]
    exact hres
  · rw [hval]
    refine le_trans hmerr ?_
    have : (2 : ℚ) ^ q / 2 = (2 : ℚ) ^ (23 : Int) * (2 : ℚ) ^ q / 2 ^ 24 := by
      norm_num
      ring
    rw [this]
    exact div_le_div_of_nonneg_right hy1 (by positivity)

/-- Three roundings in a row, `x ↦ x (1 ± u)` each with `u = 2^-24`, in the form they take
for `(360 / w) * a`: the final value is within `4 u` of `360 a / w`. -/
theorem F32.three_roundings (w a vw vq v3 : ℚ) (hw : 0 < w) (ha : 0 < a)
    (hA : |vw - w| ≤ w / 2 ^ 24)
    (hB : |vq - 360 / vw| ≤ 360 / vw / 2 ^ 24)
    (hC : |v3 - vq * a| ≤ vq * a / 2 ^ 24) :
    |v3 - 360 * a / w| ≤ 360 * a / w / 2 ^ 22 := by
  rw [abs_le] at hA hB hC
  have hvw : 0 < vw := by
    have : w / 2 ^ 24 < w := by
      rw [div_lt_iff (by norm_num)]; nlinarith
    linarith [hA.1]
  -- the product vq * vw is within u of 360
  have hr : 360 / vw * vw = 360 := by field_simp
  have hp1 : 360 - 360 / 2 ^ 24 ≤ vq * vw := by
    have h := mul_le_mul_of_nonneg_right hB.1 hvw.le
    have e1 : -(360 / vw / 2 ^ 24) * vw = -(360 / 2 ^ 24) := by
      field_simp
      ring
    have e2 : (vq - 360 / vw) * vw = vq * vw - 360 := by rw [sub_mul, hr]
    rw [e1, e2] at h
    linarith
  have hp2 : vq * vw ≤ 360 + 360 / 2 ^ 24 := by
    have h := mul_le_mul_of_nonneg_right hB.2 hvw.le
    have e1 : 360 / vw / 2 ^ 24 * vw = 360 / 2 ^ 24 := by
      field_simp
      ring
    have e2 : (vq - 360 / vw) * vw = vq * vw - 360 := by rw [sub_mul, hr]
    rw [e1, e2] at h
    linarith
  have hvq : 0 < vq := by
    by_contra hcon
    have : vq * vw ≤ 0 := mul_nonpos_of_nonpos_of_nonneg (not_lt.mp hcon) hvw.le
    norm_num at hp1
    linarith
  have hqa : 0 < vq * a := mul_pos hvq ha
  -- bounds on v3 * w
  have hup : v3 * w ≤ 360 * a * (1 + 4 / 2 ^ 24) := by
    have h1 : v3 ≤ vq * a * (1 + 1 / 2 ^ 24) := by linarith [hC.2]
    have h2 : (1 - 1 / 2 ^ 24) * w ≤ vw := by linarith [hA.1]
    have h3 : (1 - 1 / 2 ^ 24) * (v3 * w) ≤ (1 + 1 / 2 ^ 24) * a * (vq * vw) := by
      have h4 : (1 - 1 / 2 ^ 24) * (v3 * w) ≤ (1 - 1 / 2 ^ 24) * (vq * a * (1 + 1 / 2 ^ 24) * w) :=
        mul_le_mul_of_nonneg_left (mul_le_mul_of_nonneg_right h1 hw.le) (by norm_num)
      have h5 : vq * a * (1 + 1 / 2 ^ 24) * ((1 - 1 / 2 ^ 24) * w) ≤
          vq * a * (1 + 1 / 2 ^ 24) * vw :=
        mul_le_mul_of_nonneg_left h2 (by positivity)
      nlinarith
    have h6 : (1 + 1 / 2 ^ 24) * a * (vq * vw) ≤ (1 + 1 / 2 ^ 24) * a * (360 + 360 / 2 ^ 24) :=
      mul_le_mul_of_nonneg_left hp2 (by positivity)
    have h7 : (1 + 1 / 2 ^ 24 : ℚ) * a * (360 + 360 / 2 ^ 24) ≤
        (1 - 1 / 2 ^ 24) * (360 * a * (1 + 4 / 2 ^ 24)) := by
      have : (1 + 1 / 2 ^ 24 : ℚ) * (360 + 360 / 2 ^ 24) ≤
          (1 - 1 / 2 ^ 24) * (360 * (1 + 4 / 2 ^ 24)) := by norm_num
      nlinarith
    have h8 : (1 - 1 / 2 ^ 24 : ℚ) * (v3 * w) ≤ (1 - 1 / 2 ^ 24) * (360 * a * (1 + 4 / 2 ^ 24)) :=
      le_trans h3 (le_trans h6 h7)
    exact le_of_mul_le_mul_left h8 (by norm_num)
  have hdown : 360 * a * (1 - 4 / 2 ^ 24) ≤ v3 * w := by
    have h1 : vq * a * (1 - 1 / 2 ^ 24) ≤ v3 := by linarith [hC.1]
    have h2 : vw ≤ (1 + 1 / 2 ^ 24) * w := by linarith [hA.2]
    have h3 : (1 - 1 / 2 ^ 24) * a * (vq * vw) ≤ (1 + 1 / 2 ^ 24) * (v3 * w) := by
      have h4 : (1 + 1 / 2 ^ 24) * (vq * a * (1 - 1 / 2 ^ 24) * w) ≤ (1 + 1 / 2 ^ 24) * (v3 * w) :=
        mul_le_mul_of_nonneg_left (mul_le_mul_of_nonneg_right h1 hw.le) (by norm_num)
      have h5 : vq * a * (1 - 1 / 2 ^ 24) * vw ≤
          vq * a * (1 - 1 / 2 ^ 24) * ((1 + 1 / 2 ^ 24) * w) :=
        mul_le_mul_of_nonneg_left h2 (by
          have : (0 : ℚ) < 1 - 1 / 2 ^ 24 := by norm_num
          positivity)
      nlinarith
    have h6 : (1 - 1 / 2 ^ 24) * a * (360 - 360 / 2 ^ 24) ≤ (1 - 1 / 2 ^ 24) * a * (vq * vw) :=
      mul_le_mul_of_nonneg_left hp1 (by
        have : (0 : ℚ) < 1 - 1 / 2 ^ 24 := by norm_num
        positivity)
    have h7 : (1 + 1 / 2 ^ 24 : ℚ) * (360 * a * (1 - 4 / 2 ^ 24)) ≤
        (1 - 1 / 2 ^ 24) * a * (360 - 360 / 2 ^ 24) := by
      have : (1 + 1 / 2 ^ 24 : ℚ) * (360 * (1 - 4 / 2 ^ 24)) ≤
          (1 - 1 / 2 ^ 24) * (360 - 360 / 2 ^ 24) := by norm_num
      nlinarith
    have h8 : (1 + 1 / 2 ^ 24 : ℚ) * (360 * a * (1 - 4 / 2 ^ 24)) ≤ (1 + 1 / 2 ^ 24) * (v3 * w) :=
      le_trans h7 (le_trans h6 h3)
    exact le_of_mul_le_mul_left h8 (by norm_num)
  have e2 : 360 * a / w / 2 ^ 22 = 360 * a / 2 ^ 22 / w := by
    field_simp
    ring
  have e3 : v3 - 360 * a / w = (v3 * w - 360 * a) / w := by
    field_simp
  rw [e2, e3, abs_le, ← neg_div]
  constructor
  · apply div_le_div_of_nonneg_right _ hw.le
    have : 360 * a * (1 - 4 / 2 ^ 24) = 360 * a - 360 * a / 2 ^ 22 := by ring
    linarith
  · apply div_le_div_of_nonneg_right _ hw.le
    have : 360 * a * (1 + 4 / 2 ^ 24) = 360 * a + 360 * a / 2 ^ 22 := by ring
    linarith

/-- The binary32 angle `(360.0f / (float)w) * dx` for a width `0 < w < 2^32` and a finite
`dx = ± m * 2^e`: when `360 |dx| / w` lies between `2^-125` and `2^126`, the angle is a
normal number with the sign of `dx` and differs from `360 dx / w` by at most `2^-22` of it. -/
theorem F32.drag_angle_accuracy (w : Nat) (hw : 0 < w) (hw32 : w < 2 ^ 32)
    (s : Bool) (m : Nat) (e : Int)
    (hlo : (2 : ℚ) ^ (-125 : Int) ≤ 360 * ((m : ℚ) * (2 : ℚ) ^ e) / w)
    (hhi : 360 * ((m : ℚ) * (2 : ℚ) ^ e) / w < (2 : ℚ) ^ (126 : Int)) :
    ∃ m3 q3,
      F32.mul (F32.div (F32.ofNat 360) (F32.ofNat w)) (F32.fin s m e) = F32.fin s m3 q3 ∧
      2 ^ 23 ≤ m3 ∧
      |(m3 : ℚ) * (2 : ℚ) ^ q3 - 360 * ((m : ℚ) * (2 : ℚ) ^ e) / w|
        ≤ 360 * ((m : ℚ) * (2 : ℚ) ^ e) / w / 2 ^ 22 := by
  have h20 : (2 : ℚ) ≠ 0 := by norm_num
  have h2 : (0 : ℚ) < 2 := by norm_num
  have hwq : (0 : ℚ) < w := by exact_mod_cast hw
  have hw1 : (1 : ℚ) ≤ w := by exact_mod_cast hw
  have hw32q : (w : ℚ) < 2 ^ 32 := by exact_mod_cast hw32
  have he : (0 : ℚ) < (2 : ℚ) ^ e := zpow_pos h2 _
  -- dx is not zero
  have hm : 0 < m := by
    rcases Nat.eq_zero_or_pos m with h0 | h0
    · rw [h0] at hlo
      have hp : (0 : ℚ) < (2 : ℚ) ^ (-125 : Int) := zpow_pos h2 _
      simp at hlo
      linarith
    · exact h0
  have hmq : (0 : ℚ) < m := by exact_mod_cast hm
  set a : ℚ := (m : ℚ) * (2 : ℚ) ^ e with hadef
  have ha : 0 < a := mul_pos hmq he
  -- first rounding: (float)w
  obtain ⟨mw, qw, h1, hmw, herr1⟩ := F32.roundRatio_normal false w 1 0 hw Nat.one_pos
    (by
      have : (2 : ℚ) ^ (-126 : Int) ≤ 1 := by
        rw [zpow_neg]; norm_num
      simp only [Nat.cast_one, div_one, zpow_zero, mul_one]
      linarith)
    (by
      simp only [Nat.cast_one, div_one, zpow_zero, mul_one]
      have : (2 : ℚ) ^ (32 : Nat) ≤ (2 : ℚ) ^ (127 : Int) := by norm_num
      linarith)
  simp only [Nat.cast_one, div_one, zpow_zero, mul_one] at herr1
  set vw : ℚ := (mw : ℚ) * (2 : ℚ) ^ qw with hvwdef
  have hmw0 : mw ≠ 0 := by
    have : 0 < 2 ^ 23 := by norm_num
    omega
  have hmwq : (0 : ℚ) < mw := by
    have : 0 < mw := Nat.pos_of_ne_zero hmw0
    exact_mod_cast this
  have hvw : 0 < vw := mul_pos hmwq (zpow_pos h2 _)
  have hA := abs_le.mp herr1
  have hvwlo : (1 : ℚ) / 2 ≤ vw := by
    have : (w : ℚ) / 2 ^ 24 ≤ w / 2 := by
      apply div_le_div_of_nonneg_left hwq.le (by norm_num) (by norm_num)
    linarith [hA.1]
  have hvwhi : vw < 2 ^ 33 := by
    have : (w : ℚ) / 2 ^ 24 ≤ w := by
      apply div_le_self hwq.le (by norm_num)
    have : (2 : ℚ) ^ 33 = 2 * 2 ^ 32 := by norm_num
    linarith [hA.2]
  -- second rounding: 360.0f / (float)w
  have h360 : F32.ofNat 360 = F32.fin false 11796480 (-15) := by decide
  have hx2 : ((11796480 : Nat) : ℚ) / mw * (2 : ℚ) ^ (-15 - qw) = 360 / vw := by
    have e1 : (2 : ℚ) ^ (-15 - qw) = (2 : ℚ) ^ (-15 : Int) / (2 : ℚ) ^ qw := by
      rw [sub_eq_add_neg, zpow_add₀ h20, zpow_neg (2 : ℚ) qw]
      rfl
    rw [e1, hvwdef]
    have hq0 : (2 : ℚ) ^ qw ≠ 0 := (zpow_pos h2 _).ne'
    have e2 : (2 : ℚ) ^ (-15 : Int) = 1 / 32768 := by
      rw [zpow_neg]; norm_num
    rw [e2]
    field_simp
    ring
  obtain ⟨mq, qq, h2', hmq', herr2⟩ := F32.roundRatio_normal false 11796480 mw (-15 - qw)
    (by norm_num) (Nat.pos_of_ne_zero hmw0)
    (by
      rw [hx2]
      have h1' : (360 : ℚ) / 2 ^ 33 ≤ 360 / vw :=
        div_le_div_of_nonneg_left (by norm_num) hvw hvwhi.le
      have : (2 : ℚ) ^ (-126 : Int) ≤ 360 / 2 ^ 33 := by
        rw [zpow_neg]; norm_num
      linarith)
    (by
      rw [hx2]
      have h1' : (360 : ℚ) / vw ≤ 360 / (1 / 2) :=
        div_le_div_of_nonneg_left (by norm_num) (by norm_num) hvwlo
      have : (360 : ℚ) / (1 / 2) < (2 : ℚ) ^ (127 : Int) := by norm_num
      linarith)
  rw [hx2] at herr2
  set vq : ℚ := (mq : ℚ) * (2 : ℚ) ^ qq with hvqdef
  have hmq0 : mq ≠ 0 := by
    have : 0 < 2 ^ 23 := by norm_num
    omega
  have hmqq : (0 : ℚ) < mq := by
    have : 0 < mq := Nat.pos_of_ne_zero hmq0
    exact_mod_cast this
  have hvq : 0 < vq := mul_pos hmqq (zpow_pos h2 _)
  have hB := abs_le.mp herr2
  -- the product vq * vw is within 2^-24 of 360
  have hr : 360 / vw * vw = 360 := by field_simp
  have hp1 : 360 - 360 / 2 ^ 24 ≤ vq * vw := by
    have h := mul_le_mul_of_nonneg_right hB.1 hvw.le
    have e1 : -(360 / vw / 2 ^ 24) * vw = -(360 / 2 ^ 24) := by
      field_simp
      ring
    have e2 : (vq - 360 / vw) * vw = vq * vw - 360 := by rw [sub_mul, hr]
    rw [e1, e2] at h
    linarith
  have hp2 : vq * vw ≤ 360 + 360 / 2 ^ 24 := by
    have h := mul_le_mul_of_nonneg_right hB.2 hvw.le
    have e1 : 360 / vw / 2 ^ 24 * vw = 360 / 2 ^ 24 := by
      field_simp
      ring
    have e2 : (vq - 360 / vw) * vw = vq * vw - 360 := by rw [sub_mul, hr]
    rw [e1, e2] at h
    linarith
  -- third rounding: the product with dx
  have hx3 : ((mq * m : Nat) : ℚ) / (1 : Nat) * (2 : ℚ) ^ (qq + e) = vq * a := by
    rw [zpow_add₀ h20, hvqdef, hadef]
    push_cast
    ring
  -- the exact product lies within a factor 2 of 360 a / w
  have hT : 360 * a / w * w = 360 * a := by field_simp
  have hlow3 : 360 * a / w / 2 ≤ vq * a := by
    have h2w : vw ≤ (1 + 1 / 2 ^ 24) * w := by linarith [hA.2]
    have h3 : (360 - 360 / 2 ^ 24) * a ≤ vq * a * ((1 + 1 / 2 ^ 24) * w) := by
      have h4 : (360 - 360 / 2 ^ 24) * a ≤ vq * vw * a := mul_le_mul_of_nonneg_right hp1 ha.le
      have h5 : vq * a * vw ≤ vq * a * ((1 + 1 / 2 ^ 24) * w) :=
        mul_le_mul_of_nonneg_left h2w (mul_pos hvq ha).le
      have h7 : vq * vw * a = vq * a * vw := by ring
      linarith
    have h6 : 360 * a / w / 2 * ((1 + 1 / 2 ^ 24) * w) ≤ (360 - 360 / 2 ^ 24) * a := by
      have : 360 * a / w / 2 * ((1 + 1 / 2 ^ 24) * w) = 360 * a / w * w * ((1 + 1 / 2 ^ 24) / 2) := by
        ring
      rw [this, hT]
      linarith
    have hpos : (0 : ℚ) < (1 + 1 / 2 ^ 24) * w := by positivity
    exact le_of_mul_le_mul_right (le_trans h6 h3) hpos
  have hhigh3 : vq * a ≤ 2 * (360 * a / w) := by
    have h2w : (1 - 1 / 2 ^ 24) * w ≤ vw := by linarith [hA.1]
    have h3 : vq * a * ((1 - 1 / 2 ^ 24) * w) ≤ (360 + 360 / 2 ^ 24) * a := by
      have h4 : vq * vw * a ≤ (360 + 360 / 2 ^ 24) * a := mul_le_mul_of_nonneg_right hp2 ha.le
      have h5 : vq * a * ((1 - 1 / 2 ^ 24) * w) ≤ vq * a * vw :=
        mul_le_mul_of_nonneg_left h2w (mul_pos hvq ha).le
      have h7 : vq * vw * a = vq * a * vw := by ring
      linarith
    have h6 : (360 + 360 / 2 ^ 24) * a ≤ 2 * (360 * a / w) * ((1 - 1 / 2 ^ 24) * w) := by
      have : 2 * (360 * a / w) * ((1 - 1 / 2 ^ 24) * w) = 360 * a / w * w * (2 * (1 - 1 / 2 ^ 24)) := by
        ring
      rw [this, hT]
      linarith
    have hpos : (0 : ℚ) < (1 - 1 / 2 ^ 24) * w := by
      have : (0 : ℚ) < 1 - 1 / 2 ^ 24 := by norm_num
      positivity
    exact le_of_mul_le_mul_right (le_trans h3 h6) hpos
  obtain ⟨m3, q3, h3', hm3, herr3⟩ := F32.roundRatio_normal s (mq * m) 1 (qq + e)
    (Nat.mul_pos (Nat.pos_of_ne_zero hmq0) hm) Nat.one_pos
    (by
      rw [hx3]
      have : (2 : ℚ) ^ (-126 : Int) = (2 : ℚ) ^ (-125 : Int) / 2 := by
        rw [show (-126 : Int) = -125 + -1 by norm_num, zpow_add₀ h20]
        norm_num
      rw [this]
      have := div_le_div_of_nonneg_right hlo (by norm_num : (0 : ℚ) ≤ 2)
      linarith)
    (by
      rw [hx3]
      have : (2 : ℚ) ^ (127 : Int) = 2 * (2 : ℚ) ^ (126 : Int) := by
        rw [show (127 : Int) = 1 + 126 by norm_num, zpow_add₀ h20]
        norm_num
      rw [this]
      linarith)
  rw [hx3] at herr3
  refine ⟨m3, q3, ?_, hm3, ?_⟩
  · have hof : F32.ofNat w = F32.fin false mw qw := h1
    rw [h360, hof]
    simp only [F32.div, hmw0, if_false, Bool.xor_false, Bool.false_xor, Bool.xor_self,
      bne_self_eq_false]
    rw [h2']
    simp only [F32.mul, Bool.false_xor, Bool.false_bne]
    exact h3'
  · exact F32.three_roundings w a vw vq _ hwq ha herr1 herr2 herr3

/-- C2, as the code has it: when the device pointer holds a live object of width `w`, a call
`VulkanOnDrag(dx, dy)` that returns has called `rotateModel` with the binary32 angle
`(360.0f / (float)w) * dx`, the quotient and the product each rounded to nearest: that angle
is logged, and `Model` is the rotation of the identity by its radians about `(0, 0, 1)`.
With `w = 800` and `dx = 200` this angle is exactly 90. In general, for `0 < w < 2^32` and a
finite `dx = ± m * 2^e` with `2^-125 ≤ 360 |dx| / w < 2^126`, the angle is finite, has the
sign of `dx`, and is within `2^-22` (relative) of `360 * dx / w`. -/
theorem VulkanOnDrag_angle_is_rounded_quotient_times_dx (glm : Glm) (drv : Driver)
    (dx dy : F32) (w w' : World) (d : VulkanDevice)
    (hdev : w.device = DevicePtr.object d)
    (hok : VulkanOnDrag glm drv dx dy w = Except.ok w') :
    (∃ d', w'.device = DevicePtr.object d' ∧
      d'.Model = glm.rotate (mat4.diag (F32.ofNat 1))
        (glm.radians (F32.mul (F32.div (F32.ofNat 360) (F32.ofNat d.width)) dx))
        ⟨F32.ofNat 0, F32.ofNat 0, F32.ofNat 1⟩) ∧
    w'.sys.log = w.sys.log ++ [⟨kTAG, "rotate y = %f",
      [LogArg.float (F32.mul (F32.div (F32.ofNat 360) (F32.ofNat d.width)) dx)]⟩] ∧
    F32.mul (F32.div (F32.ofNat 360) (F32.ofNat 800)) (F32.ofNat 200) = F32.ofNat 90 ∧
    (F32.ofNat 90).toRat = some 90 ∧
    (∀ (s : Bool) (m : Nat) (e : Int), dx = F32.fin s m e →
      0 < d.width → d.width < 2 ^ 32 →
      (2 : ℚ) ^ (-125 : Int) ≤ 360 * ((m : ℚ) * (2 : ℚ) ^ e) / d.width →
      360 * ((m : ℚ) * (2 : ℚ) ^ e) / d.width < (2 : ℚ) ^ (126 : Int) →
      ∃ m3 q3,
        F32.mul (F32.div (F32.ofNat 360) (F32.ofNat d.width)) dx = F32.fin s m3 q3 ∧
        |(m3 : ℚ) * (2 : ℚ) ^ q3 - 360 * ((m : ℚ) * (2 : ℚ) ^ e) / d.width|
          ≤ 360 * ((m : ℚ) * (2 : ℚ) ^ e) / d.width / 2 ^ 22) := by
  unfold VulkanOnDrag at hok
  rw [hdev] at hok
  simp only [bind, Except.bind, pure, Except.pure] at hok
  split at hok
  · cases hok
  · rename_i v heq
    obtain ⟨d1, sys1⟩ := v
    cases hok
    unfold VulkanDevice.rotateModel at heq
    obtain ⟨-, hd, hs⟩ := updateMVP_ok heq
    refine ⟨⟨d1, rfl, ?_⟩, ?_, by decide, ?_, ?_⟩
    · rw [hd]
    · rw [hs]; rfl
    · have h90 : F32.ofNat 90 = F32.fin false 11796480 (-17) := by decide
      rw [h90]
      simp only [F32.toRat]
      norm_num
    · intro s m e hdx hw hw32 hlo hhi
      obtain ⟨m3, q3, h3, -, herr⟩ := F32.drag_angle_accuracy d.width hw hw32 s m e hlo hhi
      exact ⟨m3, q3, by rw [hdx, h3], herr⟩

/-- The hypotheses of C2's theorem hold for the sample device of width 800 and a drag of
200 pixels (`200 = 13107200 * 2^-16` as a binary32 number), the bounds of the accuracy
statement included. -/
theorem VulkanOnDrag_angle_witness :
    ∃ w', VulkanOnDrag sampleGlm sampleDriver (F32.ofNat 200) (F32.ofNat 0) sampleWorld
        = Except.ok w' ∧
      w'.sys.log = sampleWorld.sys.log ++ [⟨kTAG, "rotate y = %f",
        [LogArg.float (F32.mul (F32.div (F32.ofNat 360) (F32.ofNat sampleDevice.width))
          (F32.ofNat 200))]⟩] ∧
      ∃ m3 q3,
        F32.mul (F32.div (F32.ofNat 360) (F32.ofNat sampleDevice.width)) (F32.ofNat 200)
          = F32.fin false m3 q3 ∧
        |(m3 : ℚ) * (2 : ℚ) ^ q3
            - 360 * (((13107200 : Nat) : ℚ) * (2 : ℚ) ^ (-16 : Int)) / sampleDevice.width|
          ≤ 360 * (((13107200 : Nat) : ℚ) * (2 : ℚ) ^ (-16 : Int)) / sampleDevice.width
              / 2 ^ 22 :=
  have hwid : sampleDevice.width = 800 := rfl
  match h : VulkanOnDrag sampleGlm sampleDriver (F32.ofNat 200) (F32.ofNat 0) sampleWorld with
  | Except.ok w' =>
    ⟨w', rfl, (VulkanOnDrag_angle_is_rounded_quotient_times_dx sampleGlm sampleDriver
      (F32.ofNat 200) (F32.ofNat 0) sampleWorld w' sampleDevice rfl h).2.1,
      (VulkanOnDrag_angle_is_rounded_quotient_times_dx sampleGlm sampleDriver
        (F32.ofNat 200) (F32.ofNat 0) sampleWorld w' sampleDevice rfl h).2.2.2.2
        false 13107200 (-16) (by decide) (by decide) (by decide)
        (by rw [hwid]; norm_num) (by rw [hwid]; norm_num)⟩
  | Except.error e => by
    have hb : (VulkanOnDrag sampleGlm sampleDriver (F32.ofNat 200) (F32.ofNat 0)
      sampleWorld).toBool = true := by decide
    rw [h] at hb
    cases hb

/-- C2 as stated fails: with width 800 and a drag of 1 pixel the angle handed to `rotateModel`
(the one it logs) is `15099494 / 2^25`, the binary32 number nearest to 0.45, and not
`360 * 1 / 800`. -/
theorem VulkanOnDrag_angle_not_exact_counterexample :
    (VulkanOnDrag sampleGlm sampleDriver (F32.ofNat 1) (F32.ofNat 0) sampleWorld).toOption.map
        (fun w => w.sys.log) =
      some [⟨kTAG, "rotate y = %f", [LogArg.float (F32.fin false 15099494 (-25))]⟩] ∧
    (F32.fin false 15099494 (-25)).toRat ≠ some (360 * 1 / 800) := by
  constructor
  · decide
  · simp only [F32.toRat]
    norm_num



/-! ## Rotation replaces the model transform and uploads the product (C3, C4) -/

/-- The rotation that `rotateModel` stores for the angle `y`, and the product that
`updateMVP` then computes. -/
theorem rotateModel_ok {glm : Glm} {drv : Driver} {x y z : F32}
    {self self' : VulkanDevice} {sys sys' : Sys}
    (h : self.rotateModel glm drv x y z sys = Except.ok (self', sys')) :
    drv.result sys.calls.length = VK_SUCCESS ∧
    self' = { self with
      Model := glm.rotate (mat4.diag (F32.ofNat 1)) (glm.radians y)
        ⟨F32.ofNat 0, F32.ofNat 0, F32.ofNat 1⟩
      MVP := glm.mul (glm.mul (glm.mul self.Clip self.Projection) self.View)
        (glm.rotate (mat4.diag (F32.ofNat 1)) (glm.radians y)
          ⟨F32.ofNat 0, F32.ofNat 0, F32.ofNat 1⟩) } ∧
    sys'.log = sys.log ++ [⟨kTAG, "rotate y = %f", [LogArg.float y]⟩] ∧
    sys'.calls = sys.calls ++
      [Event.api ApiFn.vkMapMemory [self.device_, self.uniform_data.mem, 0, 64],
       Event.memcpy self.uniform_data.mem 16,
       Event.api ApiFn.vkUnmapMemory [self.device_, self.uniform_data.mem]] ∧
    sys'.memory = (fun m => if m = self.uniform_data.mem then
        (glm.mul (glm.mul (glm.mul self.Clip self.Projection) self.View)
          (glm.rotate (mat4.diag (F32.ofNat 1)) (glm.radians y)
            ⟨F32.ofNat 0, F32.ofNat 0, F32.ofNat 1⟩)).toList ++ (sys.memory m).drop 16
      else sys.memory m) ∧
    sys'.memory16 = sys.memory16 := by
  unfold VulkanDevice.rotateModel at h
  obtain ⟨hres, hd, hs⟩ := updateMVP_ok h
  refine ⟨?_, ?_, ?_, ?_, ?_, ?_⟩
  · simpa [Sys.print] using hres
  · rw [hd]
  · rw [hs]; rfl
  · rw [hs]; simp [Sys.call, Sys.memcpy, Sys.print, mat4.toList]
  · rw [hs]; simp [Sys.call, Sys.memcpy, Sys.print, mat4.toList]
  · rw [hs]; rfl

/-- When the driver lets the mapping succeed, `rotateModel` returns. -/
theorem rotateModel_returns (glm : Glm) (drv : Driver) (x y z : F32)
    (self : VulkanDevice) (sys : Sys) (h : drv.result sys.calls.length = VK_SUCCESS) :
    ∃ r, self.rotateModel glm drv x y z sys = Except.ok r := by
  unfold VulkanDevice.rotateModel VulkanDevice.updateMVP
  simp [bind, Except.bind, pure, Except.pure, assert, Sys.call, Sys.print, h]

/-- C3: each rotate call replaces rather than composes. For every device state and all
angles `d1`, `d2` (and whatever is passed for `x` and `z`), when the calls return, the
`Model` and the `MVP` after `rotateModel(d1)` followed by `rotateModel(d2)` are those after
`rotateModel(d2)` alone on the same state; so are the whole object and the start of the
uniform memory. -/
theorem rotateModel_twice_equals_last (glm : Glm) (drv : Driver)
    (x1 d1 z1 x2 d2 z2 : F32) (self s1 s2 s2' : VulkanDevice) (sys sys1 sys2 sys2' : Sys)
    (h1 : self.rotateModel glm drv x1 d1 z1 sys = Except.ok (s1, sys1))
    (h2 : s1.rotateModel glm drv x2 d2 z2 sys1 = Except.ok (s2, sys2))
    (h2' : self.rotateModel glm drv x2 d2 z2 sys = Except.ok (s2', sys2')) :
    s2.Model = s2'.Model ∧ s2.MVP = s2'.MVP ∧ s2 = s2' ∧
    (sys2.memory s2.uniform_data.mem).take 16 = (sys2'.memory s2'.uniform_data.mem).take 16 := by
  obtain ⟨-, hs1, -, -, -, -⟩ := rotateModel_ok h1
  obtain ⟨-, hs2, -, -, hm2, -⟩ := rotateModel_ok h2
  obtain ⟨-, hs2', -, -, hm2', -⟩ := rotateModel_ok h2'
  have heq : s2 = s2' := by rw [hs2, hs2', hs1]
  refine ⟨by rw [heq], by rw [heq], heq, ?_⟩
  rw [hm2, hm2', hs2, hs2', hs1]
  simp [mat4.toList]

/-- The hypotheses of C3's theorem hold on the sample device: a drag angle of 30 followed
by one of 45, and 45 alone. -/
theorem rotateModel_twice_equals_last_witness :
    ∃ s1 sys1 s2 sys2 s2' sys2',
      sampleDevice.rotateModel sampleGlm sampleDriver (F32.ofNat 0) (F32.ofNat 30) (F32.ofNat 0)
        emptySys = Except.ok (s1, sys1) ∧
      s1.rotateModel sampleGlm sampleDriver (F32.ofNat 0) (F32.ofNat 45) (F32.ofNat 0) sys1
        = Except.ok (s2, sys2) ∧
      sampleDevice.rotateModel sampleGlm sampleDriver (F32.ofNat 0) (F32.ofNat 45) (F32.ofNat 0)
        emptySys = Except.ok (s2', sys2') ∧
      s2.Model = s2'.Model ∧ s2.MVP = s2'.MVP := by
  obtain ⟨⟨s1, sys1⟩, h1⟩ := rotateModel_returns sampleGlm sampleDriver (F32.ofNat 0)
    (F32.ofNat 30) (F32.ofNat 0) sampleDevice emptySys rfl
  obtain ⟨⟨s2, sys2⟩, h2⟩ := rotateModel_returns sampleGlm sampleDriver (F32.ofNat 0)
    (F32.ofNat 45) (F32.ofNat 0) s1 sys1 rfl
  obtain ⟨⟨s2', sys2'⟩, h2'⟩ := rotateModel_returns sampleGlm sampleDriver (F32.ofNat 0)
    (F32.ofNat 45) (F32.ofNat 0) sampleDevice emptySys rfl
  have h := rotateModel_twice_equals_last sampleGlm sampleDriver (F32.ofNat 0) (F32.ofNat 30)
    (F32.ofNat 0) (F32.ofNat 0) (F32.ofNat 45) (F32.ofNat 0) sampleDevice s1 s2 s2'
    emptySys sys1 sys2 sys2' h1 h2 h2'
  exact ⟨s1, sys1, s2, sys2, s2', sys2', h1, h2, h2', h.1, h.2.1⟩

/-- C4: after a `rotateModel` that returns, `Model` is the new rotation, `MVP` is
`((Clip * Projection) * View) * Model` with that new `Model`, the first 16 floats (64 bytes)
of the memory object of the uniform buffer are the entries of the new `MVP` in memory
order, and the calls added to the trace are exactly map, copy of 16 words, unmap, in this
order, on that memory object; the mapping had answered `VK_SUCCESS`. -/
theorem rotateModel_recomputes_and_uploads_MVP (glm : Glm) (drv : Driver) (x y z : F32)
    (self self' : VulkanDevice) (sys sys' : Sys)
    (h : self.rotateModel glm drv x y z sys = Except.ok (self', sys')) :
    self'.Model = glm.rotate (mat4.diag (F32.ofNat 1)) (glm.radians y)
      ⟨F32.ofNat 0, F32.ofNat 0, F32.ofNat 1⟩ ∧
    self'.MVP =
      glm.mul (glm.mul (glm.mul self'.Clip self'.Projection) self'.View) self'.Model ∧
    (sys'.memory self'.uniform_data.mem).take 16 = self'.MVP.toList ∧
    self'.MVP.toList.length = 16 ∧
    sys'.calls = sys.calls ++
      [Event.api ApiFn.vkMapMemory [self'.device_, self'.uniform_data.mem, 0, 64],
       Event.memcpy self'.uniform_data.mem 16,
       Event.api ApiFn.vkUnmapMemory [self'.device_, self'.uniform_data.mem]] ∧
    drv.result sys.calls.length = VK_SUCCESS := by
  obtain ⟨hres, hs, -, hc, hm, -⟩ := rotateModel_ok h
  refine ⟨by rw [hs], by rw [hs], ?_, rfl, ?_, hres⟩
  · rw [hm, hs]; simp [mat4.toList]
  · rw [hc, hs]

/-- The hypothesis of C4's theorem holds on the sample device, for the angle 90. -/
theorem rotateModel_recomputes_and_uploads_MVP_witness :
    ∃ s' sys',
      sampleDevice.rotateModel sampleGlm sampleDriver (F32.ofNat 0) (F32.ofNat 90) (F32.ofNat 0)
        emptySys = Except.ok (s', sys') ∧
      (sys'.memory s'.uniform_data.mem).take 16 = s'.MVP.toList := by
  obtain ⟨⟨s', sys'⟩, h⟩ := rotateModel_returns sampleGlm sampleDriver (F32.ofNat 0)
    (F32.ofNat 90) (F32.ofNat 0) sampleDevice emptySys rfl
  exact ⟨s', sys', h, (rotateModel_recomputes_and_uploads_MVP sampleGlm sampleDriver
    (F32.ofNat 0) (F32.ofNat 90) (F32.ofNat 0) sampleDevice s' emptySys sys' h).2.2.1⟩



/-! ## The input callback (C6, C8) -/

theorem VulkanOnDrag_touch {glm : Glm} {drv : Driver} {x y : F32} {w w' : World}
    (h : VulkanOnDrag glm drv x y w = Except.ok w') :
    w'.xpos = w.xpos ∧ w'.ypos = w.ypos ∧ w'.androidAppCtx = w.androidAppCtx := by
  unfold VulkanOnDrag at h
  split at h
  · cases h; exact ⟨rfl, rfl, rfl⟩
  · simp only [bind, Except.bind, pure, Except.pure] at h
    split at h
    · cases h
    · cases h; exact ⟨rfl, rfl, rfl⟩
  · cases h

/-- On a `move` event the callback logs two lines and hands `(x - xpos, y - ypos)` to
`VulkanOnDrag`; it returns 1 when that call returns. -/
theorem handle_input_move (glm : Glm) (drv : Driver) (event : AInputEvent) (w : World)
    (ht : event.type = AINPUT_EVENT_TYPE_MOTION) (ha : event.action = AMOTION_EVENT_ACTION_MOVE) :
    handle_input glm drv event w =
      (VulkanOnDrag glm drv (F32.sub event.x w.xpos) (F32.sub event.y w.ypos)
        (moveLogged event (F32.sub event.x w.xpos) w)).map (fun w' => (1, w')) := by
  unfold handle_input
  simp only [ht, ha, if_true, bind, Except.bind, pure, Except.pure, Except.map]
  have h1 : ¬ (AMOTION_EVENT_ACTION_MOVE = AMOTION_EVENT_ACTION_DOWN) := by decide
  have h2 : ¬ (AMOTION_EVENT_ACTION_MOVE = AMOTION_EVENT_ACTION_UP) := by decide
  simp only [h1, h2, if_false, moveLogged, ha]

/-- A `down` event stores its coordinates; every other event that is handled leaves the
stored touch position as it was. -/
theorem handle_input_touch {glm : Glm} {drv : Driver} {event : AInputEvent} {w w' : World}
    {r : Int} (h : handle_input glm drv event w = Except.ok (r, w')) :
    (event.type = AINPUT_EVENT_TYPE_MOTION ∧ event.action = AMOTION_EVENT_ACTION_DOWN →
      w'.xpos = event.x ∧ w'.ypos = event.y) ∧
    (¬ (event.type = AINPUT_EVENT_TYPE_MOTION ∧ event.action = AMOTION_EVENT_ACTION_DOWN) →
      w'.xpos = w.xpos ∧ w'.ypos = w.ypos) := by
  by_cases ht : event.type = AINPUT_EVENT_TYPE_MOTION
  · by_cases hd : event.action = AMOTION_EVENT_ACTION_DOWN
    · unfold handle_input at h
      simp only [ht, hd, if_true, bind, Except.bind, pure, Except.pure] at h
      cases h
      exact ⟨fun _ => ⟨rfl, rfl⟩, fun hn => absurd ⟨ht, hd⟩ hn⟩
    · refine ⟨fun hp => absurd hp.2 hd, fun _ => ?_⟩
      by_cases hu : event.action = AMOTION_EVENT_ACTION_UP
      · unfold handle_input at h
        simp only [ht, hd, hu, if_true, if_false, bind, Except.bind, pure, Except.pure] at h
        cases h
        exact ⟨rfl, rfl⟩
      · by_cases hm : event.action = AMOTION_EVENT_ACTION_MOVE
        · rw [handle_input_move glm drv event w ht hm] at h
          simp only [Except.map] at h
          split at h
          · cases h
          · rename_i heq
            cases h
            have := VulkanOnDrag_touch heq
            exact ⟨this.1, this.2.1⟩
        · unfold handle_input at h
          simp only [ht, hd, hu, hm, if_true, if_false, bind, Except.bind, pure,
            Except.pure] at h
          cases h
          exact ⟨rfl, rfl⟩
  · refine ⟨fun hp => absurd hp.1 ht, fun _ => ?_⟩
    unfold handle_input at h
    simp only [ht, if_false] at h
    split at h <;> (cases h; exact ⟨rfl, rfl⟩)

theorem handle_inputs_touch {glm : Glm} {drv : Driver} :
    ∀ (events : List AInputEvent) (w w' : World),
      (∀ e ∈ events,
        ¬ (e.type = AINPUT_EVENT_TYPE_MOTION ∧ e.action = AMOTION_EVENT_ACTION_DOWN)) →
      handle_inputs glm drv events w = Except.ok w' →
      w'.xpos = w.xpos ∧ w'.ypos = w.ypos := by
  intro events
  induction events with
  | nil =>
    intro w w' _ h
    simp only [handle_inputs] at h
    cases h
    exact ⟨rfl, rfl⟩
  | cons e rest ih =>
    intro w w' hno h
    simp only [handle_inputs, bind, Except.bind] at h
    split at h
    · cases h
    · rename_i v heq
      obtain ⟨r, w1⟩ := v
      have h1 := (handle_input_touch heq).2 (hno e (List.mem_cons_self _ _))
      have h2 := ih w1 w' (fun e' he' => hno e' (List.mem_cons_of_mem _ he')) h
      exact ⟨h2.1.trans h1.1, h2.2.trans h1.2⟩

/-- C6, as the code has it: for every sequence of input events that starts with a press and
goes on without another press, a `move` event delivered next forwards to `VulkanOnDrag`
the event's coordinates minus those of that press (the stored `xpos`, `ypos`), whatever
moves came in between; it returns 1 when `VulkanOnDrag` returns. -/
theorem move_forwards_offset_from_last_press (glm : Glm) (drv : Driver)
    (press move : AInputEvent) (between : List AInputEvent) (w w1 : World)
    (hpress : press.type = AINPUT_EVENT_TYPE_MOTION ∧
      press.action = AMOTION_EVENT_ACTION_DOWN)
    (hbetween : ∀ e ∈ between,
      ¬ (e.type = AINPUT_EVENT_TYPE_MOTION ∧ e.action = AMOTION_EVENT_ACTION_DOWN))
    (hmove : move.type = AINPUT_EVENT_TYPE_MOTION ∧ move.action = AMOTION_EVENT_ACTION_MOVE)
    (hrun : handle_inputs glm drv (press :: between) w = Except.ok w1) :
    handle_input glm drv move w1 =
      (VulkanOnDrag glm drv (F32.sub move.x press.x) (F32.sub move.y press.y)
        (moveLogged move (F32.sub move.x press.x) w1)).map (fun w' => (1, w')) := by
  simp only [handle_inputs, bind, Except.bind] at hrun
  split at hrun
  · cases hrun
  · rename_i v heq
    obtain ⟨r, w0⟩ := v
    have h0 := (handle_input_touch heq).1 hpress
    have h1 := handle_inputs_touch between w0 w1 hbetween hrun
    rw [handle_input_move glm drv move w1 hmove.1 hmove.2, h1.1, h1.2, h0.1, h0.2]



/-- The hypotheses of C6's theorem hold for a press at `x = 5`, a move to 10 and a move to
30 on the sample world. -/
theorem move_forwards_offset_from_last_press_witness :
    ∃ w1, handle_inputs sampleGlm sampleDriver
        [motionEvent AMOTION_EVENT_ACTION_DOWN 5 5, motionEvent AMOTION_EVENT_ACTION_MOVE 10 5]
        sampleWorld = Except.ok w1 ∧
      handle_input sampleGlm sampleDriver (motionEvent AMOTION_EVENT_ACTION_MOVE 30 5) w1 =
        (VulkanOnDrag sampleGlm sampleDriver (F32.sub (F32.ofNat 30) (F32.ofNat 5))
          (F32.sub (F32.ofNat 5) (F32.ofNat 5))
          (moveLogged (motionEvent AMOTION_EVENT_ACTION_MOVE 30 5)
            (F32.sub (F32.ofNat 30) (F32.ofNat 5)) w1)).map (fun w' => (1, w')) :=
  match h : handle_inputs sampleGlm sampleDriver
      [motionEvent AMOTION_EVENT_ACTION_DOWN 5 5, motionEvent AMOTION_EVENT_ACTION_MOVE 10 5]
      sampleWorld with
  | Except.ok w1 =>
    ⟨w1, rfl, move_forwards_offset_from_last_press sampleGlm sampleDriver
      (motionEvent AMOTION_EVENT_ACTION_DOWN 5 5) (motionEvent AMOTION_EVENT_ACTION_MOVE 30 5)
      [motionEvent AMOTION_EVENT_ACTION_MOVE 10 5] sampleWorld w1 (by decide) (by decide)
      (by decide) h⟩
  | Except.error e => by
    have hb : (handle_inputs sampleGlm sampleDriver
      [motionEvent AMOTION_EVENT_ACTION_DOWN 5 5, motionEvent AMOTION_EVENT_ACTION_MOVE 10 5]
      sampleWorld).toBool = true := by decide
    rw [h] at hb
    cases hb

/-- C6 as stated fails. After a press at `x = 0` and a move to `x = 10`, a move to `x = 30`
forwards 30 (the offset from the press), not 20 (the delta since the previous sample):
the two `move` lines of the log show the amounts 10 and 30, and the angles that
`rotateModel` logs are those of 10 and 30 pixels at width 800, 4.5 and 13.5 degrees. -/
theorem move_forwards_delta_since_previous_sample_counterexample :
    (handle_inputs sampleGlm sampleDriver
        [motionEvent AMOTION_EVENT_ACTION_DOWN 0 0, motionEvent AMOTION_EVENT_ACTION_MOVE 10 0,
         motionEvent AMOTION_EVENT_ACTION_MOVE 30 0] sampleWorld).toOption.map
      (fun w => (w.sys.log.filter (fun e => e.fmt != "pos = (%f, %f)" &&
        e.fmt != "Motion event: action=%d flag=%d metaState=0x%x")).map (fun e => e.args)) =
      some [[LogArg.float (F32.ofNat 10), LogArg.float (F32.ofNat 0), LogArg.float (F32.ofNat 10)],
            [LogArg.float (F32.lit 9 2)],
            [LogArg.float (F32.ofNat 30), LogArg.float (F32.ofNat 0), LogArg.float (F32.ofNat 30)],
            [LogArg.float (F32.lit 27 2)]] ∧
    F32.sub (F32.ofNat 30) (F32.ofNat 10) = F32.ofNat 20 ∧
    F32.ofNat 30 ≠ F32.ofNat 20 := by
  decide



/-- C8: `handle_input` returns 1 for every motion event, whatever its action: a call that
returns on a motion event returns 1; it does return for every motion event other than a
`move`, and for a `move` exactly when the `VulkanOnDrag` it forwards to returns. For every
event that is not a motion event it returns 0 and leaves the device pointer and object, the
stored touch position, the API trace and the device memory as they were; a key event adds
one log line and nothing else. -/
theorem handle_input_return_value (glm : Glm) (drv : Driver) (event : AInputEvent)
    (w : World) :
    (event.type = AINPUT_EVENT_TYPE_MOTION →
      ∀ r w', handle_input glm drv event w = Except.ok (r, w') → r = 1) ∧
    (event.type = AINPUT_EVENT_TYPE_MOTION → event.action ≠ AMOTION_EVENT_ACTION_MOVE →
      ∃ w', handle_input glm drv event w = Except.ok (1, w')) ∧
    (event.type = AINPUT_EVENT_TYPE_MOTION → event.action = AMOTION_EVENT_ACTION_MOVE →
      handle_input glm drv event w =
        (VulkanOnDrag glm drv (F32.sub event.x w.xpos) (F32.sub event.y w.ypos)
          (moveLogged event (F32.sub event.x w.xpos) w)).map (fun w' => (1, w'))) ∧
    (event.type ≠ AINPUT_EVENT_TYPE_MOTION →
      ∃ w', handle_input glm drv event w = Except.ok (0, w') ∧
        w'.device = w.device ∧ w'.xpos = w.xpos ∧ w'.ypos = w.ypos ∧
        w'.sys.calls = w.sys.calls ∧ w'.sys.memory = w.sys.memory ∧
        w'.sys.memory16 = w.sys.memory16) ∧
    (event.type = AINPUT_EVENT_TYPE_KEY →
      handle_input glm drv event w = Except.ok (0, { w with
        sys := w.sys.print LOG_TAG "Key event: action=%d keyCode=%d metaState=0x%x"
          [LogArg.int event.action, LogArg.int event.keyCode, LogArg.int event.metaState] })) := by
  have hkm : ¬ (AINPUT_EVENT_TYPE_KEY = AINPUT_EVENT_TYPE_MOTION) := by decide
  refine ⟨?_, ?_, ?_, ?_, ?_⟩
  · intro ht r w' h
    by_cases hm : event.action = AMOTION_EVENT_ACTION_MOVE
    · rw [handle_input_move glm drv event w ht hm] at h
      simp only [Except.map] at h
      split at h
      · cases h
      · cases h; rfl
    · unfold handle_input at h
      simp only [ht, hm, if_true, if_false, bind, Except.bind, pure, Except.pure] at h
      split at h
      · cases h; rfl
      · split at h <;> (cases h; rfl)
  · intro ht hm
    unfold handle_input
    simp only [ht, hm, if_true, if_false, bind, Except.bind, pure, Except.pure]
    split
    · exact ⟨_, rfl⟩
    · split <;> exact ⟨_, rfl⟩
  · intro ht hm
    exact handle_input_move glm drv event w ht hm
  · intro ht
    unfold handle_input
    simp only [ht, if_false]
    split
    · exact ⟨_, rfl, rfl, rfl, rfl, rfl, rfl, rfl⟩
    · exact ⟨_, rfl, rfl, rfl, rfl, rfl, rfl, rfl⟩
  · intro hk
    unfold handle_input
    simp only [hk, hkm, if_true, if_false]

/-- C8's theorem at concrete events: a release at `(3, 4)` returns 1, and a key event
returns 0 and leaves the touch position alone. -/
theorem handle_input_return_value_witness :
    (∃ w', handle_input sampleGlm sampleDriver (motionEvent AMOTION_EVENT_ACTION_UP 3 4)
      sampleWorld = Except.ok (1, w')) ∧
    (∃ w', handle_input sampleGlm sampleDriver
        ⟨AINPUT_EVENT_TYPE_KEY, 0, 0, 0, 24, F32.ofNat 0, F32.ofNat 0⟩ sampleWorld
        = Except.ok (0, w') ∧ w'.xpos = sampleWorld.xpos) := by
  constructor
  · exact (handle_input_return_value sampleGlm sampleDriver
      (motionEvent AMOTION_EVENT_ACTION_UP 3 4) sampleWorld).2.1 (by decide) (by decide)
  · obtain ⟨w', h, -, hx, -⟩ := (handle_input_return_value sampleGlm sampleDriver
      ⟨AINPUT_EVENT_TYPE_KEY, 0, 0, 0, 24, F32.ofNat 0, F32.ofNat 0⟩ sampleWorld).2.2.2.1
      (by decide)
    exact ⟨w', h, hx⟩

/-! ## The command callback (C7) -/

theorem init_sets_ready {glm : Glm} {drv : Driver} {mesh : Mesh} {fuel : Nat}
    {self d : VulkanDevice} {sys sys' : Sys} {trace : List (InitStep × Bool)}
    (h : self.init glm drv mesh fuel sys = Except.ok (d, sys', trace)) :
    d.isReady = true := by
  unfold VulkanDevice.init at h
  simp only [bind, Except.bind, pure, Except.pure] at h
  split at h
  · cases h
  · cases h; rfl

/-- C7: `handle_cmd` dispatches as follows. `APP_CMD_INIT_WINDOW` is `InitVulkan(app)`: when
it returns, either the loader was missing and the device pointer is as before, or the pointer
holds a newly constructed object that is ready. `APP_CMD_TERM_WINDOW` is `DeleteVulkan()`:
on a live object the destructor runs (three destroy calls) and the object is gone. Every
other command value leaves the device pointer and object, the touch position, the API
trace and the device memory unchanged and adds one log line. -/
theorem handle_cmd_dispatch (glm : Glm) (drv : Driver) (mesh : Mesh) (fuel : Nat)
    (app : Nat) (cmd : Int) (w : World) :
    (cmd = APP_CMD_INIT_WINDOW →
      handle_cmd glm drv mesh fuel app cmd w =
        (InitVulkan glm drv mesh fuel app w).map (fun r => r.2) ∧
      ∀ w', handle_cmd glm drv mesh fuel app cmd w = Except.ok w' →
        (drv.flag w.sys.calls.length = false ∧ w'.device = w.device) ∨
        (drv.flag w.sys.calls.length = true ∧
          ∃ d, w'.device = DevicePtr.object d ∧ d.isReady = true)) ∧
    (cmd = APP_CMD_TERM_WINDOW →
      handle_cmd glm drv mesh fuel app cmd w = DeleteVulkan w ∧
      ∀ d, w.device = DevicePtr.object d →
        handle_cmd glm drv mesh fuel app cmd w = Except.ok { w with
          device := DevicePtr.dangling
          sys := { w.sys with calls := w.sys.calls ++
            [Event.api ApiFn.vkDestroyPipelineLayout [d.device_, d.pipelineLayout],
             Event.api ApiFn.vkDestroyDevice [d.device_],
             Event.api ApiFn.vkDestroyInstance [d.instance_]] } }) ∧
    (cmd ≠ APP_CMD_INIT_WINDOW → cmd ≠ APP_CMD_TERM_WINDOW →
      ∃ w', handle_cmd glm drv mesh fuel app cmd w = Except.ok w' ∧
        w'.device = w.device ∧ w'.xpos = w.xpos ∧ w'.ypos = w.ypos ∧
        w'.androidAppCtx = w.androidAppCtx ∧
        w'.sys.calls = w.sys.calls ∧ w'.sys.memory = w.sys.memory ∧
        w'.sys.memory16 = w.sys.memory16 ∧
        w'.sys.log = w.sys.log ++
          [⟨"Vulkan Tutorials", "event not handled: %d", [LogArg.int cmd]⟩]) := by
  have hti : ¬ (APP_CMD_TERM_WINDOW = APP_CMD_INIT_WINDOW) := by decide
  refine ⟨?_, ?_, ?_⟩
  · intro hc
    have hdisp : handle_cmd glm drv mesh fuel app cmd w =
        (InitVulkan glm drv mesh fuel app w).map (fun r => r.2) := by
      unfold handle_cmd
      simp only [hc, if_true, bind, Except.bind, pure, Except.pure, Except.map]
    refine ⟨hdisp, ?_⟩
    intro w' h
    rw [hdisp] at h
    unfold InitVulkan at h
    simp only [bind, Except.bind, pure, Except.pure, Except.map, Sys.call] at h
    by_cases hf : drv.flag w.sys.calls.length = true
    · simp only [hf, Bool.not_true, Bool.false_eq_true, if_false] at h
      split at h
      · cases h
      · rename_i v heq
        split at heq
        · cases heq
        · rename_i v' hcons
          obtain ⟨d, s, t⟩ := v'
          cases heq
          cases h
          exact Or.inr ⟨hf, d, rfl, init_sets_ready hcons⟩
    · have hf' : drv.flag w.sys.calls.length = false := by simpa using hf
      simp only [hf', Bool.not_false, if_true] at h
      cases h
      exact Or.inl ⟨hf', rfl⟩
  · intro hc
    have hdisp : handle_cmd glm drv mesh fuel app cmd w = DeleteVulkan w := by
      unfold handle_cmd
      simp only [hc, hti, if_true, if_false]
    refine ⟨hdisp, ?_⟩
    intro d hd
    rw [hdisp]
    unfold DeleteVulkan
    rw [hd]
    simp [VulkanDevice.destruct, Sys.call]
  · intro h1 h2
    unfold handle_cmd
    simp only [h1, h2, if_false]
    exact ⟨_, rfl, rfl, rfl, rfl, rfl, rfl, rfl, rfl, rfl⟩



/-! ## No step of `init` writes the ready flag -/

theorem init_instance_initialized {drv : Driver} {name : String}
    {self self' : VulkanDevice} {sys sys' : Sys} {r : Int}
    (h : self.init_instance drv name sys = Except.ok (r, self', sys')) :
    self'.initialized = self.initialized := by
  unfold VulkanDevice.init_instance at h
  simp only [bind, Except.bind, pure, Except.pure, assert, Sys.call] at h
  repeat' split at h
  all_goals (cases h; try rfl)

theorem init_enumerate_device_initialized {drv : Driver} {gpu_count : Nat}
    {self self' : VulkanDevice} {sys sys' : Sys} {r : Int}
    (h : self.init_enumerate_device drv gpu_count sys = Except.ok (r, self', sys')) :
    self'.initialized = self.initialized := by
  unfold VulkanDevice.init_enumerate_device at h
  simp only [bind, Except.bind, pure, Except.pure, assert, Sys.call] at h
  repeat' split at h
  all_goals (cases h; try rfl)

theorem init_swapchain_extension_initialized {drv : Driver} 
    {self self' : VulkanDevice} {sys sys' : Sys} {r : Bool}
    (h : self.init_swapchain_extension drv sys = Except.ok (r, self', sys')) :
    self'.initialized = self.initialized := by
  unfold VulkanDevice.init_swapchain_extension at h
  simp only [bind, Except.bind, pure, Except.pure, assert, Sys.call] at h
  repeat' split at h
  all_goals (cases h; try rfl)

theorem init_device_initialized {drv : Driver} 
    {self self' : VulkanDevice} {sys sys' : Sys} {r : Int}
    (h : self.init_device drv sys = Except.ok (r, self', sys')) :
    self'.initialized = self.initialized := by
  unfold VulkanDevice.init_device at h
  simp only [bind, Except.bind, pure, Except.pure, assert, Sys.call] at h
  repeat' split at h
  all_goals (cases h; try rfl)

theorem init_swap_chain_initialized {drv : Driver} {usageFlags : Nat}
    {self self' : VulkanDevice} {sys sys' : Sys} 
    (h : self.init_swap_chain drv usageFlags sys = Except.ok (self', sys')) :
    self'.initialized = self.initialized := by
  unfold VulkanDevice.init_swap_chain at h
  simp only [bind, Except.bind, pure, Except.pure, assert, Sys.call] at h
  repeat' split at h
  all_goals (cases h; try rfl)

theorem init_command_pool_initialized {drv : Driver} 
    {self self' : VulkanDevice} {sys sys' : Sys} 
    (h : self.init_command_pool drv sys = Except.ok (self', sys')) :
    self'.initialized = self.initialized := by
  unfold VulkanDevice.init_command_pool at h
  simp only [bind, Except.bind, pure, Except.pure, assert, Sys.call] at h
  repeat' split at h
  all_goals (cases h; try rfl)

theorem init_command_buffer_initialized {drv : Driver} 
    {self self' : VulkanDevice} {sys sys' : Sys} 
    (h : self.init_command_buffer drv sys = Except.ok (self', sys')) :
    self'.initialized = self.initialized := by
  unfold VulkanDevice.init_command_buffer at h
  simp only [bind, Except.bind, pure, Except.pure, assert, Sys.call] at h
  repeat' split at h
  all_goals (cases h; try rfl)

theorem execute_begin_command_buffer_initialized {drv : Driver} 
    {self self' : VulkanDevice} {sys sys' : Sys} 
    (h : self.execute_begin_command_buffer drv sys = Except.ok (self', sys')) :
    self'.initialized = self.initialized := by
  unfold VulkanDevice.execute_begin_command_buffer at h
  simp only [bind, Except.bind, pure, Except.pure, assert, Sys.call] at h
  repeat' split at h
  all_goals (cases h; try rfl)

theorem init_depth_buffer_initialized {drv : Driver} 
    {self self' : VulkanDevice} {sys sys' : Sys} {r : Bool}
    (h : self.init_depth_buffer drv sys = Except.ok (r, self', sys')) :
    self'.initialized = self.initialized := by
  unfold VulkanDevice.init_depth_buffer at h
  simp only [bind, Except.bind, pure, Except.pure, assert, Sys.call] at h
  repeat' split at h
  all_goals (cases h; try rfl)

theorem init_descriptor_and_pipeline_layouts_initialized {drv : Driver} {use_texture : Bool}
    {self self' : VulkanDevice} {sys sys' : Sys} 
    (h : self.init_descriptor_and_pipeline_layouts drv use_texture sys = Except.ok (self', sys')) :
    self'.initialized = self.initialized := by
  unfold VulkanDevice.init_descriptor_and_pipeline_layouts at h
  simp only [bind, Except.bind, pure, Except.pure, assert, Sys.call] at h
  repeat' split at h
  all_goals (cases h; try rfl)

theorem init_renderpass_initialized {drv : Driver} {include_depth clear : Bool}
    {self self' : VulkanDevice} {sys sys' : Sys} 
    (h : self.init_renderpass drv include_depth clear sys = Except.ok (self', sys')) :
    self'.initialized = self.initialized := by
  unfold VulkanDevice.init_renderpass at h
  simp only [bind, Except.bind, pure, Except.pure, assert, Sys.call] at h
  repeat' split at h
  all_goals (cases h; try rfl)

theorem init_descriptor_pool_initialized {drv : Driver} {use_texture : Bool}
    {self self' : VulkanDevice} {sys sys' : Sys} 
    (h : self.init_descriptor_pool drv use_texture sys = Except.ok (self', sys')) :
    self'.initialized = self.initialized := by
  unfold VulkanDevice.init_descriptor_pool at h
  simp only [bind, Except.bind, pure, Except.pure, assert, Sys.call] at h
  repeat' split at h
  all_goals (cases h; try rfl)

theorem init_descriptor_set_initialized {drv : Driver} {use_texture : Bool}
    {self self' : VulkanDevice} {sys sys' : Sys} 
    (h : self.init_descriptor_set drv use_texture sys = Except.ok (self', sys')) :
    self'.initialized = self.initialized := by
  unfold VulkanDevice.init_descriptor_set at h
  simp only [bind, Except.bind, pure, Except.pure, assert, Sys.call] at h
  repeat' split at h
  all_goals (cases h; try rfl)

theorem init_pipeline_cache_initialized {drv : Driver} 
    {self self' : VulkanDevice} {sys sys' : Sys} 
    (h : self.init_pipeline_cache drv sys = Except.ok (self', sys')) :
    self'.initialized = self.initialized := by
  unfold VulkanDevice.init_pipeline_cache at h
  simp only [bind, Except.bind, pure, Except.pure, assert, Sys.call] at h
  repeat' split at h
  all_goals (cases h; try rfl)

theorem init_pipeline_initialized {drv : Driver} {include_depth include_vi : Bool}
    {self self' : VulkanDevice} {sys sys' : Sys} 
    (h : self.init_pipeline drv include_depth include_vi sys = Except.ok (self', sys')) :
    self'.initialized = self.initialized := by
  unfold VulkanDevice.init_pipeline at h
  simp only [bind, Except.bind, pure, Except.pure, assert, Sys.call] at h
  repeat' split at h
  all_goals (cases h; try rfl)

theorem preDraw_initialized {drv : Driver} {fuel : Nat}
    {self self' : VulkanDevice} {sys sys' : Sys} 
    (h : self.preDraw drv fuel sys = Except.ok (self', sys')) :
    self'.initialized = self.initialized := by
  unfold VulkanDevice.preDraw at h
  simp only [bind, Except.bind, pure, Except.pure, assert, Sys.call] at h
  repeat' split at h
  all_goals (cases h; try rfl)

theorem initIndexForVertex_initialized {drv : Driver} {indexData : List Nat} {indexDataSize : Nat}
    {self self' : VulkanDevice} {sys sys' : Sys} 
    (h : self.initIndexForVertex drv indexData indexDataSize sys = Except.ok (self', sys')) :
    self'.initialized = self.initialized := by
  unfold VulkanDevice.initIndexForVertex at h
  simp only [bind, Except.bind, pure, Except.pure, assert, Sys.call] at h
  repeat' split at h
  all_goals (cases h; try rfl)

theorem initVertexBufferWithNormal_initialized {drv : Driver} {vertexData normalData : List F32} {vertexDataSize normalDataSize : Nat}
    {self self' : VulkanDevice} {sys sys' : Sys} 
    (h : self.initVertexBufferWithNormal drv vertexData vertexDataSize normalData normalDataSize sys = Except.ok (self', sys')) :
    self'.initialized = self.initialized := by
  unfold VulkanDevice.initVertexBufferWithNormal at h
  simp only [bind, Except.bind, pure, Except.pure, assert, Sys.call] at h
  repeat' split at h
  all_goals (cases h; try rfl)


theorem init_uniform_buffer_initialized {glm : Glm} {drv : Driver}
    {self self' : VulkanDevice} {sys sys' : Sys}
    (h : self.init_uniform_buffer glm drv sys = Except.ok (self', sys')) :
    self'.initialized = self.initialized := by
  unfold VulkanDevice.init_uniform_buffer at h
  simp only [bind, Except.bind, pure, Except.pure, assert, Sys.call] at h
  repeat' split at h
  all_goals (cases h; try rfl)

theorem init_shaders_initialized {drv : Driver}
    {self self' : VulkanDevice} {sys sys' : Sys}
    (h : self.init_shaders drv sys = Except.ok (self', sys')) :
    self'.initialized = self.initialized := by
  unfold VulkanDevice.init_shaders at h
  simp only [bind, Except.bind, pure, Except.pure] at h
  repeat' split at h
  all_goals (cases h; try rfl)

theorem gatherLayerExtensions_initialized {drv : Driver} {fuel : Nat} :
    ∀ (layers : List Nat) (res r : Int) (self self' : VulkanDevice) (sys sys' : Sys),
      gatherLayerExtensions drv fuel layers res self sys = Except.ok (r, self', sys') →
      self'.initialized = self.initialized := by
  intro layers
  induction layers with
  | nil =>
    intro res r self self' sys sys' h
    simp only [gatherLayerExtensions] at h
    cases h
    rfl
  | cons p rest ih =>
    intro res r self self' sys sys' h
    simp only [gatherLayerExtensions, bind, Except.bind, pure, Except.pure] at h
    split at h
    · cases h
    · split at h
      · cases h; rfl
      · exact (ih _ _ _ _ _ _ h).trans rfl

theorem init_global_layer_properties_initialized {drv : Driver} {fuel : Nat}
    {self self' : VulkanDevice} {sys sys' : Sys} {r : Int}
    (h : self.init_global_layer_properties drv fuel sys = Except.ok (r, self', sys')) :
    self'.initialized = self.initialized := by
  unfold VulkanDevice.init_global_layer_properties at h
  simp only [bind, Except.bind, pure, Except.pure] at h
  split at h
  · cases h
  · split at h
    · cases h; rfl
    · exact gatherLayerExtensions_initialized _ _ _ _ _ _ _ h

theorem swapChainImageViews_initialized {drv : Driver} {swapchainImages : List Nat} :
    ∀ (indices : List Nat) (self self' : VulkanDevice) (sys sys' : Sys),
      swapChainImageViews drv swapchainImages indices self sys = Except.ok (self', sys') →
      self'.initialized = self.initialized := by
  intro indices
  induction indices with
  | nil =>
    intro self self' sys sys' h
    simp only [swapChainImageViews] at h
    cases h
    rfl
  | cons i rest ih =>
    intro self self' sys sys' h
    simp only [swapChainImageViews, bind, Except.bind, pure, Except.pure] at h
    split at h
    · cases h
    · split at h
      · cases h
      · exact (ih _ _ _ _ h).trans rfl

theorem initSwapChainImages_initialized {drv : Driver}
    {self self' : VulkanDevice} {sys sys' : Sys}
    (h : self.initSwapChainImages drv sys = Except.ok (self', sys')) :
    self'.initialized = self.initialized := by
  unfold VulkanDevice.initSwapChainImages at h
  simp only [bind, Except.bind, pure, Except.pure] at h
  split at h
  · cases h
  · split at h
    · cases h
    · rename_i heq
      cases h
      exact (swapChainImageViews_initialized _ _ _ _ _ heq).trans rfl

theorem createFramebuffers_initialized {drv : Driver} {include_depth : Bool} :
    ∀ (indices : List Nat) (self self' : VulkanDevice) (sys sys' : Sys),
      createFramebuffers drv include_depth indices self sys = Except.ok (self', sys') →
      self'.initialized = self.initialized := by
  intro indices
  induction indices with
  | nil =>
    intro self self' sys sys' h
    simp only [createFramebuffers] at h
    cases h
    rfl
  | cons i rest ih =>
    intro self self' sys sys' h
    simp only [createFramebuffers, bind, Except.bind, pure, Except.pure] at h
    split at h
    · cases h
    · exact (ih _ _ _ _ h).trans rfl

theorem init_framebuffers_initialized {drv : Driver} {include_depth : Bool}
    {self self' : VulkanDevice} {sys sys' : Sys}
    (h : self.init_framebuffers drv include_depth sys = Except.ok (self', sys')) :
    self'.initialized = self.initialized := by
  unfold VulkanDevice.init_framebuffers at h
  exact (createFramebuffers_initialized _ _ _ _ _ h).trans rfl

/-- No call in the body of `init` changes what `isReady()` answers. -/
theorem InitStep.run_initialized {glm : Glm} {drv : Driver} {mesh : Mesh} {fuel : Nat}
    (step : InitStep) {self self' : VulkanDevice} {sys sys' : Sys}
    (h : step.run glm drv mesh fuel self sys = Except.ok (self', sys')) :
    self'.initialized = self.initialized := by
  cases step <;> simp only [InitStep.run, bind, Except.bind, pure, Except.pure] at h
  case init_global_layer_properties =>
    split at h
    · cases h
    · rename_i heq; cases h; exact init_global_layer_properties_initialized heq
  case init_instance_extension_names => cases h; rfl
  case init_device_extension_names => cases h; rfl
  case init_instance =>
    split at h
    · cases h
    · rename_i heq; cases h; exact init_instance_initialized heq
  case init_enumerate_device =>
    split at h
    · cases h
    · rename_i heq; cases h; exact init_enumerate_device_initialized heq
  case init_swapchain_extension =>
    split at h
    · cases h
    · rename_i heq; cases h; exact init_swapchain_extension_initialized heq
  case init_device =>
    split at h
    · cases h
    · rename_i heq; cases h; exact init_device_initialized heq
  case init_swap_chain => exact init_swap_chain_initialized h
  case init_command_pool => exact init_command_pool_initialized h
  case init_command_buffer => exact init_command_buffer_initialized h
  case execute_begin_command_buffer => exact execute_begin_command_buffer_initialized h
  case init_device_queue => cases h; rfl
  case initSwapChainImages => exact initSwapChainImages_initialized h
  case init_depth_buffer =>
    split at h
    · cases h
    · rename_i heq; cases h; exact init_depth_buffer_initialized heq
  case init_uniform_buffer => exact init_uniform_buffer_initialized h
  case init_descriptor_and_pipeline_layouts =>
    exact init_descriptor_and_pipeline_layouts_initialized h
  case init_renderpass => exact init_renderpass_initialized h
  case init_shaders => exact init_shaders_initialized h
  case init_framebuffers => exact init_framebuffers_initialized h
  case initVertexBufferWithNormal => exact initVertexBufferWithNormal_initialized h
  case initIndexForVertex => exact initIndexForVertex_initialized h
  case init_descriptor_pool => exact init_descriptor_pool_initialized h
  case init_descriptor_set => exact init_descriptor_set_initialized h
  case init_pipeline_cache => exact init_pipeline_cache_initialized h
  case init_pipeline => exact init_pipeline_initialized h
  case preDraw => exact preDraw_initialized h



/-! ## The order of initialization and the ready flag (C9, C10) -/

/-- Running a list of steps appends them to the trace in order, each with the ready flag
the object had at the start, and leaves that flag as it was. -/
theorem runSteps_spec {glm : Glm} {drv : Driver} {mesh : Mesh} {fuel : Nat} :
    ∀ (steps : List InitStep) (self d : VulkanDevice) (sys sys' : Sys)
      (trace trace' : List (InitStep × Bool)),
      runSteps glm drv mesh fuel steps self sys trace = Except.ok (d, sys', trace') →
      trace' = trace ++ steps.map (fun s => (s, self.isReady)) ∧
      d.isReady = self.isReady := by
  intro steps
  induction steps with
  | nil =>
    intro self d sys sys' trace trace' h
    simp only [runSteps] at h
    cases h
    simp
  | cons step rest ih =>
    intro self d sys sys' trace trace' h
    simp only [runSteps, bind, Except.bind] at h
    split at h
    · cases h
    · rename_i v heq
      obtain ⟨self1, sys1⟩ := v
      have hflag : self1.isReady = self.isReady := InitStep.run_initialized step heq
      obtain ⟨ht, hd⟩ := ih self1 d sys1 sys' _ trace' h
      refine ⟨?_, hd.trans hflag⟩
      rw [ht, hflag]
      simp

theorem init_spec {glm : Glm} {drv : Driver} {mesh : Mesh} {fuel : Nat}
    {self d : VulkanDevice} {sys sys' : Sys} {trace : List (InitStep × Bool)}
    (h : self.init glm drv mesh fuel sys = Except.ok (d, sys', trace)) :
    ∃ d1, runSteps glm drv mesh fuel initSequence self sys [] = Except.ok (d1, sys', trace) ∧
      d1.isReady = self.isReady ∧ d = { d1 with initialized := true } ∧
      trace = initSequence.map (fun s => (s, self.isReady)) := by
  unfold VulkanDevice.init at h
  simp only [bind, Except.bind, pure, Except.pure] at h
  split at h
  · cases h
  · rename_i v heq
    obtain ⟨d1, s1, t1⟩ := v
    cases h
    obtain ⟨ht, hd⟩ := runSteps_spec _ _ _ _ _ _ _ heq
    exact ⟨d1, heq, hd, rfl, by simpa using ht⟩

/-- C9: the readiness query reports whether initialization completed. `IsVulkanReady()`
answers `false` when the device pointer is null, and what `isReady()` answers when it
holds a live object. When the constructor returns, every call of the `init` sequence,
`preDraw` included and last, was entered with `isReady()` false, the object was still not
ready when `preDraw` had returned, and the object the constructor leaves is ready. -/
theorem readiness_reports_completed_init (glm : Glm) (drv : Driver) (mesh : Mesh)
    (fuel : Nat) (storage d : VulkanDevice) (app : Nat) (sys sys' : Sys)
    (trace : List (InitStep × Bool)) (w : World)
    (h : VulkanDevice.construct glm drv mesh fuel storage app sys
      = Except.ok (d, sys', trace)) :
    (w.device = DevicePtr.null → IsVulkanReady w = Except.ok false) ∧
    (w.device = DevicePtr.object d → IsVulkanReady w = Except.ok true) ∧
    (∀ e ∈ trace, e.2 = false) ∧
    trace.map Prod.fst = initSequence ∧
    (trace.map Prod.fst).getLast? = some InitStep.preDraw ∧
    (∃ d1 s1 t1, runSteps glm drv mesh fuel initSequence
        { storage with
          initialized := false
          androidAppCtx := app
          instance_layer_properties := []
          instance_layer_names := []
          instance_extension_names := []
          device_extension_names := []
          device_layer_names := []
          gpus := []
          queue_props := []
          buffers := []
          desc_layout := []
          desc_set := [] } sys [] = Except.ok (d1, s1, t1) ∧ d1.isReady = false) ∧
    d.isReady = true := by
  unfold VulkanDevice.construct at h
  obtain ⟨d1, hrun, hd1, hd, ht⟩ := init_spec h
  have hready : d.isReady = true := by rw [hd]; rfl
  refine ⟨?_, ?_, ?_, ?_, ?_, ⟨d1, sys', trace, hrun, hd1⟩, hready⟩
  · intro hn
    unfold IsVulkanReady
    rw [hn]
  · intro ho
    unfold IsVulkanReady
    rw [ho]
    simp only [hready]
  · intro e he
    rw [ht] at he
    simp only [List.mem_map] at he
    obtain ⟨s, -, rfl⟩ := he
    rfl
  · rw [ht]
    simp [Function.comp_def]
  · rw [ht]
    simp [Function.comp_def, initSequence]

/-- C10: when `init` returns on an object that is not ready, the calls it made are exactly
the body of the source in its order; they contain the steps that the specification lists,
in the specification's order, each exactly once; `preDraw` is the last of them; every one
of them was entered with the ready flag still false, and the flag is true at the end. -/
theorem init_trace_follows_specified_order (glm : Glm) (drv : Driver) (mesh : Mesh)
    (fuel : Nat) (self d : VulkanDevice) (sys sys' : Sys) (trace : List (InitStep × Bool))
    (hnew : self.isReady = false)
    (h : self.init glm drv mesh fuel sys = Except.ok (d, sys', trace)) :
    trace.map Prod.fst = initSequence ∧
    List.Sublist specifiedOrder (trace.map Prod.fst) ∧
    (∀ s ∈ specifiedOrder, (trace.map Prod.fst).count s = 1) ∧
    (trace.map Prod.fst).getLast? = some InitStep.preDraw ∧
    (∀ e ∈ trace, e.2 = false) ∧
    d.isReady = true := by
  obtain ⟨d1, -, -, hd, ht⟩ := init_spec h
  have hsteps : trace.map Prod.fst = initSequence := by
    rw [ht]; simp [Function.comp_def]
  refine ⟨hsteps, ?_, ?_, ?_, ?_, by rw [hd]; rfl⟩
  · rw [hsteps]; decide
  · rw [hsteps]; decide
  · rw [hsteps]; decide
  · intro e he
    rw [ht] at he
    simp only [List.mem_map] at he
    obtain ⟨s, -, rfl⟩ := he
    exact hnew



/-- On the sample driver the constructor returns. -/
theorem construct_sample_returns :
    (VulkanDevice.construct sampleGlm sampleDriver sampleMesh 1 blankDevice 1 emptySys).toBool
      = true := by
  decide

/-- The hypothesis of C9's theorem holds for the sample driver (a surface of 800 x 600 with
one swapchain image): the constructor returns and the object is ready. -/
theorem readiness_reports_completed_init_witness :
    ∃ d sys' trace,
      VulkanDevice.construct sampleGlm sampleDriver sampleMesh 1 blankDevice 1 emptySys
        = Except.ok (d, sys', trace) ∧
      (∀ e ∈ trace, e.2 = false) ∧ d.isReady = true ∧
      IsVulkanReady ⟨DevicePtr.object d, 1, F32.ofNat 0, F32.ofNat 0, sys'⟩ = Except.ok true :=
  match h : VulkanDevice.construct sampleGlm sampleDriver sampleMesh 1 blankDevice 1
      emptySys with
  | Except.ok (d, sys', trace) =>
    have hthm := readiness_reports_completed_init sampleGlm sampleDriver sampleMesh 1
      blankDevice d 1 emptySys sys' trace
      ⟨DevicePtr.object d, 1, F32.ofNat 0, F32.ofNat 0, sys'⟩ h
    ⟨d, sys', trace, rfl, hthm.2.2.1, hthm.2.2.2.2.2.2, hthm.2.1 rfl⟩
  | Except.error e => by
    have hb := construct_sample_returns
    rw [h] at hb
    cases hb

/-- The hypotheses of C10's theorem hold for the sample driver: `init` returns on a blank
object with an application context, and its calls were made in the order of the source. -/
theorem init_trace_follows_specified_order_witness :
    ∃ d sys' trace,
      VulkanDevice.init sampleGlm sampleDriver sampleMesh 1
        { blankDevice with androidAppCtx := 1 } emptySys = Except.ok (d, sys', trace) ∧
      trace.map Prod.fst = initSequence ∧ d.isReady = true :=
  match h : VulkanDevice.init sampleGlm sampleDriver sampleMesh 1
      { blankDevice with androidAppCtx := 1 } emptySys with
  | Except.ok (d, sys', trace) =>
    have hthm := init_trace_follows_specified_order sampleGlm sampleDriver sampleMesh 1
      { blankDevice with androidAppCtx := 1 } d emptySys sys' trace rfl h
    ⟨d, sys', trace, rfl, hthm.1, hthm.2.2.2.2.2⟩
  | Except.error e => by
    have hb : (VulkanDevice.init sampleGlm sampleDriver sampleMesh 1
        { blankDevice with androidAppCtx := 1 } emptySys).toBool = true := by
      decide
    rw [h] at hb
    cases hb

/-- C7's theorem at concrete commands: the command 7 on the sample world only adds a log
line; `APP_CMD_TERM_WINDOW` on the sample world destroys the device; `APP_CMD_INIT_WINDOW`
on the start world is `InitVulkan`. -/
theorem handle_cmd_dispatch_witness :
    (∃ w', handle_cmd sampleGlm sampleDriver sampleMesh 1 1 7 sampleWorld = Except.ok w' ∧
      w'.device = sampleWorld.device ∧ w'.xpos = sampleWorld.xpos ∧
      w'.sys.calls = sampleWorld.sys.calls) ∧
    (handle_cmd sampleGlm sampleDriver sampleMesh 1 1 APP_CMD_TERM_WINDOW sampleWorld
      = DeleteVulkan sampleWorld) ∧
    (handle_cmd sampleGlm sampleDriver sampleMesh 1 1 APP_CMD_INIT_WINDOW startWorld
      = (InitVulkan sampleGlm sampleDriver sampleMesh 1 1 startWorld).map (fun r => r.2)) := by
  have h := handle_cmd_dispatch sampleGlm sampleDriver sampleMesh 1 1
  refine ⟨?_, ((h APP_CMD_TERM_WINDOW sampleWorld).2.1 rfl).1,
    ((h APP_CMD_INIT_WINDOW startWorld).1 rfl).1⟩
  obtain ⟨w', hw, hdev, hx, -, -, hcalls, -⟩ :=
    (h 7 sampleWorld).2.2 (by decide) (by decide)
  exact ⟨w', hw, hdev, hx, hcalls⟩

/-! ## What `rotateModel` leaves as it was (C19) -/

/-- C19: a `rotateModel` that returns changes, of the object, only `Model` and `MVP`, and,
of the device memory, only the memory object of the uniform buffer: `Projection`, `View`,
`Clip`, `width`, `height`, the vertex and index buffers and the contents of every other
memory object, the draw counts, the command buffers and what is recorded in them, the
current image index and the ready flag are as before. -/
theorem rotateModel_changes_only_Model_MVP_uniform (glm : Glm) (drv : Driver) (x y z : F32)
    (self self' : VulkanDevice) (sys sys' : Sys)
    (h : self.rotateModel glm drv x y z sys = Except.ok (self', sys')) :
    self' = { self with Model := self'.Model, MVP := self'.MVP } ∧
    self'.Projection = self.Projection ∧ self'.View = self.View ∧ self'.Clip = self.Clip ∧
    self'.width = self.width ∧ self'.height = self.height ∧
    self'.vertex_buffer = self.vertex_buffer ∧ self'.indexBuf = self.indexBuf ∧
    self'.drawElementNum = self.drawElementNum ∧
    self'.drawInstanceNum = self.drawInstanceNum ∧
    self'.cmdBuffer = self.cmdBuffer ∧ self'.current_buffer = self.current_buffer ∧
    self'.isReady = self.isReady ∧
    (∀ mem, mem ≠ self.uniform_data.mem →
      sys'.memory mem = sys.memory mem ∧ sys'.memory16 mem = sys.memory16 mem) ∧
    (∀ cmd, recorded cmd sys'.calls = recorded cmd sys.calls) ∧
    sys'.calls.filter Event.isCommand = sys.calls.filter Event.isCommand := by
  obtain ⟨-, hs, -, hc, hm, hm16⟩ := rotateModel_ok h
  subst hs
  refine ⟨rfl, rfl, rfl, rfl, rfl, rfl, rfl, rfl, rfl, rfl, rfl, rfl, rfl, ?_, ?_, ?_⟩
  · intro mem hmem
    rw [hm, hm16]
    simp [hmem]
  · intro cmd
    rw [hc]
    simp [recorded, List.filter_append, Event.isCommandOf, ApiFn.recordsCommands]
  · rw [hc]
    simp [List.filter_append, Event.isCommand, ApiFn.recordsCommands]

/-- The hypothesis of C19's theorem holds on the sample device, for the angle 90: the call
returns, and the memory object 7 (not the uniform buffer's, which is 6) is as before. -/
theorem rotateModel_changes_only_Model_MVP_uniform_witness :
    ∃ s' sys',
      sampleDevice.rotateModel sampleGlm sampleDriver (F32.ofNat 0) (F32.ofNat 90) (F32.ofNat 0)
        emptySys = Except.ok (s', sys') ∧
      s'.Projection = sampleDevice.Projection ∧ s'.width = sampleDevice.width ∧
      sys'.memory 7 = emptySys.memory 7 := by
  obtain ⟨⟨s', sys'⟩, h⟩ := rotateModel_returns sampleGlm sampleDriver (F32.ofNat 0)
    (F32.ofNat 90) (F32.ofNat 0) sampleDevice emptySys rfl
  have hthm := rotateModel_changes_only_Model_MVP_uniform sampleGlm sampleDriver
    (F32.ofNat 0) (F32.ofNat 90) (F32.ofNat 0) sampleDevice s' emptySys sys' h
  exact ⟨s', sys', h, hthm.2.1, hthm.2.2.2.2.1, (hthm.2.2.2.2.2.2.2.2.2.2.2.2.2.1 7 (by decide)).1⟩

/-! ## Only the horizontal amount of a drag counts (C20) -/

/-- C20: `VulkanOnDrag(dx, dy1)` and `VulkanOnDrag(dx, dy2)` have the same outcome on every
state of the globals (the same new state, or the same fault); `rotateModel(x1, a, z1)` and
`rotateModel(x2, a, z2)` have the same outcome on every object; and with a null device
pointer `VulkanOnDrag` returns the globals as they were. -/
theorem VulkanOnDrag_ignores_vertical (glm : Glm) (drv : Driver) :
    (∀ (dx dy1 dy2 : F32) (w : World),
      VulkanOnDrag glm drv dx dy1 w = VulkanOnDrag glm drv dx dy2 w) ∧
    (∀ (x1 x2 a z1 z2 : F32) (self : VulkanDevice) (sys : Sys),
      self.rotateModel glm drv x1 a z1 sys = self.rotateModel glm drv x2 a z2 sys) ∧
    (∀ (dx dy : F32) (device : DevicePtr) (app : Nat) (xpos ypos : F32) (sys : Sys),
      device = DevicePtr.null →
      VulkanOnDrag glm drv dx dy ⟨device, app, xpos, ypos, sys⟩
        = Except.ok ⟨device, app, xpos, ypos, sys⟩) := by
  refine ⟨fun _ _ _ _ => rfl, fun _ _ _ _ _ _ _ => rfl, ?_⟩
  intro dx dy device app xpos ypos sys hnull
  subst hnull
  rfl

/-- C20's theorem at the start world, whose device pointer is null: a drag changes
nothing. -/
theorem VulkanOnDrag_ignores_vertical_witness :
    VulkanOnDrag sampleGlm sampleDriver (F32.ofNat 5) (F32.ofNat 7) startWorld
      = Except.ok startWorld :=
  (VulkanOnDrag_ignores_vertical sampleGlm sampleDriver).2.2 (F32.ofNat 5) (F32.ofNat 7)
    DevicePtr.null 0 (F32.ofNat 0) (F32.ofNat 0) emptySys rfl

/-! ## The main loop requests a frame that draws nothing (C16) -/

/-- A sequence of two computations returns only if the first returns and the second
returns on what the first gave. -/
theorem bind_eq_ok {α β : Type} {x : Except Fault α} {f : α → Except Fault β} {r : β}
    (h : (x >>= f) = Except.ok r) : ∃ a, x = Except.ok a ∧ f a = Except.ok r := by
  cases x with
  | error e => cases h
  | ok a => exact ⟨a, rfl, h⟩

/-- An `assert` that returns had a true condition. -/
theorem assert_eq_ok {c : Bool} {u : Unit} (h : assert c = Except.ok u) : c = true := by
  cases c
  · cases h
  · rfl

/-- What one pass of the main loop does: the poll timeout is 1 when the device was ready
at the start and 0 otherwise, the polled source is processed, and `VulkanDrawFrame` is
called once when the device is ready after that, and not otherwise. -/
theorem mainLoopIteration_ok {glm : Glm} {drv : Driver} {mesh : Mesh} {fuel : Nat} {app : Nat}
    {p : Polled} {w w' : World} {loop loop' : List LoopEvent}
    (h : mainLoopIteration glm drv mesh fuel app p w loop = Except.ok (w', loop')) :
    ∃ before after,
      IsVulkanReady w = Except.ok before ∧
      p.process glm drv mesh fuel app w = Except.ok w' ∧
      IsVulkanReady w' = Except.ok after ∧
      loop' = loop ++ [LoopEvent.poll (if before then 1 else 0)] ++
        (if after then [LoopEvent.drawFrame] else []) := by
  unfold mainLoopIteration at h
  obtain ⟨before, hbefore, h⟩ := bind_eq_ok h
  obtain ⟨w1, hproc, h⟩ := bind_eq_ok h
  obtain ⟨after, hafter, h⟩ := bind_eq_ok h
  cases after
  · simp only [pure, Except.pure] at h
    cases h
    exact ⟨before, false, hbefore, hproc, hafter, by simp⟩
  · simp only [pure, Except.pure, VulkanDrawFrame] at h
    cases h
    exact ⟨before, true, hbefore, hproc, hafter, by simp⟩

/-- C16: `VulkanDrawFrame` returns `true` and leaves the globals, the device object and
the trace of API calls as they were, on every state. In a pass of the main loop that
returns, the calls of `VulkanDrawFrame` number one when `IsVulkanReady()` is true after the
polled source was processed, and none otherwise; the trace of API calls gains only what
processing the source added. -/
theorem VulkanDrawFrame_draws_nothing (glm : Glm) (drv : Driver) (mesh : Mesh) (fuel : Nat)
    (app : Nat) :
    (∀ w : World, VulkanDrawFrame w = (true, w)) ∧
    (∀ (p : Polled) (w w' : World) (loop loop' : List LoopEvent),
      mainLoopIteration glm drv mesh fuel app p w loop = Except.ok (w', loop') →
      ∃ ready new,
        IsVulkanReady w' = Except.ok ready ∧
        loop' = loop ++ new ∧
        new.count LoopEvent.drawFrame = (if ready then 1 else 0) ∧
        p.process glm drv mesh fuel app w = Except.ok w') := by
  refine ⟨fun _ => rfl, ?_⟩
  intro p w w' loop loop' h
  obtain ⟨before, after, -, hproc, hafter, hloop⟩ := mainLoopIteration_ok h
  refine ⟨after, [LoopEvent.poll (if before then 1 else 0)] ++
    (if after then [LoopEvent.drawFrame] else []), hafter, ?_, ?_, hproc⟩
  · rw [hloop, List.append_assoc]
  · cases after <;> simp

/-- C16's theorem on concrete passes with nothing polled: with the ready sample device the
pass polls with timeout 1 and requests one frame, and the globals stay as they were; with a
null device pointer it polls with timeout 0 and requests none. -/
theorem VulkanDrawFrame_draws_nothing_witness :
    (∃ w' loop', mainLoopIteration sampleGlm sampleDriver sampleMesh 1 1 Polled.nothing
        sampleWorld [] = Except.ok (w', loop') ∧
      IsVulkanReady w' = Except.ok true ∧ loop'.count LoopEvent.drawFrame = 1 ∧
      w'.sys.calls = sampleWorld.sys.calls) ∧
    (∃ w' loop', mainLoopIteration sampleGlm sampleDriver sampleMesh 1 1 Polled.nothing
        startWorld [] = Except.ok (w', loop') ∧
      IsVulkanReady w' = Except.ok false ∧ loop'.count LoopEvent.drawFrame = 0) := by
  have hthm := (VulkanDrawFrame_draws_nothing sampleGlm sampleDriver sampleMesh 1 1).2
  constructor
  · have h : mainLoopIteration sampleGlm sampleDriver sampleMesh 1 1 Polled.nothing
        sampleWorld [] = Except.ok (sampleWorld, [LoopEvent.poll 1, LoopEvent.drawFrame]) := rfl
    obtain ⟨ready, new, hready, hloop, hcount, -⟩ := hthm _ _ _ _ _ h
    have hr : ready = true := by
      have h2 : IsVulkanReady sampleWorld = Except.ok true := rfl
      rw [h2] at hready
      cases hready
      rfl
    subst hr
    exact ⟨_, _, h, hready, by decide, rfl⟩
  · have h : mainLoopIteration sampleGlm sampleDriver sampleMesh 1 1 Polled.nothing
        startWorld [] = Except.ok (startWorld, [LoopEvent.poll 0]) := rfl
    obtain ⟨ready, new, hready, hloop, hcount, -⟩ := hthm _ _ _ _ _ h
    exact ⟨_, _, h, rfl, by decide⟩

/-! ## The recording loop and the wait loop of `preDraw` -/

theorem recordCommandBuffers_eq (self : VulkanDevice) :
    ∀ (indices : List Nat) (sys : Sys),
      recordCommandBuffers self indices sys
        = { sys with calls := sys.calls ++ indices.flatMap (recordedEvents self) } := by
  intro indices
  induction indices with
  | nil => intro sys; simp [recordCommandBuffers]
  | cons i rest ih =>
    intro sys
    simp only [recordCommandBuffers, Sys.call, Sys.floats, ih, List.flatMap_cons, recordedEvents,
      List.append_assoc, List.cons_append, List.nil_append]

theorem length_flatMap_recordedEvents (self : VulkanDevice) (indices : List Nat) :
    (indices.flatMap (recordedEvents self)).length = 10 * indices.length := by
  induction indices with
  | nil => rfl
  | cons i rest ih =>
    simp only [List.flatMap_cons, List.length_append, ih, List.length_cons]
    simp [recordedEvents]
    omega

/-- A wait loop that returns made `k + 1` waits for some `k` below the fuel: the first `k`
answered `VK_TIMEOUT`, the last one answered the result the loop ends with, which is not
`VK_TIMEOUT`; each wait logged its answer. -/
theorem waitForDrawFence_ok {drv : Driver} {self : VulkanDevice} :
    ∀ (fuel : Nat) (sys sys' : Sys) (res : Int),
      waitForDrawFence drv self fuel sys = Except.ok (res, sys') →
      ∃ k, k < fuel ∧
        (∀ j, j < k → drv.result (sys.calls.length + j) = VK_TIMEOUT) ∧
        drv.result (sys.calls.length + k) = res ∧ res ≠ VK_TIMEOUT ∧
        sys' = { sys with
          calls := sys.calls ++ List.replicate (k + 1) (fenceWait self)
          log := sys.log ++ fenceWaitLog drv sys.calls.length (k + 1) } := by
  intro fuel
  induction fuel with
  | zero => intro sys sys' res h; cases h
  | succ fuel ih =>
    intro sys sys' res h
    simp only [waitForDrawFence, Sys.call, Sys.print] at h
    split at h
    · rename_i hto
      obtain ⟨k, hk, hj, hres, hne, hsys⟩ := ih _ _ _ h
      refine ⟨k + 1, by omega, ?_, ?_, hne, ?_⟩
      · intro j hjk
        cases j with
        | zero => simpa using hto
        | succ j =>
          have := hj j (by omega)
          simp only [List.length_append, List.length_singleton] at this
          rw [← this]
          congr 1
          omega
      · simp only [List.length_append, List.length_singleton] at hres
        rw [← hres]
        congr 1
        omega
      · rw [hsys]
        simp only [List.length_append, List.length_singleton, fenceWait, fenceWaitLog,
          List.replicate_succ, List.append_assoc, List.cons_append, List.nil_append]
    · rename_i hto
      cases h
      exact ⟨0, by omega, by intro j hj; omega, rfl, hto, by simp [fenceWait, fenceWaitLog]⟩

/-- With fuel for `k + 1` waits, a wait loop whose first `k` waits answer `VK_TIMEOUT` and
whose next wait answers something else returns after exactly `k + 1` waits, with that
answer. -/
theorem waitForDrawFence_returns {drv : Driver} {self : VulkanDevice} :
    ∀ (k fuel : Nat) (sys : Sys), k < fuel →
      (∀ j, j < k → drv.result (sys.calls.length + j) = VK_TIMEOUT) →
      drv.result (sys.calls.length + k) ≠ VK_TIMEOUT →
      waitForDrawFence drv self fuel sys = Except.ok (drv.result (sys.calls.length + k),
        { sys with
          calls := sys.calls ++ List.replicate (k + 1) (fenceWait self)
          log := sys.log ++ fenceWaitLog drv sys.calls.length (k + 1) }) := by
  intro k
  induction k with
  | zero =>
    intro fuel sys hk _ hne
    cases fuel with
    | zero => omega
    | succ fuel =>
      simp only [waitForDrawFence, Sys.call, Sys.print]
      simp only [Nat.add_zero] at hne
      simp [hne, fenceWait, fenceWaitLog]
  | succ k ih =>
    intro fuel sys hk hj hne
    cases fuel with
    | zero => omega
    | succ fuel =>
      simp only [waitForDrawFence, Sys.call, Sys.print]
      have h0 : drv.result sys.calls.length = VK_TIMEOUT := by simpa using hj 0 (by omega)
      simp only [h0, if_true]
      rw [ih fuel _ (by omega)]
      · simp only [List.length_append, List.length_singleton, fenceWait, fenceWaitLog,
          List.replicate_succ, List.append_assoc, List.cons_append, List.nil_append]
        congr 2
        · congr 1; omega
        · rw [h0]
      · intro j hjk
        have := hj (j + 1) (by omega)
        simp only [List.length_append, List.length_singleton]
        rw [← this]; congr 1; omega
      · simp only [List.length_append, List.length_singleton]
        intro hc
        apply hne
        rw [← hc]; congr 1; omega


/-- What a `preDraw` that returns has done. With `L` the length of the trace at entry and
`n` the number of swapchain images: the semaphore creation (position `L`), the image
acquisition (`L + 1`) and the queue submission (`L + 10 n + 3`) answered `VK_SUCCESS`; the
wait loop made `k + 1` waits (from position `L + 10 n + 4`), `k` timeouts and then
`VK_SUCCESS`; the presentation (`L + 10 n + 5 + k`) answered `VK_SUCCESS`. -/
theorem preDraw_ok {drv : Driver} {fuel : Nat} {self self' : VulkanDevice} {sys sys' : Sys}
    (h : self.preDraw drv fuel sys = Except.ok (self', sys')) :
    ∃ k, k < fuel ∧
      drv.result sys.calls.length = VK_SUCCESS ∧
      drv.result (sys.calls.length + 1) = VK_SUCCESS ∧
      drv.result (sys.calls.length + 10 * self.swapchainImageCount + 3) = VK_SUCCESS ∧
      (∀ j, j < k →
        drv.result (sys.calls.length + 10 * self.swapchainImageCount + 4 + j) = VK_TIMEOUT) ∧
      drv.result (sys.calls.length + 10 * self.swapchainImageCount + 4 + k) = VK_SUCCESS ∧
      drv.result (sys.calls.length + 10 * self.swapchainImageCount + 5 + k) = VK_SUCCESS ∧
      self' = { self with
        presentCompleteSemaphore := drv.handle sys.calls.length
        current_buffer := drv.count (sys.calls.length + 1)
        drawFence := drv.handle (sys.calls.length + 10 * self.swapchainImageCount + 2)
        present := ⟨0, 1, MemberPtr.swap_chain, MemberPtr.current_buffer⟩ } ∧
      sys'.calls = sys.calls ++
        [Event.api ApiFn.vkCreateSemaphore [self.device_],
         Event.api ApiFn.vkAcquireNextImageKHR
           [self.device_, self.swap_chain, self'.presentCompleteSemaphore]] ++
        (List.range self.swapchainImageCount).flatMap (recordedEvents self) ++
        [Event.api ApiFn.vkCreateFence [self.device_],
         Event.api ApiFn.vkQueueSubmit
           [self.queue_, 1, self'.presentCompleteSemaphore, 1,
            self.cmdBuffer.getD self'.current_buffer 0, self'.drawFence]] ++
        List.replicate (k + 1) (fenceWait self') ++
        [Event.api ApiFn.vkQueuePresentKHR
           [self.queue_, 1, self.swap_chain, self'.current_buffer]] ∧
      sys'.log = sys.log ++
        fenceWaitLog drv (sys.calls.length + 10 * self.swapchainImageCount + 4) (k + 1) ++
        [⟨kTAG, "preDraw", []⟩] ∧
      sys'.memory = sys.memory ∧ sys'.memory16 = sys.memory16 := by
  unfold VulkanDevice.preDraw at h
  simp only [Sys.call, recordCommandBuffers_eq] at h
  obtain ⟨_, h1, h⟩ := bind_eq_ok h
  have h1 := assert_eq_ok h1
  obtain ⟨_, h2, h⟩ := bind_eq_ok h
  have h2 := assert_eq_ok h2
  obtain ⟨_, h3, h⟩ := bind_eq_ok h
  have h3 := assert_eq_ok h3
  obtain ⟨⟨res, sysw⟩, hw, h⟩ := bind_eq_ok h
  simp only at h
  obtain ⟨_, h4, h⟩ := bind_eq_ok h
  have h4 := assert_eq_ok h4
  obtain ⟨_, h5, h⟩ := bind_eq_ok h
  have h5 := assert_eq_ok h5
  obtain ⟨k, hk, hj, hres, -, hsys⟩ := waitForDrawFence_ok _ _ _ _ hw
  simp only [pure, Except.pure, Sys.print] at h
  cases h
  subst hsys
  simp only [List.length_append, List.length_cons, List.length_nil, List.length_replicate,
    length_flatMap_recordedEvents, List.length_range, beq_iff_eq] at h1 h2 h3 h4 h5 hj hres
  subst hres
  refine ⟨k, hk, h1, h2, ?_, ?_, ?_, ?_, ?_, ?_, ?_, rfl, rfl⟩
  · rw [← h3]; congr 1; omega
  · intro j hjk
    rw [← hj j hjk]; congr 1; omega
  · rw [← h4]; congr 1; omega
  · rw [← h5]; congr 1; omega
  · simp only [List.length_append, List.length_cons, List.length_nil,
      length_flatMap_recordedEvents, List.length_range]
    congr 2
    omega
  · simp only [VulkanDevice.deref, fenceWait, List.length_append, List.length_cons,
      List.length_nil, length_flatMap_recordedEvents, List.length_range, List.append_assoc,
      List.cons_append, List.nil_append]
    rfl
  · simp only [List.length_append, List.length_cons, List.length_nil,
      length_flatMap_recordedEvents, List.length_range, List.append_assoc]
    congr 3
    omega


/-- The outcome of `preDraw` when, with enough fuel, the wait loop sees `k` timeouts and
then another answer: the call returns if the five checked calls answer `VK_SUCCESS`
(semaphore creation, image acquisition, queue submission, the last wait, presentation),
and it ends in a failed `assert` otherwise. -/
theorem preDraw_outcome {drv : Driver} {fuel : Nat} {self : VulkanDevice} {sys : Sys}
    (k : Nat) (hk : k < fuel)
    (hj : ∀ j, j < k →
      drv.result (sys.calls.length + 10 * self.swapchainImageCount + 4 + j) = VK_TIMEOUT)
    (hne : drv.result (sys.calls.length + 10 * self.swapchainImageCount + 4 + k) ≠ VK_TIMEOUT) :
    ((drv.result sys.calls.length = VK_SUCCESS ∧
      drv.result (sys.calls.length + 1) = VK_SUCCESS ∧
      drv.result (sys.calls.length + 10 * self.swapchainImageCount + 3) = VK_SUCCESS ∧
      drv.result (sys.calls.length + 10 * self.swapchainImageCount + 4 + k) = VK_SUCCESS ∧
      drv.result (sys.calls.length + 10 * self.swapchainImageCount + 5 + k) = VK_SUCCESS) →
      ∃ out, self.preDraw drv fuel sys = Except.ok out) ∧
    (¬ (drv.result sys.calls.length = VK_SUCCESS ∧
      drv.result (sys.calls.length + 1) = VK_SUCCESS ∧
      drv.result (sys.calls.length + 10 * self.swapchainImageCount + 3) = VK_SUCCESS ∧
      drv.result (sys.calls.length + 10 * self.swapchainImageCount + 4 + k) = VK_SUCCESS ∧
      drv.result (sys.calls.length + 10 * self.swapchainImageCount + 5 + k) = VK_SUCCESS) →
      self.preDraw drv fuel sys = Except.error Fault.assertFailed) := by
  have key : ∀ (selfw : VulkanDevice) (sysw : Sys),
      sysw.calls.length = sys.calls.length + 10 * self.swapchainImageCount + 4 →
      waitForDrawFence drv selfw fuel sysw
        = Except.ok (drv.result (sys.calls.length + 10 * self.swapchainImageCount + 4 + k),
          { sysw with
            calls := sysw.calls ++ List.replicate (k + 1) (fenceWait selfw)
            log := sysw.log ++ fenceWaitLog drv sysw.calls.length (k + 1) }) := by
    intro selfw sysw hlen
    rw [waitForDrawFence_returns k fuel sysw hk (by rw [hlen]; exact hj) (by rw [hlen]; exact hne),
      hlen]
  unfold VulkanDevice.preDraw
  simp only [Sys.call, recordCommandBuffers_eq, bind, Except.bind, assert]
  simp only [List.length_append, List.length_cons, List.length_nil,
    length_flatMap_recordedEvents, List.length_range]
  by_cases h1 : drv.result sys.calls.length = VK_SUCCESS
  swap
  · simp [h1]
  by_cases h2 : drv.result (sys.calls.length + 1) = VK_SUCCESS
  swap
  · simp [h1, h2]
  have e3 : sys.calls.length + (0 + 1) + (0 + 1) + 10 * self.swapchainImageCount + (0 + 1)
      = sys.calls.length + 10 * self.swapchainImageCount + 3 := by omega
  have e1 : sys.calls.length + (0 + 1) = sys.calls.length + 1 := rfl
  simp only [e1, e3, h1, h2, beq_self_eq_true, if_true]
  by_cases h3 : drv.result (sys.calls.length + 10 * self.swapchainImageCount + 3) = VK_SUCCESS
  swap
  · simp [h3]
  simp only [h3, beq_self_eq_true, if_true]
  rw [key _ _ (by
    simp only [List.length_append, List.length_cons, List.length_nil,
      length_flatMap_recordedEvents, List.length_range]
    omega)]
  simp only [List.length_append, List.length_cons, List.length_nil, List.length_replicate,
    length_flatMap_recordedEvents, List.length_range]
  by_cases h4 : drv.result (sys.calls.length + 10 * self.swapchainImageCount + 4 + k)
      = VK_SUCCESS
  swap
  · simp [h4]
  have e5 : sys.calls.length + (0 + 1) + (0 + 1) + 10 * self.swapchainImageCount + (0 + 1)
      + (0 + 1) + (k + 1) = sys.calls.length + 10 * self.swapchainImageCount + 5 + k := by omega
  simp only [h4, e5, beq_self_eq_true, if_true]
  by_cases h5 : drv.result (sys.calls.length + 10 * self.swapchainImageCount + 5 + k)
      = VK_SUCCESS
  · simp [h1, h2, h3, h4, h5, pure, Except.pure]
  · simp [h5]


/-! ## `draw` -/

/-- The whole of `draw`, `L` being the length of the trace at entry: it ends in a failed
`CALL_VK` unless image acquisition (position `L`), fence reset (`L + 1`) and queue
submission (`L + 2`) answer `VK_SUCCESS`; otherwise it waits once for the fence, requests
presentation, and returns what the wait answered (position `L + 3`). What the presentation
answers is not looked at. -/
theorem draw_eq (drv : Driver) (self : VulkanDevice) (sys : Sys) :
    self.draw drv sys =
      if drv.result sys.calls.length = VK_SUCCESS ∧
          drv.result (sys.calls.length + 1) = VK_SUCCESS ∧
          drv.result (sys.calls.length + 2) = VK_SUCCESS then
        Except.ok (drv.result (sys.calls.length + 3),
          { self with
            current_buffer := drv.count sys.calls.length
            present := { self.present with pImageIndices := MemberPtr.current_buffer } },
          { sys with
            calls := sys.calls ++
              [Event.api ApiFn.vkAcquireNextImageKHR
                 [self.device_, self.swap_chain, self.presentCompleteSemaphore],
               Event.api ApiFn.vkResetFences [self.device_, 1, self.drawFence],
               Event.api ApiFn.vkQueueSubmit
                 [self.queue_, 1, self.presentCompleteSemaphore, 1,
                  self.cmdBuffer.getD (drv.count sys.calls.length) 0, self.drawFence],
               fenceWait self,
               Event.api ApiFn.vkQueuePresentKHR
                 [self.queue_, self.present.swapchainCount,
                  ({ self with current_buffer := drv.count sys.calls.length }).deref
                    self.present.pSwapchains,
                  drv.count sys.calls.length]] })
      else Except.error Fault.assertFailed := by
  unfold VulkanDevice.draw
  simp only [Sys.call, bind, Except.bind, assert, pure, Except.pure, fenceWait]
  simp only [List.length_append, List.length_cons, List.length_nil]
  by_cases h1 : drv.result sys.calls.length = VK_SUCCESS
  swap
  · simp [h1]
  by_cases h2 : drv.result (sys.calls.length + 1) = VK_SUCCESS
  swap
  · simp [h1, h2]
  by_cases h3 : drv.result (sys.calls.length + 2) = VK_SUCCESS
  swap
  · simp [h1, h2, h3]
  simp [h1, h2, h3, VulkanDevice.deref]


/-- A `draw` that returns: the three checked calls answered `VK_SUCCESS`, and the trace
gained the five calls of `draw_eq`. -/
theorem draw_ok {drv : Driver} {self self' : VulkanDevice} {sys sys' : Sys} {res : Int}
    (h : self.draw drv sys = Except.ok (res, self', sys')) :
    drv.result sys.calls.length = VK_SUCCESS ∧
    drv.result (sys.calls.length + 1) = VK_SUCCESS ∧
    drv.result (sys.calls.length + 2) = VK_SUCCESS ∧
    res = drv.result (sys.calls.length + 3) ∧
    self' = { self with
      current_buffer := drv.count sys.calls.length
      present := { self.present with pImageIndices := MemberPtr.current_buffer } } ∧
    sys'.calls = sys.calls ++
      [Event.api ApiFn.vkAcquireNextImageKHR
         [self.device_, self.swap_chain, self.presentCompleteSemaphore],
       Event.api ApiFn.vkResetFences [self.device_, 1, self.drawFence],
       Event.api ApiFn.vkQueueSubmit
         [self.queue_, 1, self.presentCompleteSemaphore, 1,
          self.cmdBuffer.getD self'.current_buffer 0, self.drawFence],
       fenceWait self,
       Event.api ApiFn.vkQueuePresentKHR
         [self.queue_, self.present.swapchainCount, self'.deref self.present.pSwapchains,
          self'.current_buffer]] ∧
    sys'.log = sys.log ∧ sys'.memory = sys.memory ∧ sys'.memory16 = sys.memory16 := by
  rw [draw_eq] at h
  split at h
  · rename_i hc
    cases h
    refine ⟨hc.1, hc.2.1, hc.2.2, rfl, rfl, ?_, rfl, rfl, rfl⟩
    cases hp : self.present.pSwapchains <;> simp [VulkanDevice.deref, hp]
  · cases h

/-! ## The order of the calls of `draw` (C14) -/

/-- C14, as the code has it: the API calls that a `draw` that returns adds to the trace
are, in this order, image acquisition, reset of the fence, submission of one command
buffer with that fence, one wait for that same fence, and the request for presentation.
The wait follows the submission. -/
theorem draw_submits_then_waits (drv : Driver) (self self' : VulkanDevice) (sys sys' : Sys)
    (res : Int) (h : self.draw drv sys = Except.ok (res, self', sys')) :
    apiNames sys'.calls = apiNames sys.calls ++
      [ApiFn.vkAcquireNextImageKHR, ApiFn.vkResetFences, ApiFn.vkQueueSubmit,
       ApiFn.vkWaitForFences, ApiFn.vkQueuePresentKHR] ∧
    sys'.calls = sys.calls ++
      [Event.api ApiFn.vkAcquireNextImageKHR
         [self.device_, self.swap_chain, self.presentCompleteSemaphore],
       Event.api ApiFn.vkResetFences [self.device_, 1, self.drawFence],
       Event.api ApiFn.vkQueueSubmit
         [self.queue_, 1, self.presentCompleteSemaphore, 1,
          self.cmdBuffer.getD self'.current_buffer 0, self.drawFence],
       Event.api ApiFn.vkWaitForFences [self.device_, self.drawFence, 1, FENCE_TIMEOUT],
       Event.api ApiFn.vkQueuePresentKHR
         [self.queue_, self.present.swapchainCount, self'.deref self.present.pSwapchains,
          self'.current_buffer]] := by
  obtain ⟨-, -, -, -, -, hc, -, -, -⟩ := draw_ok h
  refine ⟨?_, hc⟩
  rw [hc]
  simp [apiNames, List.filterMap_append, Event.fn?, fenceWait]

/-- The hypothesis of C14's theorem holds on the sample device with the sample driver. -/
theorem draw_submits_then_waits_witness :
    ∃ res s' sys', sampleDevice.draw sampleDriver emptySys = Except.ok (res, s', sys') ∧
      apiNames sys'.calls =
        [ApiFn.vkAcquireNextImageKHR, ApiFn.vkResetFences, ApiFn.vkQueueSubmit,
         ApiFn.vkWaitForFences, ApiFn.vkQueuePresentKHR] :=
  match h : sampleDevice.draw sampleDriver emptySys with
  | Except.ok (res, s', sys') =>
    ⟨res, s', sys', rfl,
      (draw_submits_then_waits sampleDriver sampleDevice s' emptySys sys' res h).1⟩
  | Except.error e => by
    have hb : (sampleDevice.draw sampleDriver emptySys).toBool = true := by decide
    rw [h] at hb
    cases hb

/-- C14 as stated fails: on the sample device the calls of `draw` are acquisition, fence
reset, submission, wait, presentation, which is not the order acquisition, wait,
submission, presentation; the wait is the fourth call and the submission the third. -/
theorem draw_wait_precedes_submit_counterexample :
    (sampleDevice.draw sampleDriver emptySys).toOption.map (fun r => apiNames r.2.2.calls)
      = some [ApiFn.vkAcquireNextImageKHR, ApiFn.vkResetFences, ApiFn.vkQueueSubmit,
          ApiFn.vkWaitForFences, ApiFn.vkQueuePresentKHR] ∧
    (sampleDevice.draw sampleDriver emptySys).toOption.map (fun r => apiNames r.2.2.calls)
      ≠ some [ApiFn.vkAcquireNextImageKHR, ApiFn.vkWaitForFences, ApiFn.vkQueueSubmit,
          ApiFn.vkQueuePresentKHR] ∧
    (sampleDevice.draw sampleDriver emptySys).toOption.map
        (fun r => ((apiNames r.2.2.calls).indexOf ApiFn.vkQueueSubmit,
          (apiNames r.2.2.calls).indexOf ApiFn.vkWaitForFences)) = some (2, 3) := by
  decide


/-! ## Which result codes are checked (C12) -/

/-- C12, as the code has it. In `preDraw` the answers of `vkCreateSemaphore`,
`vkAcquireNextImageKHR`, `vkQueueSubmit`, of the wait that ends the wait loop and of
`vkQueuePresentKHR` are checked: a `preDraw` that returns got `VK_SUCCESS` from each (the
waits before the last answered `VK_TIMEOUT`), and when one of them answers anything else the
call ends in a failed `assert`. In `draw` the answers of `vkAcquireNextImageKHR`,
`vkResetFences` and `vkQueueSubmit` are checked in the same way, and the answer of its one
wait is returned to the caller, whatever it is. Positions are counted from the length `L`
of the trace at entry; `n` is the number of swapchain images. -/
theorem preDraw_and_draw_checked_results (drv : Driver) (fuel : Nat) (self : VulkanDevice)
    (sys : Sys) :
    (∀ self' sys', self.preDraw drv fuel sys = Except.ok (self', sys') →
      ∃ k, k < fuel ∧
        drv.result sys.calls.length = VK_SUCCESS ∧
        drv.result (sys.calls.length + 1) = VK_SUCCESS ∧
        drv.result (sys.calls.length + 10 * self.swapchainImageCount + 3) = VK_SUCCESS ∧
        (∀ j, j < k →
          drv.result (sys.calls.length + 10 * self.swapchainImageCount + 4 + j) = VK_TIMEOUT) ∧
        drv.result (sys.calls.length + 10 * self.swapchainImageCount + 4 + k) = VK_SUCCESS ∧
        drv.result (sys.calls.length + 10 * self.swapchainImageCount + 5 + k) = VK_SUCCESS ∧
        sys'.calls = sys.calls ++
          [Event.api ApiFn.vkCreateSemaphore [self.device_],
           Event.api ApiFn.vkAcquireNextImageKHR
             [self.device_, self.swap_chain, self'.presentCompleteSemaphore]] ++
          (List.range self.swapchainImageCount).flatMap (recordedEvents self) ++
          [Event.api ApiFn.vkCreateFence [self.device_],
           Event.api ApiFn.vkQueueSubmit
             [self.queue_, 1, self'.presentCompleteSemaphore, 1,
              self.cmdBuffer.getD self'.current_buffer 0, self'.drawFence]] ++
          List.replicate (k + 1) (fenceWait self') ++
          [Event.api ApiFn.vkQueuePresentKHR
             [self.queue_, 1, self.swap_chain, self'.current_buffer]] ∧
        ((List.range self.swapchainImageCount).flatMap (recordedEvents self)).length
          = 10 * self.swapchainImageCount) ∧
    (∀ k, k < fuel →
      (∀ j, j < k →
        drv.result (sys.calls.length + 10 * self.swapchainImageCount + 4 + j) = VK_TIMEOUT) →
      drv.result (sys.calls.length + 10 * self.swapchainImageCount + 4 + k) ≠ VK_TIMEOUT →
      ¬ (drv.result sys.calls.length = VK_SUCCESS ∧
        drv.result (sys.calls.length + 1) = VK_SUCCESS ∧
        drv.result (sys.calls.length + 10 * self.swapchainImageCount + 3) = VK_SUCCESS ∧
        drv.result (sys.calls.length + 10 * self.swapchainImageCount + 4 + k) = VK_SUCCESS ∧
        drv.result (sys.calls.length + 10 * self.swapchainImageCount + 5 + k) = VK_SUCCESS) →
      self.preDraw drv fuel sys = Except.error Fault.assertFailed) ∧
    (∀ res self' sys', self.draw drv sys = Except.ok (res, self', sys') →
      drv.result sys.calls.length = VK_SUCCESS ∧
      drv.result (sys.calls.length + 1) = VK_SUCCESS ∧
      drv.result (sys.calls.length + 2) = VK_SUCCESS ∧
      res = drv.result (sys.calls.length + 3) ∧
      apiNames sys'.calls = apiNames sys.calls ++
        [ApiFn.vkAcquireNextImageKHR, ApiFn.vkResetFences, ApiFn.vkQueueSubmit,
         ApiFn.vkWaitForFences, ApiFn.vkQueuePresentKHR]) ∧
    (¬ (drv.result sys.calls.length = VK_SUCCESS ∧
        drv.result (sys.calls.length + 1) = VK_SUCCESS ∧
        drv.result (sys.calls.length + 2) = VK_SUCCESS) →
      self.draw drv sys = Except.error Fault.assertFailed) ∧
    (drv.result sys.calls.length = VK_SUCCESS ∧
        drv.result (sys.calls.length + 1) = VK_SUCCESS ∧
        drv.result (sys.calls.length + 2) = VK_SUCCESS →
      ∃ self' sys',
        self.draw drv sys = Except.ok (drv.result (sys.calls.length + 3), self', sys')) := by
  refine ⟨?_, ?_, ?_, ?_, ?_⟩
  · intro self' sys' h
    obtain ⟨k, hk, h1, h2, h3, hj, h4, h5, -, hc, -, -, -⟩ := preDraw_ok h
    exact ⟨k, hk, h1, h2, h3, hj, h4, h5, hc, by
      rw [length_flatMap_recordedEvents, List.length_range]⟩
  · intro k hk hj hne hnot
    exact (preDraw_outcome k hk hj hne).2 hnot
  · intro res self' sys' h
    obtain ⟨h1, h2, h3, hres, -, hc, -, -, -⟩ := draw_ok h
    refine ⟨h1, h2, h3, hres, ?_⟩
    rw [hc]
    simp [apiNames, List.filterMap_append, Event.fn?, fenceWait]
  · intro hnot
    rw [draw_eq, if_neg hnot]
  · intro hall
    rw [draw_eq, if_pos hall]
    exact ⟨_, _, rfl⟩

/-- C12's theorem on the sample device: with the sample driver `preDraw` returns (one
wait, no timeout), and with a driver whose fence wait answers `VK_ERROR_DEVICE_LOST` the
function `draw` returns that answer. -/
theorem preDraw_and_draw_checked_results_witness :
    (∃ s' sys', sampleDevice.preDraw sampleDriver 1 emptySys = Except.ok (s', sys') ∧
      sampleDriver.result (emptySys.calls.length + 10 * sampleDevice.swapchainImageCount + 3)
        = VK_SUCCESS) ∧
    (∃ s' sys', sampleDevice.draw lostFenceDriver emptySys = Except.ok (-4, s', sys')) :=
  ⟨(match h : sampleDevice.preDraw sampleDriver 1 emptySys with
    | Except.ok (s', sys') =>
      ⟨s', sys', rfl, by
        obtain ⟨k, -, -, -, h3, -⟩ :=
          (preDraw_and_draw_checked_results sampleDriver 1 sampleDevice emptySys).1 s' sys' h
        exact h3⟩
    | Except.error e => by
      have hb : (sampleDevice.preDraw sampleDriver 1 emptySys).toBool = true := by decide
      rw [h] at hb
      cases hb),
   ((preDraw_and_draw_checked_results lostFenceDriver 1 sampleDevice emptySys).2.2.2.2
    (by decide))⟩

/-- C12 as stated fails: when the fence wait of `draw` answers `VK_ERROR_DEVICE_LOST` (-4),
`draw` on the sample device does not end the process: it goes on to request presentation
and returns -4 to its caller. -/
theorem draw_returns_unchecked_wait_result_counterexample :
    (sampleDevice.draw lostFenceDriver emptySys).toOption.map
        (fun r => (r.1, apiNames r.2.2.calls))
      = some (-4, [ApiFn.vkAcquireNextImageKHR, ApiFn.vkResetFences, ApiFn.vkQueueSubmit,
          ApiFn.vkWaitForFences, ApiFn.vkQueuePresentKHR]) ∧
    lostFenceDriver.result 3 ≠ VK_SUCCESS ∧ lostFenceDriver.result 3 ≠ VK_TIMEOUT := by
  decide


/-! ## The retry of a fence wait that timed out (C13) -/

/-- C13, as the code has it. Every fence wait is bounded by `FENCE_TIMEOUT` = 100000000 ns.
In `preDraw` the wait is repeated exactly while it answers `VK_TIMEOUT`: with fuel for
`k + 1` waits, when the first `k` waits time out and the next one answers something else,
the loop makes exactly `k + 1` waits and ends with that answer; a loop that returns ended
on an answer other than `VK_TIMEOUT`; an exit answer other than `VK_SUCCESS` ends `preDraw`
in a failed `assert`; and in a `preDraw` that returns the request for presentation follows
the waits, the last of which answered `VK_SUCCESS`. `draw` does not retry: it waits once
and, whatever the wait answers, requests presentation and returns that answer. -/
theorem fence_wait_retried_in_preDraw_only (drv : Driver) (fuel : Nat) (self : VulkanDevice)
    (sys : Sys) :
    FENCE_TIMEOUT = 100000000 ∧
    fenceWait self
      = Event.api ApiFn.vkWaitForFences [self.device_, self.drawFence, 1, FENCE_TIMEOUT] ∧
    (∀ k, k < fuel →
      (∀ j, j < k → drv.result (sys.calls.length + j) = VK_TIMEOUT) →
      drv.result (sys.calls.length + k) ≠ VK_TIMEOUT →
      ∃ sys', waitForDrawFence drv self fuel sys
          = Except.ok (drv.result (sys.calls.length + k), sys') ∧
        sys'.calls = sys.calls ++ List.replicate (k + 1) (fenceWait self)) ∧
    (∀ res sys', waitForDrawFence drv self fuel sys = Except.ok (res, sys') →
      res ≠ VK_TIMEOUT ∧
      ∃ k, k < fuel ∧ (∀ j, j < k → drv.result (sys.calls.length + j) = VK_TIMEOUT) ∧
        drv.result (sys.calls.length + k) = res ∧
        sys'.calls = sys.calls ++ List.replicate (k + 1) (fenceWait self)) ∧
    (∀ k, k < fuel →
      (∀ j, j < k →
        drv.result (sys.calls.length + 10 * self.swapchainImageCount + 4 + j) = VK_TIMEOUT) →
      drv.result (sys.calls.length + 10 * self.swapchainImageCount + 4 + k) ≠ VK_TIMEOUT →
      drv.result (sys.calls.length + 10 * self.swapchainImageCount + 4 + k) ≠ VK_SUCCESS →
      self.preDraw drv fuel sys = Except.error Fault.assertFailed) ∧
    (∀ self' sys', self.preDraw drv fuel sys = Except.ok (self', sys') →
      ∃ k before, k < fuel ∧
        sys'.calls = before ++ List.replicate (k + 1) (fenceWait self') ++
          [Event.api ApiFn.vkQueuePresentKHR
             [self.queue_, 1, self.swap_chain, self'.current_buffer]] ∧
        before = sys.calls ++
          [Event.api ApiFn.vkCreateSemaphore [self.device_],
           Event.api ApiFn.vkAcquireNextImageKHR
             [self.device_, self.swap_chain, self'.presentCompleteSemaphore]] ++
          (List.range self.swapchainImageCount).flatMap (recordedEvents self) ++
          [Event.api ApiFn.vkCreateFence [self.device_],
           Event.api ApiFn.vkQueueSubmit
             [self.queue_, 1, self'.presentCompleteSemaphore, 1,
              self.cmdBuffer.getD self'.current_buffer 0, self'.drawFence]] ∧
        (∀ j, j < k → drv.result (before.length + j) = VK_TIMEOUT) ∧
        drv.result (before.length + k) = VK_SUCCESS) ∧
    (∀ res self' sys', self.draw drv sys = Except.ok (res, self', sys') →
      res = drv.result (sys.calls.length + 3) ∧
      ∃ acquire reset submit present,
        sys'.calls = sys.calls ++ [acquire, reset, submit, fenceWait self, present] ∧
        acquire.fn? = some ApiFn.vkAcquireNextImageKHR ∧
        reset.fn? = some ApiFn.vkResetFences ∧
        submit.fn? = some ApiFn.vkQueueSubmit ∧
        present.fn? = some ApiFn.vkQueuePresentKHR) := by
  refine ⟨rfl, rfl, ?_, ?_, ?_, ?_, ?_⟩
  · intro k hk hj hne
    exact ⟨_, waitForDrawFence_returns k fuel sys hk hj hne, rfl⟩
  · intro res sys' h
    obtain ⟨k, hk, hj, hres, hne, hsys⟩ := waitForDrawFence_ok _ _ _ _ h
    exact ⟨hne, k, hk, hj, hres, by rw [hsys]⟩
  · intro k hk hj hne hns
    exact (preDraw_outcome k hk hj hne).2 (fun hall => hns hall.2.2.2.1)
  · intro self' sys' h
    obtain ⟨k, hk, -, -, -, hj, h4, -, -, hc, -, -, -⟩ := preDraw_ok h
    have hlen : (sys.calls ++
          [Event.api ApiFn.vkCreateSemaphore [self.device_],
           Event.api ApiFn.vkAcquireNextImageKHR
             [self.device_, self.swap_chain, self'.presentCompleteSemaphore]] ++
          (List.range self.swapchainImageCount).flatMap (recordedEvents self) ++
          [Event.api ApiFn.vkCreateFence [self.device_],
           Event.api ApiFn.vkQueueSubmit
             [self.queue_, 1, self'.presentCompleteSemaphore, 1,
              self.cmdBuffer.getD self'.current_buffer 0, self'.drawFence]]).length
        = sys.calls.length + 10 * self.swapchainImageCount + 4 := by
      simp only [List.length_append, List.length_cons, List.length_nil,
        length_flatMap_recordedEvents, List.length_range]
      omega
    refine ⟨k, _, hk, hc, rfl, ?_, ?_⟩
    · intro j hjk
      rw [hlen]
      exact hj j hjk
    · rw [hlen]
      exact h4
  · intro res self' sys' h
    obtain ⟨-, -, -, hres, -, hc, -, -, -⟩ := draw_ok h
    exact ⟨hres, _, _, _, _, hc, rfl, rfl, rfl, rfl⟩

/-- C13's theorem on the sample device: with the sample driver the wait loop of `preDraw`
ends after one wait, and `preDraw` returns. -/
theorem fence_wait_retried_in_preDraw_only_witness :
    (∃ sys', waitForDrawFence sampleDriver sampleDevice 1 emptySys
        = Except.ok (VK_SUCCESS, sys') ∧
      sys'.calls = [fenceWait sampleDevice]) ∧
    (∃ s' sys', sampleDevice.preDraw sampleDriver 1 emptySys = Except.ok (s', sys') ∧
      sys'.calls.getLast? = some (Event.api ApiFn.vkQueuePresentKHR
        [sampleDevice.queue_, 1, sampleDevice.swap_chain, s'.current_buffer])) := by
  have hthm := fence_wait_retried_in_preDraw_only sampleDriver 1 sampleDevice emptySys
  constructor
  · obtain ⟨sys', h, hc⟩ := hthm.2.2.1 0 (by decide) (by intro j hj; omega) (by decide)
    exact ⟨sys', h, hc⟩
  · have hret : ∃ out, sampleDevice.preDraw sampleDriver 1 emptySys = Except.ok out :=
      (preDraw_outcome 0 (by decide) (by intro j hj; omega) (by decide)).1 (by decide)
    obtain ⟨⟨s', sys'⟩, h⟩ := hret
    obtain ⟨k, before, -, hc, -, -, -⟩ := hthm.2.2.2.2.2.1 s' sys' h
    exact ⟨s', sys', h, by rw [hc]; simp⟩

/-- C13 as stated fails for `draw`: when its fence wait answers `VK_TIMEOUT`, `draw` on the
sample device makes no second wait: the trace holds one wait, presentation is requested
right after it, and `VK_TIMEOUT` is returned. -/
theorem draw_does_not_retry_timeout_counterexample :
    timeoutFenceDriver.result 3 = VK_TIMEOUT ∧
    (sampleDevice.draw timeoutFenceDriver emptySys).toOption.map
        (fun r => (r.1, apiNames r.2.2.calls))
      = some (VK_TIMEOUT, [ApiFn.vkAcquireNextImageKHR, ApiFn.vkResetFences,
          ApiFn.vkQueueSubmit, ApiFn.vkWaitForFences, ApiFn.vkQueuePresentKHR]) := by
  decide


/-! ## The submitted command buffer and the presented image (C15) -/

theorem apiNames_append (a b : List Event) : apiNames (a ++ b) = apiNames a ++ apiNames b := by
  simp [apiNames, List.filterMap_append]

theorem count_apiNames_eq_zero {fn : ApiFn} {calls : List Event}
    (h : ∀ e ∈ calls, e.fn? ≠ some fn) : (apiNames calls).count fn = 0 := by
  rw [List.count_eq_zero]
  intro hmem
  simp only [apiNames, List.mem_filterMap] at hmem
  obtain ⟨e, he, hfn⟩ := hmem
  exact h e he hfn

/-- The recording loop calls only entry points that record into a command buffer. -/
theorem fn_of_mem_recordedEvents {self : VulkanDevice} {indices : List Nat} {e : Event}
    (he : e ∈ indices.flatMap (recordedEvents self)) :
    e.fn? = none ∨ ∃ fn, e.fn? = some fn ∧ fn.recordsCommands = true := by
  simp only [List.mem_flatMap] at he
  obtain ⟨i, -, hi⟩ := he
  simp only [recordedEvents, List.mem_cons, List.mem_singleton, List.not_mem_nil,
    or_false] at hi
  rcases hi with h | h | h | h | h | h | h | h | h | h <;> subst h
  · exact Or.inl rfl
  all_goals exact Or.inr ⟨_, rfl, rfl⟩

theorem flatMap_split_of_mem {α β : Type} (f : α → List β) {i : α} {l : List α}
    (h : i ∈ l) : ∃ a b, l.flatMap f = a ++ f i ++ b := by
  obtain ⟨s, t, rfl⟩ := List.append_of_mem h
  exact ⟨s.flatMap f, t.flatMap f, by simp [List.flatMap_append]⟩

/-- C15: in a `preDraw` that returns and in a `draw` that returns, with `k` the image
index that the acquisition wrote to `current_buffer`, the one queue submission submits one
command buffer, `cmdBuffer[k]`, and the one request for presentation names one swapchain,
`swap_chain`, and the image index `k`. In `preDraw` the submission comes after the
recording loop, which recorded and ended `cmdBuffer[k]` when `k` is below the number of
images; `draw` records nothing. `draw` takes the swapchain of the request from the member
`present`, which `preDraw` has filled in and `draw` keeps. -/
theorem submission_and_presentation_use_acquired_index (drv : Driver) (fuel : Nat)
    (self : VulkanDevice) (sys : Sys) :
    (∀ self' sys', self.preDraw drv fuel sys = Except.ok (self', sys') →
      ∃ k waits,
        k = drv.count (sys.calls.length + 1) ∧ self'.current_buffer = k ∧
        sys'.calls = sys.calls ++
          [Event.api ApiFn.vkCreateSemaphore [self.device_],
           Event.api ApiFn.vkAcquireNextImageKHR
             [self.device_, self.swap_chain, self'.presentCompleteSemaphore]] ++
          (List.range self.swapchainImageCount).flatMap (recordedEvents self) ++
          [Event.api ApiFn.vkCreateFence [self.device_],
           Event.api ApiFn.vkQueueSubmit
             [self.queue_, 1, self'.presentCompleteSemaphore, 1,
              self.cmdBuffer.getD k 0, self'.drawFence]] ++
          List.replicate waits (fenceWait self') ++
          [Event.api ApiFn.vkQueuePresentKHR [self.queue_, 1, self.swap_chain, k]] ∧
        (apiNames (sys'.calls.drop sys.calls.length)).count ApiFn.vkQueueSubmit = 1 ∧
        (apiNames (sys'.calls.drop sys.calls.length)).count ApiFn.vkQueuePresentKHR = 1 ∧
        (k < self.swapchainImageCount →
          ∃ a b, (List.range self.swapchainImageCount).flatMap (recordedEvents self)
            = a ++ recordedEvents self k ++ b) ∧
        self'.cmdBuffer = self.cmdBuffer ∧ self'.swap_chain = self.swap_chain ∧
        self'.present.swapchainCount = 1 ∧
        self'.present.pSwapchains = MemberPtr.swap_chain) ∧
    (∀ res self' sys', self.present.swapchainCount = 1 →
      self.present.pSwapchains = MemberPtr.swap_chain →
      self.draw drv sys = Except.ok (res, self', sys') →
      ∃ k,
        k = drv.count sys.calls.length ∧ self'.current_buffer = k ∧
        sys'.calls = sys.calls ++
          [Event.api ApiFn.vkAcquireNextImageKHR
             [self.device_, self.swap_chain, self.presentCompleteSemaphore],
           Event.api ApiFn.vkResetFences [self.device_, 1, self.drawFence],
           Event.api ApiFn.vkQueueSubmit
             [self.queue_, 1, self.presentCompleteSemaphore, 1,
              self.cmdBuffer.getD k 0, self.drawFence],
           fenceWait self,
           Event.api ApiFn.vkQueuePresentKHR [self.queue_, 1, self.swap_chain, k]] ∧
        (∀ cmd, recorded cmd sys'.calls = recorded cmd sys.calls) ∧
        self'.cmdBuffer = self.cmdBuffer ∧ self'.swap_chain = self.swap_chain ∧
        self'.present.swapchainCount = 1 ∧
        self'.present.pSwapchains = MemberPtr.swap_chain) ∧
    (∀ k (hk : k < self.cmdBuffer.length), self.cmdBuffer.getD k 0 = self.cmdBuffer[k]) := by
  refine ⟨?_, ?_, ?_⟩
  · intro self' sys' h
    obtain ⟨w, -, -, -, -, -, -, -, hself, hc, -, -, -⟩ := preDraw_ok h
    have hcur : self'.current_buffer = drv.count (sys.calls.length + 1) := by rw [hself]
    have hrec : ∀ fn, fn.recordsCommands = false →
        (apiNames ((List.range self.swapchainImageCount).flatMap (recordedEvents self))).count fn
          = 0 := by
      intro fn hfn
      apply count_apiNames_eq_zero
      intro e he hc
      rcases fn_of_mem_recordedEvents he with h0 | ⟨fn', h1, h2⟩
      · rw [h0] at hc; cases hc
      · rw [h1] at hc
        cases hc
        rw [hfn] at h2
        cases h2
    have hwait : ∀ fn, fn ≠ ApiFn.vkWaitForFences →
        (apiNames (List.replicate (w + 1) (fenceWait self'))).count fn = 0 := by
      intro fn hfn
      apply count_apiNames_eq_zero
      intro e he hc
      rw [List.eq_of_mem_replicate he] at hc
      simp only [fenceWait, Event.fn?, Option.some.injEq] at hc
      exact hfn hc.symm
    have hdrop : sys'.calls.drop sys.calls.length =
        [Event.api ApiFn.vkCreateSemaphore [self.device_],
         Event.api ApiFn.vkAcquireNextImageKHR
           [self.device_, self.swap_chain, self'.presentCompleteSemaphore]] ++
        ((List.range self.swapchainImageCount).flatMap (recordedEvents self) ++
        ([Event.api ApiFn.vkCreateFence [self.device_],
         Event.api ApiFn.vkQueueSubmit
           [self.queue_, 1, self'.presentCompleteSemaphore, 1,
            self.cmdBuffer.getD self'.current_buffer 0, self'.drawFence]] ++
        (List.replicate (w + 1) (fenceWait self') ++
        [Event.api ApiFn.vkQueuePresentKHR
           [self.queue_, 1, self.swap_chain, self'.current_buffer]]))) := by
      rw [hc]
      simp only [List.append_assoc]
      exact List.drop_left _ _
    refine ⟨_, w + 1, rfl, hcur, ?_, ?_, ?_, ?_, by rw [hself], by rw [hself], by rw [hself],
      by rw [hself]⟩
    · rw [hc, hcur]
    · rw [hdrop]
      simp only [apiNames_append, List.count_append, hrec ApiFn.vkQueueSubmit rfl,
        hwait ApiFn.vkQueueSubmit (by decide)]
      simp [apiNames, Event.fn?]
    · rw [hdrop]
      simp only [apiNames_append, List.count_append, hrec ApiFn.vkQueuePresentKHR rfl,
        hwait ApiFn.vkQueuePresentKHR (by decide)]
      simp [apiNames, Event.fn?]
    · intro hk
      exact flatMap_split_of_mem _ (List.mem_range.mpr hk)
  · intro res self' sys' hcount hptr h
    obtain ⟨-, -, -, -, hself, hc, -, -, -⟩ := draw_ok h
    have hcur : self'.current_buffer = drv.count sys.calls.length := by rw [hself]
    refine ⟨_, rfl, hcur, ?_, ?_, by rw [hself], by rw [hself], ?_, ?_⟩
    · rw [hc, hcount, hptr, hcur]
      simp only [VulkanDevice.deref]
      rw [hself]
    · intro cmd
      rw [hc]
      simp [recorded, List.filter_append, Event.isCommandOf, ApiFn.recordsCommands, fenceWait]
    · rw [hself]; exact hcount
    · rw [hself]; exact hptr
  · intro k hk
    simp [List.getD_eq_getElem?_getD, hk]


/-- C15's theorem on the sample device: `preDraw` returns, a `draw` after it returns, and
the request of that `draw` names the swapchain and the index it acquired. -/
theorem submission_and_presentation_use_acquired_index_witness :
    ∃ s' sys' res s'' sys'',
      sampleDevice.preDraw sampleDriver 1 emptySys = Except.ok (s', sys') ∧
      s'.draw sampleDriver sys' = Except.ok (res, s'', sys'') ∧
      s''.current_buffer = sampleDriver.count sys'.calls.length ∧
      sys''.calls.getLast? = some (Event.api ApiFn.vkQueuePresentKHR
        [s'.queue_, 1, s'.swap_chain, s''.current_buffer]) := by
  obtain ⟨⟨s', sys'⟩, h⟩ : ∃ out, sampleDevice.preDraw sampleDriver 1 emptySys = Except.ok out :=
    (preDraw_outcome 0 (by decide) (by intro j hj; omega) (by decide)).1 (by decide)
  obtain ⟨k, waits, -, -, -, -, -, -, -, -, hcount, hptr⟩ :=
    (submission_and_presentation_use_acquired_index sampleDriver 1 sampleDevice emptySys).1
      s' sys' h
  have hd0 := draw_eq sampleDriver s' sys'
  rw [if_pos ⟨rfl, rfl, rfl⟩] at hd0
  obtain ⟨res, s'', sys'', hd⟩ :
      ∃ res s'' sys'', s'.draw sampleDriver sys' = Except.ok (res, s'', sys'') :=
    ⟨_, _, _, hd0⟩
  obtain ⟨k2, hk2, hcur, hc, -, -, -, -, -⟩ :=
    (submission_and_presentation_use_acquired_index sampleDriver 1 s' sys').2.1 res s'' sys''
      hcount hptr hd
  refine ⟨s', sys', res, s'', sys'', h, hd, ?_, ?_⟩
  · rw [hcur, hk2]
  · rw [hc, hcur]
    simp

/-! ## Failures that a step of `init` reports by its return value (C11) -/

/-- C11 fails on the code: `init` drops what its steps return. With a driver for which the
depth format is unsupported for both tilings, `init_depth_buffer` (the 14th call) returns
`false` after logging so, and `init` goes on through all its calls and sets the ready flag;
the same happens when `init_global_layer_properties` returns the error code -3 and when
`init_swapchain_extension` returns `false` because the surface entry point is missing. -/
theorem init_ignores_reported_failure :
    ((runSteps sampleGlm noDepthFormatDriver sampleMesh 1 (initSequence.take 13) freshDevice
        emptySys []).bind (fun r => r.1.init_depth_buffer noDepthFormatDriver r.2.1)).toOption.map
      (fun r => r.1) = some false ∧
    (freshDevice.init sampleGlm noDepthFormatDriver sampleMesh 1 emptySys).toOption.map
      (fun r => (r.1.isReady, r.2.2.map Prod.fst,
        decide (⟨kTAG, "depth_format %d Unsupported.", [LogArg.int 129]⟩ ∈ r.2.1.log),
        (apiNames r.2.1.calls).getLast?))
      = some (true, initSequence, true, some ApiFn.vkQueuePresentKHR) ∧
    (freshDevice.init_global_layer_properties layerQueryFailsDriver 1 emptySys).toOption.map
      (fun r => r.1) = some (-3) ∧
    (freshDevice.init sampleGlm layerQueryFailsDriver sampleMesh 1 emptySys).toOption.map
      (fun r => (r.1.isReady, r.2.2.map Prod.fst)) = some (true, initSequence) ∧
    ((runSteps sampleGlm noSurfaceEntryPointDriver sampleMesh 1 (initSequence.take 5)
        freshDevice emptySys []).bind
      (fun r => r.1.init_swapchain_extension noSurfaceEntryPointDriver r.2.1)).toOption.map
      (fun r => r.1) = some false ∧
    (freshDevice.init sampleGlm noSurfaceEntryPointDriver sampleMesh 1 emptySys).toOption.map
      (fun r => (r.1.isReady, r.2.2.map Prod.fst)) = some (true, initSequence) := by
  refine ⟨?_, ?_, ?_, ?_, ?_, ?_⟩ <;> decide

/-! ## What each step of `init` changes and calls -/

theorem init_instance_effect {drv : Driver} {name : String}
    {self self' : VulkanDevice} {sys sys' : Sys} {r : Int}
    (h : self.init_instance drv name sys = Except.ok (r, self', sys')) :
    self' = { self with instance_ := self'.instance_ } ∧
    ∃ new, sys'.calls = sys.calls ++ new ∧ new.filter Event.tracked = [] := by
  unfold VulkanDevice.init_instance at h
  simp only [bind, Except.bind, pure, Except.pure, assert, Sys.call, Sys.print, Sys.memcpy,
    Sys.memcpy16, Sys.floats, List.append_assoc, List.cons_append, List.nil_append] at h
  repeat' split at h
  all_goals (cases h; try exact ⟨rfl, _, rfl, rfl⟩)

theorem init_enumerate_device_effect {drv : Driver} {gpu_count : Nat}
    {self self' : VulkanDevice} {sys sys' : Sys} {r : Int}
    (h : self.init_enumerate_device drv gpu_count sys = Except.ok (r, self', sys')) :
    self' = { self with gpus := self'.gpus, queue_count := self'.queue_count, queue_props := self'.queue_props, memory_properties := self'.memory_properties, gpu_props := self'.gpu_props } ∧
    ∃ new, sys'.calls = sys.calls ++ new ∧ new.filter Event.tracked = [] := by
  unfold VulkanDevice.init_enumerate_device at h
  simp only [bind, Except.bind, pure, Except.pure, assert, Sys.call, Sys.print, Sys.memcpy,
    Sys.memcpy16, Sys.floats, List.append_assoc, List.cons_append, List.nil_append] at h
  repeat' split at h
  all_goals (cases h; try exact ⟨rfl, _, rfl, rfl⟩)

theorem init_device_effect {drv : Driver}
    {self self' : VulkanDevice} {sys sys' : Sys} {r : Int}
    (h : self.init_device drv sys = Except.ok (r, self', sys')) :
    self' = { self with device_ := self'.device_ } ∧
    ∃ new, sys'.calls = sys.calls ++ new ∧ new.filter Event.tracked = [] := by
  unfold VulkanDevice.init_device at h
  simp only [bind, Except.bind, pure, Except.pure, assert, Sys.call, Sys.print, Sys.memcpy,
    Sys.memcpy16, Sys.floats, List.append_assoc, List.cons_append, List.nil_append] at h
  repeat' split at h
  all_goals (cases h; try exact ⟨rfl, _, rfl, rfl⟩)

theorem init_command_pool_effect {drv : Driver}
    {self self' : VulkanDevice} {sys sys' : Sys} 
    (h : self.init_command_pool drv sys = Except.ok (self', sys')) :
    self' = { self with cmd_pool := self'.cmd_pool } ∧
    ∃ new, sys'.calls = sys.calls ++ new ∧ new.filter Event.tracked = [] := by
  unfold VulkanDevice.init_command_pool at h
  simp only [bind, Except.bind, pure, Except.pure, assert, Sys.call, Sys.print, Sys.memcpy,
    Sys.memcpy16, Sys.floats, List.append_assoc, List.cons_append, List.nil_append] at h
  repeat' split at h
  all_goals (cases h; try exact ⟨rfl, _, rfl, rfl⟩)

theorem init_uniform_buffer_effect {glm : Glm} {drv : Driver}
    {self self' : VulkanDevice} {sys sys' : Sys} 
    (h : self.init_uniform_buffer glm drv sys = Except.ok (self', sys')) :
    self' = { self with Projection := self'.Projection, View := self'.View, Model := self'.Model, Clip := self'.Clip, MVP := self'.MVP, uniform_data := self'.uniform_data } ∧
    ∃ new, sys'.calls = sys.calls ++ new ∧ new.filter Event.tracked = [] := by
  unfold VulkanDevice.init_uniform_buffer at h
  simp only [bind, Except.bind, pure, Except.pure, assert, Sys.call, Sys.print, Sys.memcpy,
    Sys.memcpy16, Sys.floats, List.append_assoc, List.cons_append, List.nil_append] at h
  repeat' split at h
  all_goals (cases h; try exact ⟨rfl, _, rfl, rfl⟩)

theorem init_descriptor_and_pipeline_layouts_effect {drv : Driver} {use_texture : Bool}
    {self self' : VulkanDevice} {sys sys' : Sys} 
    (h : self.init_descriptor_and_pipeline_layouts drv use_texture sys = Except.ok (self', sys')) :
    self' = { self with desc_layout := self'.desc_layout, pipelineLayout := self'.pipelineLayout } ∧
    ∃ new, sys'.calls = sys.calls ++ new ∧ new.filter Event.tracked = [] := by
  unfold VulkanDevice.init_descriptor_and_pipeline_layouts at h
  simp only [bind, Except.bind, pure, Except.pure, assert, Sys.call, Sys.print, Sys.memcpy,
    Sys.memcpy16, Sys.floats, List.append_assoc, List.cons_append, List.nil_append] at h
  repeat' split at h
  all_goals (cases h; try exact ⟨rfl, _, rfl, rfl⟩)

theorem init_renderpass_effect {drv : Driver} {include_depth clear : Bool}
    {self self' : VulkanDevice} {sys sys' : Sys} 
    (h : self.init_renderpass drv include_depth clear sys = Except.ok (self', sys')) :
    self' = { self with render_pass := self'.render_pass } ∧
    ∃ new, sys'.calls = sys.calls ++ new ∧ new.filter Event.tracked = [] := by
  unfold VulkanDevice.init_renderpass at h
  simp only [bind, Except.bind, pure, Except.pure, assert, Sys.call, Sys.print, Sys.memcpy,
    Sys.memcpy16, Sys.floats, List.append_assoc, List.cons_append, List.nil_append] at h
  repeat' split at h
  all_goals (cases h; try exact ⟨rfl, _, rfl, rfl⟩)

theorem initVertexBufferWithNormal_effect {drv : Driver} {vertexData normalData : List F32}
    {vertexDataSize normalDataSize : Nat}
    {self self' : VulkanDevice} {sys sys' : Sys} 
    (h : self.initVertexBufferWithNormal drv vertexData vertexDataSize normalData normalDataSize sys = Except.ok (self', sys')) :
    self' = { self with vertex_buffer := self'.vertex_buffer, vi_binding := self'.vi_binding, vi_attribs := self'.vi_attribs } ∧
    ∃ new, sys'.calls = sys.calls ++ new ∧ new.filter Event.tracked = [] := by
  unfold VulkanDevice.initVertexBufferWithNormal at h
  simp only [bind, Except.bind, pure, Except.pure, assert, Sys.call, Sys.print, Sys.memcpy,
    Sys.memcpy16, Sys.floats, List.append_assoc, List.cons_append, List.nil_append] at h
  repeat' split at h
  all_goals (cases h; try exact ⟨rfl, _, rfl, rfl⟩)

theorem initIndexForVertex_effect {drv : Driver} {indexData : List Nat} {indexDataSize : Nat}
    {self self' : VulkanDevice} {sys sys' : Sys} 
    (h : self.initIndexForVertex drv indexData indexDataSize sys = Except.ok (self', sys')) :
    self' = { self with indexBuf := self'.indexBuf, drawElementNum := self'.drawElementNum, drawInstanceNum := self'.drawInstanceNum } ∧
    ∃ new, sys'.calls = sys.calls ++ new ∧ new.filter Event.tracked = [] := by
  unfold VulkanDevice.initIndexForVertex at h
  simp only [bind, Except.bind, pure, Except.pure, assert, Sys.call, Sys.print, Sys.memcpy,
    Sys.memcpy16, Sys.floats, List.append_assoc, List.cons_append, List.nil_append] at h
  repeat' split at h
  all_goals (cases h; try exact ⟨rfl, _, rfl, rfl⟩)

theorem init_descriptor_pool_effect {drv : Driver} {use_texture : Bool}
    {self self' : VulkanDevice} {sys sys' : Sys} 
    (h : self.init_descriptor_pool drv use_texture sys = Except.ok (self', sys')) :
    self' = { self with desc_pool := self'.desc_pool } ∧
    ∃ new, sys'.calls = sys.calls ++ new ∧ new.filter Event.tracked = [] := by
  unfold VulkanDevice.init_descriptor_pool at h
  simp only [bind, Except.bind, pure, Except.pure, assert, Sys.call, Sys.print, Sys.memcpy,
    Sys.memcpy16, Sys.floats, List.append_assoc, List.cons_append, List.nil_append] at h
  repeat' split at h
  all_goals (cases h; try exact ⟨rfl, _, rfl, rfl⟩)

theorem init_descriptor_set_effect {drv : Driver} {use_texture : Bool}
    {self self' : VulkanDevice} {sys sys' : Sys} 
    (h : self.init_descriptor_set drv use_texture sys = Except.ok (self', sys')) :
    self' = { self with desc_set := self'.desc_set } ∧
    ∃ new, sys'.calls = sys.calls ++ new ∧ new.filter Event.tracked = [] := by
  unfold VulkanDevice.init_descriptor_set at h
  simp only [bind, Except.bind, pure, Except.pure, assert, Sys.call, Sys.print, Sys.memcpy,
    Sys.memcpy16, Sys.floats, List.append_assoc, List.cons_append, List.nil_append] at h
  repeat' split at h
  all_goals (cases h; try exact ⟨rfl, _, rfl, rfl⟩)

theorem init_pipeline_cache_effect {drv : Driver}
    {self self' : VulkanDevice} {sys sys' : Sys} 
    (h : self.init_pipeline_cache drv sys = Except.ok (self', sys')) :
    self' = { self with pipelineCache := self'.pipelineCache } ∧
    ∃ new, sys'.calls = sys.calls ++ new ∧ new.filter Event.tracked = [] := by
  unfold VulkanDevice.init_pipeline_cache at h
  simp only [bind, Except.bind, pure, Except.pure, assert, Sys.call, Sys.print, Sys.memcpy,
    Sys.memcpy16, Sys.floats, List.append_assoc, List.cons_append, List.nil_append] at h
  repeat' split at h
  all_goals (cases h; try exact ⟨rfl, _, rfl, rfl⟩)

theorem init_device_queue_effect {drv : Driver} {self self' : VulkanDevice} {sys sys' : Sys}
    (h : self.init_device_queue drv sys = (self', sys')) :
    self' = { self with queue_ := self'.queue_ } ∧
    ∃ new, sys'.calls = sys.calls ++ new ∧ new.filter Event.tracked = [] := by
  unfold VulkanDevice.init_device_queue at h
  simp only [Sys.call] at h
  cases h
  exact ⟨rfl, _, rfl, rfl⟩

theorem loadShaderFromFile_effect {drv : Driver} {filePath : Nat}
    {self : VulkanDevice} {sys sys' : Sys} {r : Int × Nat}
    (h : self.loadShaderFromFile drv filePath sys = Except.ok (r, sys')) :
    ∃ new, sys'.calls = sys.calls ++ new ∧ new.filter Event.tracked = [] := by
  unfold VulkanDevice.loadShaderFromFile at h
  simp only [bind, Except.bind, pure, Except.pure, assert, Sys.call, List.append_assoc,
    List.cons_append, List.nil_append] at h
  repeat' split at h
  all_goals (cases h; try exact ⟨_, rfl, rfl⟩)

/-- Two runs of calls that do not concern the tracked entry points make one such run. -/
theorem untracked_trans {a b c : List Event}
    (h1 : ∃ new, b = a ++ new ∧ new.filter Event.tracked = [])
    (h2 : ∃ new, c = b ++ new ∧ new.filter Event.tracked = []) :
    ∃ new, c = a ++ new ∧ new.filter Event.tracked = [] := by
  obtain ⟨n1, rfl, hn1⟩ := h1
  obtain ⟨n2, rfl, hn2⟩ := h2
  exact ⟨n1 ++ n2, by rw [List.append_assoc], by rw [List.filter_append, hn1, hn2]; rfl⟩

theorem untracked_refl (a : List Event) :
    ∃ new, a = a ++ new ∧ new.filter Event.tracked = [] :=
  ⟨[], by simp, rfl⟩

theorem init_shaders_effect {drv : Driver} {self self' : VulkanDevice} {sys sys' : Sys}
    (h : self.init_shaders drv sys = Except.ok (self', sys')) :
    self' = { self with vertexShader := self'.vertexShader,
                        fragmentShader := self'.fragmentShader } ∧
    ∃ new, sys'.calls = sys.calls ++ new ∧ new.filter Event.tracked = [] := by
  unfold VulkanDevice.init_shaders at h
  obtain ⟨⟨⟨r1, sh1⟩, sys1⟩, h1, h⟩ := bind_eq_ok h
  obtain ⟨⟨⟨r2, sh2⟩, sys2⟩, h2, h⟩ := bind_eq_ok h
  simp only [pure, Except.pure] at h
  cases h
  exact ⟨rfl, untracked_trans (loadShaderFromFile_effect h1) (loadShaderFromFile_effect h2)⟩


theorem untracked_snoc {a b l : List Event}
    (h : ∃ new, b = a ++ new ∧ new.filter Event.tracked = [])
    (hl : l.filter Event.tracked = []) :
    ∃ new, b ++ l = a ++ new ∧ new.filter Event.tracked = [] :=
  untracked_trans h ⟨l, rfl, hl⟩

theorem querySurfaceSupport_effect {drv : Driver} {gpu surface : Nat} :
    ∀ (indices : List Nat) (sys : Sys),
      ∃ new, (querySurfaceSupport drv gpu surface indices sys).2.calls = sys.calls ++ new ∧
        new.filter Event.tracked = [] := by
  intro indices
  induction indices with
  | nil => intro sys; exact untracked_refl _
  | cons i rest ih =>
    intro sys
    simp only [querySurfaceSupport, Sys.call]
    refine untracked_trans ?_ (ih _)
    exact ⟨_, rfl, rfl⟩

theorem init_swapchain_extension_effect {drv : Driver}
    {self self' : VulkanDevice} {sys sys' : Sys} {r : Bool}
    (h : self.init_swapchain_extension drv sys = Except.ok (r, self', sys')) :
    self' = { self with
      fpCreateAndroidSurfaceKHR := self'.fpCreateAndroidSurfaceKHR
      surface_ := self'.surface_
      graphics_queue_family_index := self'.graphics_queue_family_index
      format := self'.format } ∧
    ∃ new, sys'.calls = sys.calls ++ new ∧ new.filter Event.tracked = [] := by
  unfold VulkanDevice.init_swapchain_extension at h
  simp only [bind, Except.bind, pure, Except.pure, assert, Sys.call, Sys.print,
    List.append_assoc, List.cons_append, List.nil_append] at h
  repeat' split at h
  all_goals (cases h; try refine ⟨rfl, ?_⟩)
  all_goals
    first
    | exact ⟨_, rfl, rfl⟩
    | (refine untracked_snoc ?_ rfl
       refine untracked_trans ?_ (querySurfaceSupport_effect _ _)
       exact ⟨_, rfl, rfl⟩)
    | (refine untracked_trans ?_ (querySurfaceSupport_effect _ _)
       exact ⟨_, rfl, rfl⟩)


theorem init_global_extension_properties_effect {drv : Driver} :
    ∀ (fuel : Nat) (layer_props layer_props' : layer_properties) (sys sys' : Sys) (r : Int),
      init_global_extension_properties drv fuel layer_props sys
        = Except.ok (r, layer_props', sys') →
      ∃ new, sys'.calls = sys.calls ++ new ∧ new.filter Event.tracked = [] := by
  intro fuel
  induction fuel with
  | zero => intro lp lp' sys sys' r h; cases h
  | succ fuel ih =>
    intro lp lp' sys sys' r h
    simp only [init_global_extension_properties, Sys.call, List.append_assoc, List.cons_append,
      List.nil_append] at h
    repeat' split at h
    all_goals first
      | (cases h; exact ⟨_, rfl, rfl⟩)
      | (refine untracked_trans ?_ (ih _ _ _ _ _ h); exact ⟨_, rfl, rfl⟩)

theorem enumerateLayers_effect {drv : Driver} :
    ∀ (fuel : Nat) (sys sys' : Sys) (r : Int ⊕ (Int × Nat × List Nat)),
      enumerateLayers drv fuel sys = Except.ok (r, sys') →
      ∃ new, sys'.calls = sys.calls ++ new ∧ new.filter Event.tracked = [] := by
  intro fuel
  induction fuel with
  | zero => intro sys sys' r h; cases h
  | succ fuel ih =>
    intro sys sys' r h
    simp only [enumerateLayers, Sys.call, List.append_assoc, List.cons_append,
      List.nil_append] at h
    repeat' split at h
    all_goals first
      | (cases h; exact ⟨_, rfl, rfl⟩)
      | (refine untracked_trans ?_ (ih _ _ _ h); exact ⟨_, rfl, rfl⟩)

theorem gatherLayerExtensions_effect {drv : Driver} {fuel : Nat} :
    ∀ (layers : List Nat) (res r : Int) (self self' : VulkanDevice) (sys sys' : Sys),
      gatherLayerExtensions drv fuel layers res self sys = Except.ok (r, self', sys') →
      self' = { self with instance_layer_properties := self'.instance_layer_properties } ∧
      ∃ new, sys'.calls = sys.calls ++ new ∧ new.filter Event.tracked = [] := by
  intro layers
  induction layers with
  | nil =>
    intro res r self self' sys sys' h
    simp only [gatherLayerExtensions] at h
    cases h
    exact ⟨rfl, untracked_refl _⟩
  | cons p rest ih =>
    intro res r self self' sys sys' h
    simp only [gatherLayerExtensions] at h
    obtain ⟨⟨res1, lp1, sys1⟩, h1, h⟩ := bind_eq_ok h
    have e1 := init_global_extension_properties_effect _ _ _ _ _ _ h1
    simp only at h
    split at h
    · simp only [pure, Except.pure] at h
      cases h
      exact ⟨rfl, e1⟩
    · obtain ⟨hf, e2⟩ := ih _ _ _ _ _ _ h
      refine ⟨?_, untracked_trans e1 e2⟩
      rw [hf]

theorem init_global_layer_properties_effect {drv : Driver} {fuel : Nat}
    {self self' : VulkanDevice} {sys sys' : Sys} {r : Int}
    (h : self.init_global_layer_properties drv fuel sys = Except.ok (r, self', sys')) :
    self' = { self with instance_layer_properties := self'.instance_layer_properties } ∧
    ∃ new, sys'.calls = sys.calls ++ new ∧ new.filter Event.tracked = [] := by
  unfold VulkanDevice.init_global_layer_properties at h
  obtain ⟨⟨r1, sys1⟩, h1, h⟩ := bind_eq_ok h
  have e1 := enumerateLayers_effect _ _ _ _ h1
  cases r1 with
  | inl res =>
    simp only [pure, Except.pure] at h
    cases h
    exact ⟨rfl, e1⟩
  | inr v =>
    obtain ⟨res, count, props⟩ := v
    simp only at h
    obtain ⟨hf, e2⟩ := gatherLayerExtensions_effect _ _ _ _ _ _ _ h
    exact ⟨hf, untracked_trans e1 e2⟩


/-- `init_swap_chain` takes the size from the `currentExtent` that the capabilities query
(the first of its five calls) reports, and the image count from its last call. -/
theorem init_swap_chain_effect {drv : Driver} {usageFlags : Nat}
    {self self' : VulkanDevice} {sys sys' : Sys}
    (h : self.init_swap_chain drv usageFlags sys = Except.ok (self', sys')) :
    self' = { self with
      width := (drv.surfaceCapabilities sys.calls.length).currentExtent.width
      height := (drv.surfaceCapabilities sys.calls.length).currentExtent.height
      swap_chain := drv.handle (sys.calls.length + 3)
      swapchainImageCount := drv.count (sys.calls.length + 4) } ∧
    ∃ modes desired pre mode,
      sys'.calls = sys.calls ++
        [Event.api ApiFn.vkGetPhysicalDeviceSurfaceCapabilitiesKHR
           [self.gpus.getD 0 0, self.surface_],
         Event.api ApiFn.vkGetPhysicalDeviceSurfacePresentModesKHR
           [self.gpus.getD 0 0, self.surface_, 0],
         Event.api ApiFn.vkGetPhysicalDeviceSurfacePresentModesKHR
           [self.gpus.getD 0 0, self.surface_, modes],
         Event.api ApiFn.vkCreateSwapchainKHR
           [self.device_, self.surface_, desired, self.format, self'.width, self'.height,
            pre, mode, usageFlags],
         Event.api ApiFn.vkGetSwapchainImagesKHR [self.device_, self'.swap_chain, 0]] := by
  unfold VulkanDevice.init_swap_chain at h
  simp only [bind, Except.bind, pure, Except.pure, assert, Sys.call, Sys.print,
    List.append_assoc, List.cons_append, List.nil_append, List.length_append,
    List.length_cons, List.length_nil] at h
  repeat' split at h
  all_goals (cases h; try exact ⟨rfl, _, _, _, _, rfl⟩)

theorem length_fill_replicate (n : Nat) (written : List Nat) :
    (fill (List.replicate n 0) written).length = n := by
  simp only [fill, List.length_append, List.length_take, List.length_drop,
    List.length_replicate]
  omega

theorem init_command_buffer_effect {drv : Driver}
    {self self' : VulkanDevice} {sys sys' : Sys}
    (h : self.init_command_buffer drv sys = Except.ok (self', sys')) :
    self' = { self with cmdBuffer := self'.cmdBuffer } ∧
    self'.cmdBuffer.length = self.swapchainImageCount ∧
    ∃ new, sys'.calls = sys.calls ++ new ∧ new.filter Event.tracked = [] := by
  unfold VulkanDevice.init_command_buffer at h
  simp only [bind, Except.bind, pure, Except.pure, assert, Sys.call, List.append_assoc,
    List.cons_append, List.nil_append] at h
  repeat' split at h
  all_goals (cases h; try exact ⟨rfl, length_fill_replicate _ _, _, rfl, rfl⟩)

theorem beginCommandBuffers_effect {drv : Driver} {cmdBuffer : List Nat} :
    ∀ (indices : List Nat) (sys sys' : Sys),
      beginCommandBuffers drv cmdBuffer indices sys = Except.ok sys' →
      sys'.calls = sys.calls ++
        indices.map (fun i => Event.api ApiFn.vkBeginCommandBuffer [cmdBuffer.getD i 0]) := by
  intro indices
  induction indices with
  | nil =>
    intro sys sys' h
    simp only [beginCommandBuffers] at h
    cases h
    simp
  | cons i rest ih =>
    intro sys sys' h
    simp only [beginCommandBuffers, Sys.call] at h
    obtain ⟨_, -, h⟩ := bind_eq_ok h
    rw [ih _ _ h]
    simp

theorem execute_begin_command_buffer_effect {drv : Driver}
    {self self' : VulkanDevice} {sys sys' : Sys}
    (h : self.execute_begin_command_buffer drv sys = Except.ok (self', sys')) :
    self' = self ∧
    sys'.calls = sys.calls ++ (List.range self.swapchainImageCount).map
      (fun i => Event.api ApiFn.vkBeginCommandBuffer [self.cmdBuffer.getD i 0]) := by
  unfold VulkanDevice.execute_begin_command_buffer at h
  obtain ⟨sys1, h1, h⟩ := bind_eq_ok h
  simp only [pure, Except.pure] at h
  cases h
  exact ⟨rfl, beginCommandBuffers_effect _ _ _ h1⟩

/-- `init_pipeline` gives the pipeline a viewport of the floats `(float)width` and
`(float)height` at the origin with depth range 0 to 1, and a scissor of `width` by
`height` at the origin. -/
theorem init_pipeline_effect {drv : Driver} {include_depth include_vi : Bool}
    {self self' : VulkanDevice} {sys sys' : Sys}
    (h : self.init_pipeline drv include_depth include_vi sys = Except.ok (self', sys')) :
    self' = { self with pipeline := self'.pipeline } ∧
    ∃ a0 a1 a2 a3 a4 a5 a6 a7 a8,
      sys'.calls = sys.calls ++
        [Event.floats [F32.ofNat 0, F32.ofNat 0, F32.ofNat self.width, F32.ofNat self.height,
           F32.ofNat 0, F32.ofNat 1],
         Event.api ApiFn.vkCreateGraphicsPipelines
           [a0, a1, a2, a3, a4, a5, a6, a7, a8, 0, 0, self.width, self.height]] := by
  unfold VulkanDevice.init_pipeline at h
  simp only [bind, Except.bind, pure, Except.pure, assert, Sys.call, Sys.floats,
    List.append_assoc, List.cons_append, List.nil_append] at h
  repeat' split at h
  all_goals (cases h; try exact ⟨rfl, _, _, _, _, _, _, _, _, _, rfl⟩)


/-! ## Handles and the calls that returned them -/

theorem Created.append {drv : Driver} {calls : List Event} {fn : ApiFn} {args : List Nat}
    {handle : Nat} (h : Created drv calls fn args handle) (more : List Event) :
    Created drv (calls ++ more) fn args handle := by
  obtain ⟨q, hq, hh⟩ := h
  refine ⟨q, ?_, hh⟩
  have hlt : q < calls.length := by
    by_contra hge
    rw [List.getElem?_eq_none (by omega)] at hq
    cases hq
  rw [List.getElem?_append_left hlt]
  exact hq

theorem Created.at_length {drv : Driver} (pre : List Event) (fn : ApiFn) (args : List Nat)
    (post : List Event) :
    Created drv (pre ++ Event.api fn args :: post) fn args (drv.handle pre.length) :=
  ⟨pre.length, by rw [List.getElem?_append_right (le_refl _)]; simp, rfl⟩

theorem set_image_layout_effect {self : VulkanDevice} {sys sys' : Sys}
    {cmdIndex image aspectMask old_image_layout new_image_layout : Nat}
    (h : self.set_image_layout sys cmdIndex image aspectMask old_image_layout new_image_layout
      = Except.ok sys') :
    sys' = { sys with calls := sys.calls ++
      [Event.api ApiFn.vkCmdPipelineBarrier
        [self.cmdBuffer.getD cmdIndex 0, image, aspectMask, old_image_layout, new_image_layout,
         (imageBarrierMasks old_image_layout new_image_layout).1,
         (imageBarrierMasks old_image_layout new_image_layout).2]] } := by
  unfold VulkanDevice.set_image_layout at h
  obtain ⟨_, -, h⟩ := bind_eq_ok h
  simp only [Sys.call, pure, Except.pure] at h
  cases h
  rfl

/-- The loop of `initSwapChainImages`: every pass appends one entry to `buffers`, whose
image is the image of that index and whose view was returned by the `vkCreateImageView`
call of that pass. -/
theorem swapChainImageViews_effect {drv : Driver} {swapchainImages : List Nat} :
    ∀ (indices : List Nat) (self self' : VulkanDevice) (sys sys' : Sys),
      swapChainImageViews drv swapchainImages indices self sys = Except.ok (self', sys') →
      ∃ added,
        self' = { self with buffers := self.buffers ++ added } ∧
        sys'.calls = sys.calls ++ indices.flatMap (imageViewEvents self swapchainImages) ∧
        added.length = indices.length ∧
        ∀ k, k < indices.length →
          (added.getD k ⟨0, 0⟩).image = swapchainImages.getD (indices.getD k 0) 0 ∧
          Created drv sys'.calls ApiFn.vkCreateImageView
            [self.device_, swapchainImages.getD (indices.getD k 0) 0, self.format,
             VK_IMAGE_ASPECT_COLOR_BIT] (added.getD k ⟨0, 0⟩).view := by
  intro indices
  induction indices with
  | nil =>
    intro self self' sys sys' h
    simp only [swapChainImageViews] at h
    cases h
    exact ⟨[], by simp, by simp, rfl, by intro k hk; cases hk⟩
  | cons i rest ih =>
    intro self self' sys sys' h
    simp only [swapChainImageViews] at h
    obtain ⟨sys1, h1, h⟩ := bind_eq_ok h
    have hs1 := set_image_layout_effect h1
    subst hs1
    simp only [Sys.call, Sys.print] at h
    obtain ⟨_, -, h⟩ := bind_eq_ok h
    obtain ⟨added, hself, hcalls, hlen, hk⟩ := ih _ _ _ _ h
    refine ⟨⟨swapchainImages.getD i 0, drv.handle (sys.calls.length + 1)⟩ :: added,
      ?_, ?_, ?_, ?_⟩
    · rw [hself]
      simp
    · rw [hcalls]
      simp [imageViewEvents]
      rfl
    · simp [hlen]
    · intro k hklt
      cases k with
      | zero =>
        refine ⟨rfl, ?_⟩
        rw [hcalls]
        simp only [List.getD_cons_zero, List.append_assoc, List.cons_append, List.nil_append]
        have := @Created.at_length drv
          (sys.calls ++ [Event.api ApiFn.vkCmdPipelineBarrier
            [self.cmdBuffer.getD i 0, swapchainImages.getD i 0, VK_IMAGE_ASPECT_COLOR_BIT,
             VK_IMAGE_LAYOUT_UNDEFINED, VK_IMAGE_LAYOUT_COLOR_ATTACHMENT_OPTIMAL,
             (imageBarrierMasks VK_IMAGE_LAYOUT_UNDEFINED
               VK_IMAGE_LAYOUT_COLOR_ATTACHMENT_OPTIMAL).1,
             (imageBarrierMasks VK_IMAGE_LAYOUT_UNDEFINED
               VK_IMAGE_LAYOUT_COLOR_ATTACHMENT_OPTIMAL).2]])
          ApiFn.vkCreateImageView
          [self.device_, swapchainImages.getD i 0, self.format, VK_IMAGE_ASPECT_COLOR_BIT]
          (rest.flatMap (imageViewEvents self swapchainImages))
        simpa using this
      | succ k =>
        have := hk k (by simpa using hklt)
        simpa using this


theorem getD_range {n k : Nat} (h : k < n) : (List.range n).getD k 0 = k := by
  simp [List.getD_eq_getElem?_getD, List.getElem?_range h]

/-- `initSwapChainImages` asks for the images (its first call, which also rewrites the
image count), and then records one layout transition and creates one view per image. -/
theorem initSwapChainImages_effect {drv : Driver}
    {self self' : VulkanDevice} {sys sys' : Sys}
    (h : self.initSwapChainImages drv sys = Except.ok (self', sys')) :
    ∃ added,
      self' = { self with
        swapchainImageCount := drv.count sys.calls.length
        buffers := self.buffers ++ added
        current_buffer := 0 } ∧
      sys'.calls = sys.calls ++
        [Event.api ApiFn.vkGetSwapchainImagesKHR
           [self.device_, self.swap_chain, self.swapchainImageCount]] ++
        (List.range (drv.count sys.calls.length)).flatMap
          (imageViewEvents self
            (fill (List.replicate self.swapchainImageCount 0) (drv.list sys.calls.length))) ∧
      added.length = drv.count sys.calls.length ∧
      ∀ i, i < drv.count sys.calls.length →
        (added.getD i ⟨0, 0⟩).image
          = (fill (List.replicate self.swapchainImageCount 0)
              (drv.list sys.calls.length)).getD i 0 ∧
        Created drv sys'.calls ApiFn.vkCreateImageView
          [self.device_,
           (fill (List.replicate self.swapchainImageCount 0)
              (drv.list sys.calls.length)).getD i 0,
           self.format, VK_IMAGE_ASPECT_COLOR_BIT] (added.getD i ⟨0, 0⟩).view := by
  unfold VulkanDevice.initSwapChainImages at h
  simp only [Sys.call, Sys.print] at h
  obtain ⟨_, -, h⟩ := bind_eq_ok h
  obtain ⟨⟨self1, sys1⟩, h1, h⟩ := bind_eq_ok h
  simp only [pure, Except.pure] at h
  cases h
  obtain ⟨added, hself, hcalls, hlen, hk⟩ := swapChainImageViews_effect _ _ _ _ _ h1
  refine ⟨added, ?_, ?_, ?_, ?_⟩
  · rw [hself]
  · rw [hcalls]
    rfl
  · rw [hlen, List.length_range]
  · intro i hi
    have := hk i (by rw [List.length_range]; exact hi)
    rw [getD_range hi] at this
    exact this


theorem depthImageLayouts_effect {self : VulkanDevice} {aspectMask : Nat} :
    ∀ (indices : List Nat) (sys sys' : Sys),
      depthImageLayouts self aspectMask indices sys = Except.ok sys' →
      sys'.calls = sys.calls ++ indices.map (depthLayoutEvent self aspectMask) := by
  intro indices
  induction indices with
  | nil =>
    intro sys sys' h
    simp only [depthImageLayouts] at h
    cases h
    simp
  | cons i rest ih =>
    intro sys sys' h
    simp only [depthImageLayouts] at h
    obtain ⟨sys1, h1, h⟩ := bind_eq_ok h
    have hs1 := set_image_layout_effect h1
    subst hs1
    rw [ih _ _ h]
    simp [depthLayoutEvent]

/-- `init_depth_buffer` either returns `false` after the format query alone, or creates
the depth image with the extent `width` x `height` x 1, records its layout transition
into each command buffer, creates its view, and returns `true`. -/
theorem init_depth_buffer_effect {drv : Driver}
    {self self' : VulkanDevice} {sys sys' : Sys} {r : Bool}
    (h : self.init_depth_buffer drv sys = Except.ok (r, self', sys')) :
    self' = { self with depth := self'.depth } ∧
    ((r = false ∧ ∃ new, sys'.calls = sys.calls ++ new ∧ new.filter Event.tracked = []) ∨
     (r = true ∧ ∃ pre tiling aspectMask,
        sys'.calls = sys.calls ++ pre ++
          (List.range self.swapchainImageCount).map (depthLayoutEvent self' aspectMask) ++
          [Event.api ApiFn.vkCreateImageView
            [self.device_, self'.depth.image, VK_FORMAT_D24_UNORM_S8_UINT, aspectMask]] ∧
        pre.filter Event.tracked = [Event.api ApiFn.vkCreateImage
          [self.device_, VK_FORMAT_D24_UNORM_S8_UINT, self.width, self.height, 1, tiling]])) := by
  unfold VulkanDevice.init_depth_buffer at h
  simp only [Sys.call, Sys.print] at h
  by_cases hfmt : self.depth.format = VK_FORMAT_UNDEFINED
  all_goals
    simp only [hfmt, if_true, if_false] at h
    split at h
    · simp only [pure, Except.pure] at h
      cases h
      exact ⟨rfl, Or.inl ⟨rfl, _, rfl, rfl⟩⟩
    · obtain ⟨_, -, h⟩ := bind_eq_ok h
      obtain ⟨_, -, h⟩ := bind_eq_ok h
      obtain ⟨_, -, h⟩ := bind_eq_ok h
      obtain ⟨_, -, h⟩ := bind_eq_ok h
      obtain ⟨sysl, hl, h⟩ := bind_eq_ok h
      obtain ⟨_, -, h⟩ := bind_eq_ok h
      simp only [pure, Except.pure] at h
      cases h
      have hc := depthImageLayouts_effect _ _ _ hl
      refine ⟨rfl, Or.inr ⟨rfl, ?_⟩⟩
      simp only [hc, List.append_assoc, List.cons_append, List.nil_append]
      exact ⟨[_, _, _, _, _], _, _, rfl, rfl⟩


/-- The loop of `init_framebuffers` over distinct indices inside the array: entry `i` of
`framebuffers` becomes the handle that the `vkCreateFramebuffer` call of its pass returned;
the other entries stay. -/
theorem createFramebuffers_effect {drv : Driver} {include_depth : Bool} :
    ∀ (indices : List Nat) (self self' : VulkanDevice) (sys sys' : Sys),
      indices.Nodup → (∀ i ∈ indices, i < self.framebuffers.length) →
      createFramebuffers drv include_depth indices self sys = Except.ok (self', sys') →
      self' = { self with framebuffers := self'.framebuffers } ∧
      self'.framebuffers.length = self.framebuffers.length ∧
      sys'.calls = sys.calls ++ indices.map
        (fun i => Event.api ApiFn.vkCreateFramebuffer (framebufferArgs self include_depth i)) ∧
      (∀ j, j ∉ indices → self'.framebuffers.getD j 0 = self.framebuffers.getD j 0) ∧
      (∀ i ∈ indices, Created drv sys'.calls ApiFn.vkCreateFramebuffer
        (framebufferArgs self include_depth i) (self'.framebuffers.getD i 0)) := by
  intro indices
  induction indices with
  | nil =>
    intro self self' sys sys' _ _ h
    simp only [createFramebuffers] at h
    cases h
    exact ⟨rfl, rfl, by simp, fun _ _ => rfl, by intro i hi; cases hi⟩
  | cons i rest ih =>
    intro self self' sys sys' hnd hlt h
    simp only [createFramebuffers, Sys.call] at h
    obtain ⟨_, -, h⟩ := bind_eq_ok h
    have hnd' := List.nodup_cons.mp hnd
    obtain ⟨hself, hlen, hcalls, hkeep, hmade⟩ := ih _ _ _ _ hnd'.2
      (by
        intro j hj
        simp only [List.length_set]
        exact hlt j (List.mem_cons_of_mem _ hj)) h
    simp only [List.length_set] at hlen
    have hi : i < self.framebuffers.length := hlt i (List.mem_cons_self _ _)
    have hcalls' : sys'.calls = sys.calls ++
        Event.api ApiFn.vkCreateFramebuffer (framebufferArgs self include_depth i) ::
          rest.map (fun i => Event.api ApiFn.vkCreateFramebuffer
            (framebufferArgs self include_depth i)) := by
      rw [hcalls]
      simp only [List.append_assoc, List.cons_append, List.nil_append]
      rfl
    refine ⟨?_, hlen, ?_, ?_, ?_⟩
    · rw [hself]
    · rw [hcalls']
      simp
    · intro j hj
      have hj' : j ≠ i ∧ j ∉ rest := by
        constructor
        · intro hc; exact hj (hc ▸ List.mem_cons_self _ _)
        · intro hc; exact hj (List.mem_cons_of_mem _ hc)
      rw [hkeep j hj'.2]
      simp only [List.getD_eq_getElem?_getD]
      rw [List.getElem?_set_ne (Ne.symm hj'.1)]
    · intro j hj
      rcases List.mem_cons.mp hj with rfl | hj
      · have h0 : self'.framebuffers.getD j 0 = drv.handle sys.calls.length := by
          rw [hkeep j hnd'.1]
          simp only [List.getD_eq_getElem?_getD]
          rw [List.getElem?_set_self hi]
          rfl
        rw [h0, hcalls']
        exact Created.at_length _ _ _ _
      · exact hmade j hj

theorem init_framebuffers_effect {drv : Driver} {include_depth : Bool}
    {self self' : VulkanDevice} {sys sys' : Sys}
    (h : self.init_framebuffers drv include_depth sys = Except.ok (self', sys')) :
    self' = { self with framebuffers := self'.framebuffers } ∧
    self'.framebuffers.length = self.swapchainImageCount ∧
    sys'.calls = sys.calls ++ (List.range self.swapchainImageCount).map
      (fun i => Event.api ApiFn.vkCreateFramebuffer (framebufferArgs self include_depth i)) ∧
    (∀ i, i < self.swapchainImageCount → Created drv sys'.calls ApiFn.vkCreateFramebuffer
      (framebufferArgs self include_depth i) (self'.framebuffers.getD i 0)) := by
  unfold VulkanDevice.init_framebuffers at h
  obtain ⟨hself, hlen, hcalls, -, hmade⟩ :=
    createFramebuffers_effect _ _ _ _ _ (List.nodup_range _)
      (by
        intro i hi
        simp only [List.length_replicate]
        exact List.mem_range.mp hi) h
  refine ⟨?_, ?_, ?_, ?_⟩
  · rw [hself]
  · rw [hlen, List.length_replicate]
  · rw [hcalls]
    rfl
  · intro i hi
    exact hmade i (List.mem_range.mpr hi)


/-! ## The calls of `init`, one after the other -/

/-- Every call of the body of `init` writes only the members of its `frame`. -/
theorem InitStep.run_frame {glm : Glm} {drv : Driver} {mesh : Mesh} {fuel : Nat}
    (step : InitStep) {self self' : VulkanDevice} {sys sys' : Sys}
    (h : step.run glm drv mesh fuel self sys = Except.ok (self', sys')) :
    self' = step.frame self self' := by
  cases step <;> simp only [InitStep.run, InitStep.frame] at h ⊢
  case init_global_layer_properties =>
    obtain ⟨⟨r, s1, sys1⟩, h1, h⟩ := bind_eq_ok h
    cases h
    exact (init_global_layer_properties_effect h1).1
  case init_instance_extension_names => cases h; rfl
  case init_device_extension_names => cases h; rfl
  case init_instance =>
    obtain ⟨⟨r, s1, sys1⟩, h1, h⟩ := bind_eq_ok h
    cases h
    exact (init_instance_effect h1).1
  case init_enumerate_device =>
    obtain ⟨⟨r, s1, sys1⟩, h1, h⟩ := bind_eq_ok h
    cases h
    exact (init_enumerate_device_effect h1).1
  case init_swapchain_extension =>
    obtain ⟨⟨r, s1, sys1⟩, h1, h⟩ := bind_eq_ok h
    cases h
    exact (init_swapchain_extension_effect h1).1
  case init_device =>
    obtain ⟨⟨r, s1, sys1⟩, h1, h⟩ := bind_eq_ok h
    cases h
    exact (init_device_effect h1).1
  case init_swap_chain =>
    have := (init_swap_chain_effect h).1
    rw [this]
  case init_command_pool => exact (init_command_pool_effect h).1
  case init_command_buffer => exact (init_command_buffer_effect h).1
  case execute_begin_command_buffer => exact (execute_begin_command_buffer_effect h).1
  case init_device_queue =>
    simp only [pure, Except.pure] at h
    have h' : self.init_device_queue drv sys = (self', sys') := by
      cases h
      rfl
    exact (init_device_queue_effect h').1
  case initSwapChainImages =>
    obtain ⟨added, hself, -⟩ := initSwapChainImages_effect h
    rw [hself]
  case init_depth_buffer =>
    obtain ⟨⟨r, s1, sys1⟩, h1, h⟩ := bind_eq_ok h
    cases h
    exact (init_depth_buffer_effect h1).1
  case init_uniform_buffer => exact (init_uniform_buffer_effect h).1
  case init_descriptor_and_pipeline_layouts =>
    exact (init_descriptor_and_pipeline_layouts_effect h).1
  case init_renderpass => exact (init_renderpass_effect h).1
  case init_shaders => exact (init_shaders_effect h).1
  case init_framebuffers => exact (init_framebuffers_effect h).1
  case initVertexBufferWithNormal => exact (initVertexBufferWithNormal_effect h).1
  case initIndexForVertex => exact (initIndexForVertex_effect h).1
  case init_descriptor_pool => exact (init_descriptor_pool_effect h).1
  case init_descriptor_set => exact (init_descriptor_set_effect h).1
  case init_pipeline_cache => exact (init_pipeline_cache_effect h).1
  case init_pipeline => exact (init_pipeline_effect h).1
  case preDraw =>
    obtain ⟨k, -, -, -, -, -, -, -, hself, -⟩ := preDraw_ok h
    rw [hself]


/-- A plain call of the body of `init` appends only calls of untracked entry points. -/
theorem InitStep.run_untracked {glm : Glm} {drv : Driver} {mesh : Mesh} {fuel : Nat}
    (step : InitStep) (hp : step.plain = true) {self self' : VulkanDevice} {sys sys' : Sys}
    (h : step.run glm drv mesh fuel self sys = Except.ok (self', sys')) :
    ∃ new, sys'.calls = sys.calls ++ new ∧ new.filter Event.tracked = [] := by
  cases step <;> simp only [InitStep.run] at h <;> try (cases hp)
  case init_global_layer_properties =>
    obtain ⟨⟨r, s1, sys1⟩, h1, h⟩ := bind_eq_ok h
    cases h
    exact (init_global_layer_properties_effect h1).2
  case init_instance_extension_names => cases h; exact untracked_refl _
  case init_device_extension_names => cases h; exact untracked_refl _
  case init_instance =>
    obtain ⟨⟨r, s1, sys1⟩, h1, h⟩ := bind_eq_ok h
    cases h
    exact (init_instance_effect h1).2
  case init_enumerate_device =>
    obtain ⟨⟨r, s1, sys1⟩, h1, h⟩ := bind_eq_ok h
    cases h
    exact (init_enumerate_device_effect h1).2
  case init_swapchain_extension =>
    obtain ⟨⟨r, s1, sys1⟩, h1, h⟩ := bind_eq_ok h
    cases h
    exact (init_swapchain_extension_effect h1).2
  case init_device =>
    obtain ⟨⟨r, s1, sys1⟩, h1, h⟩ := bind_eq_ok h
    cases h
    exact (init_device_effect h1).2
  case init_command_pool => exact (init_command_pool_effect h).2
  case init_command_buffer => exact (init_command_buffer_effect h).2.2
  case init_device_queue =>
    simp only [pure, Except.pure] at h
    have h' : self.init_device_queue drv sys = (self', sys') := by
      cases h
      rfl
    exact (init_device_queue_effect h').2
  case init_uniform_buffer => exact (init_uniform_buffer_effect h).2
  case init_descriptor_and_pipeline_layouts =>
    exact (init_descriptor_and_pipeline_layouts_effect h).2
  case init_renderpass => exact (init_renderpass_effect h).2
  case init_shaders => exact (init_shaders_effect h).2
  case initVertexBufferWithNormal => exact (initVertexBufferWithNormal_effect h).2
  case initIndexForVertex => exact (initIndexForVertex_effect h).2
  case init_descriptor_pool => exact (init_descriptor_pool_effect h).2
  case init_descriptor_set => exact (init_descriptor_set_effect h).2
  case init_pipeline_cache => exact (init_pipeline_cache_effect h).2

/-- Every call of the body of `init` only appends to the trace. -/
theorem InitStep.run_calls {glm : Glm} {drv : Driver} {mesh : Mesh} {fuel : Nat}
    (step : InitStep) {self self' : VulkanDevice} {sys sys' : Sys}
    (h : step.run glm drv mesh fuel self sys = Except.ok (self', sys')) :
    ∃ new, sys'.calls = sys.calls ++ new := by
  by_cases hp : step.plain = true
  · obtain ⟨new, hnew, -⟩ := InitStep.run_untracked step hp h
    exact ⟨new, hnew⟩
  · cases step <;> simp only [InitStep.run] at h <;> try (exact absurd rfl hp)
    · obtain ⟨-, _, _, _, _, hc⟩ := init_swap_chain_effect h
      exact ⟨_, hc⟩
    · exact ⟨_, (execute_begin_command_buffer_effect h).2⟩
    · obtain ⟨added, -, hc, -⟩ := initSwapChainImages_effect h
      exact ⟨_, by rw [hc, List.append_assoc]⟩
    · obtain ⟨⟨r, s1, sys1⟩, h1, h⟩ := bind_eq_ok h
      cases h
      rcases (init_depth_buffer_effect h1).2 with ⟨-, new, hc, -⟩ | ⟨-, pre, _, _, hc, -⟩
      · exact ⟨new, hc⟩
      · exact ⟨_, by rw [hc, List.append_assoc, List.append_assoc]⟩
    · exact ⟨_, (init_framebuffers_effect h).2.2.1⟩
    · obtain ⟨-, _, _, _, _, _, _, _, _, _, hc⟩ := init_pipeline_effect h
      exact ⟨_, hc⟩
    · obtain ⟨k, -, -, -, -, -, -, -, -, hc, -⟩ := preDraw_ok h
      exact ⟨_, by rw [hc]; simp only [List.append_assoc]; rfl⟩

theorem runSteps_cons {glm : Glm} {drv : Driver} {mesh : Mesh} {fuel : Nat}
    {step : InitStep} {rest : List InitStep} {self d : VulkanDevice} {sys sys' : Sys}
    {trace trace' : List (InitStep × Bool)}
    (h : runSteps glm drv mesh fuel (step :: rest) self sys trace
      = Except.ok (d, sys', trace')) :
    ∃ s1 sys1,
      step.run glm drv mesh fuel self sys = Except.ok (s1, sys1) ∧
      runSteps glm drv mesh fuel rest s1 sys1 (trace ++ [(step, self.isReady)])
        = Except.ok (d, sys', trace') := by
  simp only [runSteps] at h
  obtain ⟨⟨s1, sys1⟩, h1, h⟩ := bind_eq_ok h
  exact ⟨s1, sys1, h1, h⟩

/-- A run of steps none of which writes what `f` reads leaves `f` as it was. -/
theorem runSteps_keeps {glm : Glm} {drv : Driver} {mesh : Mesh} {fuel : Nat} {α : Type}
    (f : VulkanDevice → α) :
    ∀ (steps : List InitStep), (∀ s ∈ steps, ∀ a b, f (InitStep.frame s a b) = f a) →
      ∀ (self d : VulkanDevice) (sys sys' : Sys) (trace trace' : List (InitStep × Bool)),
      runSteps glm drv mesh fuel steps self sys trace = Except.ok (d, sys', trace') →
      f d = f self := by
  intro steps
  induction steps with
  | nil =>
    intro _ self d sys sys' trace trace' h
    simp only [runSteps] at h
    cases h
    rfl
  | cons step rest ih =>
    intro hf self d sys sys' trace trace' h
    obtain ⟨s1, sys1, h1, h2⟩ := runSteps_cons h
    rw [ih (fun s hs => hf s (List.mem_cons_of_mem _ hs)) _ _ _ _ _ _ h2,
      InitStep.run_frame step h1]
    exact hf step (List.mem_cons_self _ _) _ _

/-- A run of steps only appends to the trace. -/
theorem runSteps_calls {glm : Glm} {drv : Driver} {mesh : Mesh} {fuel : Nat} :
    ∀ (steps : List InitStep) (self d : VulkanDevice) (sys sys' : Sys)
      (trace trace' : List (InitStep × Bool)),
      runSteps glm drv mesh fuel steps self sys trace = Except.ok (d, sys', trace') →
      ∃ new, sys'.calls = sys.calls ++ new := by
  intro steps
  induction steps with
  | nil =>
    intro self d sys sys' trace trace' h
    simp only [runSteps] at h
    cases h
    exact ⟨[], by simp⟩
  | cons step rest ih =>
    intro self d sys sys' trace trace' h
    obtain ⟨s1, sys1, h1, h2⟩ := runSteps_cons h
    obtain ⟨n1, hn1⟩ := InitStep.run_calls step h1
    obtain ⟨n2, hn2⟩ := ih _ _ _ _ _ _ h2
    exact ⟨n1 ++ n2, by rw [hn2, hn1, List.append_assoc]⟩

/-! ## The trace of `init` as a whole -/

theorem runSteps_append {glm : Glm} {drv : Driver} {mesh : Mesh} {fuel : Nat} :
    ∀ (a b : List InitStep) (self d : VulkanDevice) (sys sys' : Sys)
      (trace trace' : List (InitStep × Bool)),
      runSteps glm drv mesh fuel (a ++ b) self sys trace = Except.ok (d, sys', trace') →
      ∃ m sm tm, runSteps glm drv mesh fuel a self sys trace = Except.ok (m, sm, tm) ∧
        runSteps glm drv mesh fuel b m sm tm = Except.ok (d, sys', trace') := by
  intro a
  induction a with
  | nil =>
    intro b self d sys sys' trace trace' h
    exact ⟨self, sys, trace, rfl, h⟩
  | cons step rest ih =>
    intro b self d sys sys' trace trace' h
    obtain ⟨s1, sys1, h1, h2⟩ := runSteps_cons h
    obtain ⟨m, sm, tm, h3, h4⟩ := ih _ _ _ _ _ _ _ h2
    refine ⟨m, sm, tm, ?_, h4⟩
    simp only [runSteps, bind, Except.bind, h1]
    exact h3

theorem runSteps_untracked {glm : Glm} {drv : Driver} {mesh : Mesh} {fuel : Nat} :
    ∀ (steps : List InitStep), (∀ s ∈ steps, s.plain = true) →
      ∀ (self d : VulkanDevice) (sys sys' : Sys) (trace trace' : List (InitStep × Bool)),
      runSteps glm drv mesh fuel steps self sys trace = Except.ok (d, sys', trace') →
      ∃ new, sys'.calls = sys.calls ++ new ∧ new.filter Event.tracked = [] := by
  intro steps
  induction steps with
  | nil =>
    intro _ self d sys sys' trace trace' h
    simp only [runSteps] at h
    cases h
    exact untracked_refl _
  | cons step rest ih =>
    intro hp self d sys sys' trace trace' h
    obtain ⟨s1, sys1, h1, h2⟩ := runSteps_cons h
    exact untracked_trans
      (InitStep.run_untracked step (hp step (List.mem_cons_self _ _)) h1)
      (ih (fun s hs => hp s (List.mem_cons_of_mem _ hs)) _ _ _ _ _ _ h2)

theorem filter_tracked_map {α : Type} (f : α → Event) (hf : ∀ a, (f a).tracked = true)
    (l : List α) : (l.map f).filter Event.tracked = l.map f := by
  rw [List.filter_eq_self]
  intro e he
  obtain ⟨a, -, rfl⟩ := List.mem_map.mp he
  exact hf a

theorem filter_tracked_map_api {α : Type} (fn : ApiFn) (hfn : fn.tracked = true)
    (g : α → List Nat) (l : List α) :
    (l.map (fun a => Event.api fn (g a))).filter Event.tracked
      = l.map (fun a => Event.api fn (g a)) :=
  filter_tracked_map (fun a => Event.api fn (g a)) (fun _ => hfn) l

theorem filter_tracked_flatMap {α : Type} (f : α → List Event)
    (hf : ∀ a, ∀ e ∈ f a, e.tracked = true) (l : List α) :
    (l.flatMap f).filter Event.tracked = l.flatMap f := by
  rw [List.filter_eq_self]
  intro e he
  obtain ⟨a, -, hea⟩ := List.mem_flatMap.mp he
  exact hf a e hea

theorem tracked_of_mem_recordedEvents {self : VulkanDevice} {i : Nat} {e : Event}
    (he : e ∈ recordedEvents self i) : e.tracked = true := by
  simp only [recordedEvents, List.mem_cons, List.mem_singleton, List.not_mem_nil,
    or_false] at he
  rcases he with h | h | h | h | h | h | h | h | h | h <;> subst h <;> rfl

theorem tracked_of_mem_imageViewEvents {self : VulkanDevice} {images : List Nat} {i : Nat}
    {e : Event} (he : e ∈ imageViewEvents self images i) : e.tracked = true := by
  simp only [imageViewEvents, List.mem_cons, List.mem_singleton, List.not_mem_nil,
    or_false] at he
  rcases he with h | h <;> subst h <;> rfl

theorem getElem?_append_add (pre l : List Event) (k : Nat) :
    (pre ++ l)[pre.length + k]? = l[k]? := by
  rw [List.getElem?_append_right (Nat.le_add_right _ _), Nat.add_sub_cancel_left]

theorem filter_tracked_replicate (n : Nat) (e : Event) (he : e.tracked = false) :
    (List.replicate n e).filter Event.tracked = [] := by
  induction n with
  | zero => rfl
  | succ n ih => rw [List.replicate_succ, List.filter_cons_of_neg (by simp [he]), ih]

/-- The calls that a run of the whole body of `init` makes, on an object that starts
without swapchain buffers. `p` is the position of the surface-capabilities query and `q`
that of the image query of `initSwapChainImages`. -/
theorem runSteps_initSequence_trace {glm : Glm} {drv : Driver} {mesh : Mesh} {fuel : Nat}
    {self d : VulkanDevice} {sys sys' : Sys} {trace : List (InitStep × Bool)}
    (h : runSteps glm drv mesh fuel initSequence self sys [] = Except.ok (d, sys', trace))
    (hb : self.buffers = []) :
    ∃ p q desired pre mode depthEvents b0 b1 b2 b3 b4 b5 b6 b7 b8,
      sys.calls.length ≤ p ∧
      sys'.calls[p]? = some (Event.api ApiFn.vkGetPhysicalDeviceSurfaceCapabilitiesKHR
        [d.gpus.getD 0 0, d.surface_]) ∧
      d.width = (drv.surfaceCapabilities p).currentExtent.width ∧
      d.height = (drv.surfaceCapabilities p).currentExtent.height ∧
      sys'.calls[p + 4]? = some (Event.api ApiFn.vkGetSwapchainImagesKHR
        [d.device_, d.swap_chain, 0]) ∧
      d.cmdBuffer.length = drv.count (p + 4) ∧
      sys.calls.length ≤ q ∧
      sys'.calls[q]? = some (Event.api ApiFn.vkGetSwapchainImagesKHR
        [d.device_, d.swap_chain, d.cmdBuffer.length]) ∧
      d.swapchainImageCount = drv.count q ∧
      d.buffers.length = d.swapchainImageCount ∧
      d.framebuffers.length = d.swapchainImageCount ∧
      (∀ i, i < d.swapchainImageCount →
        (d.buffers.getD i ⟨0, 0⟩).image
          = (fill (List.replicate d.cmdBuffer.length 0) (drv.list q)).getD i 0 ∧
        Created drv sys'.calls ApiFn.vkCreateImageView
          [d.device_, (d.buffers.getD i ⟨0, 0⟩).image, d.format, VK_IMAGE_ASPECT_COLOR_BIT]
          (d.buffers.getD i ⟨0, 0⟩).view ∧
        Created drv sys'.calls ApiFn.vkCreateFramebuffer (framebufferArgs d true i)
          (d.framebuffers.getD i 0)) ∧
      (sys'.calls.drop sys.calls.length).filter Event.tracked
        = setupTrace d d.cmdBuffer.length
            (fill (List.replicate d.cmdBuffer.length 0) (drv.list q))
            [d.device_, d.surface_, desired, d.format, d.width, d.height, pre, mode,
               VK_IMAGE_USAGE_COLOR_ATTACHMENT_BIT ||| VK_IMAGE_USAGE_TRANSFER_SRC_BIT]
            depthEvents
            [b0, b1, b2, b3, b4, b5, b6, b7, b8, 0, 0, d.width, d.height] ∧
      (depthEvents = [] ∨ ∃ tiling aspectMask,
        depthEvents =
          [Event.api ApiFn.vkCreateImage
            [d.device_, VK_FORMAT_D24_UNORM_S8_UINT, d.width, d.height, 1, tiling]] ++
          (List.range d.swapchainImageCount).map (depthLayoutEvent d aspectMask) ++
          [Event.api ApiFn.vkCreateImageView
            [d.device_, d.depth.image, VK_FORMAT_D24_UNORM_S8_UINT, aspectMask]]) := by
  have e : initSequence =
      [InitStep.init_global_layer_properties, InitStep.init_instance_extension_names,
       InitStep.init_device_extension_names, InitStep.init_instance,
       InitStep.init_enumerate_device, InitStep.init_swapchain_extension,
       InitStep.init_device] ++
      (InitStep.init_swap_chain :: InitStep.init_command_pool ::
       InitStep.init_command_buffer :: InitStep.execute_begin_command_buffer ::
       InitStep.init_device_queue :: InitStep.initSwapChainImages ::
       InitStep.init_depth_buffer ::
       ([InitStep.init_uniform_buffer, InitStep.init_descriptor_and_pipeline_layouts,
         InitStep.init_renderpass, InitStep.init_shaders] ++
        (InitStep.init_framebuffers ::
         ([InitStep.initVertexBufferWithNormal, InitStep.initIndexForVertex,
           InitStep.init_descriptor_pool, InitStep.init_descriptor_set,
           InitStep.init_pipeline_cache] ++
          [InitStep.init_pipeline, InitStep.preDraw])))) := rfl
  rw [e] at h
  clear e
  -- steps 1 to 7
  obtain ⟨s7, sys7, t7, hP1, h⟩ := runSteps_append _ _ _ _ _ _ _ _ h
  obtain ⟨new1, C1, U1⟩ := runSteps_untracked _ (by decide) _ _ _ _ _ _ hP1
  have hb7 : s7.buffers = [] := by
    rw [runSteps_keeps (fun d => d.buffers) _ (by
      intro s hs a b
      cases s <;> simp at hs <;> rfl) _ _ _ _ _ _ hP1]
    exact hb
  have K7 := runSteps_keeps (fun d => (d.gpus, d.surface_, d.device_, d.format)) _ (by
      intro s hs a b
      cases s <;> simp at hs <;> rfl) _ _ _ _ _ _ h
  simp only [Prod.mk.injEq] at K7
  obtain ⟨K7gpus, K7surface, K7device, K7format⟩ := K7
  -- step 8
  obtain ⟨s8, sys8, h8, h⟩ := runSteps_cons h
  simp only [InitStep.run] at h8
  obtain ⟨F8, modes, desired, pre, mode, C8⟩ := init_swap_chain_effect h8
  have K8 := runSteps_keeps (fun d => (d.width, d.height, d.swap_chain)) _ (by
      intro s hs a b
      cases s <;> simp at hs <;> rfl) _ _ _ _ _ _ h
  simp only [Prod.mk.injEq] at K8
  obtain ⟨K8width, K8height, K8swap⟩ := K8
  obtain ⟨later8, L8⟩ := runSteps_calls _ _ _ _ _ _ _ h
  -- step 9
  obtain ⟨s9, sys9, h9, h⟩ := runSteps_cons h
  obtain ⟨new9, C9, U9⟩ := InitStep.run_untracked InitStep.init_command_pool rfl h9
  have F9 := InitStep.run_frame _ h9
  -- step 10
  obtain ⟨s10, sys10, h10, h⟩ := runSteps_cons h
  simp only [InitStep.run] at h10
  obtain ⟨F10, N10, new10, C10, U10⟩ := init_command_buffer_effect h10
  have K10 := runSteps_keeps (fun d => d.cmdBuffer) _ (by
      intro s hs a b
      cases s <;> simp at hs <;> rfl) _ _ _ _ _ _ h
  simp only at K10
  -- step 11
  obtain ⟨s11, sys11, h11, h⟩ := runSteps_cons h
  simp only [InitStep.run] at h11
  obtain ⟨F11, C11⟩ := execute_begin_command_buffer_effect h11
  -- step 12
  obtain ⟨s12, sys12, h12, h⟩ := runSteps_cons h
  obtain ⟨new12, C12, U12⟩ := InitStep.run_untracked InitStep.init_device_queue rfl h12
  have F12 := InitStep.run_frame _ h12
  have N8 : s8.swapchainImageCount = drv.count (sys7.calls.length + 4) := by rw [F8]
  have N9 : s9.swapchainImageCount = drv.count (sys7.calls.length + 4) := by
    rw [F9]; exact N8
  have N10' : s10.swapchainImageCount = drv.count (sys7.calls.length + 4) := by
    rw [F10]; exact N9
  have N12 : s12.swapchainImageCount = drv.count (sys7.calls.length + 4) := by
    rw [F12, F11]; exact N10'
  have hlen : d.cmdBuffer.length = drv.count (sys7.calls.length + 4) := by
    rw [K10, N10, N9]
  have hb12 : s12.buffers = [] := by
    rw [F12, F11, F10, F9, F8]; exact hb7
  have K12 := runSteps_keeps
    (fun d => (d.cmdBuffer, d.device_, d.format, d.swap_chain)) _ (by
      intro s hs a b
      cases s <;> simp at hs <;> rfl) _ _ _ _ _ _ h
  simp only [Prod.mk.injEq] at K12
  obtain ⟨K12cmd, K12device, K12format, K12swap⟩ := K12
  have K12v := runSteps_keeps (fun d => imageViewEvents d) _ (by
      intro s hs a b
      cases s <;> simp at hs <;> rfl) _ _ _ _ _ _ h
  simp only at K12v
  -- step 13
  obtain ⟨s13, sys13, h13, h⟩ := runSteps_cons h
  simp only [InitStep.run] at h13
  obtain ⟨added, F13, C13, A13, V13⟩ := initSwapChainImages_effect h13
  have K13 := runSteps_keeps
    (fun d => (d.swapchainImageCount, d.buffers, d.device_, d.width, d.height)) _ (by
      intro s hs a b
      cases s <;> simp at hs <;> rfl) _ _ _ _ _ _ h
  simp only [Prod.mk.injEq] at K13
  obtain ⟨K13count, K13buffers, K13device, K13width, K13height⟩ := K13
  obtain ⟨later13, L13⟩ := runSteps_calls _ _ _ _ _ _ _ h
  -- step 14
  obtain ⟨s14, sys14, h14, h⟩ := runSteps_cons h
  simp only [InitStep.run] at h14
  obtain ⟨⟨r14, s14', sys14'⟩, h14, h14'⟩ := bind_eq_ok h14
  simp only [pure, Except.pure] at h14'
  cases h14'
  obtain ⟨F14, E14⟩ := init_depth_buffer_effect h14
  have K14 := runSteps_keeps (fun d => (d.depth, depthLayoutEvent d)) _ (by
      intro s hs a b
      cases s <;> simp at hs <;> rfl) _ _ _ _ _ _ h
  simp only [Prod.mk.injEq] at K14
  obtain ⟨K14depth, K14event⟩ := K14
  -- steps 15 to 18
  obtain ⟨s18, sys18, t18, hP2, h⟩ := runSteps_append _ _ _ _ _ _ _ _ h
  obtain ⟨newP2, CP2, UP2⟩ := runSteps_untracked _ (by decide) _ _ _ _ _ _ hP2
  have K18 := runSteps_keeps (fun d => (framebufferArgs d true, d.swapchainImageCount)) _ (by
      intro s hs a b
      cases s <;> simp at hs <;> rfl) _ _ _ _ _ _ h
  simp only [Prod.mk.injEq] at K18
  obtain ⟨K18args, K18count⟩ := K18
  -- step 19
  obtain ⟨s19, sys19, h19, h⟩ := runSteps_cons h
  simp only [InitStep.run] at h19
  obtain ⟨F19, N19, C19, V19⟩ := init_framebuffers_effect h19
  have K19 := runSteps_keeps (fun d => d.framebuffers) _ (by
      intro s hs a b
      cases s <;> simp at hs <;> rfl) _ _ _ _ _ _ h
  simp only at K19
  obtain ⟨later19, L19⟩ := runSteps_calls _ _ _ _ _ _ _ h
  -- steps 20 to 24
  obtain ⟨s24, sys24, t24, hP3, h⟩ := runSteps_append _ _ _ _ _ _ _ _ h
  obtain ⟨newP3, CP3, UP3⟩ := runSteps_untracked _ (by decide) _ _ _ _ _ _ hP3
  have K24 := runSteps_keeps (fun d => (d.width, d.height)) _ (by
      intro s hs a b
      cases s <;> simp at hs <;> rfl) _ _ _ _ _ _ h
  simp only [Prod.mk.injEq] at K24
  obtain ⟨K24width, K24height⟩ := K24
  -- step 25
  obtain ⟨s25, sys25, h25, h⟩ := runSteps_cons h
  simp only [InitStep.run] at h25
  obtain ⟨F25, b0, b1, b2, b3, b4, b5, b6, b7, b8, C25⟩ := init_pipeline_effect h25
  have K25 := runSteps_keeps (fun d => (recordedEvents d, d.swapchainImageCount)) _ (by
      intro s hs a b
      cases s <;> simp at hs <;> rfl) _ _ _ _ _ _ h
  simp only [Prod.mk.injEq] at K25
  obtain ⟨K25events, K25count⟩ := K25
  -- step 26
  obtain ⟨s26, sys26, h26, h⟩ := runSteps_cons h
  simp only [InitStep.run] at h26
  obtain ⟨k, -, -, -, -, -, -, -, -, C26, -, -, -⟩ := preDraw_ok h26
  simp only [runSteps] at h
  cases h
  -- the calls of the depth buffer, with the members of the final object
  have D14 : ∃ new14 depthEvents, sys14.calls = sys13.calls ++ new14 ∧
      new14.filter Event.tracked = depthEvents ∧
      (depthEvents = [] ∨ ∃ tiling aspectMask,
        depthEvents =
          [Event.api ApiFn.vkCreateImage
            [d.device_, VK_FORMAT_D24_UNORM_S8_UINT, d.width, d.height, 1, tiling]] ++
          (List.range d.swapchainImageCount).map (depthLayoutEvent d aspectMask) ++
          [Event.api ApiFn.vkCreateImageView
            [d.device_, d.depth.image, VK_FORMAT_D24_UNORM_S8_UINT, aspectMask]]) := by
    rcases E14 with ⟨-, new, hc, hu⟩ | ⟨-, pre, tiling, aspectMask, hc, hpre⟩
    · exact ⟨new, [], hc, hu, Or.inl rfl⟩
    · refine ⟨_, _, by rw [hc, List.append_assoc, List.append_assoc], rfl,
        Or.inr ⟨tiling, aspectMask, ?_⟩⟩
      rw [List.filter_append, List.filter_append, hpre,
        filter_tracked_map (depthLayoutEvent s14 aspectMask) (fun _ => rfl), K13device, K13width, K13height, K13count,
        K14depth, K14event]
      rfl
  obtain ⟨new14, depthEvents, C14, U14, hdepth⟩ := D14
  have hl1 := congrArg List.length C1
  have hl8 := congrArg List.length C8
  have hl9 := congrArg List.length C9
  have hl10 := congrArg List.length C10
  have hl11 := congrArg List.length C11
  have hl12 := congrArg List.length C12
  simp only [List.length_append] at hl1 hl8 hl9 hl10 hl11 hl12
  have hbuf : d.buffers = added := by
    rw [K13buffers, F13]
    show s12.buffers ++ added = added
    rw [hb12, List.nil_append]
  have hcount : d.swapchainImageCount = drv.count sys12.calls.length := by
    rw [K13count, F13]
  refine ⟨sys7.calls.length, sys12.calls.length, desired, pre, mode, depthEvents,
    b0, b1, b2, b3, b4, b5, b6, b7, b8, by omega, ?_, ?_, ?_, ?_, hlen, by omega, ?_,
    hcount, ?_, ?_, ?_, ?_, hdepth⟩
  · rw [L8, C8, List.append_assoc, K7gpus, K7surface]
    exact (getElem?_append_add _ _ 0).trans (by simp)
  · rw [K8width, F8]
  · rw [K8height, F8]
  · rw [L8, C8, List.append_assoc, K7device, K8swap]
    exact (getElem?_append_add _ _ 4).trans (by simp)
  · rw [L13, C13, List.append_assoc, List.append_assoc, hlen, K12device, K12swap, N12]
    exact (getElem?_append_add _ _ 0).trans (by simp)
  · rw [hbuf, hcount]
    exact A13
  · rw [K19, N19, K18count]
  · intro i hi
    rw [hcount] at hi
    obtain ⟨himg, hview⟩ := V13 i hi
    rw [N12] at himg hview
    rw [hbuf, hlen, himg, K12device, K12format]
    refine ⟨rfl, ?_, ?_⟩
    · rw [L13]
      exact hview.append _
    · rw [K19, L19, K18args]
      exact (V19 i (by rw [← K18count, hcount]; exact hi)).append _
  · rw [← K7gpus, ← K7surface, ← K7device, ← K7format, ← K8width, ← K8height,
      ← K8swap] at C8
    rw [N10', ← hlen, ← K10] at C11
    rw [N12, ← hlen, ← K12device, ← K12swap, ← hcount, ← K12v] at C13
    rw [← K18count, ← K18args] at C19
    rw [← K24width, ← K24height] at C25
    rw [← K25count, ← K25events] at C26
    generalize sys12.calls.length = q at C13 ⊢
    rw [C26, C25, CP3, C19, CP2, C14, C13, C12, C11, C10, C9, C8, C1]
    simp only [List.append_assoc, List.drop_left, List.filter_append, U1, U9, U10, U12,
      UP2, UP3, U14, List.nil_append, List.append_nil,
      filter_tracked_map_api ApiFn.vkBeginCommandBuffer rfl,
      filter_tracked_map_api ApiFn.vkCreateFramebuffer rfl,
      filter_tracked_flatMap _ (fun _ _ h => tracked_of_mem_recordedEvents h),
      filter_tracked_flatMap _ (fun _ _ h => tracked_of_mem_imageViewEvents h),
      filter_tracked_replicate _ (fenceWait d) rfl, setupTrace]
    simp [List.filter, Event.tracked, ApiFn.tracked, ApiFn.recordsCommands]

/-! ## Conversion of an extent to `float` -/

theorem F32.roundHalfEven_one (x : Nat) : F32.roundHalfEven x 1 = x := by
  simp [F32.roundHalfEven, Nat.mod_one]

/-- The conversion `(float)n` is exact up to `2^24`. -/
theorem F32.ofNat_exact (n : Nat) (hn : n ≤ 2 ^ 24) :
    (F32.ofNat n).toRat = some (n : ℚ) := by
  rcases Nat.eq_zero_or_pos n with h0 | hpos
  · subst h0
    simp [F32.ofNat, F32.roundRatio, F32.toRat]
  rcases Nat.lt_or_ge n (2 ^ 24) with hlt | hge
  · obtain ⟨hL1, hL2⟩ := F32.floorLog2Ratio_spec n 1 hpos (by norm_num)
    simp only [Nat.cast_one, div_one] at hL1 hL2
    have hnq : (1 : ℚ) ≤ n := by exact_mod_cast hpos
    have hlo : (-1 : Int) < F32.floorLog2Ratio n 1 + 1 - 1 := by
      have h : (2 : ℚ) ^ (0 : Int) < (2 : ℚ) ^ (F32.floorLog2Ratio n 1 + 1) := by
        rw [zpow_zero]
        linarith
      have := F32.zpow_two_lt_of_lt h
      omega
    have hhi : F32.floorLog2Ratio n 1 < 24 := by
      have h : (2 : ℚ) ^ (F32.floorLog2Ratio n 1) < (2 : ℚ) ^ (24 : Int) := by
        have : (n : ℚ) < (2 : ℚ) ^ (24 : Int) := by
          have h24 : (n : ℚ) < ((2 ^ 24 : Nat) : ℚ) := by exact_mod_cast hlt
          have e24 : ((2 ^ 24 : Nat) : ℚ) = (2 : ℚ) ^ (24 : Int) := by norm_num
          rw [e24] at h24
          exact h24
        linarith
      exact F32.zpow_two_lt_of_lt h
    obtain ⟨k, hk⟩ : ∃ k : Nat, F32.floorLog2Ratio n 1 = (k : Int) :=
      ⟨(F32.floorLog2Ratio n 1).toNat, by omega⟩
    have hk23 : k ≤ 23 := by omega
    rw [hk] at hL1 hL2
    have hL2n : n * 2 ^ (23 - k) < 2 ^ 24 := by
      have h1 : n < 2 ^ (k + 1) := by
        have : (n : ℚ) < ((2 ^ (k + 1) : Nat) : ℚ) := by
          push_cast
          have e : ((k : Int) + 1) = ((k + 1 : Nat) : Int) := by push_cast; rfl
          rw [e, zpow_natCast] at hL2
          exact hL2
        exact_mod_cast this
      calc n * 2 ^ (23 - k) < 2 ^ (k + 1) * 2 ^ (23 - k) :=
            Nat.mul_lt_mul_of_pos_right h1 (Nat.pow_pos (by norm_num))
        _ = 2 ^ 24 := by rw [← pow_add]; congr 1; omega
    have hm0 : n * 2 ^ (23 - k) ≠ 0 := by
      have : 0 < n * 2 ^ (23 - k) := Nat.mul_pos hpos (Nat.pow_pos (by norm_num))
      omega
    have hq : max ((k : Int) + 0 - 23) (-149) = (k : Int) - 23 := by
      rw [max_eq_left (by omega)]
      omega
    have he : (0 : Int) ≤ 0 - ((k : Int) - 23) := by omega
    have het : (0 - ((k : Int) - 23)).toNat = 23 - k := by omega
    have h104 : ¬ (104 : Int) < (k : Int) - 23 := by omega
    simp only [F32.ofNat, F32.roundRatio, hk, hq, he, het, if_true, F32.roundHalfEven_one,
      hm0, Nat.ne_of_lt hL2n, h104, if_false, Nat.ne_of_gt hpos, F32.toRat]
    congr 1
    have e : ((k : Int) - 23) = -((23 - k : Nat) : Int) := by omega
    rw [e, zpow_neg, zpow_natCast]
    push_cast
    field_simp
  · have : n = 2 ^ 24 := le_antisymm hn hge
    subst this
    have e : F32.ofNat (2 ^ 24) = F32.fin false (2 ^ 23) 1 := by decide
    rw [e]
    simp only [F32.toRat]
    norm_num

/-! ## The calls of the constructor -/

/-- The calls of the constructor: what `runSteps_initSequence_trace` says of the body of
`init`, for the object that the constructor leaves. -/
theorem construct_trace {glm : Glm} {drv : Driver} {mesh : Mesh} {fuel : Nat}
    {storage d : VulkanDevice} {app : Nat} {sys sys' : Sys} {trace : List (InitStep × Bool)}
    (h : VulkanDevice.construct glm drv mesh fuel storage app sys
      = Except.ok (d, sys', trace)) :
    ∃ p q desired pre mode depthEvents b0 b1 b2 b3 b4 b5 b6 b7 b8,
      sys.calls.length ≤ p ∧
      sys'.calls[p]? = some (Event.api ApiFn.vkGetPhysicalDeviceSurfaceCapabilitiesKHR
        [d.gpus.getD 0 0, d.surface_]) ∧
      d.width = (drv.surfaceCapabilities p).currentExtent.width ∧
      d.height = (drv.surfaceCapabilities p).currentExtent.height ∧
      sys'.calls[p + 4]? = some (Event.api ApiFn.vkGetSwapchainImagesKHR
        [d.device_, d.swap_chain, 0]) ∧
      d.cmdBuffer.length = drv.count (p + 4) ∧
      sys.calls.length ≤ q ∧
      sys'.calls[q]? = some (Event.api ApiFn.vkGetSwapchainImagesKHR
        [d.device_, d.swap_chain, d.cmdBuffer.length]) ∧
      d.swapchainImageCount = drv.count q ∧
      d.buffers.length = d.swapchainImageCount ∧
      d.framebuffers.length = d.swapchainImageCount ∧
      (∀ i, i < d.swapchainImageCount →
        (d.buffers.getD i ⟨0, 0⟩).image
          = (fill (List.replicate d.cmdBuffer.length 0) (drv.list q)).getD i 0 ∧
        Created drv sys'.calls ApiFn.vkCreateImageView
          [d.device_, (d.buffers.getD i ⟨0, 0⟩).image, d.format, VK_IMAGE_ASPECT_COLOR_BIT]
          (d.buffers.getD i ⟨0, 0⟩).view ∧
        Created drv sys'.calls ApiFn.vkCreateFramebuffer (framebufferArgs d true i)
          (d.framebuffers.getD i 0)) ∧
      (sys'.calls.drop sys.calls.length).filter Event.tracked
        = setupTrace d d.cmdBuffer.length
            (fill (List.replicate d.cmdBuffer.length 0) (drv.list q))
            [d.device_, d.surface_, desired, d.format, d.width, d.height, pre, mode,
               VK_IMAGE_USAGE_COLOR_ATTACHMENT_BIT ||| VK_IMAGE_USAGE_TRANSFER_SRC_BIT]
            depthEvents
            [b0, b1, b2, b3, b4, b5, b6, b7, b8, 0, 0, d.width, d.height] ∧
      (depthEvents = [] ∨ ∃ tiling aspectMask,
        depthEvents =
          [Event.api ApiFn.vkCreateImage
            [d.device_, VK_FORMAT_D24_UNORM_S8_UINT, d.width, d.height, 1, tiling]] ++
          (List.range d.swapchainImageCount).map (depthLayoutEvent d aspectMask) ++
          [Event.api ApiFn.vkCreateImageView
            [d.device_, d.depth.image, VK_FORMAT_D24_UNORM_S8_UINT, aspectMask]]) := by
  unfold VulkanDevice.construct at h
  obtain ⟨d1, hrun, -, hd, -⟩ := init_spec h
  subst hd
  have H := runSteps_initSequence_trace hrun rfl
  exact H

theorem tracked_of_extent {e : Event} {s : Nat × Nat} (h : e.extent? = some s) :
    e.tracked = true := by
  cases e with
  | api fn args => cases fn <;> first | rfl | cases h
  | floats v => rfl
  | memcpy m w => cases h
  | memcpy16 m w => cases h

theorem mem_setupTrace_of_mem {calls : List Event} {n : Nat} {t : List Event}
    (h : (calls.drop n).filter Event.tracked = t) {e : Event} (he : e ∈ calls.drop n)
    (ht : e.tracked = true) : e ∈ t := by
  rw [← h]
  exact List.mem_filter.mpr ⟨he, ht⟩

theorem mem_of_mem_setupTrace {calls : List Event} {n : Nat} {t : List Event}
    (h : (calls.drop n).filter Event.tracked = t) {e : Event} (he : e ∈ t) :
    e ∈ calls.drop n := by
  rw [← h] at he
  exact (List.mem_filter.mp he).1

theorem swapchain_mem_setupTrace (d : VulkanDevice) (count : Nat) (images : List Nat)
    (swapchainArgs : List Nat) (depthEvents : List Event) (pipelineArgs : List Nat) :
    Event.api ApiFn.vkCreateSwapchainKHR swapchainArgs
      ∈ setupTrace d count images swapchainArgs depthEvents pipelineArgs := by
  simp [setupTrace]

theorem pipeline_mem_setupTrace (d : VulkanDevice) (count : Nat) (images : List Nat)
    (swapchainArgs : List Nat) (depthEvents : List Event) (pipelineArgs : List Nat) :
    Event.api ApiFn.vkCreateGraphicsPipelines pipelineArgs
      ∈ setupTrace d count images swapchainArgs depthEvents pipelineArgs := by
  simp [setupTrace]

theorem viewport_mem_setupTrace (d : VulkanDevice) (count : Nat) (images : List Nat)
    (swapchainArgs : List Nat) (depthEvents : List Event) (pipelineArgs : List Nat) :
    Event.floats (viewportOf d)
      ∈ setupTrace d count images swapchainArgs depthEvents pipelineArgs := by
  simp [setupTrace, viewportOf]

theorem depth_mem_setupTrace (d : VulkanDevice) (count : Nat) (images : List Nat)
    (swapchainArgs : List Nat) (depthEvents : List Event) (pipelineArgs : List Nat)
    (e : Event) (he : e ∈ depthEvents) :
    e ∈ setupTrace d count images swapchainArgs depthEvents pipelineArgs := by
  simp [setupTrace, he]

theorem recorded_mem_setupTrace (d : VulkanDevice) (count : Nat) (images : List Nat)
    (swapchainArgs : List Nat) (depthEvents : List Event) (pipelineArgs : List Nat)
    (i : Nat) (hi : i < d.swapchainImageCount) (e : Event) (he : e ∈ recordedEvents d i) :
    e ∈ setupTrace d count images swapchainArgs depthEvents pipelineArgs := by
  simp only [setupTrace, List.mem_append]
  exact Or.inr (List.mem_flatMap.mpr ⟨i, List.mem_range.mpr hi, he⟩)

/-- C18: sizes follow the extent of the surface. When the constructor returns, it has
asked for the capabilities of the surface at a position `p` of the trace, and with
`(w, h)` the `currentExtent` of the answer: the members `width` and `height` are `w` and
`h`; every call made that takes an extent (swapchain creation, image creation, framebuffer
creation, the begin of a render pass, the scissor of pipeline creation) is given exactly
`(w, h)`, and image creation the depth 1; the swapchain and the pipeline are created, and
for every image index a framebuffer is created and a render pass recorded with these
sizes, the render area at the offset `(0, 0)`; an image is created unless no call creates
one (a GPU without the depth format). The viewport is the only float data given apart from
the clear values: it is `0, 0, (float)w, (float)h, 0, 1`, and `(float)w` is `w` when
`w ≤ 2^24`, likewise for `h`. -/
theorem sizes_follow_surface_extent (glm : Glm) (drv : Driver) (mesh : Mesh) (fuel : Nat)
    (storage d : VulkanDevice) (app : Nat) (sys sys' : Sys) (trace : List (InitStep × Bool))
    (h : VulkanDevice.construct glm drv mesh fuel storage app sys
      = Except.ok (d, sys', trace)) :
    ∃ p, sys.calls.length ≤ p ∧
      sys'.calls[p]? = some (Event.api ApiFn.vkGetPhysicalDeviceSurfaceCapabilitiesKHR
        [d.gpus.getD 0 0, d.surface_]) ∧
      d.width = (drv.surfaceCapabilities p).currentExtent.width ∧
      d.height = (drv.surfaceCapabilities p).currentExtent.height ∧
      (∀ e ∈ sys'.calls.drop sys.calls.length, ∀ s, e.extent? = some s →
        s = (d.width, d.height)) ∧
      (∀ args, Event.api ApiFn.vkCreateImage args ∈ sys'.calls.drop sys.calls.length →
        args.getD 4 0 = 1) ∧
      (∃ args, Event.api ApiFn.vkCreateSwapchainKHR args
        ∈ sys'.calls.drop sys.calls.length) ∧
      (∃ args, Event.api ApiFn.vkCreateGraphicsPipelines args
          ∈ sys'.calls.drop sys.calls.length ∧
        args.getD 9 1 = 0 ∧ args.getD 10 1 = 0) ∧
      (∀ i, i < d.swapchainImageCount →
        Created drv sys'.calls ApiFn.vkCreateFramebuffer (framebufferArgs d true i)
          (d.framebuffers.getD i 0) ∧
        Event.api ApiFn.vkCmdBeginRenderPass
          [d.cmdBuffer.getD i 0, d.render_pass, d.framebuffers.getD i 0, 0, 0,
           d.width, d.height, 2] ∈ sys'.calls.drop sys.calls.length) ∧
      ((∀ args, Event.api ApiFn.vkCreateImage args ∉ sys'.calls.drop sys.calls.length) ∨
        ∃ tiling, Event.api ApiFn.vkCreateImage
          [d.device_, VK_FORMAT_D24_UNORM_S8_UINT, d.width, d.height, 1, tiling]
            ∈ sys'.calls.drop sys.calls.length) ∧
      Event.floats (viewportOf d) ∈ sys'.calls.drop sys.calls.length ∧
      (∀ values, Event.floats values ∈ sys'.calls.drop sys.calls.length →
        values = viewportOf d ∨ values = clearValues) ∧
      (d.width ≤ 2 ^ 24 → (F32.ofNat d.width).toRat = some (d.width : ℚ)) ∧
      (d.height ≤ 2 ^ 24 → (F32.ofNat d.height).toRat = some (d.height : ℚ)) := by
  obtain ⟨p, q, desired, pre, mode, depthEvents, b0, b1, b2, b3, b4, b5, b6, b7, b8,
    hp, hcaps, hw, hh, -, -, -, -, -, -, -, hper, HT, hdepth⟩ := construct_trace h
  have hmem : ∀ e, e ∈ sys'.calls.drop sys.calls.length → e.tracked = true →
      e ∈ setupTrace d d.cmdBuffer.length
        (fill (List.replicate d.cmdBuffer.length 0) (drv.list q))
        [d.device_, d.surface_, desired, d.format, d.width, d.height, pre, mode,
          VK_IMAGE_USAGE_COLOR_ATTACHMENT_BIT ||| VK_IMAGE_USAGE_TRANSFER_SRC_BIT]
        depthEvents [b0, b1, b2, b3, b4, b5, b6, b7, b8, 0, 0, d.width, d.height] :=
    fun e he ht => mem_setupTrace_of_mem HT he ht
  have hin : ∀ e, e ∈ setupTrace d d.cmdBuffer.length
        (fill (List.replicate d.cmdBuffer.length 0) (drv.list q))
        [d.device_, d.surface_, desired, d.format, d.width, d.height, pre, mode,
          VK_IMAGE_USAGE_COLOR_ATTACHMENT_BIT ||| VK_IMAGE_USAGE_TRANSFER_SRC_BIT]
        depthEvents [b0, b1, b2, b3, b4, b5, b6, b7, b8, 0, 0, d.width, d.height] →
      e ∈ sys'.calls.drop sys.calls.length :=
    fun e he => mem_of_mem_setupTrace HT he
  refine ⟨p, hp, hcaps, hw, hh, ?_, ?_, ?_, ?_, ?_, ?_, ?_, ?_,
    F32.ofNat_exact _, F32.ofNat_exact _⟩
  · intro e he s hs
    have hm := hmem e he (tracked_of_extent hs)
    rcases hdepth with hd | ⟨tiling, aspectMask, hd⟩ <;> subst hd <;>
    simp only [setupTrace, List.mem_append, List.mem_cons, List.mem_singleton,
      List.not_mem_nil, or_false, false_or, List.mem_map, List.mem_flatMap, List.mem_range,
      imageViewEvents, recordedEvents, depthLayoutEvent] at hm <;>
    casesm* _ ∨ _, ∃ _, _, _ ∧ _ <;> subst_vars <;> cases hs <;> rfl
  · intro args he
    have hm := hmem _ he rfl
    rcases hdepth with hd | ⟨tiling, aspectMask, hd⟩ <;> subst hd <;>
    simp only [setupTrace, List.mem_append, List.mem_cons, List.mem_singleton,
      List.not_mem_nil, or_false, false_or, List.mem_map, List.mem_flatMap, List.mem_range,
      imageViewEvents, recordedEvents, depthLayoutEvent] at hm <;>
    casesm* _ ∨ _, ∃ _, _, _ ∧ _ <;> cases ‹_ = _› <;> rfl
  · exact ⟨_, hin _ (swapchain_mem_setupTrace _ _ _ _ _ _)⟩
  · exact ⟨_, hin _ (pipeline_mem_setupTrace _ _ _ _ _ _), rfl, rfl⟩
  · intro i hi
    exact ⟨(hper i hi).2.2,
      hin _ (recorded_mem_setupTrace _ _ _ _ _ _ i hi _ (by simp [recordedEvents]))⟩
  · rcases hdepth with hd | ⟨tiling, aspectMask, hd⟩
    · left
      intro args he
      have hm := hmem _ he rfl
      subst hd
      simp only [setupTrace, List.mem_append, List.mem_cons, List.mem_singleton,
        List.not_mem_nil, or_false, false_or, List.mem_map, List.mem_flatMap,
        List.mem_range, imageViewEvents, recordedEvents, depthLayoutEvent] at hm
      casesm* _ ∨ _, ∃ _, _, _ ∧ _ <;> cases ‹_ = _›
    · right
      subst hd
      exact ⟨tiling, hin _ (depth_mem_setupTrace _ _ _ _ _ _ _ (by simp))⟩
  · exact hin _ (viewport_mem_setupTrace _ _ _ _ _ _)
  · intro values he
    have hm := hmem _ he rfl
    rcases hdepth with hd | ⟨tiling, aspectMask, hd⟩ <;> subst hd <;>
    simp only [setupTrace, List.mem_append, List.mem_cons, List.mem_singleton,
      List.not_mem_nil, or_false, false_or, List.mem_map, List.mem_flatMap, List.mem_range,
      imageViewEvents, recordedEvents, depthLayoutEvent] at hm <;>
    casesm* _ ∨ _, ∃ _, _, _ ∧ _ <;> cases ‹_ = _› <;>
    first | exact Or.inl rfl | exact Or.inr rfl

/-- On the sample driver the constructor creates an image. -/
theorem construct_sample_creates_image :
    (match VulkanDevice.construct sampleGlm sampleDriver sampleMesh 1 blankDevice 1
        emptySys with
      | Except.ok (_, sys', _) =>
        sys'.calls.any (fun e => decide (e.fn? = some ApiFn.vkCreateImage))
      | Except.error _ => false) = true := by
  decide

/-- The hypothesis of C18's theorem holds for the sample driver, a surface of 800 x 600:
the constructor returns, the members are 800 and 600, every extent given to a call is
`(800, 600)`, the depth image is created with `(800, 600)` and depth 1, and the viewport
is given as the floats of value 800 and 600. -/
theorem sizes_follow_surface_extent_witness :
    ∃ d sys' trace,
      VulkanDevice.construct sampleGlm sampleDriver sampleMesh 1 blankDevice 1 emptySys
        = Except.ok (d, sys', trace) ∧
      d.width = 800 ∧ d.height = 600 ∧
      (∀ e ∈ sys'.calls, ∀ s, e.extent? = some s → s = (800, 600)) ∧
      (∃ tiling, Event.api ApiFn.vkCreateImage
        [d.device_, VK_FORMAT_D24_UNORM_S8_UINT, 800, 600, 1, tiling] ∈ sys'.calls) ∧
      Event.floats (viewportOf d) ∈ sys'.calls ∧
      (F32.ofNat d.width).toRat = some 800 ∧ (F32.ofNat d.height).toRat = some 600 :=
  match h : VulkanDevice.construct sampleGlm sampleDriver sampleMesh 1 blankDevice 1
      emptySys with
  | Except.ok (d, sys', trace) => by
    obtain ⟨p, -, -, hw, hh, hext, -, -, -, -, himg, hview, -, hfw, hfh⟩ :=
      sizes_follow_surface_extent sampleGlm sampleDriver sampleMesh 1 blankDevice d 1
        emptySys sys' trace h
    have hw' : d.width = 800 := hw
    have hh' : d.height = 600 := hh
    have hc := construct_sample_creates_image
    rw [h] at hc
    simp only [List.any_eq_true, decide_eq_true_eq] at hc
    obtain ⟨e, he, hfn⟩ := hc
    refine ⟨d, sys', trace, rfl, hw', hh', ?_, ?_, hview, ?_, ?_⟩
    · intro e he s hs
      rw [hext e he s hs, hw', hh']
    · rcases himg with hno | ⟨tiling, ht⟩
      · cases e with
        | api fn args =>
          cases hfn
          exact absurd he (hno args)
        | floats v => cases hfn
        | memcpy m w => cases hfn
        | memcpy16 m w => cases hfn
      · rw [hw', hh'] at ht
        exact ⟨tiling, ht⟩
    · rw [hfw (by rw [hw']; decide), hw']
      norm_num
    · rw [hfh (by rw [hh']; decide), hh']
      norm_num
  | Except.error e => by
    have hb := construct_sample_returns
    rw [h] at hb
    cases hb

/-- On the surface of extent `0xFFFFFFFF x 0xFFFFFFFF` the constructor returns. -/
theorem construct_undefinedExtent_returns :
    (VulkanDevice.construct sampleGlm undefinedExtentDriver sampleMesh 1 blankDevice 1
      emptySys).toBool = true := by
  decide

/-- C18 fails for the viewport: on a surface that reports the extent
`4294967295 x 4294967295` the constructor returns with `width` and `height` 4294967295,
the swapchain is created with that extent, and the viewport given to the pipeline has the
width and height `(float)4294967295`, which is 4294967296. -/
theorem viewport_is_float_of_extent_counterexample :
    ∃ d sys' trace,
      VulkanDevice.construct sampleGlm undefinedExtentDriver sampleMesh 1 blankDevice 1
        emptySys = Except.ok (d, sys', trace) ∧
      d.width = 4294967295 ∧ d.height = 4294967295 ∧
      (∃ args, Event.api ApiFn.vkCreateSwapchainKHR args ∈ sys'.calls ∧
        args.getD 4 0 = 4294967295 ∧ args.getD 5 0 = 4294967295) ∧
      Event.floats [F32.ofNat 0, F32.ofNat 0, F32.fin false 8388608 9,
        F32.fin false 8388608 9, F32.ofNat 0, F32.ofNat 1] ∈ sys'.calls ∧
      (F32.fin false 8388608 9).toRat = some 4294967296 :=
  match h : VulkanDevice.construct sampleGlm undefinedExtentDriver sampleMesh 1 blankDevice 1
      emptySys with
  | Except.ok (d, sys', trace) => by
    obtain ⟨p, q, desired, pre, mode, depthEvents, b0, b1, b2, b3, b4, b5, b6, b7, b8,
      -, -, hw, hh, -, -, -, -, -, -, -, -, HT, -⟩ := construct_trace h
    have hw' : d.width = 4294967295 := hw
    have hh' : d.height = 4294967295 := hh
    have hf : F32.ofNat 4294967295 = F32.fin false 8388608 9 := by decide
    refine ⟨d, sys', trace, rfl, hw', hh', ⟨_, mem_of_mem_setupTrace HT
      (swapchain_mem_setupTrace _ _ _ _ _ _), hw', hh'⟩, ?_, ?_⟩
    · have hv := mem_of_mem_setupTrace HT (viewport_mem_setupTrace d d.cmdBuffer.length
        (fill (List.replicate d.cmdBuffer.length 0) (undefinedExtentDriver.list q))
        [d.device_, d.surface_, desired, d.format, d.width, d.height, pre, mode,
          VK_IMAGE_USAGE_COLOR_ATTACHMENT_BIT ||| VK_IMAGE_USAGE_TRANSFER_SRC_BIT]
        depthEvents [b0, b1, b2, b3, b4, b5, b6, b7, b8, 0, 0, d.width, d.height])
      rw [viewportOf, hw', hh', hf] at hv
      exact hv
    · simp only [F32.toRat]
      norm_num
  | Except.error e => by
    have hb := construct_undefinedExtent_returns
    rw [h] at hb
    cases hb

/-! ## The commands of one command buffer -/

theorem recorded_filter_tracked (cmd : Nat) (l : List Event) :
    recorded cmd (l.filter Event.tracked) = recorded cmd l := by
  unfold recorded
  rw [List.filter_filter]
  congr 1
  funext e
  cases e with
  | api fn args =>
    cases args with
    | nil => simp [Event.isCommandOf]
    | cons c rest =>
      cases fn <;> simp [Event.isCommandOf, Event.tracked, ApiFn.tracked,
        ApiFn.recordsCommands]
  | floats v => simp [Event.isCommandOf]
  | memcpy m w => simp [Event.isCommandOf, Event.tracked]
  | memcpy16 m w => simp [Event.isCommandOf, Event.tracked]

theorem recorded_append (cmd : Nat) (a b : List Event) :
    recorded cmd (a ++ b) = recorded cmd a ++ recorded cmd b := by
  simp [recorded]

theorem recorded_flatMap_eq_nil (cmd : Nat) (g : Nat → List Event) :
    ∀ l : List Nat, (∀ j ∈ l, recorded cmd (g j) = []) → recorded cmd (l.flatMap g) = []
  | [], _ => rfl
  | a :: l, h => by
    rw [List.flatMap_cons, recorded_append, h a (List.mem_cons_self _ _),
      recorded_flatMap_eq_nil cmd g l (fun j hj => h j (List.mem_cons_of_mem _ hj))]
    rfl

theorem recorded_flatMap_of_mem (cmd : Nat) (g : Nat → List Event) (i : Nat) :
    ∀ l : List Nat, l.Nodup → i ∈ l → (∀ j ∈ l, j ≠ i → recorded cmd (g j) = []) →
      recorded cmd (l.flatMap g) = recorded cmd (g i)
  | [], _, hi, _ => by cases hi
  | a :: l, hnd, hi, h => by
    rw [List.flatMap_cons, recorded_append]
    rw [List.nodup_cons] at hnd
    by_cases hai : a = i
    · subst hai
      rw [recorded_flatMap_eq_nil cmd g l (fun j hj => h j (List.mem_cons_of_mem _ hj)
        (fun hja => hnd.1 (hja ▸ hj))), List.append_nil]
    · have hi' : i ∈ l := by
        rcases List.mem_cons.mp hi with h1 | h1
        · exact absurd h1.symm hai
        · exact h1
      rw [h a (List.mem_cons_self _ _) hai, List.nil_append,
        recorded_flatMap_of_mem cmd g i l hnd.2 hi'
          (fun j hj => h j (List.mem_cons_of_mem _ hj))]

theorem recorded_range_flatMap (cmd : Nat) (g : Nat → List Event) (n i : Nat) (hi : i < n)
    (h : ∀ j, j < n → j ≠ i → recorded cmd (g j) = []) :
    recorded cmd ((List.range n).flatMap g) = recorded cmd (g i) :=
  recorded_flatMap_of_mem cmd g i (List.range n) (List.nodup_range n)
    (List.mem_range.mpr hi) (fun j hj => h j (List.mem_range.mp hj))

theorem recorded_range_map (cmd : Nat) (f : Nat → Event) (n i : Nat) (hi : i < n)
    (h : ∀ j, j < n → j ≠ i → recorded cmd [f j] = []) :
    recorded cmd ((List.range n).map f) = recorded cmd [f i] := by
  have e : (List.range n).map f = (List.range n).flatMap (fun j => [f j]) := by
    induction (List.range n) with
    | nil => rfl
    | cons a l ih => rw [List.map_cons, List.flatMap_cons, ih]; rfl
  rw [e]
  exact recorded_range_flatMap cmd (fun j => [f j]) n i hi h

theorem getD_ne_of_nodup {hs : List Nat} (hnd : hs.Nodup) {i j : Nat} (hi : i < hs.length)
    (hj : j < hs.length) (hne : j ≠ i) : (hs.getD j 0 == hs.getD i 0) = false := by
  rw [beq_eq_false_iff_ne]
  intro heq
  rw [List.getD_eq_getElem _ _ hi, List.getD_eq_getElem _ _ hj] at heq
  exact hne ((List.Nodup.getElem_inj_iff hnd).mp heq)

theorem isCommandOf_of_not_records (c : Nat) (fn : ApiFn) (args : List Nat)
    (h : fn.recordsCommands = false) : Event.isCommandOf c (Event.api fn args) = false := by
  cases args <;> simp [Event.isCommandOf, h]

/-- The commands of `cmdBuffer[i]` among the tracked calls of `init`: the begin, the
layout transition of swapchain image `i`, that of the depth image when there is one, and
the nine calls of the recording loop of `preDraw`. -/
theorem recorded_setupTrace (d : VulkanDevice) (images : List Nat)
    (swapchainArgs : List Nat) (depthEvents : List Event) (pipelineArgs : List Nat)
    (hcount : d.cmdBuffer.length = d.swapchainImageCount) (hnd : d.cmdBuffer.Nodup)
    (i : Nat) (hi : i < d.swapchainImageCount) :
    recorded (d.cmdBuffer.getD i 0)
        (setupTrace d d.cmdBuffer.length images swapchainArgs depthEvents pipelineArgs)
      = [Event.api ApiFn.vkBeginCommandBuffer [d.cmdBuffer.getD i 0],
         Event.api ApiFn.vkCmdPipelineBarrier
           [d.cmdBuffer.getD i 0, images.getD i 0, VK_IMAGE_ASPECT_COLOR_BIT,
            VK_IMAGE_LAYOUT_UNDEFINED, VK_IMAGE_LAYOUT_COLOR_ATTACHMENT_OPTIMAL,
            (imageBarrierMasks VK_IMAGE_LAYOUT_UNDEFINED
              VK_IMAGE_LAYOUT_COLOR_ATTACHMENT_OPTIMAL).1,
            (imageBarrierMasks VK_IMAGE_LAYOUT_UNDEFINED
              VK_IMAGE_LAYOUT_COLOR_ATTACHMENT_OPTIMAL).2]] ++
        recorded (d.cmdBuffer.getD i 0) depthEvents ++ (recordedEvents d i).tail := by
  have hi' : i < d.cmdBuffer.length := by rw [hcount]; exact hi
  have hne : ∀ j, j < d.swapchainImageCount → j ≠ i →
      (d.cmdBuffer.getD j 0 == d.cmdBuffer.getD i 0) = false :=
    fun j hj hji => getD_ne_of_nodup hnd hi' (by rw [hcount]; exact hj) hji
  simp only [setupTrace, recorded_append]
  rw [hcount, recorded_range_map _ _ _ i hi (fun j hj hji => by
      have h := hne j hj hji
      simp only [recorded]
      generalize d.cmdBuffer.getD j 0 = cj at h ⊢
      generalize d.cmdBuffer.getD i 0 = c at h ⊢
      simp [Event.isCommandOf, ApiFn.recordsCommands, h]),
    recorded_range_flatMap _ (imageViewEvents d images) _ i hi (fun j hj hji => by
      have h := hne j hj hji
      simp only [recorded, imageViewEvents]
      generalize d.cmdBuffer.getD j 0 = cj at h ⊢
      generalize d.cmdBuffer.getD i 0 = c at h ⊢
      simp [Event.isCommandOf, ApiFn.recordsCommands, h]),
    recorded_range_map _ _ _ i hi (fun j hj hji => by
      simp only [recorded, framebufferArgs]
      generalize d.cmdBuffer.getD i 0 = c
      simp [Event.isCommandOf, ApiFn.recordsCommands]),
    recorded_range_flatMap _ (recordedEvents d) _ i hi (fun j hj hji => by
      have h := hne j hj hji
      simp only [recorded, recordedEvents]
      generalize d.cmdBuffer.getD j 0 = cj at h ⊢
      generalize d.cmdBuffer.getD i 0 = c at h ⊢
      simp [Event.isCommandOf, ApiFn.recordsCommands, h])]
  simp only [recorded, imageViewEvents, recordedEvents, framebufferArgs]
  generalize d.cmdBuffer.getD i 0 = c
  have e1 := isCommandOf_of_not_records c ApiFn.vkCreateSwapchainKHR swapchainArgs rfl
  have e2 := isCommandOf_of_not_records c ApiFn.vkCreateGraphicsPipelines pipelineArgs rfl
  simp only [List.filter_cons, e1, e2, Bool.false_eq_true, if_false]
  simp [Event.isCommandOf, ApiFn.recordsCommands]

theorem draw_records_nothing {drv : Driver} {self self' : VulkanDevice} {sys sys' : Sys}
    {res : Int} (h : self.draw drv sys = Except.ok (res, self', sys')) :
    (sys'.calls.drop sys.calls.length).filter Event.isCommand = [] := by
  obtain ⟨-, -, -, -, -, hc, -⟩ := draw_ok h
  rw [hc, List.drop_left]
  rfl

theorem rotateModel_records_nothing {glm : Glm} {drv : Driver} {x y z : F32}
    {self self' : VulkanDevice} {sys sys' : Sys}
    (h : self.rotateModel glm drv x y z sys = Except.ok (self', sys')) :
    (sys'.calls.drop sys.calls.length).filter Event.isCommand = [] := by
  obtain ⟨-, -, -, hc, -⟩ := rotateModel_ok h
  rw [hc, List.drop_left]
  rfl

/-- C17: one recorded command buffer per swapchain image. When the constructor returns,
on a driver that answers `n` to every query of the swapchain images and hands out distinct
command buffers: `swapchainImageCount` is `n`, and there are `n` command buffers, `n`
swapchain buffers (image and view) and `n` framebuffers. For every `i < n` the calls of
the constructor that begin, end or record into `cmdBuffer[i]` are, in this order: one
begin, the layout transition of swapchain image `i`, that of the depth image when the GPU
has the depth format, then the nine calls of `preDraw` (the render pass on
`framebuffers[i]`, the bindings, the draw, the end of the render pass, the pre-present
barrier on swapchain image `i`, and the end of the command buffer); so it is begun once
and ended once. The view of `buffers[i]` was created on the image of `buffers[i]`, and
`framebuffers[i]` was created with that view as its colour attachment. Afterwards neither
`draw` nor `rotateModel` makes a call that begins, ends or records into a command
buffer. -/
theorem one_recorded_command_buffer_per_image (glm : Glm) (drv : Driver) (mesh : Mesh)
    (fuel : Nat) (storage d : VulkanDevice) (app : Nat) (sys sys' : Sys)
    (trace : List (InitStep × Bool)) (n : Nat)
    (h : VulkanDevice.construct glm drv mesh fuel storage app sys
      = Except.ok (d, sys', trace))
    (hn : ∀ j args, sys'.calls[j]? = some (Event.api ApiFn.vkGetSwapchainImagesKHR args) →
      drv.count j = n)
    (hdistinct : d.cmdBuffer.Nodup) :
    d.swapchainImageCount = n ∧ d.cmdBuffer.length = n ∧ d.buffers.length = n ∧
    d.framebuffers.length = n ∧
    (∃ depthPart : Nat → List Event,
      ((∀ i, i < n → depthPart i = []) ∨
        ∃ aspectMask, ∀ i, i < n → depthPart i = [depthLayoutEvent d aspectMask i]) ∧
      ∀ i, i < n →
        recorded (d.cmdBuffer.getD i 0) (sys'.calls.drop sys.calls.length)
          = [Event.api ApiFn.vkBeginCommandBuffer [d.cmdBuffer.getD i 0],
             Event.api ApiFn.vkCmdPipelineBarrier
               [d.cmdBuffer.getD i 0, (d.buffers.getD i ⟨0, 0⟩).image,
                VK_IMAGE_ASPECT_COLOR_BIT, VK_IMAGE_LAYOUT_UNDEFINED,
                VK_IMAGE_LAYOUT_COLOR_ATTACHMENT_OPTIMAL,
                (imageBarrierMasks VK_IMAGE_LAYOUT_UNDEFINED
                  VK_IMAGE_LAYOUT_COLOR_ATTACHMENT_OPTIMAL).1,
                (imageBarrierMasks VK_IMAGE_LAYOUT_UNDEFINED
                  VK_IMAGE_LAYOUT_COLOR_ATTACHMENT_OPTIMAL).2]] ++
            depthPart i ++ (recordedEvents d i).tail ∧
        (apiNames (recorded (d.cmdBuffer.getD i 0)
          (sys'.calls.drop sys.calls.length))).count ApiFn.vkBeginCommandBuffer = 1 ∧
        (apiNames (recorded (d.cmdBuffer.getD i 0)
          (sys'.calls.drop sys.calls.length))).count ApiFn.vkEndCommandBuffer = 1) ∧
    (∀ i, i < n →
      Created drv sys'.calls ApiFn.vkCreateImageView
        [d.device_, (d.buffers.getD i ⟨0, 0⟩).image, d.format, VK_IMAGE_ASPECT_COLOR_BIT]
        (d.buffers.getD i ⟨0, 0⟩).view ∧
      Created drv sys'.calls ApiFn.vkCreateFramebuffer (framebufferArgs d true i)
        (d.framebuffers.getD i 0) ∧
      (framebufferArgs d true i).getD 3 0 = (d.buffers.getD i ⟨0, 0⟩).view) ∧
    (∀ (s s2 : VulkanDevice) (sys1 sys2 : Sys) (res : Int),
      s.draw drv sys1 = Except.ok (res, s2, sys2) →
      (sys2.calls.drop sys1.calls.length).filter Event.isCommand = []) ∧
    (∀ (x y z : F32) (s s2 : VulkanDevice) (sys1 sys2 : Sys),
      s.rotateModel glm drv x y z sys1 = Except.ok (s2, sys2) →
      (sys2.calls.drop sys1.calls.length).filter Event.isCommand = []) := by
  obtain ⟨p, q, desired, pre, mode, depthEvents, b0, b1, b2, b3, b4, b5, b6, b7, b8,
    -, -, -, -, hq1, hlen, -, hq2, hcnt, hbuf, hfb, hper, HT, hdepth⟩ := construct_trace h
  have hn1 : d.cmdBuffer.length = n := by rw [hlen]; exact hn _ _ hq1
  have hn2 : d.swapchainImageCount = n := by rw [hcnt]; exact hn _ _ hq2
  have hcount : d.cmdBuffer.length = d.swapchainImageCount := by rw [hn1, hn2]
  have hdp : (∀ i, i < n → recorded (d.cmdBuffer.getD i 0) depthEvents = []) ∨
      ∃ aspectMask, ∀ i, i < n →
        recorded (d.cmdBuffer.getD i 0) depthEvents = [depthLayoutEvent d aspectMask i] := by
    rcases hdepth with hd | ⟨tiling, aspectMask, hd⟩
    · left
      intro i _
      rw [hd]
      rfl
    · right
      refine ⟨aspectMask, fun i hi => ?_⟩
      have hi2 : i < d.swapchainImageCount := by rw [hn2]; exact hi
      have hi1 : i < d.cmdBuffer.length := by rw [hn1]; exact hi
      simp only [hd, recorded_append]
      rw [recorded_range_map _ _ _ i hi2 (fun j hj hji => by
        have hne := getD_ne_of_nodup hdistinct hi1 (by rw [hcount]; exact hj) hji
        simp only [recorded, depthLayoutEvent]
        generalize d.cmdBuffer.getD j 0 = cj at hne ⊢
        generalize d.cmdBuffer.getD i 0 = c at hne ⊢
        simp [Event.isCommandOf, ApiFn.recordsCommands, hne])]
      simp only [recorded, depthLayoutEvent]
      generalize d.cmdBuffer.getD i 0 = c
      simp [Event.isCommandOf, ApiFn.recordsCommands]
  refine ⟨hn2, hn1, by rw [hbuf, hn2], by rw [hfb, hn2],
    ⟨fun i => recorded (d.cmdBuffer.getD i 0) depthEvents, hdp, ?_⟩, ?_,
    fun s s2 sys1 sys2 res hd => draw_records_nothing hd,
    fun x y z s s2 sys1 sys2 hr => rotateModel_records_nothing hr⟩
  · intro i hi
    have hi2 : i < d.swapchainImageCount := by rw [hn2]; exact hi
    have hrec : recorded (d.cmdBuffer.getD i 0) (sys'.calls.drop sys.calls.length)
        = [Event.api ApiFn.vkBeginCommandBuffer [d.cmdBuffer.getD i 0],
           Event.api ApiFn.vkCmdPipelineBarrier
             [d.cmdBuffer.getD i 0, (d.buffers.getD i ⟨0, 0⟩).image,
              VK_IMAGE_ASPECT_COLOR_BIT, VK_IMAGE_LAYOUT_UNDEFINED,
              VK_IMAGE_LAYOUT_COLOR_ATTACHMENT_OPTIMAL,
              (imageBarrierMasks VK_IMAGE_LAYOUT_UNDEFINED
                VK_IMAGE_LAYOUT_COLOR_ATTACHMENT_OPTIMAL).1,
              (imageBarrierMasks VK_IMAGE_LAYOUT_UNDEFINED
                VK_IMAGE_LAYOUT_COLOR_ATTACHMENT_OPTIMAL).2]] ++
          recorded (d.cmdBuffer.getD i 0) depthEvents ++ (recordedEvents d i).tail := by
      rw [← recorded_filter_tracked, HT, recorded_setupTrace d _ _ _ _ hcount hdistinct i hi2,
        (hper i hi2).1]
    refine ⟨hrec, ?_, ?_⟩ <;> rw [hrec] <;> rcases hdp with h0 | ⟨aspectMask, h1⟩ <;>
      first
      | (rw [h0 i hi]; rfl)
      | (rw [h1 i hi]; rfl)
  · intro i hi
    have hi2 : i < d.swapchainImageCount := by rw [hn2]; exact hi
    exact ⟨(hper i hi2).2.1, (hper i hi2).2.2, rfl⟩

/-- On the two-image driver the constructor returns, every query of the swapchain images
was answered 2, and the command buffers are distinct. -/
theorem construct_twoImage_returns :
    (match VulkanDevice.construct sampleGlm twoImageDriver sampleMesh 1 blankDevice 1
        emptySys with
      | Except.ok (d, sys', _) =>
        sys'.calls.enum.all (fun je =>
          decide (je.2.fn? = some ApiFn.vkGetSwapchainImagesKHR → twoImageDriver.count je.1 = 2))
        && decide d.cmdBuffer.Nodup
      | Except.error _ => false) = true := by
  decide

/-- The hypotheses of C17's theorem hold for the two-image driver: the constructor
returns, both image queries were answered 2 and the two command buffers are distinct; so
there are two command buffers, two swapchain buffers and two framebuffers, and each
command buffer was begun once and ended once. -/
theorem one_recorded_command_buffer_per_image_witness :
    ∃ d sys' trace,
      VulkanDevice.construct sampleGlm twoImageDriver sampleMesh 1 blankDevice 1 emptySys
        = Except.ok (d, sys', trace) ∧
      (∀ j args, sys'.calls[j]? = some (Event.api ApiFn.vkGetSwapchainImagesKHR args) →
        twoImageDriver.count j = 2) ∧
      d.cmdBuffer.Nodup ∧
      d.swapchainImageCount = 2 ∧ d.cmdBuffer.length = 2 ∧ d.buffers.length = 2 ∧
      d.framebuffers.length = 2 ∧
      ∀ i, i < 2 →
        (apiNames (recorded (d.cmdBuffer.getD i 0) sys'.calls)).count
          ApiFn.vkBeginCommandBuffer = 1 ∧
        (apiNames (recorded (d.cmdBuffer.getD i 0) sys'.calls)).count
          ApiFn.vkEndCommandBuffer = 1 :=
  match h : VulkanDevice.construct sampleGlm twoImageDriver sampleMesh 1 blankDevice 1
      emptySys with
  | Except.ok (d, sys', trace) => by
    have hb := construct_twoImage_returns
    rw [h] at hb
    simp only [Bool.and_eq_true, List.all_eq_true, decide_eq_true_eq] at hb
    obtain ⟨hall, hnd⟩ := hb
    have hn : ∀ j args,
        sys'.calls[j]? = some (Event.api ApiFn.vkGetSwapchainImagesKHR args) →
        twoImageDriver.count j = 2 := by
      intro j args hj
      exact hall (j, Event.api ApiFn.vkGetSwapchainImagesKHR args)
        (List.mk_mem_enum_iff_getElem?.mpr hj) rfl
    obtain ⟨h1, h2, h3, h4, ⟨depthPart, -, hrec⟩, -⟩ :=
      one_recorded_command_buffer_per_image sampleGlm twoImageDriver sampleMesh 1
        blankDevice d 1 emptySys sys' trace 2 h hn hnd
    exact ⟨d, sys', trace, rfl, hn, hnd, h1, h2, h3, h4,
      fun i hi => ⟨(hrec i hi).2.1, (hrec i hi).2.2⟩⟩
  | Except.error e => by
    have hb := construct_twoImage_returns
    rw [h] at hb
    cases hb

/-! ## The device pointer after `DeleteVulkan` (C21) -/

/-- C21 fails on the code: `DeleteVulkan` destroys the object and leaves the global
`device` as it is. For every world with a live object, `DeleteVulkan` returns, and in the
world it leaves both `IsVulkanReady()` and `VulkanOnDrag` dereference the destroyed
object. On the sample driver: after `APP_CMD_INIT_WINDOW` on the start world
`IsVulkanReady()` is true; after the `APP_CMD_TERM_WINDOW` that follows, the readiness
query, a drag, the next iteration of the main loop and a second `APP_CMD_TERM_WINDOW` are
each undefined behaviour. -/
theorem use_after_DeleteVulkan_is_undefined :
    (∀ (w : World) (d : VulkanDevice),
      ∃ w', DeleteVulkan { w with device := DevicePtr.object d } = Except.ok w' ∧
        IsVulkanReady w' = Except.error Fault.undefinedBehaviour ∧
        ∀ (glm : Glm) (drv : Driver) (x y : F32),
          VulkanOnDrag glm drv x y w' = Except.error Fault.undefinedBehaviour) ∧
    ((handle_cmd sampleGlm sampleDriver sampleMesh 1 1 APP_CMD_INIT_WINDOW startWorld).bind
      IsVulkanReady).toOption = some true ∧
    endsUndefined
      ((handle_cmd sampleGlm sampleDriver sampleMesh 1 1 APP_CMD_INIT_WINDOW startWorld).bind
        (fun w => (handle_cmd sampleGlm sampleDriver sampleMesh 1 1 APP_CMD_TERM_WINDOW w).bind
          IsVulkanReady)) = true ∧
    endsUndefined
      ((handle_cmd sampleGlm sampleDriver sampleMesh 1 1 APP_CMD_INIT_WINDOW startWorld).bind
        (fun w => (handle_cmd sampleGlm sampleDriver sampleMesh 1 1 APP_CMD_TERM_WINDOW w).bind
          (VulkanOnDrag sampleGlm sampleDriver (F32.ofNat 10) (F32.ofNat 0)))) = true ∧
    endsUndefined
      ((handle_cmd sampleGlm sampleDriver sampleMesh 1 1 APP_CMD_INIT_WINDOW startWorld).bind
        (fun w => (handle_cmd sampleGlm sampleDriver sampleMesh 1 1 APP_CMD_TERM_WINDOW w).bind
          (fun w => mainLoopIteration sampleGlm sampleDriver sampleMesh 1 1 Polled.nothing
            w []))) = true ∧
    endsUndefined
      ((handle_cmd sampleGlm sampleDriver sampleMesh 1 1 APP_CMD_INIT_WINDOW startWorld).bind
        (fun w => (handle_cmd sampleGlm sampleDriver sampleMesh 1 1 APP_CMD_TERM_WINDOW w).bind
          (handle_cmd sampleGlm sampleDriver sampleMesh 1 1 APP_CMD_TERM_WINDOW))) = true := by
  refine ⟨fun w d => ⟨_, rfl, rfl, fun _ _ _ _ => rfl⟩, ?_, ?_, ?_, ?_, ?_⟩ <;> decide

/-! ## What `init_swap_chain` asks for (C22, C23) -/

/-- The swapchain-creation call of a returning `init_swap_chain`: the fourth of its five
calls, with the image count and the present mode that the function computed. -/
theorem init_swap_chain_request {drv : Driver} {usageFlags : Nat}
    {self self' : VulkanDevice} {sys sys' : Sys}
    (h : self.init_swap_chain drv usageFlags sys = Except.ok (self', sys')) :
    sys'.calls[sys.calls.length + 3]? = some (Event.api ApiFn.vkCreateSwapchainKHR
      [self.device_, self.surface_,
       desiredImageCount (drv.surfaceCapabilities sys.calls.length), self.format,
       (drv.surfaceCapabilities sys.calls.length).currentExtent.width,
       (drv.surfaceCapabilities sys.calls.length).currentExtent.height,
       if ((drv.surfaceCapabilities sys.calls.length).supportedTransforms &&&
           VK_SURFACE_TRANSFORM_IDENTITY_BIT_KHR) ≠ 0
         then VK_SURFACE_TRANSFORM_IDENTITY_BIT_KHR
         else (drv.surfaceCapabilities sys.calls.length).currentTransform,
       selectPresentMode (presentModesSeen drv sys.calls.length) VK_PRESENT_MODE_FIFO_KHR,
       usageFlags]) ∧
    sys'.calls.length = sys.calls.length + 5 ∧
    drv.result sys.calls.length = VK_SUCCESS := by
  unfold VulkanDevice.init_swap_chain at h
  simp only [bind, Except.bind, pure, Except.pure, assert, Sys.call, Sys.print,
    List.append_assoc, List.cons_append, List.nil_append, List.length_append,
    List.length_cons, List.length_nil] at h
  repeat' split at h
  all_goals (cases h)
  all_goals
    refine ⟨?_, by simp, by simp_all⟩
    rw [getElem?_append_add]
    simp_all [desiredImageCount, presentModesSeen]
    try (rename_i hcap _; rw [if_neg]; rintro ⟨h1, h2⟩; have := hcap h1; omega)

theorem selectPresentMode_eq (modes : List Nat) :
    ∀ mode, mode ≠ VK_PRESENT_MODE_MAILBOX_KHR →
      selectPresentMode modes mode =
        if VK_PRESENT_MODE_MAILBOX_KHR ∈ modes then VK_PRESENT_MODE_MAILBOX_KHR
        else if VK_PRESENT_MODE_IMMEDIATE_KHR ∈ modes then VK_PRESENT_MODE_IMMEDIATE_KHR
        else mode := by
  induction modes with
  | nil => intro mode _; simp [selectPresentMode]
  | cons m rest ih =>
    intro mode hmode
    by_cases hm : m = VK_PRESENT_MODE_MAILBOX_KHR
    · simp [selectPresentMode, hm]
    · have hm' : ¬ (VK_PRESENT_MODE_MAILBOX_KHR = m) := fun e => hm e.symm
      by_cases hi : m = VK_PRESENT_MODE_IMMEDIATE_KHR
      · subst hi
        have hne : ¬ (VK_PRESENT_MODE_MAILBOX_KHR = VK_PRESENT_MODE_IMMEDIATE_KHR) := by
          decide
        have hne' : ¬ (VK_PRESENT_MODE_IMMEDIATE_KHR = VK_PRESENT_MODE_MAILBOX_KHR) := by
          decide
        rw [selectPresentMode, if_neg hne', if_pos ⟨hmode, rfl⟩,
          ih VK_PRESENT_MODE_IMMEDIATE_KHR hne']
        simp only [List.mem_cons, hne, false_or, true_or, if_true]
        split <;> simp
      · have hi' : ¬ (VK_PRESENT_MODE_IMMEDIATE_KHR = m) := fun e => hi e.symm
        rw [selectPresentMode, if_neg hm, if_neg (fun hc => hi hc.2), ih mode hmode]
        simp only [List.mem_cons, hm', hi', false_or]

theorem map_getD_range_length (l : List Nat) :
    (List.range l.length).map (fun i => l.getD i 0) = l := by
  apply List.ext_getElem
  · simp
  · intro i h1 h2
    simp only [List.getElem_map, List.getElem_range]
    exact List.getD_eq_getElem _ _ h2

/-- When both queries answer the length of the list that the second one fills in, the
loop visits that list. -/
theorem presentModesSeen_eq (drv : Driver) (p : Nat)
    (h1 : drv.count (p + 1) = (drv.list (p + 2)).length)
    (h2 : drv.count (p + 2) = (drv.list (p + 2)).length) :
    presentModesSeen drv p = drv.list (p + 2) := by
  have hfill : fill (List.replicate (drv.list (p + 2)).length 0) (drv.list (p + 2))
      = drv.list (p + 2) := by
    simp [fill]
  rw [presentModesSeen, h1, h2, hfill, map_getD_range_length]

/-- C22: the present mode that `init_swap_chain` chooses. For every list of modes the
loop ends with MAILBOX if the list contains it (wherever), otherwise with IMMEDIATE if the
list contains it, otherwise with FIFO, the empty list included. When `init_swap_chain`
returns, on a driver whose two present-mode queries answer the length of the list that
the second one fills in, the swapchain is created with the mode so chosen from that list. -/
theorem init_swap_chain_present_mode (drv : Driver) (usageFlags : Nat)
    (self self' : VulkanDevice) (sys sys' : Sys)
    (h : self.init_swap_chain drv usageFlags sys = Except.ok (self', sys'))
    (h1 : drv.count (sys.calls.length + 1) = (drv.list (sys.calls.length + 2)).length)
    (h2 : drv.count (sys.calls.length + 2) = (drv.list (sys.calls.length + 2)).length) :
    (∀ modes : List Nat,
      selectPresentMode modes VK_PRESENT_MODE_FIFO_KHR =
        if VK_PRESENT_MODE_MAILBOX_KHR ∈ modes then VK_PRESENT_MODE_MAILBOX_KHR
        else if VK_PRESENT_MODE_IMMEDIATE_KHR ∈ modes then VK_PRESENT_MODE_IMMEDIATE_KHR
        else VK_PRESENT_MODE_FIFO_KHR) ∧
    selectPresentMode [] VK_PRESENT_MODE_FIFO_KHR = VK_PRESENT_MODE_FIFO_KHR ∧
    ∃ args,
      sys'.calls[sys.calls.length + 3]? = some (Event.api ApiFn.vkCreateSwapchainKHR args) ∧
      (∀ j e, sys.calls.length ≤ j → sys'.calls[j]? = some e →
        e.fn? = some ApiFn.vkCreateSwapchainKHR → j = sys.calls.length + 3) ∧
      args.getD 7 0 =
        if VK_PRESENT_MODE_MAILBOX_KHR ∈ drv.list (sys.calls.length + 2) then
          VK_PRESENT_MODE_MAILBOX_KHR
        else if VK_PRESENT_MODE_IMMEDIATE_KHR ∈ drv.list (sys.calls.length + 2) then
          VK_PRESENT_MODE_IMMEDIATE_KHR
        else VK_PRESENT_MODE_FIFO_KHR := by
  have hsel := fun modes => selectPresentMode_eq modes VK_PRESENT_MODE_FIFO_KHR (by decide)
  obtain ⟨hcall, hlen, -⟩ := init_swap_chain_request h
  refine ⟨hsel, rfl, _, hcall, ?_, ?_⟩
  · intro j e hj hget hfn
    obtain ⟨-, modes, desired, pre, mode, hcalls⟩ := init_swap_chain_effect h
    obtain ⟨k, rfl⟩ := Nat.exists_eq_add_of_le hj
    rw [hcalls, getElem?_append_add] at hget
    rcases k with _ | _ | _ | _ | _ | k
    all_goals first
      | rfl
      | (simp at hget; subst hget; cases hfn)
      | (simp at hget)
  · rw [← presentModesSeen_eq drv sys.calls.length h1 h2, ← hsel]
    rfl

/-- On the driver with the three present modes `init_swap_chain` returns. -/
theorem init_swap_chain_mailbox_returns :
    (freshDevice.init_swap_chain mailboxDriver 17 emptySys).toBool = true := by
  decide

/-- The hypotheses of C22's theorem hold for the driver that lists FIFO, IMMEDIATE and
MAILBOX: `init_swap_chain` returns, both queries answer 3, and the swapchain is created
with MAILBOX, the last entry of the list. -/
theorem init_swap_chain_present_mode_witness :
    ∃ self' sys',
      freshDevice.init_swap_chain mailboxDriver 17 emptySys = Except.ok (self', sys') ∧
      mailboxDriver.count 1 = (mailboxDriver.list 2).length ∧
      mailboxDriver.count 2 = (mailboxDriver.list 2).length ∧
      ∃ args, sys'.calls[3]? = some (Event.api ApiFn.vkCreateSwapchainKHR args) ∧
        args.getD 7 0 = VK_PRESENT_MODE_MAILBOX_KHR :=
  match h : freshDevice.init_swap_chain mailboxDriver 17 emptySys with
  | Except.ok (self', sys') => by
    obtain ⟨-, -, args, hcall, -, hmode⟩ :=
      init_swap_chain_present_mode mailboxDriver 17 freshDevice self' emptySys sys' h
        (by decide) (by decide)
    exact ⟨self', sys', rfl, by decide, by decide, args, hcall, hmode⟩
  | Except.error e => by
    have hb := init_swap_chain_mailbox_returns
    rw [h] at hb
    cases hb

/-- C23: the number of images that `init_swap_chain` asks for. When the call returns, the
swapchain is created with `minImageCount` (argument 2 of the creation call) equal to
`minImageCount + 1` of the surface capabilities, computed in `uint32_t`, unless
`maxImageCount` is positive and smaller than that number, in which case it is
`maxImageCount`. So with a positive `maxImageCount` the number asked for is at most
`maxImageCount`, and with `minImageCount ≤ maxImageCount` and `minImageCount < 2^32 - 1`
it is at least `minImageCount`. -/
theorem init_swap_chain_image_count (drv : Driver) (usageFlags : Nat)
    (self self' : VulkanDevice) (sys sys' : Sys)
    (h : self.init_swap_chain drv usageFlags sys = Except.ok (self', sys')) :
    ∃ args,
      sys'.calls[sys.calls.length + 3]? = some (Event.api ApiFn.vkCreateSwapchainKHR args) ∧
      drv.result sys.calls.length = VK_SUCCESS ∧
      (args.getD 2 0 =
        if 0 < (drv.surfaceCapabilities sys.calls.length).maxImageCount ∧
            (drv.surfaceCapabilities sys.calls.length).maxImageCount <
              ((drv.surfaceCapabilities sys.calls.length).minImageCount + 1) % 2 ^ 32 then
          (drv.surfaceCapabilities sys.calls.length).maxImageCount
        else ((drv.surfaceCapabilities sys.calls.length).minImageCount + 1) % 2 ^ 32) ∧
      (0 < (drv.surfaceCapabilities sys.calls.length).maxImageCount →
        args.getD 2 0 ≤ (drv.surfaceCapabilities sys.calls.length).maxImageCount) ∧
      ((drv.surfaceCapabilities sys.calls.length).minImageCount ≤
          (drv.surfaceCapabilities sys.calls.length).maxImageCount →
        (drv.surfaceCapabilities sys.calls.length).minImageCount < 2 ^ 32 - 1 →
        (drv.surfaceCapabilities sys.calls.length).minImageCount ≤ args.getD 2 0) := by
  obtain ⟨hcall, -, hres⟩ := init_swap_chain_request h
  refine ⟨_, hcall, hres, rfl, ?_, ?_⟩
  · intro hmax
    show desiredImageCount _ ≤ _
    unfold desiredImageCount
    split
    · exact le_refl _
    · rename_i hn
      by_contra hc
      exact hn ⟨hmax, by omega⟩
  · intro hle hlt
    show _ ≤ desiredImageCount _
    unfold desiredImageCount
    have hmod : ((drv.surfaceCapabilities sys.calls.length).minImageCount + 1) % 2 ^ 32
        = (drv.surfaceCapabilities sys.calls.length).minImageCount + 1 :=
      Nat.mod_eq_of_lt (by omega)
    split
    · exact hle
    · rw [hmod]
      omega

/-- The hypothesis of C23's theorem holds for the driver whose surface has
`minImageCount = 2` and `maxImageCount = 2`: `init_swap_chain` returns and asks for 2
images, not 3; on the sample driver (`minImageCount = 0`, `maxImageCount = 0`, no limit)
it asks for 1. -/
theorem init_swap_chain_image_count_witness :
    (∃ self' sys',
      freshDevice.init_swap_chain mailboxDriver 17 emptySys = Except.ok (self', sys') ∧
      ∃ args, sys'.calls[3]? = some (Event.api ApiFn.vkCreateSwapchainKHR args) ∧
        args.getD 2 0 = 2) ∧
    ((freshDevice.init_swap_chain sampleDriver 17 emptySys).toOption.map
      (fun r => r.2.calls[3]?)) =
        some (some (Event.api ApiFn.vkCreateSwapchainKHR [0, 0, 1, 0, 800, 600, 1, 2, 17])) :=
  ⟨(match h : freshDevice.init_swap_chain mailboxDriver 17 emptySys with
    | Except.ok (self', sys') => by
      obtain ⟨args, hcall, -, hcount, -, -⟩ :=
        init_swap_chain_image_count mailboxDriver 17 freshDevice self' emptySys sys' h
      exact ⟨self', sys', rfl, args, hcall, hcount⟩
    | Except.error e => by
      have hb := init_swap_chain_mailbox_returns
      rw [h] at hb
      cases hb), by decide⟩

/-! ## The `typeBits` filter of the memory-type search (C27) -/

theorem qualifies_mask_zero (memoryTypes : Fin 32 → VkMemoryType) (typeBits : Nat)
    (i : Fin 32) : Qualifies memoryTypes typeBits 0 i ↔ typeBits.testBit i.val = true := by
  simp [Qualifies]

theorem eq_zero_of_low_bits_clear {t : Nat} (ht : t < 2 ^ 32)
    (h : ∀ i : Fin 32, t.testBit i.val = false) : t = 0 := by
  apply Nat.eq_of_testBit_eq
  intro j
  rw [Nat.zero_testBit]
  by_cases hj : j < 32
  · exact h ⟨j, hj⟩
  · exact Nat.testBit_lt_two_pow (lt_of_lt_of_le ht (Nat.pow_le_pow_right (by norm_num)
      (by omega)))

/-- C27: `memory_type_from_properties` honours `typeBits`. For every table, `typeBits`,
mask and prior `*typeIndex`: it returns `true` with `*typeIndex = i` exactly when `i` is
the least index of `0..31` whose bit is set in `typeBits` and whose flags contain the
mask; it returns `false` exactly when no index is such, and then `*typeIndex` is as
before. With the mask 0 it returns `true` with `i` exactly when `i` is the position of the
lowest set bit among the bits `0..31` of `typeBits`, and, `typeBits` being a `uint32_t`, it
returns `false` exactly when `typeBits = 0`. -/
theorem memory_type_from_properties_honours_typeBits (self : VulkanDevice)
    (typeBits mask typeIndex : Nat) (ht : typeBits < 2 ^ 32) :
    (∀ i : Fin 32,
      self.memory_type_from_properties typeBits mask typeIndex = (true, i.val) ↔
        (Qualifies self.memory_properties.memoryTypes typeBits mask i ∧
          ∀ j : Fin 32, j < i →
            ¬ Qualifies self.memory_properties.memoryTypes typeBits mask j)) ∧
    ((self.memory_type_from_properties typeBits mask typeIndex).1 = false ↔
      ∀ i : Fin 32, ¬ Qualifies self.memory_properties.memoryTypes typeBits mask i) ∧
    ((self.memory_type_from_properties typeBits mask typeIndex).1 = false →
      (self.memory_type_from_properties typeBits mask typeIndex).2 = typeIndex) ∧
    ((self.memory_type_from_properties typeBits mask typeIndex).1 = true →
      (self.memory_type_from_properties typeBits mask typeIndex).2 < 32) ∧
    (∀ i : Fin 32,
      self.memory_type_from_properties typeBits 0 typeIndex = (true, i.val) ↔
        (typeBits.testBit i.val = true ∧
          ∀ j : Fin 32, j < i → typeBits.testBit j.val = false)) ∧
    ((self.memory_type_from_properties typeBits 0 typeIndex).1 = false ↔ typeBits = 0) := by
  have key : ∀ m : Nat,
      (∀ i : Fin 32,
        self.memory_type_from_properties typeBits m typeIndex = (true, i.val) ↔
          (Qualifies self.memory_properties.memoryTypes typeBits m i ∧
            ∀ j : Fin 32, j < i →
              ¬ Qualifies self.memory_properties.memoryTypes typeBits m j)) ∧
      ((self.memory_type_from_properties typeBits m typeIndex).1 = false ↔
        ∀ i : Fin 32, ¬ Qualifies self.memory_properties.memoryTypes typeBits m i) ∧
      ((self.memory_type_from_properties typeBits m typeIndex).1 = false →
        (self.memory_type_from_properties typeBits m typeIndex).2 = typeIndex) ∧
      ((self.memory_type_from_properties typeBits m typeIndex).1 = true →
        (self.memory_type_from_properties typeBits m typeIndex).2 < 32) := by
    intro m
    rcases memoryTypeLoop_32 self.memory_properties.memoryTypes m typeBits with
      ⟨i0, hloop, hq, hmin⟩ | ⟨hloop, hno⟩
    · have hres : self.memory_type_from_properties typeBits m typeIndex = (true, i0.val) := by
        simp [VulkanDevice.memory_type_from_properties, hloop]
      rw [hres]
      refine ⟨fun i => ⟨fun h => ?_, fun h => ?_⟩, ⟨fun h => (by cases h), fun h =>
        absurd hq (h i0)⟩, fun h => (by cases h), fun _ => i0.isLt⟩
      · have hi : i0 = i := Fin.ext (by simpa using h)
        subst hi
        exact ⟨hq, hmin⟩
      · have hi : i0 = i := by
          rcases lt_trichotomy i0 i with hlt | heq | hgt
          · exact absurd hq (h.2 i0 hlt)
          · exact heq
          · exact absurd h.1 (hmin i hgt)
        rw [hi]
    · have hres : self.memory_type_from_properties typeBits m typeIndex
          = (false, typeIndex) := by
        simp [VulkanDevice.memory_type_from_properties, hloop]
      rw [hres]
      exact ⟨fun i => ⟨fun h => (by cases h), fun h => absurd h.1 (hno i)⟩,
        ⟨fun _ => hno, fun _ => rfl⟩, fun _ => rfl, fun h => (by cases h)⟩
  obtain ⟨k1, k2, k3, k4⟩ := key mask
  obtain ⟨z1, z2, -, -⟩ := key 0
  refine ⟨k1, k2, k3, k4, fun i => ?_, ?_⟩
  · rw [z1 i, qualifies_mask_zero]
    constructor
    · rintro ⟨h1, h2⟩
      refine ⟨h1, fun j hj => ?_⟩
      have := h2 j hj
      rw [qualifies_mask_zero] at this
      simpa using this
    · rintro ⟨h1, h2⟩
      refine ⟨h1, fun j hj => ?_⟩
      rw [qualifies_mask_zero, h2 j hj]
      simp
  · rw [z2]
    constructor
    · intro h
      apply eq_zero_of_low_bits_clear ht
      intro i
      have := h i
      rw [qualifies_mask_zero] at this
      simpa using this
    · intro h i
      rw [qualifies_mask_zero, h, Nat.zero_testBit]
      simp

/-- The hypothesis of C27's theorem holds for `typeBits = 6` on a table whose types 0 and
1 have the flags 2: with the mask 2 the index is 1 (type 0 matches the mask but is not
allowed), with the mask 0 it is 1, the lowest set bit of 6; with `typeBits = 0` the search
fails and leaves the index 7. -/
theorem memory_type_from_properties_honours_typeBits_witness :
    (6 : Nat) < 2 ^ 32 ∧
    twoHostVisibleTypes.memory_type_from_properties 6 2 7 = (true, 1) ∧
    Qualifies twoHostVisibleTypes.memory_properties.memoryTypes 6 2 1 ∧
    ¬ Qualifies twoHostVisibleTypes.memory_properties.memoryTypes 6 2 0 ∧
    twoHostVisibleTypes.memory_type_from_properties 6 0 7 = (true, 1) ∧
    twoHostVisibleTypes.memory_type_from_properties 0 0 7 = (false, 7) := by
  have h := memory_type_from_properties_honours_typeBits twoHostVisibleTypes 6 2 7
    (by norm_num)
  have hres : twoHostVisibleTypes.memory_type_from_properties 6 2 7 = (true, 1) := by
    decide
  have hq := (h.1 1).mp hres
  refine ⟨by norm_num, hres, hq.1, hq.2 0 (by decide), by decide, by decide⟩

/-! ## The stored touch position (C28) -/

theorem handle_inputs_append {glm : Glm} {drv : Driver} :
    ∀ (a b : List AInputEvent) (w w1 : World),
      handle_inputs glm drv (a ++ b) w = Except.ok w1 →
      ∃ w0, handle_inputs glm drv a w = Except.ok w0 ∧
        handle_inputs glm drv b w0 = Except.ok w1 := by
  intro a
  induction a with
  | nil =>
    intro b w w1 h
    exact ⟨w, rfl, h⟩
  | cons e rest ih =>
    intro b w w1 h
    simp only [List.cons_append, handle_inputs] at h
    obtain ⟨⟨r, w'⟩, h1, h2⟩ := bind_eq_ok h
    obtain ⟨w0, h3, h4⟩ := ih b w' w1 h2
    refine ⟨w0, ?_, h4⟩
    simp only [handle_inputs, bind, Except.bind, h1]
    exact h3

/-- C28: the stored touch position is the position of the most recent press. A `down`
event is always handled and stores its coordinates in `(xpos, ypos)`; a `move` or `up`
event that is handled leaves `(xpos, ypos)` as it was. So for a press followed by any
number of moves that are all handled: the stored position at the end is that of the press,
and each of the moves, delivered after the press and the moves before it, finds the
position of the press stored and forwards to `VulkanOnDrag` its own coordinates minus
those of the press. -/
theorem stored_position_is_last_press (glm : Glm) (drv : Driver)
    (press : AInputEvent) (moves : List AInputEvent) (w w1 : World)
    (hpress : press.type = AINPUT_EVENT_TYPE_MOTION ∧
      press.action = AMOTION_EVENT_ACTION_DOWN)
    (hmoves : ∀ m ∈ moves,
      m.type = AINPUT_EVENT_TYPE_MOTION ∧ m.action = AMOTION_EVENT_ACTION_MOVE)
    (hrun : handle_inputs glm drv (press :: moves) w = Except.ok w1) :
    (∀ (e : AInputEvent) (v : World), e.type = AINPUT_EVENT_TYPE_MOTION →
      e.action = AMOTION_EVENT_ACTION_DOWN →
      ∃ v', handle_input glm drv e v = Except.ok (1, v') ∧
        v'.xpos = e.x ∧ v'.ypos = e.y) ∧
    (∀ (e : AInputEvent) (v v' : World) (r : Int), e.type = AINPUT_EVENT_TYPE_MOTION →
      e.action = AMOTION_EVENT_ACTION_MOVE ∨ e.action = AMOTION_EVENT_ACTION_UP →
      handle_input glm drv e v = Except.ok (r, v') →
      v'.xpos = v.xpos ∧ v'.ypos = v.ypos) ∧
    (w1.xpos = press.x ∧ w1.ypos = press.y) ∧
    (∀ (before : List AInputEvent) (m : AInputEvent) (after : List AInputEvent),
      moves = before ++ m :: after →
      ∃ w0, handle_inputs glm drv (press :: before) w = Except.ok w0 ∧
        w0.xpos = press.x ∧ w0.ypos = press.y ∧
        handle_input glm drv m w0 =
          (VulkanOnDrag glm drv (F32.sub m.x press.x) (F32.sub m.y press.y)
            (moveLogged m (F32.sub m.x press.x) w0)).map (fun w' => (1, w'))) := by
  have hnotdown : ∀ l : List AInputEvent,
      (∀ m ∈ l, m.type = AINPUT_EVENT_TYPE_MOTION ∧ m.action = AMOTION_EVENT_ACTION_MOVE) →
      ∀ e ∈ l,
        ¬ (e.type = AINPUT_EVENT_TYPE_MOTION ∧ e.action = AMOTION_EVENT_ACTION_DOWN) := by
    intro l hl e he hd
    have := (hl e he).2
    rw [hd.2] at this
    exact absurd this (by decide)
  have hafter : ∀ (l : List AInputEvent) (v : World),
      (∀ m ∈ l, m.type = AINPUT_EVENT_TYPE_MOTION ∧ m.action = AMOTION_EVENT_ACTION_MOVE) →
      handle_inputs glm drv (press :: l) w = Except.ok v →
      v.xpos = press.x ∧ v.ypos = press.y := by
    intro l v hl hv
    simp only [handle_inputs] at hv
    obtain ⟨⟨r, w'⟩, h1, h2⟩ := bind_eq_ok hv
    have h0 := (handle_input_touch h1).1 hpress
    have h3 := handle_inputs_touch l w' v (hnotdown l hl) h2
    exact ⟨h3.1.trans h0.1, h3.2.trans h0.2⟩
  refine ⟨?_, ?_, hafter moves w1 hmoves hrun, ?_⟩
  · intro e v ht ha
    have hret : ∃ v', handle_input glm drv e v = Except.ok (1, v') := by
      unfold handle_input
      simp only [ht, ha, if_true, bind, Except.bind, pure, Except.pure]
      exact ⟨_, rfl⟩
    obtain ⟨v', hv⟩ := hret
    exact ⟨v', hv, (handle_input_touch hv).1 ⟨ht, ha⟩⟩
  · intro e v v' r ht ha h
    refine (handle_input_touch h).2 ?_
    rintro ⟨-, hd⟩
    rcases ha with ha | ha <;> rw [hd] at ha <;> exact absurd ha (by decide)
  · intro before m after hsplit
    subst hsplit
    have hrun' : handle_inputs glm drv ((press :: before) ++ m :: after) w = Except.ok w1 := by
      simpa using hrun
    obtain ⟨w0, h0, -⟩ := handle_inputs_append _ _ _ _ hrun'
    have hpos := hafter before w0
      (fun e he => hmoves e (List.mem_append_left _ he)) h0
    have hm := hmoves m (List.mem_append_right _ (List.mem_cons_self _ _))
    refine ⟨w0, h0, hpos.1, hpos.2, ?_⟩
    rw [handle_input_move glm drv m w0 hm.1 hm.2, hpos.1, hpos.2]

/-- The hypotheses of C28's theorem hold for a press at `(5, 7)` followed by moves to
`(10, 7)` and `(30, 9)` on the sample world: the run returns, the stored position is that
of the press, and the second move, delivered after the press and the first move, finds
it stored and forwards `(30 - 5, 9 - 7)`. -/
theorem stored_position_is_last_press_witness :
    ∃ w1, handle_inputs sampleGlm sampleDriver
        [motionEvent AMOTION_EVENT_ACTION_DOWN 5 7, motionEvent AMOTION_EVENT_ACTION_MOVE 10 7,
         motionEvent AMOTION_EVENT_ACTION_MOVE 30 9] sampleWorld = Except.ok w1 ∧
      w1.xpos = F32.ofNat 5 ∧ w1.ypos = F32.ofNat 7 ∧
      ∃ w0, w0.xpos = F32.ofNat 5 ∧ w0.ypos = F32.ofNat 7 ∧
        handle_input sampleGlm sampleDriver (motionEvent AMOTION_EVENT_ACTION_MOVE 30 9) w0 =
          (VulkanOnDrag sampleGlm sampleDriver (F32.sub (F32.ofNat 30) (F32.ofNat 5))
            (F32.sub (F32.ofNat 9) (F32.ofNat 7))
            (moveLogged (motionEvent AMOTION_EVENT_ACTION_MOVE 30 9)
              (F32.sub (F32.ofNat 30) (F32.ofNat 5)) w0)).map (fun w' => (1, w')) :=
  match h : handle_inputs sampleGlm sampleDriver
      [motionEvent AMOTION_EVENT_ACTION_DOWN 5 7, motionEvent AMOTION_EVENT_ACTION_MOVE 10 7,
       motionEvent AMOTION_EVENT_ACTION_MOVE 30 9] sampleWorld with
  | Except.ok w1 => by
    obtain ⟨-, -, hpos, hsplit⟩ := stored_position_is_last_press sampleGlm sampleDriver
      (motionEvent AMOTION_EVENT_ACTION_DOWN 5 7)
      [motionEvent AMOTION_EVENT_ACTION_MOVE 10 7, motionEvent AMOTION_EVENT_ACTION_MOVE 30 9]
      sampleWorld w1 ⟨rfl, rfl⟩
      (by
        intro m hm
        simp only [List.mem_cons, List.mem_singleton, List.not_mem_nil, or_false] at hm
        rcases hm with hm | hm <;> subst hm <;> exact ⟨rfl, rfl⟩) h
    obtain ⟨w0, -, hx, hy, hm⟩ := hsplit [motionEvent AMOTION_EVENT_ACTION_MOVE 10 7]
      (motionEvent AMOTION_EVENT_ACTION_MOVE 30 9) [] rfl
    exact ⟨w1, rfl, hpos.1, hpos.2, w0, hx, hy, hm⟩
  | Except.error e => by
    have hb : (handle_inputs sampleGlm sampleDriver
      [motionEvent AMOTION_EVENT_ACTION_DOWN 5 7, motionEvent AMOTION_EVENT_ACTION_MOVE 10 7,
       motionEvent AMOTION_EVENT_ACTION_MOVE 30 9] sampleWorld).toBool = true := by decide
    rw [h] at hb
    cases hb

/-! ## Queue family and colour format (C24, C25) -/

theorem querySurfaceSupport_answers {drv : Driver} {gpu surface : Nat} :
    ∀ (indices : List Nat) (sys : Sys),
      (querySurfaceSupport drv gpu surface indices sys).1
        = (List.range indices.length).map (fun k => drv.count (sys.calls.length + k)) ∧
      (querySurfaceSupport drv gpu surface indices sys).2.calls.length
        = sys.calls.length + indices.length := by
  intro indices
  induction indices with
  | nil => intro sys; exact ⟨rfl, rfl⟩
  | cons i rest ih =>
    intro sys
    obtain ⟨h1, h2⟩ := ih (sys.call ApiFn.vkGetPhysicalDeviceSurfaceSupportKHR
      [gpu, i, surface]).2
    simp only [querySurfaceSupport, Sys.call, List.length_cons] at h1 h2 ⊢
    rw [h1, h2]
    refine ⟨?_, by simp; omega⟩
    rw [List.range_succ_eq_map, List.map_cons, List.map_map]
    simp only [List.length_append, List.length_cons, List.length_nil, Nat.add_zero,
      List.cons.injEq, true_and]
    apply List.map_congr_left
    intro k _
    simp only [Function.comp]
    congr 1
    omega

theorem findGraphicsPresentQueue_range' (queue_props supportsPresent : List Nat) :
    ∀ (n s : Nat),
      (∃ i, s ≤ i ∧ i < s + n ∧ GraphicsAndPresent queue_props supportsPresent i ∧
        (∀ j, s ≤ j → j < i → ¬ GraphicsAndPresent queue_props supportsPresent j) ∧
        findGraphicsPresentQueue queue_props supportsPresent (List.range' s n) = i) ∨
      ((∀ j, s ≤ j → j < s + n → ¬ GraphicsAndPresent queue_props supportsPresent j) ∧
        findGraphicsPresentQueue queue_props supportsPresent (List.range' s n)
          = UINT32_MAX) := by
  intro n
  induction n with
  | zero =>
    intro s
    right
    exact ⟨fun j h1 h2 => by omega, rfl⟩
  | succ n ih =>
    intro s
    by_cases hs : GraphicsAndPresent queue_props supportsPresent s
    · left
      refine ⟨s, le_refl _, by omega, hs, fun j h1 h2 => by omega, ?_⟩
      simp only [List.range'_succ, findGraphicsPresentQueue]
      rw [if_pos hs.1, if_pos hs.2]
    · have hstep : findGraphicsPresentQueue queue_props supportsPresent
          (List.range' s (n + 1))
          = findGraphicsPresentQueue queue_props supportsPresent (List.range' (s + 1) n) := by
        simp only [List.range'_succ, findGraphicsPresentQueue]
        by_cases hg : (queue_props.getD s 0 &&& VK_QUEUE_GRAPHICS_BIT) ≠ 0
        · rw [if_pos hg, if_neg (fun hp => hs ⟨hg, hp⟩)]
        · rw [if_neg hg]
      rw [hstep]
      rcases ih (s + 1) with ⟨i, h1, h2, h3, h4, h5⟩ | ⟨h1, h2⟩
      · left
        refine ⟨i, by omega, by omega, h3, fun j hj1 hj2 => ?_, h5⟩
        by_cases hjs : j = s
        · rw [hjs]; exact hs
        · exact h4 j (by omega) hj2
      · right
        refine ⟨fun j hj1 hj2 => ?_, h2⟩
        by_cases hjs : j = s
        · rw [hjs]; exact hs
        · exact h1 j (by omega) (by omega)

/-- The search loop over `0 .. n - 1`: the least index with the graphics bit that can
present, or `UINT32_MAX` when there is none. -/
theorem findGraphicsPresentQueue_range (queue_props supportsPresent : List Nat) (n : Nat) :
    (∃ i, i < n ∧ GraphicsAndPresent queue_props supportsPresent i ∧
      (∀ j, j < i → ¬ GraphicsAndPresent queue_props supportsPresent j) ∧
      findGraphicsPresentQueue queue_props supportsPresent (List.range n) = i) ∨
    ((∀ j, j < n → ¬ GraphicsAndPresent queue_props supportsPresent j) ∧
      findGraphicsPresentQueue queue_props supportsPresent (List.range n) = UINT32_MAX) := by
  rw [List.range_eq_range']
  rcases findGraphicsPresentQueue_range' queue_props supportsPresent n 0 with
    ⟨i, -, h2, h3, h4, h5⟩ | ⟨h1, h2⟩
  · exact Or.inl ⟨i, by omega, h3, fun j hj => h4 j (Nat.zero_le _) hj, h5⟩
  · exact Or.inr ⟨fun j hj => h1 j (Nat.zero_le _) (by omega), h2⟩

theorem querySurfaceSupport_fst (drv : Driver) (gpu surface : Nat) (indices : List Nat)
    (sys : Sys) :
    (querySurfaceSupport drv gpu surface indices sys).1
      = (List.range indices.length).map (fun k => drv.count (sys.calls.length + k)) :=
  (querySurfaceSupport_answers indices sys).1

theorem querySurfaceSupport_calls_length (drv : Driver) (gpu surface : Nat)
    (indices : List Nat) (sys : Sys) :
    (querySurfaceSupport drv gpu surface indices sys).2.calls.length
      = sys.calls.length + indices.length :=
  (querySurfaceSupport_answers indices sys).2

/-- The ways in which `init_swapchain_extension` returns: at the macro
`GET_INSTANCE_PROC_ADDR` when the entry point is null; after the search when it found no
queue family; at the end, with the queue family and the colour format assigned. -/
theorem init_swapchain_extension_outcome {drv : Driver}
    {self self' : VulkanDevice} {sys sys' : Sys} {r : Bool}
    (h : self.init_swapchain_extension drv sys = Except.ok (r, self', sys')) :
    (drv.handle sys.calls.length = 0 ∧ r = false ∧
      self'.graphics_queue_family_index = self.graphics_queue_family_index ∧
      self'.format = self.format ∧ sys'.calls.length = sys.calls.length + 1) ∨
    (drv.handle sys.calls.length ≠ 0 ∧
      findGraphicsPresentQueue self.queue_props
        (presentSupport drv sys.calls.length self.queue_count)
        (List.range self.queue_count) = UINT32_MAX ∧ r = false ∧
      self'.graphics_queue_family_index = self.graphics_queue_family_index ∧
      self'.format = self.format ∧
      sys'.calls.length = sys.calls.length + 2 + self.queue_count) ∨
    (drv.handle sys.calls.length ≠ 0 ∧
      findGraphicsPresentQueue self.queue_props
        (presentSupport drv sys.calls.length self.queue_count)
        (List.range self.queue_count) ≠ UINT32_MAX ∧ r = true ∧
      self'.graphics_queue_family_index =
        findGraphicsPresentQueue self.queue_props
          (presentSupport drv sys.calls.length self.queue_count)
          (List.range self.queue_count) ∧
      self'.format =
        (if drv.count (sys.calls.length + 3 + self.queue_count) = 1 ∧
            (surfaceFormats drv sys.calls.length self.queue_count).getD 0 0
              = VK_FORMAT_UNDEFINED
          then VK_FORMAT_B8G8R8A8_UNORM
          else (surfaceFormats drv sys.calls.length self.queue_count).getD 0 0) ∧
      (drv.count (sys.calls.length + 3 + self.queue_count) = 1 ∨
        1 ≤ drv.count (sys.calls.length + 3 + self.queue_count)) ∧
      sys'.calls.length = sys.calls.length + 4 + self.queue_count) := by
  unfold VulkanDevice.init_swapchain_extension at h
  simp only [bind, Except.bind, pure, Except.pure, assert, Sys.call, Sys.print,
    querySurfaceSupport_fst, querySurfaceSupport_calls_length, List.length_range,
    List.length_append, List.length_cons, List.length_nil] at h
  have hans : (List.range self.queue_count).map
      (fun k => drv.count (sys.calls.length + (0 + 1) + (0 + 1) + k))
      = presentSupport drv sys.calls.length self.queue_count := by
    rw [presentSupport]
  have e1 : sys.calls.length + (0 + 1) + (0 + 1) + self.queue_count
      = sys.calls.length + 2 + self.queue_count := by omega
  have e2 : sys.calls.length + 2 + self.queue_count + (0 + 1)
      = sys.calls.length + 3 + self.queue_count := by omega
  rw [hans] at h
  simp only [e1, e2] at h
  clear hans
  repeat' split at h
  all_goals (cases h)
  · rename_i h0
    exact Or.inl ⟨h0, rfl, rfl, rfl, by simp⟩
  · rename_i h0 _ _ _ hf
    refine Or.inr (Or.inl ⟨h0, hf, rfl, rfl, rfl, ?_⟩)
    simp only [querySurfaceSupport_calls_length, List.length_append, List.length_cons,
      List.length_nil, List.length_range]
  · rename_i h0 _ _ _ hf _ _ _ _ _ _ hfmt
    refine Or.inr (Or.inr ⟨h0, hf, rfl, rfl, ?_, Or.inl hfmt.1, ?_⟩)
    · exact (if_pos hfmt).symm
    · simp only [querySurfaceSupport_calls_length, List.length_append, List.length_cons,
        List.length_nil, List.length_range]
      omega
  · rename_i h0 _ _ _ hf _ _ _ _ _ _ hfmt _ _ hone
    refine Or.inr (Or.inr ⟨h0, hf, rfl, rfl, ?_, Or.inr ?_, ?_⟩)
    · exact (if_neg hfmt).symm
    · by_contra hc
      simp [hc] at hone
    · simp only [querySurfaceSupport_calls_length, List.length_append, List.length_cons,
        List.length_nil, List.length_range]
      omega

/-- C24, as the code has it. When `init_swapchain_extension` returns, `queue_count` being a
`uint32_t`: if `vkGetInstanceProcAddr` found no `vkCreateAndroidSurfaceKHR` it has returned
`false` at once and `graphics_queue_family_index` is as before. Otherwise it returns
`true` exactly when some queue family below `queue_count` has the graphics bit and can
present (the answer `VK_TRUE` of the support query for that family), and then
`graphics_queue_family_index` is the least such index; it returns `false` exactly when
there is none, and then `graphics_queue_family_index` is as before. -/
theorem init_swapchain_extension_selects_queue (drv : Driver)
    (self self' : VulkanDevice) (sys sys' : Sys) (r : Bool)
    (h : self.init_swapchain_extension drv sys = Except.ok (r, self', sys'))
    (hqc : self.queue_count ≤ UINT32_MAX) :
    (∀ i, i < self.queue_count →
      (presentSupport drv sys.calls.length self.queue_count).getD i 0
        = drv.count (sys.calls.length + 2 + i)) ∧
    (drv.handle sys.calls.length = 0 →
      r = false ∧
      self'.graphics_queue_family_index = self.graphics_queue_family_index) ∧
    (drv.handle sys.calls.length ≠ 0 →
      (r = true ↔ ∃ i, i < self.queue_count ∧
        GraphicsAndPresent self.queue_props
          (presentSupport drv sys.calls.length self.queue_count) i) ∧
      (r = false ↔ ∀ i, i < self.queue_count →
        ¬ GraphicsAndPresent self.queue_props
          (presentSupport drv sys.calls.length self.queue_count) i) ∧
      (r = true →
        self'.graphics_queue_family_index < self.queue_count ∧
        GraphicsAndPresent self.queue_props
          (presentSupport drv sys.calls.length self.queue_count)
          self'.graphics_queue_family_index ∧
        ∀ j, j < self'.graphics_queue_family_index →
          ¬ GraphicsAndPresent self.queue_props
            (presentSupport drv sys.calls.length self.queue_count) j) ∧
      (r = false →
        self'.graphics_queue_family_index = self.graphics_queue_family_index)) := by
  refine ⟨fun i hi => ?_, ?_, ?_⟩
  · simp [presentSupport, List.getD_eq_getElem?_getD, hi]
  · intro h0
    rcases init_swapchain_extension_outcome h with
      ⟨-, hr, hg, -⟩ | ⟨hne, -⟩ | ⟨hne, -⟩
    · exact ⟨hr, hg⟩
    · exact absurd h0 hne
    · exact absurd h0 hne
  · intro hne
    rcases init_swapchain_extension_outcome h with
      ⟨h0, -⟩ | ⟨-, hf, hr, hg, -⟩ | ⟨-, hf, hr, hg, -⟩
    · exact absurd h0 hne
    · rcases findGraphicsPresentQueue_range self.queue_props
        (presentSupport drv sys.calls.length self.queue_count) self.queue_count with
        ⟨i, hi, -, -, hfi⟩ | ⟨hnone, -⟩
      · rw [hfi] at hf
        omega
      · subst hr
        exact ⟨⟨fun hc => (by cases hc), fun ⟨i, hi, hp⟩ => absurd hp (hnone i hi)⟩,
          ⟨fun _ => hnone, fun _ => rfl⟩, fun hc => (by cases hc), fun _ => hg⟩
    · rcases findGraphicsPresentQueue_range self.queue_props
        (presentSupport drv sys.calls.length self.queue_count) self.queue_count with
        ⟨i, hi, hp, hmin, hfi⟩ | ⟨-, hfu⟩
      · subst hr
        rw [hfi] at hg
        exact ⟨⟨fun _ => ⟨i, hi, hp⟩, fun _ => rfl⟩,
          ⟨fun hc => (by cases hc), fun hall => absurd hp (hall i hi)⟩,
          fun _ => (by rw [hg]; exact ⟨hi, hp, hmin⟩), fun hc => (by cases hc)⟩
      · exact absurd hfu hf

/-- On the object with two queue families `init_swapchain_extension` returns. -/
theorem init_swapchain_extension_twoQueue_returns :
    (twoQueueDevice.init_swapchain_extension sampleDriver emptySys).toBool = true := by
  decide

/-- The hypotheses of C24's theorem hold for the object with two queue families on the
sample driver, which answers `VK_TRUE` to both support queries: the call returns `true`
and selects family 1, the only one with the graphics bit. -/
theorem init_swapchain_extension_selects_queue_witness :
    ∃ r self' sys',
      twoQueueDevice.init_swapchain_extension sampleDriver emptySys
        = Except.ok (r, self', sys') ∧
      twoQueueDevice.queue_count ≤ UINT32_MAX ∧
      r = true ∧ self'.graphics_queue_family_index = 1 :=
  match h : twoQueueDevice.init_swapchain_extension sampleDriver emptySys with
  | Except.ok (r, self', sys') => by
    obtain ⟨-, -, hsel⟩ := init_swapchain_extension_selects_queue sampleDriver
      twoQueueDevice self' emptySys sys' r h (by decide)
    obtain ⟨htrue, -, hidx, -⟩ := hsel (by decide)
    have hr : r = true := htrue.mpr ⟨1, by decide, by decide, by decide⟩
    obtain ⟨hlt, hp, -⟩ := hidx hr
    refine ⟨r, self', sys', rfl, by decide, hr, ?_⟩
    have h2 : self'.graphics_queue_family_index < 2 := hlt
    have h0 : self'.graphics_queue_family_index ≠ 0 := by
      intro hc
      rw [hc] at hp
      exact absurd hp.1 (by decide)
    omega
  | Except.error e => by
    have hb := init_swapchain_extension_twoQueue_returns
    rw [h] at hb
    cases hb

/-- C24 as stated fails: the function also returns `false` when the surface entry point
is not found. In the state that `init` has reached before its sixth call there is one
queue family and it has the graphics bit. On the sample driver, which answers `VK_TRUE`
to the support query, the call returns `true` with index 0. On the driver that differs
only in that `vkGetInstanceProcAddr` answers null, and that would answer `VK_TRUE` to the
same query, the call returns `false` after that one call, without a query. -/
theorem init_swapchain_extension_false_with_capable_queue_counterexample :
    ((runSteps sampleGlm noSurfaceEntryPointDriver sampleMesh 1 (initSequence.take 5)
        freshDevice emptySys []).bind
      (fun s => s.1.init_swapchain_extension noSurfaceEntryPointDriver s.2.1)).toOption.map
      (fun r => (r.1, r.2.1.queue_count,
        r.2.1.queue_props.map (fun f => f &&& VK_QUEUE_GRAPHICS_BIT), r.2.2.calls.length))
      = some (false, 1, [1], 12) ∧
    presentSupport noSurfaceEntryPointDriver 11 1 = [1] ∧
    ((runSteps sampleGlm sampleDriver sampleMesh 1 (initSequence.take 5)
        freshDevice emptySys []).bind
      (fun s => s.1.init_swapchain_extension sampleDriver s.2.1)).toOption.map
      (fun r => (r.1, r.2.1.queue_count,
        r.2.1.queue_props.map (fun f => f &&& VK_QUEUE_GRAPHICS_BIT),
        r.2.1.graphics_queue_family_index, r.2.2.calls.length))
      = some (true, 1, [1], 0, 16) := by
  decide

theorem init_renderpass_exact {drv : Driver} {self self' : VulkanDevice} {sys sys' : Sys}
    (h : self.init_renderpass drv true true sys = Except.ok (self', sys')) :
    self' = { self with render_pass := drv.handle sys.calls.length } ∧
    sys'.calls = sys.calls ++
      [Event.api ApiFn.vkCreateRenderPass
        [self.device_, 2, 1, self.format, self.depth.format]] := by
  unfold VulkanDevice.init_renderpass at h
  simp only [bind, Except.bind, pure, Except.pure, assert, Sys.call, Sys.print,
    List.append_assoc, List.cons_append, List.nil_append, if_true] at h
  repeat' split at h
  all_goals (cases h; try exact ⟨rfl, rfl⟩)

theorem init_depth_buffer_member_format {drv : Driver} {self self' : VulkanDevice}
    {sys sys' : Sys} {r : Bool}
    (h : self.init_depth_buffer drv sys = Except.ok (r, self', sys')) :
    self'.depth.format =
      if self.depth.format = VK_FORMAT_UNDEFINED then VK_FORMAT_D16_UNORM
      else self.depth.format := by
  unfold VulkanDevice.init_depth_buffer at h
  simp only [Sys.call, Sys.print] at h
  by_cases hfmt : self.depth.format = VK_FORMAT_UNDEFINED
  all_goals
    simp only [hfmt, if_true, if_false] at h
    split at h
    · simp only [pure, Except.pure] at h
      cases h
      simp [hfmt]
    · obtain ⟨_, -, h⟩ := bind_eq_ok h
      obtain ⟨_, -, h⟩ := bind_eq_ok h
      obtain ⟨_, -, h⟩ := bind_eq_ok h
      obtain ⟨_, -, h⟩ := bind_eq_ok h
      obtain ⟨sysl, hl, h⟩ := bind_eq_ok h
      obtain ⟨_, -, h⟩ := bind_eq_ok h
      simp only [pure, Except.pure] at h
      cases h
      simp [hfmt]

/-- The formats of a whole construction: the colour format is the one that the call of
`init_swapchain_extension` left, the member `depth.format` is the one that
`init_depth_buffer` left, and the render pass was created from these two members. -/
theorem construct_formats {glm : Glm} {drv : Driver} {mesh : Mesh} {fuel : Nat}
    {storage d : VulkanDevice} {app : Nat} {sys sys' : Sys} {trace : List (InitStep × Bool)}
    (h : VulkanDevice.construct glm drv mesh fuel storage app sys
      = Except.ok (d, sys', trace)) :
    ∃ (s5 : VulkanDevice) (sys5 : Sys) (r : Bool) (s6 : VulkanDevice) (sys6 : Sys)
        (later : List Event),
      s5.init_swapchain_extension drv sys5 = Except.ok (r, s6, sys6) ∧
      sys.calls.length ≤ sys5.calls.length ∧
      sys'.calls = sys6.calls ++ later ∧
      d.queue_count = s5.queue_count ∧
      d.format = s6.format ∧
      d.depth.format =
        (if storage.depth.format = VK_FORMAT_UNDEFINED then VK_FORMAT_D16_UNORM
         else storage.depth.format) ∧
      Created drv sys'.calls ApiFn.vkCreateRenderPass
        [d.device_, 2, 1, d.format, d.depth.format] d.render_pass := by
  unfold VulkanDevice.construct at h
  obtain ⟨d1, hrun, -, hd, -⟩ := init_spec h
  subst hd
  have hseq : initSequence =
      [InitStep.init_global_layer_properties, InitStep.init_instance_extension_names,
       InitStep.init_device_extension_names, InitStep.init_instance,
       InitStep.init_enumerate_device] ++
      (InitStep.init_swapchain_extension ::
        ([InitStep.init_device, InitStep.init_swap_chain, InitStep.init_command_pool,
          InitStep.init_command_buffer, InitStep.execute_begin_command_buffer,
          InitStep.init_device_queue, InitStep.initSwapChainImages] ++
        (InitStep.init_depth_buffer ::
          ([InitStep.init_uniform_buffer, InitStep.init_descriptor_and_pipeline_layouts] ++
          (InitStep.init_renderpass ::
            [InitStep.init_shaders, InitStep.init_framebuffers,
             InitStep.initVertexBufferWithNormal, InitStep.initIndexForVertex,
             InitStep.init_descriptor_pool, InitStep.init_descriptor_set,
             InitStep.init_pipeline_cache, InitStep.init_pipeline, InitStep.preDraw]))))) :=
    rfl
  rw [hseq] at hrun
  -- steps 1 to 5
  obtain ⟨s5, sys5, t5, h5, h⟩ := runSteps_append _ _ _ _ _ _ _ _ hrun
  have K0 := runSteps_keeps (fun d => d.depth) _ (by
      intro s hs a b
      cases s <;> simp at hs <;> rfl) _ _ _ _ _ _ h5
  simp only at K0
  obtain ⟨new5, L5⟩ := runSteps_calls _ _ _ _ _ _ _ h5
  have K5 := runSteps_keeps (fun d => d.queue_count) _ (by
      intro s hs a b
      cases s <;> simp at hs <;> rfl) _ _ _ _ _ _ h
  simp only at K5
  -- step 6
  obtain ⟨s6, sys6, h6, h⟩ := runSteps_cons h
  simp only [InitStep.run] at h6
  obtain ⟨⟨r, s6', sys6'⟩, h6, h6'⟩ := bind_eq_ok h6
  simp only [pure, Except.pure] at h6'
  cases h6'
  have F6 := (init_swapchain_extension_effect h6).1
  have K6 := runSteps_keeps (fun d => d.format) _ (by
      intro s hs a b
      cases s <;> simp at hs <;> rfl) _ _ _ _ _ _ h
  simp only at K6
  obtain ⟨later6, L6⟩ := runSteps_calls _ _ _ _ _ _ _ h
  -- steps 7 to 13
  obtain ⟨s13, sys13, t13, h13, h⟩ := runSteps_append _ _ _ _ _ _ _ _ h
  have K13 := runSteps_keeps (fun d => d.depth) _ (by
      intro s hs a b
      cases s <;> simp at hs <;> rfl) _ _ _ _ _ _ h13
  simp only at K13
  -- step 14
  obtain ⟨s14, sys14, h14, h⟩ := runSteps_cons h
  simp only [InitStep.run] at h14
  obtain ⟨⟨r14, s14', sys14'⟩, h14, h14'⟩ := bind_eq_ok h14
  simp only [pure, Except.pure] at h14'
  cases h14'
  have D14 := init_depth_buffer_member_format h14
  have K14 := runSteps_keeps (fun d => d.depth) _ (by
      intro s hs a b
      cases s <;> simp at hs <;> rfl) _ _ _ _ _ _ h
  simp only at K14
  -- steps 15 and 16
  obtain ⟨s16, sys16, t16, h16, h⟩ := runSteps_append _ _ _ _ _ _ _ _ h
  have K16 := runSteps_keeps (fun d => (d.device_, d.format, d.depth)) _ (by
      intro s hs a b
      cases s <;> simp at hs <;> rfl) _ _ _ _ _ _ h
  simp only [Prod.mk.injEq] at K16
  obtain ⟨K16device, K16format, K16depth⟩ := K16
  -- step 17
  obtain ⟨s17, sys17, h17, h⟩ := runSteps_cons h
  simp only [InitStep.run] at h17
  obtain ⟨F17, C17⟩ := init_renderpass_exact h17
  have K17 := runSteps_keeps (fun d => d.render_pass) _ (by
      intro s hs a b
      cases s <;> simp at hs <;> rfl) _ _ _ _ _ _ h
  simp only at K17
  obtain ⟨later17, L17⟩ := runSteps_calls _ _ _ _ _ _ _ h
  have hdepth : s6.depth = s5.depth := by rw [F6]
  refine ⟨s5, sys5, r, s6, sys6, later6, h6, ?_, L6, K5, K6, ?_, ?_⟩
  · rw [L5]
    simp
  · show d1.depth.format = _
    rw [K14, D14, K13, hdepth, K0]
  · show Created drv sys'.calls ApiFn.vkCreateRenderPass
      [d1.device_, 2, 1, d1.format, d1.depth.format] d1.render_pass
    rw [L17, C17, K17, F17, K16device, K16format, K16depth]
    exact (Created.at_length sys16.calls _ _ []).append later17

theorem surfaceFormats_eq (drv : Driver) (p queue_count : Nat)
    (h1 : drv.count (p + 2 + queue_count) = (drv.list (p + 3 + queue_count)).length) :
    surfaceFormats drv p queue_count = drv.list (p + 3 + queue_count) := by
  rw [surfaceFormats, h1]
  simp [fill]

/-- C25: the colour format. For every non-empty list `formats` that the surface reports
(both format queries answer its length and the second one writes it), a call of
`init_swapchain_extension` that returns `true` leaves `format` equal to
`VK_FORMAT_B8G8R8A8_UNORM` when the list is the single entry `VK_FORMAT_UNDEFINED`, and
equal to the first entry of the list in every other case. When the constructor returns, the
member `format` of the object is the one that its call of `init_swapchain_extension` left;
the swapchain was created with that format, the view of every swapchain image was created
with it, and the render pass was created with it as the format of attachment 0. -/
theorem colour_format_chosen_and_used (glm : Glm) (drv : Driver) (mesh : Mesh) (fuel : Nat)
    (storage d : VulkanDevice) (app : Nat) (sys sys' : Sys)
    (trace : List (InitStep × Bool))
    (h : VulkanDevice.construct glm drv mesh fuel storage app sys
      = Except.ok (d, sys', trace)) :
    (∀ (self self' : VulkanDevice) (s s' : Sys) (formats : List Nat) (hne : formats ≠ []),
      drv.list (s.calls.length + 3 + self.queue_count) = formats →
      drv.count (s.calls.length + 2 + self.queue_count) = formats.length →
      drv.count (s.calls.length + 3 + self.queue_count) = formats.length →
      self.init_swapchain_extension drv s = Except.ok (true, self', s') →
      self'.format =
        if formats = [VK_FORMAT_UNDEFINED] then VK_FORMAT_B8G8R8A8_UNORM
        else formats.head hne) ∧
    (∃ (s5 : VulkanDevice) (sys5 : Sys) (r : Bool) (s6 : VulkanDevice) (sys6 : Sys)
        (later : List Event),
      s5.init_swapchain_extension drv sys5 = Except.ok (r, s6, sys6) ∧
      sys.calls.length ≤ sys5.calls.length ∧
      sys'.calls = sys6.calls ++ later ∧
      s5.queue_count = d.queue_count ∧
      d.format = s6.format) ∧
    (∃ desired pre mode,
      Event.api ApiFn.vkCreateSwapchainKHR
        [d.device_, d.surface_, desired, d.format, d.width, d.height, pre, mode,
         VK_IMAGE_USAGE_COLOR_ATTACHMENT_BIT ||| VK_IMAGE_USAGE_TRANSFER_SRC_BIT]
        ∈ sys'.calls.drop sys.calls.length) ∧
    d.buffers.length = d.swapchainImageCount ∧
    (∀ i, i < d.swapchainImageCount →
      Created drv sys'.calls ApiFn.vkCreateImageView
        [d.device_, (d.buffers.getD i ⟨0, 0⟩).image, d.format, VK_IMAGE_ASPECT_COLOR_BIT]
        (d.buffers.getD i ⟨0, 0⟩).view) ∧
    (∃ depthFormat,
      Created drv sys'.calls ApiFn.vkCreateRenderPass
        [d.device_, 2, 1, d.format, depthFormat] d.render_pass) := by
  refine ⟨?_, ?_, ?_, ?_, ?_, ?_⟩
  · intro self self' s s' formats hne hl h1 h2 hret
    have hsf : surfaceFormats drv s.calls.length self.queue_count = formats := by
      rw [surfaceFormats_eq drv _ _ (by rw [h1, hl]), hl]
    rcases init_swapchain_extension_outcome hret with
      ⟨-, hr, -⟩ | ⟨-, -, hr, -⟩ | ⟨-, -, -, -, hfmt, -, -⟩
    · cases hr
    · cases hr
    · rw [hfmt, hsf, h2]
      cases formats with
      | nil => exact absurd rfl hne
      | cons a rest =>
        cases rest with
        | nil =>
          by_cases ha : a = VK_FORMAT_UNDEFINED
          · subst ha
            simp
          · have hne1 : ¬ [a] = [VK_FORMAT_UNDEFINED] := by
              intro hc
              exact ha (List.cons.inj hc).1
            simp [ha, hne1]
        | cons b rest =>
          have hne2 : ¬ a :: b :: rest = [VK_FORMAT_UNDEFINED] := by
            intro hc
            cases hc
          simp [hne2]
  · obtain ⟨s5, sys5, r, s6, sys6, later, h6, hle, hl, hq, hf, -, -⟩ := construct_formats h
    exact ⟨s5, sys5, r, s6, sys6, later, h6, hle, hl, hq.symm, hf⟩
  · obtain ⟨p, q, desired, pre, mode, depthEvents, b0, b1, b2, b3, b4, b5, b6, b7, b8,
      -, -, -, -, -, -, -, -, -, -, -, -, htrace, -⟩ := construct_trace h
    exact ⟨desired, pre, mode,
      mem_of_mem_setupTrace htrace (swapchain_mem_setupTrace _ _ _ _ _ _)⟩
  · obtain ⟨p, q, desired, pre, mode, depthEvents, b0, b1, b2, b3, b4, b5, b6, b7, b8,
      -, -, -, -, -, -, -, -, -, hb, -⟩ := construct_trace h
    exact hb
  · obtain ⟨p, q, desired, pre, mode, depthEvents, b0, b1, b2, b3, b4, b5, b6, b7, b8,
      -, -, -, -, -, -, -, -, -, -, -, hv, -⟩ := construct_trace h
    intro i hi
    exact (hv i hi).2.1
  · obtain ⟨-, -, -, -, -, -, -, -, -, -, -, -, hc⟩ := construct_formats h
    exact ⟨_, hc⟩

/-- With the surface that lists only `VK_FORMAT_UNDEFINED` the constructor returns, and it
leaves the format `VK_FORMAT_B8G8R8A8_UNORM` and one swapchain image. -/
theorem construct_undefinedFormat_returns :
    (match VulkanDevice.construct sampleGlm undefinedFormatDriver sampleMesh 1 blankDevice 1
        emptySys with
      | Except.ok (d, _, _) =>
        decide (d.format = VK_FORMAT_B8G8R8A8_UNORM) && decide (d.swapchainImageCount = 1)
      | Except.error _ => false) = true := by
  decide

/-- The hypothesis of C25's theorem holds for the surface that lists only
`VK_FORMAT_UNDEFINED`: the constructor returns with the format `VK_FORMAT_B8G8R8A8_UNORM`,
the swapchain, the view of the one swapchain image and the render pass are created with
it. -/
theorem colour_format_chosen_and_used_witness :
    ∃ d sys' trace,
      VulkanDevice.construct sampleGlm undefinedFormatDriver sampleMesh 1 blankDevice 1
        emptySys = Except.ok (d, sys', trace) ∧
      d.format = VK_FORMAT_B8G8R8A8_UNORM ∧
      (∃ desired pre mode,
        Event.api ApiFn.vkCreateSwapchainKHR
          [d.device_, d.surface_, desired, VK_FORMAT_B8G8R8A8_UNORM, d.width, d.height, pre,
           mode, VK_IMAGE_USAGE_COLOR_ATTACHMENT_BIT ||| VK_IMAGE_USAGE_TRANSFER_SRC_BIT]
          ∈ sys'.calls) ∧
      Created undefinedFormatDriver sys'.calls ApiFn.vkCreateImageView
        [d.device_, (d.buffers.getD 0 ⟨0, 0⟩).image, VK_FORMAT_B8G8R8A8_UNORM,
         VK_IMAGE_ASPECT_COLOR_BIT]
        (d.buffers.getD 0 ⟨0, 0⟩).view ∧
      (∃ depthFormat,
        Created undefinedFormatDriver sys'.calls ApiFn.vkCreateRenderPass
          [d.device_, 2, 1, VK_FORMAT_B8G8R8A8_UNORM, depthFormat] d.render_pass) :=
  match h : VulkanDevice.construct sampleGlm undefinedFormatDriver sampleMesh 1 blankDevice 1
      emptySys with
  | Except.ok (d, sys', trace) => by
    obtain ⟨-, -, ⟨desired, pre, mode, hsw⟩, -, hv, hrp⟩ :=
      colour_format_chosen_and_used sampleGlm undefinedFormatDriver sampleMesh 1 blankDevice d
        1 emptySys sys' trace h
    have hc := construct_undefinedFormat_returns
    rw [h] at hc
    simp only [Bool.and_eq_true, decide_eq_true_eq] at hc
    obtain ⟨hf, hn⟩ := hc
    have hv0 := hv 0 (by rw [hn]; decide)
    rw [hf] at hsw hv0 hrp
    exact ⟨d, sys', trace, rfl, hf, ⟨desired, pre, mode, List.mem_of_mem_drop hsw⟩, hv0, hrp⟩
  | Except.error e => by
    have hb := construct_undefinedFormat_returns
    rw [h] at hb
    cases hb

/-- On the sample driver the constructor creates the depth image and its view with
`VK_FORMAT_D24_UNORM_S8_UINT`, and every render pass that it creates has the given format
in attachment 1. -/
theorem construct_sample_depth_calls (storage : VulkanDevice) (fmt : Nat)
    (h : (match VulkanDevice.construct sampleGlm sampleDriver sampleMesh 1 storage 1
        emptySys with
      | Except.ok (d, sys', _) =>
        decide (Event.api ApiFn.vkCreateImage
            [d.device_, VK_FORMAT_D24_UNORM_S8_UINT, 800, 600, 1, VK_IMAGE_TILING_OPTIMAL]
            ∈ sys'.calls) &&
        decide (Event.api ApiFn.vkCreateImageView
            [d.device_, d.depth.image, VK_FORMAT_D24_UNORM_S8_UINT,
             VK_IMAGE_ASPECT_DEPTH_BIT ||| VK_IMAGE_ASPECT_STENCIL_BIT] ∈ sys'.calls) &&
        sys'.calls.all (fun e =>
          decide (e.fn? = some ApiFn.vkCreateRenderPass →
            e = Event.api ApiFn.vkCreateRenderPass [d.device_, 2, 1, d.format, fmt]))
      | Except.error _ => false) = true) :
    ∃ d sys' trace,
      VulkanDevice.construct sampleGlm sampleDriver sampleMesh 1 storage 1 emptySys
        = Except.ok (d, sys', trace) ∧
      Event.api ApiFn.vkCreateImage
        [d.device_, VK_FORMAT_D24_UNORM_S8_UINT, 800, 600, 1, VK_IMAGE_TILING_OPTIMAL]
        ∈ sys'.calls ∧
      Event.api ApiFn.vkCreateImageView
        [d.device_, d.depth.image, VK_FORMAT_D24_UNORM_S8_UINT,
         VK_IMAGE_ASPECT_DEPTH_BIT ||| VK_IMAGE_ASPECT_STENCIL_BIT] ∈ sys'.calls ∧
      Created sampleDriver sys'.calls ApiFn.vkCreateRenderPass
        [d.device_, 2, 1, d.format, d.depth.format] d.render_pass ∧
      (∀ args, Event.api ApiFn.vkCreateRenderPass args ∈ sys'.calls →
        args = [d.device_, 2, 1, d.format, fmt]) :=
  match hc : VulkanDevice.construct sampleGlm sampleDriver sampleMesh 1 storage 1
      emptySys with
  | Except.ok (d, sys', trace) => by
    rw [hc] at h
    simp only [Bool.and_eq_true, decide_eq_true_eq, List.all_eq_true] at h
    obtain ⟨⟨himg, hview⟩, hall⟩ := h
    obtain ⟨-, -, -, -, -, -, -, -, -, -, -, -, hrp⟩ := construct_formats hc
    refine ⟨d, sys', trace, rfl, himg, hview, hrp, ?_⟩
    intro args hargs
    have := hall _ hargs rfl
    cases this
    rfl
  | Except.error e => by
    rw [hc] at h
    cases h

/-- C26 fails for the render pass. On the sample driver (a surface of 800 x 600), from
storage whose `depth.format` is `VK_FORMAT_UNDEFINED` the constructor creates the depth
image and its view with `VK_FORMAT_D24_UNORM_S8_UINT` and the aspect mask depth | stencil,
but it creates the render pass with `VK_FORMAT_D16_UNORM` as the format of attachment 1, and
no render pass with another one. From storage whose `depth.format` is
`VK_FORMAT_D32_SFLOAT_S8_UINT` the image and the view are created in the same way, and
attachment 1 of the render pass has `VK_FORMAT_D32_SFLOAT_S8_UINT`. -/
theorem render_pass_depth_format_is_member_depth_format :
    blankDevice.depth.format = VK_FORMAT_UNDEFINED ∧
    VK_FORMAT_D16_UNORM ≠ VK_FORMAT_D24_UNORM_S8_UINT ∧
    (∃ d sys' trace,
      VulkanDevice.construct sampleGlm sampleDriver sampleMesh 1 blankDevice 1 emptySys
        = Except.ok (d, sys', trace) ∧
      Event.api ApiFn.vkCreateImage
        [d.device_, VK_FORMAT_D24_UNORM_S8_UINT, 800, 600, 1, VK_IMAGE_TILING_OPTIMAL]
        ∈ sys'.calls ∧
      Event.api ApiFn.vkCreateImageView
        [d.device_, d.depth.image, VK_FORMAT_D24_UNORM_S8_UINT,
         VK_IMAGE_ASPECT_DEPTH_BIT ||| VK_IMAGE_ASPECT_STENCIL_BIT] ∈ sys'.calls ∧
      Created sampleDriver sys'.calls ApiFn.vkCreateRenderPass
        [d.device_, 2, 1, d.format, d.depth.format] d.render_pass ∧
      (∀ args, Event.api ApiFn.vkCreateRenderPass args ∈ sys'.calls →
        args = [d.device_, 2, 1, d.format, VK_FORMAT_D16_UNORM])) ∧
    customDepthDevice.depth.format = VK_FORMAT_D32_SFLOAT_S8_UINT ∧
    VK_FORMAT_D32_SFLOAT_S8_UINT ≠ VK_FORMAT_D24_UNORM_S8_UINT ∧
    (∃ d sys' trace,
      VulkanDevice.construct sampleGlm sampleDriver sampleMesh 1 customDepthDevice 1 emptySys
        = Except.ok (d, sys', trace) ∧
      Event.api ApiFn.vkCreateImage
        [d.device_, VK_FORMAT_D24_UNORM_S8_UINT, 800, 600, 1, VK_IMAGE_TILING_OPTIMAL]
        ∈ sys'.calls ∧
      Event.api ApiFn.vkCreateImageView
        [d.device_, d.depth.image, VK_FORMAT_D24_UNORM_S8_UINT,
         VK_IMAGE_ASPECT_DEPTH_BIT ||| VK_IMAGE_ASPECT_STENCIL_BIT] ∈ sys'.calls ∧
      Created sampleDriver sys'.calls ApiFn.vkCreateRenderPass
        [d.device_, 2, 1, d.format, d.depth.format] d.render_pass ∧
      (∀ args, Event.api ApiFn.vkCreateRenderPass args ∈ sys'.calls →
        args = [d.device_, 2, 1, d.format, VK_FORMAT_D32_SFLOAT_S8_UINT])) :=
  ⟨rfl, by decide, construct_sample_depth_calls blankDevice VK_FORMAT_D16_UNORM (by decide),
    rfl, by decide,
    construct_sample_depth_calls customDepthDevice VK_FORMAT_D32_SFLOAT_S8_UINT (by decide)⟩

theorem interleave_length (vertexData normalData : List F32) (l : List Nat) :
    (interleave vertexData normalData l).length = 6 * l.length := by
  induction l with
  | nil => rfl
  | cons a rest ih =>
    simp only [interleave, List.length_append, List.length_cons, List.length_nil, ih]
    omega

theorem interleave_getElem? (vertexData normalData : List F32) :
    ∀ (l : List Nat) (j k : Nat), j < l.length → k < 3 →
      (interleave vertexData normalData l)[6 * j + k]?
        = some (vertexData.getD (3 * l.getD j 0 + k) (F32.ofNat 0)) ∧
      (interleave vertexData normalData l)[6 * j + 3 + k]?
        = some (normalData.getD (3 * l.getD j 0 + k) (F32.ofNat 0)) := by
  intro l
  induction l with
  | nil =>
    intro j k hj
    cases hj
  | cons a rest ih =>
    intro j k hj hk
    cases j with
    | zero =>
      interval_cases k <;> simp [interleave]
    | succ j =>
      have hj' : j < rest.length := by
        simp only [List.length_cons] at hj
        omega
      obtain ⟨h1, h2⟩ := ih j k hj' hk
      have e1 : 6 * (j + 1) + k = (6 * j + k) + 6 := by omega
      have e2 : 6 * (j + 1) + 3 + k = (6 * j + 3 + k) + 6 := by omega
      rw [e1, e2]
      simp only [interleave, List.cons_append, List.nil_append, List.getElem?_cons_succ,
        List.getD_cons_succ]
      exact ⟨h1, h2⟩

/-- C29, as the code has it. When `initVertexBufferWithNormal` returns, with
`n = vertexDataSize / 12` and arrays that hold at least `3 n` position floats and `3 n`
normal floats: it has requested a buffer of `(vertexDataSize + normalDataSize) mod 2^32`
bytes (`dataSize` is a `uint32_t`), and its one copy into the mapped memory wrote the `6 n`
floats `out` with `out[6 i + k] = positions[3 i + k]` and `out[6 i + 3 + k] =
normals[3 i + k]` for `i < n`, `k < 3`, leaving what lies behind them and every other
memory object as they were. The stride is 24 bytes and the attribute offsets are 0 and 12,
so that float `k` of the position of vertex `i` is at byte `i * stride + 0 + 4 k` and that
of its normal at byte `i * stride + 12 + 4 k`. The `6 n` floats fit in the requested bytes
when `normalDataSize >= 12 n` and `vertexDataSize + normalDataSize < 2^32`. -/
theorem initVertexBufferWithNormal_interleaves (drv : Driver)
    (vertexData normalData : List F32) (vertexDataSize normalDataSize : Nat)
    (self self' : VulkanDevice) (sys sys' : Sys)
    (h : self.initVertexBufferWithNormal drv vertexData vertexDataSize normalData
      normalDataSize sys = Except.ok (self', sys'))
    (hv : 3 * (vertexDataSize / 12) ≤ vertexData.length)
    (hn : 3 * (vertexDataSize / 12) ≤ normalData.length) :
    (sys'.calls = sys.calls ++
        [Event.api ApiFn.vkCreateBuffer
           [self.device_, (vertexDataSize + normalDataSize) % 2 ^ 32],
         Event.api ApiFn.vkGetBufferMemoryRequirements
           [self.device_, self'.vertex_buffer.buf],
         Event.api ApiFn.vkAllocateMemory
           [self.device_, (drv.memoryRequirements (sys.calls.length + 1)).size,
            (self.memory_type_from_properties
              (drv.memoryRequirements (sys.calls.length + 1)).memoryTypeBits
              (VK_MEMORY_PROPERTY_HOST_VISIBLE_BIT ||| VK_MEMORY_PROPERTY_HOST_COHERENT_BIT)
              0).2],
         Event.api ApiFn.vkMapMemory
           [self.device_, self'.vertex_buffer.mem, 0,
            (drv.memoryRequirements (sys.calls.length + 1)).size],
         Event.memcpy self'.vertex_buffer.mem (6 * (vertexDataSize / 12)),
         Event.api ApiFn.vkUnmapMemory [self.device_, self'.vertex_buffer.mem],
         Event.api ApiFn.vkBindBufferMemory
           [self.device_, self'.vertex_buffer.buf, self'.vertex_buffer.mem, 0]]) ∧
    (∃ out : List F32,
      out.length = 6 * (vertexDataSize / 12) ∧
      sys'.memory self'.vertex_buffer.mem
        = out ++ (sys.memory self'.vertex_buffer.mem).drop (6 * (vertexDataSize / 12)) ∧
      (∀ m, m ≠ self'.vertex_buffer.mem → sys'.memory m = sys.memory m) ∧
      ∀ i k, i < vertexDataSize / 12 → k < 3 →
        3 * i + k < vertexData.length ∧ 3 * i + k < normalData.length ∧
        out[6 * i + k]? = vertexData[3 * i + k]? ∧
        out[6 * i + 3 + k]? = normalData[3 * i + k]?) ∧
    self'.vi_binding.stride = 24 ∧
    self'.vi_attribs.map (fun a => a.offset) = [0, 12] ∧
    (∀ i k, 4 * (6 * i + k) = i * self'.vi_binding.stride + 0 + 4 * k ∧
      4 * (6 * i + 3 + k) = i * self'.vi_binding.stride + 12 + 4 * k) ∧
    (12 * (vertexDataSize / 12) ≤ normalDataSize →
      vertexDataSize + normalDataSize < 2 ^ 32 →
      4 * (6 * (vertexDataSize / 12)) ≤ (vertexDataSize + normalDataSize) % 2 ^ 32) := by
  have hentries : ∀ i k, i < vertexDataSize / 12 → k < 3 →
      3 * i + k < vertexData.length ∧ 3 * i + k < normalData.length ∧
      (interleave vertexData normalData (List.range (vertexDataSize / (4 * 3))))[6 * i + k]?
        = vertexData[3 * i + k]? ∧
      (interleave vertexData normalData (List.range (vertexDataSize / (4 * 3))))[6 * i + 3 + k]?
        = normalData[3 * i + k]? := by
    intro i k hi hk
    have hi' : i < (List.range (vertexDataSize / (4 * 3))).length := by
      rw [List.length_range]
      exact hi
    obtain ⟨h1, h2⟩ := interleave_getElem? vertexData normalData _ i k hi' hk
    have hr : (List.range (vertexDataSize / (4 * 3))).getD i 0 = i := by
      rw [List.getD_eq_getElem _ _ hi', List.getElem_range]
    have b1 : 3 * i + k < vertexData.length := by omega
    have b2 : 3 * i + k < normalData.length := by omega
    rw [hr] at h1 h2
    rw [List.getD_eq_getElem _ _ b1] at h1
    rw [List.getD_eq_getElem _ _ b2] at h2
    refine ⟨b1, b2, ?_, ?_⟩
    · rw [h1, List.getElem?_eq_getElem b1]
    · rw [h2, List.getElem?_eq_getElem b2]
  have hlen : (interleave vertexData normalData (List.range (vertexDataSize / (4 * 3)))).length
      = 6 * (vertexDataSize / 12) := by
    rw [interleave_length, List.length_range]
  unfold VulkanDevice.initVertexBufferWithNormal at h
  simp only [bind, Except.bind, pure, Except.pure, assert, Sys.call, Sys.print, Sys.memcpy,
    List.append_assoc, List.cons_append, List.nil_append, List.length_append,
    List.length_cons, List.length_nil] at h
  repeat' split at h
  all_goals (try cases h)
  refine ⟨?_, ⟨_, hlen, ?_, ?_, hentries⟩, rfl, rfl, ?_, ?_⟩
  · simp only [hlen]
    rfl
  · simp only [hlen, if_true]
  · intro m hm
    simp only [if_neg hm]
  · intro i k
    constructor <;> (show _ = i * (4 * 6) + _ + _) <;> omega
  · intro h1 h2
    rw [Nat.mod_eq_of_lt h2]
    omega


/-- Two vertices are interleaved: the call returns and the memory object holds the floats
`0 1 2 10 11 12 3 4 5 13 14 15`. -/
theorem initVertexBufferWithNormal_twoVertices_returns :
    (match oneImageDevice.initVertexBufferWithNormal sampleDriver
        ((List.range 6).map F32.ofNat) 24 ((List.range 6).map (fun i => F32.ofNat (10 + i))) 24
        emptySys with
      | Except.ok (self', sys') =>
        decide (sys'.memory self'.vertex_buffer.mem
          = [0, 1, 2, 10, 11, 12, 3, 4, 5, 13, 14, 15].map F32.ofNat)
      | Except.error _ => false) = true := by
  decide

/-- The hypotheses of C29's theorem hold for two vertices (24 bytes of positions, 24 bytes
of normals): the call returns, the memory object holds `0 1 2 10 11 12 3 4 5 13 14 15`,
these 12 floats are the interleaving, the stride is 24, and the 48 bytes fit in the 48
bytes requested. -/
theorem initVertexBufferWithNormal_interleaves_witness :
    ∃ self' sys',
      oneImageDevice.initVertexBufferWithNormal sampleDriver
        ((List.range 6).map F32.ofNat) 24 ((List.range 6).map (fun i => F32.ofNat (10 + i))) 24
        emptySys = Except.ok (self', sys') ∧
      sys'.memory self'.vertex_buffer.mem
        = [0, 1, 2, 10, 11, 12, 3, 4, 5, 13, 14, 15].map F32.ofNat ∧
      (∃ out : List F32,
        out.length = 6 * (24 / 12) ∧
        sys'.memory self'.vertex_buffer.mem
          = out ++ (emptySys.memory self'.vertex_buffer.mem).drop (6 * (24 / 12)) ∧
        (∀ m, m ≠ self'.vertex_buffer.mem → sys'.memory m = emptySys.memory m) ∧
        ∀ i k, i < 24 / 12 → k < 3 →
          3 * i + k < ((List.range 6).map F32.ofNat).length ∧
          3 * i + k < ((List.range 6).map (fun i => F32.ofNat (10 + i))).length ∧
          out[6 * i + k]? = ((List.range 6).map F32.ofNat)[3 * i + k]? ∧
          out[6 * i + 3 + k]?
            = ((List.range 6).map (fun i => F32.ofNat (10 + i)))[3 * i + k]?) ∧
      self'.vi_binding.stride = 24 ∧
      4 * (6 * (24 / 12)) ≤ (24 + 24) % 2 ^ 32 :=
  match h : oneImageDevice.initVertexBufferWithNormal sampleDriver
      ((List.range 6).map F32.ofNat) 24 ((List.range 6).map (fun i => F32.ofNat (10 + i))) 24
      emptySys with
  | Except.ok (self', sys') => by
    obtain ⟨-, hout, hstride, -, -, hfit⟩ :=
      initVertexBufferWithNormal_interleaves sampleDriver _ _ 24 24 oneImageDevice self'
        emptySys sys' h (by decide) (by decide)
    have hc := initVertexBufferWithNormal_twoVertices_returns
    rw [h] at hc
    exact ⟨self', sys', rfl, of_decide_eq_true hc, hout, hstride,
      hfit (by decide) (by decide)⟩
  | Except.error e => by
    have hb := initVertexBufferWithNormal_twoVertices_returns
    rw [h] at hb
    cases hb

/-- With 12 bytes of positions and the size 4294967284 for the normals the call returns,
requests a buffer of 0 bytes and copies 6 floats. -/
theorem initVertexBufferWithNormal_wrapped_returns :
    (match oneImageDevice.initVertexBufferWithNormal sampleDriver
        ((List.range 3).map F32.ofNat) 12 ((List.range 3).map F32.ofNat) 4294967284
        emptySys with
      | Except.ok (self', sys') =>
        decide (sys'.calls[0]? = some (Event.api ApiFn.vkCreateBuffer [oneImageDevice.device_, 0]))
        && decide (Event.memcpy self'.vertex_buffer.mem 6 ∈ sys'.calls)
        && decide ((sys'.memory self'.vertex_buffer.mem).length = 6)
        && sys'.calls.all (fun e => decide (e.fn? = some ApiFn.vkCreateBuffer →
            e = Event.api ApiFn.vkCreateBuffer [oneImageDevice.device_, 0]))
      | Except.error _ => false) = true := by
  decide

/-- C29 fails for the size of the buffer when the sum of the two sizes does not fit in 32
bits. For one vertex (`vertexDataSize = 12`, so `n = 1`, three position and three normal
floats) and `normalDataSize = 4294967284 >= 12 n`: the call returns, the only buffer that it
creates is requested with 0 bytes, and it copies 6 floats, 24 bytes, into the memory
object. -/
theorem initVertexBufferWithNormal_request_wraps_counterexample :
    ∃ self' sys',
      oneImageDevice.initVertexBufferWithNormal sampleDriver
        ((List.range 3).map F32.ofNat) 12 ((List.range 3).map F32.ofNat) 4294967284
        emptySys = Except.ok (self', sys') ∧
      3 * (12 / 12) ≤ ((List.range 3).map F32.ofNat).length ∧
      12 * (12 / 12) ≤ 4294967284 ∧
      sys'.calls[0]? = some (Event.api ApiFn.vkCreateBuffer [oneImageDevice.device_, 0]) ∧
      (∀ args, Event.api ApiFn.vkCreateBuffer args ∈ sys'.calls →
        args = [oneImageDevice.device_, 0]) ∧
      Event.memcpy self'.vertex_buffer.mem 6 ∈ sys'.calls ∧
      (sys'.memory self'.vertex_buffer.mem).length = 6 ∧
      ¬ 4 * (6 * (12 / 12)) ≤ 0 :=
  match h : oneImageDevice.initVertexBufferWithNormal sampleDriver
      ((List.range 3).map F32.ofNat) 12 ((List.range 3).map F32.ofNat) 4294967284
      emptySys with
  | Except.ok (self', sys') => by
    have hc := initVertexBufferWithNormal_wrapped_returns
    rw [h] at hc
    simp only [Bool.and_eq_true, decide_eq_true_eq, List.all_eq_true] at hc
    obtain ⟨⟨⟨h0, hm⟩, hl⟩, hall⟩ := hc
    refine ⟨self', sys', rfl, by decide, by decide, h0, ?_, hm, hl, by decide⟩
    intro args hargs
    have := hall _ hargs rfl
    cases this
    rfl
  | Except.error e => by
    have hb := initVertexBufferWithNormal_wrapped_returns
    rw [h] at hb
    cases hb

theorem initIndexForVertex_members {drv : Driver} {indexData : List Nat} {indexDataSize : Nat}
    {self self' : VulkanDevice} {sys sys' : Sys}
    (h : self.initIndexForVertex drv indexData indexDataSize sys = Except.ok (self', sys')) :
    self' = { self with
      indexBuf := drv.handle sys.calls.length
      drawElementNum := indexDataSize / 2
      drawInstanceNum := indexDataSize / 2 / 3 } ∧
    sys'.calls = sys.calls ++
      [Event.api ApiFn.vkCreateBuffer [self.device_, indexDataSize],
       Event.api ApiFn.vkGetBufferMemoryRequirements [self.device_, self'.indexBuf],
       Event.api ApiFn.vkAllocateMemory
         [self.device_, (drv.memoryRequirements (sys.calls.length + 1)).size,
          (self.memory_type_from_properties
            (drv.memoryRequirements (sys.calls.length + 1)).memoryTypeBits
            (VK_MEMORY_PROPERTY_HOST_VISIBLE_BIT ||| VK_MEMORY_PROPERTY_HOST_COHERENT_BIT)
            0).2],
       Event.api ApiFn.vkMapMemory
         [self.device_, drv.handle (sys.calls.length + 2), 0, indexDataSize],
       Event.memcpy16 (drv.handle (sys.calls.length + 2))
         (indexData.take (indexDataSize / 2)).length,
       Event.api ApiFn.vkUnmapMemory [self.device_, drv.handle (sys.calls.length + 2)],
       Event.api ApiFn.vkBindBufferMemory
         [self.device_, self'.indexBuf, drv.handle (sys.calls.length + 2), 0]] := by
  unfold VulkanDevice.initIndexForVertex at h
  simp only [bind, Except.bind, pure, Except.pure, assert, Sys.call, Sys.print, Sys.memcpy16,
    List.append_assoc, List.cons_append, List.nil_append, List.length_append,
    List.length_cons, List.length_nil] at h
  repeat' split at h
  all_goals (try cases h)
  exact ⟨rfl, rfl⟩

theorem preDraw_new_calls {drv : Driver} {fuel : Nat} {self self' : VulkanDevice}
    {sys sys' : Sys} (h : self.preDraw drv fuel sys = Except.ok (self', sys')) :
    ∃ pre post, sys'.calls.drop sys.calls.length
        = pre ++ (List.range self.swapchainImageCount).flatMap (recordedEvents self) ++ post ∧
      (∀ args, Event.api ApiFn.vkCmdDrawIndexed args ∉ pre) ∧
      (∀ args, Event.api ApiFn.vkCmdDrawIndexed args ∉ post) ∧
      (∀ args, Event.api ApiFn.vkCmdBindIndexBuffer args ∉ pre) ∧
      (∀ args, Event.api ApiFn.vkCmdBindIndexBuffer args ∉ post) := by
  obtain ⟨k, -, -, -, -, -, -, -, -, hcalls, -⟩ := preDraw_ok h
  refine ⟨[Event.api ApiFn.vkCreateSemaphore [self.device_],
      Event.api ApiFn.vkAcquireNextImageKHR
        [self.device_, self.swap_chain, self'.presentCompleteSemaphore]],
    [Event.api ApiFn.vkCreateFence [self.device_],
      Event.api ApiFn.vkQueueSubmit
        [self.queue_, 1, self'.presentCompleteSemaphore, 1,
         self.cmdBuffer.getD self'.current_buffer 0, self'.drawFence]] ++
      List.replicate (k + 1) (fenceWait self') ++
      [Event.api ApiFn.vkQueuePresentKHR [self.queue_, 1, self.swap_chain, self'.current_buffer]],
    ?_, ?_, ?_, ?_, ?_⟩
  · rw [hcalls]
    simp only [List.append_assoc, List.drop_left]
  all_goals
    intro args hmem
    simp [fenceWait, List.mem_replicate] at hmem

/-- C30, as the code has it. For every index data size `s` in bytes, when
`initIndexForVertex` returns it has set `drawElementNum = s / 2` and `drawInstanceNum =
drawElementNum / 3`, and `indexBuf` is the buffer of `s` bytes that it created. When
`preDraw` then records, on an object with these three members, it records into the command
buffer of every swapchain image the binding of `indexBuf` at offset 0 with
`VK_INDEX_TYPE_UINT16` and one indexed draw whose index count is `drawElementNum mod 2^32`,
whose instance count is `drawInstanceNum mod 2^32` (the parameters are `uint32_t`, the
members `size_t`) and whose first index, vertex offset and first instance are 0; it records
no other indexed draw and binds no other index buffer. For `s < 2^33` the two counts are
`drawElementNum` and `drawInstanceNum`. -/
theorem indexed_draw_uses_index_counts (drv : Driver) (indexData : List Nat) (s : Nat)
    (self self' : VulkanDevice) (sys sys' : Sys)
    (h : self.initIndexForVertex drv indexData s sys = Except.ok (self', sys')) :
    self'.drawElementNum = s / 2 ∧
    self'.drawInstanceNum = self'.drawElementNum / 3 ∧
    self'.indexBuf = drv.handle sys.calls.length ∧
    Created drv sys'.calls ApiFn.vkCreateBuffer [self.device_, s] self'.indexBuf ∧
    (∀ (d d' : VulkanDevice) (fuel : Nat) (t t' : Sys),
      d.drawElementNum = self'.drawElementNum →
      d.drawInstanceNum = self'.drawInstanceNum →
      d.indexBuf = self'.indexBuf →
      d.preDraw drv fuel t = Except.ok (d', t') →
      (∀ i, i < d.swapchainImageCount →
        Event.api ApiFn.vkCmdBindIndexBuffer
          [d.cmdBuffer.getD i 0, self'.indexBuf, 0, VK_INDEX_TYPE_UINT16]
          ∈ t'.calls.drop t.calls.length ∧
        Event.api ApiFn.vkCmdDrawIndexed
          [d.cmdBuffer.getD i 0, self'.drawElementNum % 2 ^ 32,
           self'.drawInstanceNum % 2 ^ 32, 0, 0, 0] ∈ t'.calls.drop t.calls.length) ∧
      (∀ args, Event.api ApiFn.vkCmdDrawIndexed args ∈ t'.calls.drop t.calls.length →
        ∃ i, i < d.swapchainImageCount ∧
          args = [d.cmdBuffer.getD i 0, self'.drawElementNum % 2 ^ 32,
                  self'.drawInstanceNum % 2 ^ 32, 0, 0, 0]) ∧
      (∀ args, Event.api ApiFn.vkCmdBindIndexBuffer args ∈ t'.calls.drop t.calls.length →
        ∃ i, i < d.swapchainImageCount ∧
          args = [d.cmdBuffer.getD i 0, self'.indexBuf, 0, VK_INDEX_TYPE_UINT16])) ∧
    (s < 2 ^ 33 →
      self'.drawElementNum % 2 ^ 32 = self'.drawElementNum ∧
      self'.drawInstanceNum % 2 ^ 32 = self'.drawInstanceNum) := by
  obtain ⟨hself, hcalls⟩ := initIndexForVertex_members h
  have hE : self'.drawElementNum = s / 2 := by rw [hself]
  have hI : self'.drawInstanceNum = s / 2 / 3 := by rw [hself]
  have hB : self'.indexBuf = drv.handle sys.calls.length := by rw [hself]
  refine ⟨hE, by rw [hI, hE], hB, ?_, ?_, ?_⟩
  · rw [hcalls, hB]
    exact Created.at_length sys.calls _ _ _
  · intro d d' fuel t t' hdE hdI hdB hpre
    obtain ⟨pre, post, hdrop, hpre1, hpost1, hpre2, hpost2⟩ := preDraw_new_calls hpre
    rw [hdrop, ← hdE, ← hdI, ← hdB]
    refine ⟨fun i hi => ⟨?_, ?_⟩, ?_, ?_⟩
    · refine List.mem_append_left _ (List.mem_append_right _ ?_)
      exact List.mem_flatMap.mpr ⟨i, List.mem_range.mpr hi, by simp [recordedEvents]⟩
    · refine List.mem_append_left _ (List.mem_append_right _ ?_)
      exact List.mem_flatMap.mpr ⟨i, List.mem_range.mpr hi, by simp [recordedEvents]⟩
    · intro args hmem
      rcases List.mem_append.mp hmem with hmem | hmem
      · rcases List.mem_append.mp hmem with hmem | hmem
        · exact absurd hmem (hpre1 args)
        · obtain ⟨i, hi, he⟩ := List.mem_flatMap.mp hmem
          refine ⟨i, List.mem_range.mp hi, ?_⟩
          simpa [recordedEvents] using he
      · exact absurd hmem (hpost1 args)
    · intro args hmem
      rcases List.mem_append.mp hmem with hmem | hmem
      · rcases List.mem_append.mp hmem with hmem | hmem
        · exact absurd hmem (hpre2 args)
        · obtain ⟨i, hi, he⟩ := List.mem_flatMap.mp hmem
          refine ⟨i, List.mem_range.mp hi, ?_⟩
          simpa [recordedEvents] using he
      · exact absurd hmem (hpost2 args)
  · intro hs
    rw [hI, hE]
    constructor <;> apply Nat.mod_eq_of_lt <;> omega

/-- With three indices (6 bytes) `initIndexForVertex` returns, and so does `preDraw` on
`indexedDevice`. -/
theorem initIndexForVertex_triangle_returns :
    (oneImageDevice.initIndexForVertex sampleDriver [0, 1, 2] 6 emptySys).toBool = true ∧
    (indexedDevice.preDraw sampleDriver 1 emptySys).toBool = true := by
  decide

/-- The hypothesis of C30's theorem holds for three indices, 6 bytes: the call returns with
`drawElementNum = 3`, `drawInstanceNum = 1` and the index buffer 1, and `preDraw` records
into the command buffer 7 the binding of buffer 1 with 16-bit indices and the indexed draw
of 3 indices and 1 instance. -/
theorem indexed_draw_uses_index_counts_witness :
    ∃ self' sys' d' t',
      oneImageDevice.initIndexForVertex sampleDriver [0, 1, 2] 6 emptySys
        = Except.ok (self', sys') ∧
      self'.drawElementNum = 3 ∧ self'.drawInstanceNum = 1 ∧ self'.indexBuf = 1 ∧
      indexedDevice.preDraw sampleDriver 1 emptySys = Except.ok (d', t') ∧
      Event.api ApiFn.vkCmdBindIndexBuffer [7, 1, 0, VK_INDEX_TYPE_UINT16] ∈ t'.calls ∧
      Event.api ApiFn.vkCmdDrawIndexed [7, 3, 1, 0, 0, 0] ∈ t'.calls :=
  match h : oneImageDevice.initIndexForVertex sampleDriver [0, 1, 2] 6 emptySys with
  | Except.ok (self', sys') =>
    match hp : indexedDevice.preDraw sampleDriver 1 emptySys with
    | Except.ok (d', t') => by
      obtain ⟨hE, hI, hB, -, hrec, -⟩ :=
        indexed_draw_uses_index_counts sampleDriver [0, 1, 2] 6 oneImageDevice self'
          emptySys sys' h
      have hE' : self'.drawElementNum = 3 := hE
      have hI' : self'.drawInstanceNum = 1 := by rw [hI, hE']
      have hB' : self'.indexBuf = 1 := hB
      obtain ⟨hall, -, -⟩ := hrec indexedDevice d' 1 emptySys t' hE'.symm hI'.symm hB'.symm hp
      obtain ⟨hbind, hdraw⟩ := hall 0 (by decide)
      rw [hE', hI'] at hdraw
      rw [hB'] at hbind
      exact ⟨self', sys', d', t', rfl, hE', hI', hB', rfl,
        List.mem_of_mem_drop hbind, List.mem_of_mem_drop hdraw⟩
    | Except.error e => by
      have hb := initIndexForVertex_triangle_returns.2
      rw [hp] at hb
      cases hb
  | Except.error e => by
    have hb := initIndexForVertex_triangle_returns.1
    rw [h] at hb
    cases hb

/-- With the size `2^33` `initIndexForVertex` returns and sets `drawElementNum = 2^32` and
`drawInstanceNum = 1431655765`; `preDraw` on the object that it leaves returns, and every
indexed draw that it records has the index count 0. -/
theorem initIndexForVertex_huge_returns :
    (match oneImageDevice.initIndexForVertex sampleDriver [] 8589934592 emptySys with
      | Except.ok (self', sys') =>
        decide (self'.drawElementNum = 4294967296) &&
        decide (self'.drawInstanceNum = 1431655765) &&
        (match self'.preDraw sampleDriver 1 sys' with
          | Except.ok (_, t') =>
            decide (Event.api ApiFn.vkCmdDrawIndexed [7, 0, 1431655765, 0, 0, 0] ∈ t'.calls) &&
            t'.calls.all (fun e => decide (e.fn? = some ApiFn.vkCmdDrawIndexed →
              e = Event.api ApiFn.vkCmdDrawIndexed [7, 0, 1431655765, 0, 0, 0]))
          | Except.error _ => false)
      | Except.error _ => false) = true := by
  decide

/-- C30 fails for the index count when `drawElementNum` does not fit in 32 bits. For the
size `s = 2^33` bytes `initIndexForVertex` returns with `drawElementNum = 2^32` and
`drawInstanceNum = 1431655765`, and `preDraw` on that object, with one swapchain image and
the command buffer 7, returns and records the indexed draw with the index count 0, and no
other indexed draw. -/
theorem indexed_draw_count_truncated_counterexample :
    ∃ self' sys' d' t',
      oneImageDevice.initIndexForVertex sampleDriver [] 8589934592 emptySys
        = Except.ok (self', sys') ∧
      self'.drawElementNum = 4294967296 ∧ self'.drawInstanceNum = 1431655765 ∧
      self'.swapchainImageCount = 1 ∧
      self'.preDraw sampleDriver 1 sys' = Except.ok (d', t') ∧
      Event.api ApiFn.vkCmdDrawIndexed [7, 0, 1431655765, 0, 0, 0] ∈ t'.calls ∧
      (∀ args, Event.api ApiFn.vkCmdDrawIndexed args ∈ t'.calls →
        args.getD 1 0 = 0 ∧ args.getD 1 0 ≠ self'.drawElementNum) :=
  match h : oneImageDevice.initIndexForVertex sampleDriver [] 8589934592 emptySys with
  | Except.ok (self', sys') => by
    have hc := initIndexForVertex_huge_returns
    rw [h] at hc
    simp only [Bool.and_eq_true, decide_eq_true_eq] at hc
    obtain ⟨⟨hE, hI⟩, hc⟩ := hc
    have hn : self'.swapchainImageCount = 1 := by
      rw [(initIndexForVertex_members h).1]
      rfl
    cases hp : self'.preDraw sampleDriver 1 sys' with
    | error e =>
      rw [hp] at hc
      cases hc
    | ok v =>
      obtain ⟨d', t'⟩ := v
      rw [hp] at hc
      simp only [Bool.and_eq_true, decide_eq_true_eq, List.all_eq_true] at hc
      obtain ⟨hdraw, hall⟩ := hc
      refine ⟨self', sys', d', t', rfl, hE, hI, hn, hp, hdraw, ?_⟩
      intro args hargs
      have := hall _ hargs rfl
      cases this
      rw [hE]
      exact ⟨rfl, by decide⟩
  | Except.error e => by
    have hb := initIndexForVertex_huge_returns
    rw [h] at hb
    cases hb

end VulkanTeapot
